import Mathlib

/-!
# Prism dashboard cards: energy-details card and sidebar card

A shallow embedding of the two custom elements
`src/custom-components/prism-energy-detail.js` (class `PrismEnergyDetailsCard`) and
`src/dist/prism-sidebar.js` (class `PrismSidebarCard`).

The first part models the fragment of the JavaScript runtime the cards rely on
(Numbers, coercions, `parseFloat`, `toFixed`, template strings); the second part the
methods of the two classes; the third part states and proves their properties.
-/

namespace Prism

/-! ## JavaScript Numbers -/

/-- A JavaScript Number: `NaN`, one of the two infinities, or a finite double, kept as its
exact rational value.  The two zeros are identified: none of the modelled code can tell
them apart (`-0` prints as `0`, compares equal to `0` and is falsy like `0`). -/
inductive JSNum where
  | nan
  | posInf
  | negInf
  | fin (q : ℚ)
deriving DecidableEq

namespace JSNum

/-- The integer part of the base-2 logarithm of `n` (rounded down; `0` for `n = 0`), by
repeated halving; `fuel` bounds the number of halvings. -/
def log2With : Nat → Nat → Nat
  | 0, _ => 0
  | fuel + 1, n => if n < 2 then 0 else log2With fuel (n / 2) + 1

/-- The integer part of the base-2 logarithm of `a / d` (rounded down), for positive `a`, `d`. -/
def floorLog2 (a d : Nat) : Int :=
  let k : Int := (log2With a a : Int) - (log2With d d : Int)
  if d * 2 ^ k.toNat ≤ a * 2 ^ (-k).toNat then k else k - 1

/-- The integer nearest to `a / d`, a tie going to the even neighbour. -/
def roundHalfEven (a d : Nat) : Nat :=
  let n := a / d
  let r := a % d
  if 2 * r < d then n else if d < 2 * r then n + 1 else if n % 2 = 0 then n else n + 1

/-- IEEE 754 binary64 rounding (round to nearest, ties to even) of an exact rational result:
53 significant bits, least exponent `-1074`, overflow to an infinity from `2^1024` on. -/
def roundToDouble (q : ℚ) : JSNum :=
  if q = 0 then fin 0 else
    let a := q.num.natAbs
    let d := q.den
    let p : Int := max (floorLog2 a d - 52) (-1074)
    let n := roundHalfEven (a * 2 ^ (-p).toNat) (d * 2 ^ p.toNat)
    if 2 ^ 1024 ≤ n * 2 ^ p.toNat then (if q < 0 then negInf else posInf)
    else fin ((if q < 0 then -1 else 1) * mkRat (n * 2 ^ p.toNat) (2 ^ (-p).toNat))

/-- The predicate `isNaN` on Numbers. -/
def isNaN : JSNum → Bool
  | nan => true
  | _ => false

/-- The operator `x < y` on Numbers (false as soon as one side is `NaN`). -/
def lt : JSNum → JSNum → Bool
  | nan, _ => false
  | _, nan => false
  | fin a, fin b => decide (a < b)
  | fin _, posInf => true
  | fin _, negInf => false
  | posInf, _ => false
  | negInf, negInf => false
  | negInf, _ => true

/-- The operator `x > y` on Numbers. -/
def gt (x y : JSNum) : Bool := lt y x

/-- The operator `x >= y` on Numbers (false as soon as one side is `NaN`). -/
def ge : JSNum → JSNum → Bool
  | nan, _ => false
  | _, nan => false
  | x, y => !(lt x y)

/-- The operator `x <= y` on Numbers. -/
def le (x y : JSNum) : Bool := ge y x

/-- The function `Math.abs`. -/
def abs : JSNum → JSNum
  | nan => nan
  | posInf => posInf
  | negInf => posInf
  | fin q => fin |q|

/-- The function `Math.round`: the nearest integer, a tie going upward. -/
def round : JSNum → JSNum
  | fin q => fin (⌊q + 1 / 2⌋ : ℤ)
  | x => x

/-- The sign of a Number that is neither `NaN` nor zero: `true` when negative. -/
def isNeg : JSNum → Bool
  | negInf => true
  | fin q => decide (q < 0)
  | _ => false

/-- The operator `x * y` on Numbers. -/
def mul : JSNum → JSNum → JSNum
  | nan, _ => nan
  | _, nan => nan
  | fin a, fin b => roundToDouble (a * b)
  | x, y =>
    if x = fin 0 ∨ y = fin 0 then nan
    else if isNeg x = isNeg y then posInf else negInf

/-- The operator `x / y` on Numbers. -/
def div : JSNum → JSNum → JSNum
  | nan, _ => nan
  | _, nan => nan
  | fin a, fin b =>
    if b = 0 then (if a = 0 then nan else if a < 0 then negInf else posInf)
    else roundToDouble (a / b)
  | fin _, _ => fin 0
  | x, fin b => if isNeg x = decide (b < 0) then posInf else negInf
  | _, _ => nan

/-- The operator `x + y` on Numbers. -/
def add : JSNum → JSNum → JSNum
  | nan, _ => nan
  | _, nan => nan
  | fin a, fin b => roundToDouble (a + b)
  | posInf, negInf => nan
  | negInf, posInf => nan
  | fin _, y => y
  | x, _ => x

/-- The operator `x % y` on Numbers: the remainder has the sign of the dividend and is exact. -/
def rem : JSNum → JSNum → JSNum
  | nan, _ => nan
  | _, nan => nan
  | fin a, fin b =>
    if b = 0 then nan
    else fin (a - b * (if 0 ≤ a / b then (⌊a / b⌋ : ℤ) else (⌈a / b⌉ : ℤ)))
  | fin a, _ => fin a
  | _, _ => nan

/-- The integer part of a rational, rounding toward zero. -/
def truncate (q : ℚ) : Int := if 0 ≤ q then ⌊q⌋ else ⌈q⌉

/-- The conversion `ToUint32`: the low 32 bits of the integer part; the bitwise operators see
a Number through them. -/
def toUint32 : JSNum → Nat
  | fin q => (truncate q % 2 ^ 32).toNat
  | _ => 0

/-- The function `Math.min` of two arguments. -/
def min (x y : JSNum) : JSNum :=
  if x = nan ∨ y = nan then nan else if lt y x then y else x

/-- The function `Math.max` of two arguments. -/
def max (x y : JSNum) : JSNum :=
  if x = nan ∨ y = nan then nan else if lt x y then y else x

/-! ### Number to string -/

/-- The decimal digits of a natural number, most significant first. -/
def digitsOf (n : Nat) : List Char := Nat.toDigits 10 n

/-- The integer part of the base-10 logarithm of `a / d` (rounded down), for positive `a`, `d`. -/
def floorLog10 (a d : Nat) : Int :=
  let k : Int := ((digitsOf a).length : Int) - ((digitsOf d).length : Int)
  if d * 10 ^ k.toNat ≤ a * 10 ^ (-k).toNat then k else k - 1

/-- The exact value `s × 10^e`. -/
def scale10 (s : Nat) (e : Int) : ℚ := mkRat (s * 10 ^ e.toNat) (10 ^ (-e).toNat)

/-- One step of the search of `Number::toString` for the digits of a positive double `q`
with `10^(n0-1) ≤ q < 10^n0`: the candidates with `k` digits, as pairs `(s, n)` standing
for `s × 10^(n-k)`, that round to `q`; the nearer one first. -/
def digitCandidates (q : ℚ) (n0 : Int) (k : Nat) : List (Nat × Int) :=
  let e : Int := n0 - k
  let num := q.num.natAbs * 10 ^ (-e).toNat
  let den := q.den * 10 ^ e.toNat
  let lo := num / den
  let hi := lo + 1
  let cLo : List (Nat × Int) := if roundToDouble (scale10 lo e) = fin q then [(lo, n0)] else []
  let cHi : List (Nat × Int) :=
    if roundToDouble (scale10 hi e) = fin q then
      (if hi = 10 ^ k then [(10 ^ (k - 1), n0 + 1)] else [(hi, n0)])
    else []
  if 2 * num < (lo + hi) * den ∨ (2 * num = (lo + hi) * den ∧ lo % 2 = 0) then cLo ++ cHi
  else cHi ++ cLo

/-- The search of `Number::toString`: the least number of digits `k ≥ 1` (tried up to `fuel`)
for which some `s × 10^(n-k)` with `k` digits rounds to the positive double `q`. -/
def shortestDigits (q : ℚ) (n0 : Int) : Nat → Nat → Nat × Int
  | _, 0 => ((q.num.natAbs * 10 ^ (17 - n0).toNat) / (q.den * 10 ^ (n0 - 17).toNat), n0)
  | k, fuel + 1 =>
    match digitCandidates q n0 k with
    | c :: _ => c
    | [] => shortestDigits q n0 (k + 1) fuel

/-- The text of `Number::toString` for the digits `s` (written `ds`) and the exponent `n`. -/
def layoutDigits (ds : List Char) (n : Int) : String :=
  let k : Int := ds.length
  if k ≤ n ∧ n ≤ 21 then String.mk (ds ++ List.replicate (n - k).toNat '0')
  else if 0 < n ∧ n ≤ 21 then String.mk (ds.take n.toNat ++ '.' :: ds.drop n.toNat)
  else if -6 < n ∧ n ≤ 0 then String.mk ('0' :: '.' :: List.replicate (-n).toNat '0' ++ ds)
  else
    let ex := (if n - 1 < 0 then '-' else '+') :: digitsOf (n - 1).natAbs
    match ds with
    | [c] => String.mk (c :: 'e' :: ex)
    | c :: rest => String.mk (c :: '.' :: rest ++ 'e' :: ex)
    | [] => String.mk ('e' :: ex)

/-- The conversion `Number::toString` (radix 10), as used by template strings and `+`. -/
def toStr : JSNum → String
  | nan => "NaN"
  | posInf => "Infinity"
  | negInf => "-Infinity"
  | fin q =>
    if q = 0 then "0" else
      let a := |q|
      let n0 := floorLog10 a.num.natAbs a.den + 1
      let sn := shortestDigits a n0 1 17
      (if q < 0 then "-" else "") ++ layoutDigits (digitsOf sn.1) sn.2

/-- The method `Number.prototype.toFixed(f)`. -/
def toFixed (x : JSNum) (f : Nat) : String :=
  match x with
  | fin q =>
    if 10 ^ 21 ≤ |q| then toStr x
    else
      let n : Nat := ⌊|q| * 10 ^ f + 1 / 2⌋.toNat
      let m := digitsOf n
      let m := if f ≠ 0 then List.replicate (f + 1 - m.length) '0' ++ m else m
      let m := if f ≠ 0 then m.take (m.length - f) ++ '.' :: m.drop (m.length - f) else m
      (if q < 0 then "-" else "") ++ String.mk m
  | _ => toStr x

end JSNum

/-! ## Numeric literals in strings -/

/-- The characters of `StrWhiteSpaceChar` (white space and line terminators). -/
def isStrWhiteSpace (c : Char) : Bool :=
  c.toNat ∈ [0x09, 0x0A, 0x0B, 0x0C, 0x0D, 0x20, 0xA0, 0x1680, 0x2028, 0x2029, 0x202F,
    0x205F, 0x3000, 0xFEFF] ∨ (0x2000 ≤ c.toNat ∧ c.toNat ≤ 0x200A)

/-- The value of a digit in a radix up to 16, when the character is one. -/
def digitValue (radix : Nat) (c : Char) : Option Nat :=
  let v : Option Nat :=
    if '0' ≤ c ∧ c ≤ '9' then some (c.toNat - '0'.toNat)
    else if 'a' ≤ c ∧ c ≤ 'f' then some (c.toNat - 'a'.toNat + 10)
    else if 'A' ≤ c ∧ c ≤ 'F' then some (c.toNat - 'A'.toNat + 10)
    else none
  v.bind fun d => if d < radix then some d else none

/-- Whether the character is a decimal digit. -/
def isDecimalDigit (c : Char) : Bool := (digitValue 10 c).isSome

/-- The number written by a run of digits in the given radix. -/
def digitsValue (radix : Nat) (ds : List Char) : Nat :=
  ds.foldl (fun n c => radix * n + ((digitValue radix c).getD 0)) 0

/-- The longest `ExponentPart` (`e` or `E`, an optional sign, at least one digit) at the head
of the text: its value and what follows it; the exponent is `0` and nothing is consumed when
there is none. -/
def exponentPart (cs : List Char) : Int × List Char :=
  match cs with
  | c :: rest =>
    if c = 'e' ∨ c = 'E' then
      let signed : Bool × List Char :=
        match rest with
        | '+' :: r => (false, r)
        | '-' :: r => (true, r)
        | r => (false, r)
      let ds := signed.2.takeWhile isDecimalDigit
      if ds.isEmpty then (0, cs)
      else ((if signed.1 then -1 else 1) * (digitsValue 10 ds : Int), signed.2.dropWhile isDecimalDigit)
    else (0, cs)
  | [] => (0, cs)

/-- The longest prefix that is a `StrUnsignedDecimalLiteral`: its mathematical value
(`none` for `Infinity`) and what follows it; `none` when no prefix is one. -/
def unsignedLiteralAt (cs : List Char) : Option (Option ℚ × List Char) :=
  if "Infinity".toList.isPrefixOf cs then some (none, cs.drop 8)
  else
    let intDs := cs.takeWhile isDecimalDigit
    let afterInt := cs.dropWhile isDecimalDigit
    let fracDs : List Char :=
      match afterInt with
      | '.' :: r => r.takeWhile isDecimalDigit
      | _ => []
    let afterFrac : List Char :=
      match afterInt with
      | '.' :: r => if intDs.isEmpty ∧ fracDs.isEmpty then afterInt else r.dropWhile isDecimalDigit
      | _ => afterInt
    if intDs.isEmpty ∧ fracDs.isEmpty then none
    else
      let ex := exponentPart afterFrac
      some (some (JSNum.scale10 (digitsValue 10 (intDs ++ fracDs)) (ex.1 - fracDs.length)), ex.2)

/-- The longest prefix that is a `StrDecimalLiteral` (an optional sign, then an unsigned
literal): its Number value and what follows it. -/
def decimalLiteralAt (cs : List Char) : Option (JSNum × List Char) :=
  let signed : Bool × List Char :=
    match cs with
    | '+' :: r => (false, r)
    | '-' :: r => (true, r)
    | r => (false, r)
  (unsignedLiteralAt signed.2).map fun r =>
    match r.1 with
    | none => (if signed.1 then JSNum.negInf else JSNum.posInf, r.2)
    | some q => (JSNum.roundToDouble (if signed.1 then -q else q), r.2)

/-- The global function `parseFloat` applied to a string: white space is skipped, the
longest decimal literal at the head is read, anything after it is ignored. -/
def parseFloatStr (s : String) : JSNum :=
  match decimalLiteralAt (s.toList.dropWhile isStrWhiteSpace) with
  | some r => r.1
  | none => JSNum.nan

/-- The conversion `StringToNumber`: the whole text, white space at both ends apart, has to
be a numeric literal (decimal, or `0x`, `0o`, `0b` followed by digits); the empty text is `0`. -/
def stringToNumber (s : String) : JSNum :=
  let cs := ((s.toList.dropWhile isStrWhiteSpace).reverse.dropWhile isStrWhiteSpace).reverse
  let radixLiteral (radix : Nat) (ds : List Char) : JSNum :=
    if ¬ ds.isEmpty ∧ ds.all (fun c => (digitValue radix c).isSome) then
      JSNum.roundToDouble (digitsValue radix ds)
    else JSNum.nan
  match cs with
  | [] => JSNum.fin 0
  | '0' :: 'x' :: ds => radixLiteral 16 ds
  | '0' :: 'X' :: ds => radixLiteral 16 ds
  | '0' :: 'o' :: ds => radixLiteral 8 ds
  | '0' :: 'O' :: ds => radixLiteral 8 ds
  | '0' :: 'b' :: ds => radixLiteral 2 ds
  | '0' :: 'B' :: ds => radixLiteral 2 ds
  | _ =>
    match decimalLiteralAt cs with
    | some (x, []) => x
    | _ => JSNum.nan

/-! ## JavaScript values -/

/-- The JavaScript values that reach the cards through the configuration and the state
snapshot.  An object (array, plain object) is kept as its identity and the string its
`toString()` gives, which is all that `===` and the coercions see of it. -/
inductive JSVal where
  | undefined
  | null
  | bool (b : Bool)
  | num (x : JSNum)
  | str (s : String)
  | object (ref : Nat) (toStringResult : String)
deriving DecidableEq

namespace JSVal

/-- Truthiness (`ToBoolean`). -/
def truthy : JSVal → Bool
  | undefined => false
  | null => false
  | bool b => b
  | num x => !(x = JSNum.nan ∨ x = JSNum.fin 0)
  | str s => s ≠ ""
  | object _ _ => true

/-- The operator `a || b`. -/
def or (a b : JSVal) : JSVal := if a.truthy then a else b

/-- The conversion `ToNumber`. -/
def toNumber : JSVal → JSNum
  | undefined => JSNum.nan
  | null => JSNum.fin 0
  | bool b => JSNum.fin (if b then 1 else 0)
  | num x => x
  | str s => stringToNumber s
  | object _ s => stringToNumber s

/-- The conversion `ToString`, as applied by template strings and by `+` with a string. -/
def toStr : JSVal → String
  | undefined => "undefined"
  | null => "null"
  | bool b => if b then "true" else "false"
  | num x => x.toStr
  | str s => s
  | object _ s => s

/-- The global function `parseFloat`: the argument is converted to a string and read. -/
def parseFloat (v : JSVal) : JSNum := parseFloatStr v.toStr

/-- The operator `a === b`: same type and same value, `NaN` differing from itself, objects
compared by identity. -/
def strictEq : JSVal → JSVal → Bool
  | undefined, undefined => true
  | null, null => true
  | bool a, bool b => a = b
  | num a, num b => a ≠ JSNum.nan ∧ a = b
  | str a, str b => a = b
  | object a _, object b _ => a = b
  | _, _ => false

end JSVal

/-! ## The state snapshot supplied by the host -/

/-- One entry of a forecast, `{ datetime, condition, temperature, templow }`; `condition`
is a string or missing. -/
structure ForecastEntry where
  datetime : JSVal := JSVal.undefined
  condition : Option String := none
  temperature : JSVal := JSVal.undefined
  templow : JSVal := JSVal.undefined
deriving DecidableEq

/-- One record of the snapshot, `{ state, attributes }`; of the attributes only the ones the
modelled code reads are kept, `undefined` standing for an attribute that is not there.  The
attribute `forecast` is an array of entries or missing. -/
structure StateObj where
  state : JSVal
  unit_of_measurement : JSVal := JSVal.undefined
  supported_features : JSVal := JSVal.undefined
  forecast : Option (List ForecastEntry) := none
deriving DecidableEq

/-- The object assigned to `hass`: `states` maps entity ids to records.  (Properties that a
JavaScript object inherits, such as `constructor`, are no entity ids and are left out.) -/
structure Hass where
  states : List (String × StateObj)
deriving DecidableEq

/-- The access `hass.states[entityId]`; the key is converted to a string. -/
def Hass.lookup (hass : Hass) (entityId : JSVal) : Option StateObj :=
  hass.states.lookup entityId.toStr

/-! ## The energy-details card (`prism-energy-detail.js`) -/

/-- The object passed to `setConfig` of the energy-details card: the options it reads. -/
structure EnergyOptions where
  style : JSVal := JSVal.undefined
  bare : JSVal := JSVal.undefined
  show_header : JSVal := JSVal.undefined
  name : JSVal := JSVal.undefined
  grid_sign : JSVal := JSVal.undefined
  solar_power : JSVal := JSVal.undefined
  grid_power : JSVal := JSVal.undefined
  battery_soc : JSVal := JSVal.undefined
  battery_power : JSVal := JSVal.undefined
  home_consumption : JSVal := JSVal.undefined
  max_solar_power : JSVal := JSVal.undefined
  max_grid_power : JSVal := JSVal.undefined
  max_consumption : JSVal := JSVal.undefined
  battery_click_target : JSVal := JSVal.undefined

/-- The field `_config` of the card; every field is `undefined` in the `{}` the constructor
stores. -/
structure EnergyConfig where
  bare : JSVal := JSVal.undefined
  show_header : JSVal := JSVal.undefined
  name : JSVal := JSVal.undefined
  grid_sign : JSVal := JSVal.undefined
  solar_power : JSVal := JSVal.undefined
  grid_power : JSVal := JSVal.undefined
  battery_soc : JSVal := JSVal.undefined
  battery_power : JSVal := JSVal.undefined
  home_consumption : JSVal := JSVal.undefined
  max_solar_power : JSVal := JSVal.undefined
  max_grid_power : JSVal := JSVal.undefined
  max_consumption : JSVal := JSVal.undefined
  battery_click_target : JSVal := JSVal.undefined

/-- What the incremental updater writes into the rendered tree of the energy-details card:
the texts, the grid label, the `style.width` and `style.background` assigned to the bars and
the `data-entity` attribute of the battery column. -/
structure EnergyDom where
  val_solar : String := ""
  val_grid : String := ""
  label_grid : String := ""
  val_consumption : String := ""
  val_batt_power : String := ""
  val_batt_soc : String := ""
  bar_solar_width : String := ""
  bar_grid_width : String := ""
  bar_grid_background : String := ""
  bar_consumption_width : String := ""
  bar_battery_width : String := ""
  col_battery_entity : String := ""

/-- An instance of `PrismEnergyDetailsCard`: the fields set by the constructor and the
rendered tree (`none` until `render` has filled the shadow root). -/
structure EnergyCard where
  _hass : Option Hass := none
  _config : EnergyConfig := {}
  _initialized : Bool := false
  dom : Option EnergyDom := none
  renderCount : Nat := 0
  updateCount : Nat := 0
  handlersPerColumn : Nat := 0

namespace EnergyCard

/-- The method `setConfig(config)`. -/
def setConfig (card : EnergyCard) (config : EnergyOptions) : EnergyCard :=
  let bareFromStyle : Bool :=
    match config.style with
    | JSVal.str s => String.mk (s.toList.map Char.toLower) = "bare"
    | _ => false
  { card with
    _config :=
      { bare := JSVal.bool (config.bare.strictEq (JSVal.bool true) || bareFromStyle)
        show_header := JSVal.bool (config.show_header.strictEq (JSVal.bool true))
        name := config.name.or (JSVal.str "Energy Details")
        grid_sign :=
          if config.grid_sign.strictEq (JSVal.str "inverted") then JSVal.str "inverted"
          else JSVal.str "openems"
        solar_power := config.solar_power.or (JSVal.str "")
        grid_power := config.grid_power.or (JSVal.str "")
        battery_soc := config.battery_soc.or (JSVal.str "")
        battery_power := config.battery_power.or (JSVal.str "")
        home_consumption := config.home_consumption.or (JSVal.str "")
        max_solar_power := config.max_solar_power.or (JSVal.num (JSNum.fin 10000))
        max_grid_power := config.max_grid_power.or (JSVal.num (JSNum.fin 10000))
        max_consumption := config.max_consumption.or (JSVal.num (JSNum.fin 10000))
        battery_click_target :=
          if config.battery_click_target.strictEq (JSVal.str "power") then JSVal.str "power"
          else JSVal.str "soc" } }

/-- The method `_getState(entityId, defaultVal = 0)`. -/
def _getState (card : EnergyCard) (entityId : JSVal) (defaultVal : JSNum := JSNum.fin 0) :
    JSNum :=
  if !entityId.truthy then defaultVal
  else
    match card._hass with
    | none => defaultVal
    | some hass =>
      match hass.lookup entityId with
      | none => defaultVal
      | some stateObj =>
        let val := stateObj.state.parseFloat
        if val.isNaN then defaultVal else val

/-- The method `_formatPower(watts)`. -/
def _formatPower (watts : JSNum) : String :=
  let absWatts := watts.abs
  if absWatts.ge (JSNum.fin 1000) then (absWatts.div (JSNum.fin 1000)).toFixed 1 ++ " kW"
  else absWatts.round.toStr ++ " W"

/-- The method `_isGridExport(gridPower)`. -/
def _isGridExport (card : EnergyCard) (gridPower : JSNum) : Bool :=
  if card._config.grid_sign.strictEq (JSVal.str "inverted") then gridPower.gt (JSNum.fin 50)
  else gridPower.lt (JSNum.fin (-50))

/-- The width that `_updateBar(selector, pct, bg)` assigns: `pct` clamped, then `%`. -/
def barWidth (pct : JSNum) : String :=
  (JSNum.max (JSNum.fin 0) (JSNum.min (JSNum.fin 100) pct)).toStr ++ "%"

/-- The method `_updateValues()`: nothing happens without a snapshot; the shadow root always
exists, and the elements looked up are there once `render` has run.  `updateCount` counts
the calls. -/
def _updateValues (card : EnergyCard) : EnergyCard :=
  match card._hass, card.dom with
  | some _, some dom =>
    let solarPower := card._getState card._config.solar_power (JSNum.fin 0)
    let gridPower := card._getState card._config.grid_power (JSNum.fin 0)
    let batterySoc := card._getState card._config.battery_soc (JSNum.fin 0)
    let batteryPower := card._getState card._config.battery_power (JSNum.fin 0)
    let homeConsumption := card._getState card._config.home_consumption (JSNum.fin 0)
    let isGridExport := card._isGridExport gridPower
    let pct (power : JSNum) (maxPower : JSVal) : JSNum :=
      (power.div maxPower.toNumber).mul (JSNum.fin 100)
    let battEntity :=
      if card._config.battery_click_target.strictEq (JSVal.str "power")
      then card._config.battery_power else card._config.battery_soc
    { card with
      updateCount := card.updateCount + 1
      dom := some
        { dom with
          val_solar := _formatPower solarPower
          val_grid := _formatPower gridPower
          label_grid := if isGridExport then "Export" else "Import"
          val_consumption := _formatPower homeConsumption
          val_batt_power := _formatPower batteryPower.abs
          val_batt_soc := batterySoc.round.toStr ++ "%"
          bar_solar_width := barWidth (pct solarPower card._config.max_solar_power)
          bar_grid_width := barWidth (pct gridPower.abs card._config.max_grid_power)
          bar_grid_background := if isGridExport then "#10B981" else "#ef4444"
          bar_consumption_width := barWidth (pct homeConsumption card._config.max_consumption)
          bar_battery_width := barWidth batterySoc
          col_battery_entity := (battEntity.or (JSVal.str "")).toStr } }
  | _, _ => { card with updateCount := card.updateCount + 1 }

/-- The method `_setupEventListeners()`: one more click handler on every detail column. -/
def _setupEventListeners (card : EnergyCard) : EnergyCard :=
  match card.dom with
  | some _ => { card with handlersPerColumn := card.handlersPerColumn + 1 }
  | none => card

/-- The method `render()`: the shadow root is replaced by fresh markup (so the columns start
without click handlers), then the handlers are set up. -/
def render (card : EnergyCard) : EnergyCard :=
  let solarPower := card._getState card._config.solar_power (JSNum.fin 0)
  let gridPower := card._getState card._config.grid_power (JSNum.fin 0)
  let batterySoc := card._getState card._config.battery_soc (JSNum.fin 0)
  let batteryPower := card._getState card._config.battery_power (JSNum.fin 0)
  let homeConsumption := card._getState card._config.home_consumption (JSNum.fin 0)
  let isGridExport := card._isGridExport gridPower
  let width (power : JSNum) (maxPower : JSVal) : String :=
    (JSNum.min (JSNum.fin 100) ((power.div maxPower.toNumber).mul (JSNum.fin 100))).toStr ++ "%"
  let batteryClickEntity :=
    if card._config.battery_click_target.strictEq (JSVal.str "power")
    then card._config.battery_power else card._config.battery_soc
  _setupEventListeners
    { card with
      renderCount := card.renderCount + 1
      handlersPerColumn := 0
      dom := some
        { val_solar := _formatPower solarPower
          val_grid := _formatPower gridPower
          label_grid := if isGridExport then "Export" else "Import"
          val_consumption := _formatPower homeConsumption
          val_batt_power := _formatPower batteryPower.abs
          val_batt_soc := batterySoc.round.toStr ++ "%"
          bar_solar_width := width solarPower card._config.max_solar_power
          bar_grid_width := width gridPower.abs card._config.max_grid_power
          bar_grid_background := if isGridExport then "#10B981" else "#ef4444"
          bar_consumption_width := width homeConsumption card._config.max_consumption
          bar_battery_width := batterySoc.toStr ++ "%"
          col_battery_entity := (batteryClickEntity.or (JSVal.str "")).toStr } }

/-- The setter `set hass(hass)`. -/
def setHass (card : EnergyCard) (hass : Option Hass) : EnergyCard :=
  let card := { card with _hass := hass }
  if !card._initialized then
    _setupEventListeners { card.render with _initialized := true }
  else card._updateValues

end EnergyCard

/-! ## The sidebar card (`prism-sidebar.js`) -/

/-- The object passed to `setConfig` of the sidebar: the options it reads;
`custom_card_type` is the property `type` of the object `custom_card`. -/
structure SidebarOptions where
  width : JSVal := JSVal.undefined
  camera_entity : JSVal := JSVal.undefined
  camera_entity_2 : JSVal := JSVal.undefined
  camera_entity_3 : JSVal := JSVal.undefined
  rotation_interval : JSVal := JSVal.undefined
  temperature_entity : JSVal := JSVal.undefined
  temperature_title : JSVal := JSVal.undefined
  weather_entity : JSVal := JSVal.undefined
  forecast_days : JSVal := JSVal.undefined
  grid_entity : JSVal := JSVal.undefined
  solar_entity : JSVal := JSVal.undefined
  home_entity : JSVal := JSVal.undefined
  calendar_entity : JSVal := JSVal.undefined
  graph_hours : JSVal := JSVal.undefined
  custom_card : JSVal := JSVal.undefined
  custom_card_type : JSVal := JSVal.undefined
deriving DecidableEq

/-- The two repeating timers of the sidebar. -/
inductive TimerKind where
  | clock
  | camera
deriving DecidableEq

/-- An entry of the timer table of the browser: a repeating timer that `setInterval` has
created and `clearInterval` has not yet cancelled. -/
structure Interval where
  id : Nat
  kind : TimerKind
  delay : JSVal
deriving DecidableEq

/-- How a call of `render()` ends: normally, with an exception before the shadow root is
written (while the markup is computed), or with one after it (while listeners and the custom
card are set up).  The markup is too large to model, so the outcome is an input. -/
inductive RenderOutcome where
  | ok
  | throwsBefore
  | throwsAfter
deriving DecidableEq

/-- One day shown in the forecast region: the icon and the two temperature texts (the name
of the weekday depends on the clock and the locale and is left out). -/
structure ForecastItem where
  icon : String
  temp : String
  low : String
deriving DecidableEq

/-- What the forecast region `.forecast-grid` shows: rendered days, the three sample days
that the markup of `render()` falls back to, or the message "Forecast nicht verfügbar" with
the name of the weather entity. -/
inductive GridContent where
  | items (days : List ForecastItem)
  | sample
  | placeholder (entity : String)
deriving DecidableEq

/-- Where a call of `updateForecastGrid()` that subscribes stands: at
`await subscribeMessage(...)`, at the wait of 500 ms, or past it. -/
inductive CallPhase where
  | awaitingSubscribe
  | awaitingGrace
  | finished
deriving DecidableEq

/-- A call of `updateForecastGrid()` that took the subscription path: the request it issued,
the element and the record it captured on entry, and its local variable `forecast`. -/
structure GridCall where
  request : Nat
  element : Nat
  weatherState : StateObj
  forecast : List ForecastEntry := []
  phase : CallPhase := CallPhase.awaitingSubscribe
deriving DecidableEq

/-- An entry of an agenda answer as `_showCalendarPopup(events)` reads it: whether the entry
itself is `undefined` or `null`, and its properties `start` and `end` (`undefined` for a
property that is not there, as on every primitive). -/
structure AgendaItem where
  isNullish : Bool := false
  start : JSVal := JSVal.undefined
  stop : JSVal := JSVal.undefined
deriving DecidableEq

/-- Whether the template of the calendar popup raises a `TypeError` at the entry:
`event.start.dateTime` and `event.end.dateTime` read a property of `event.start` and of
`event.end`, which raises on `undefined` and on `null` (as does `event.start` on an entry
that is `undefined` or `null`). -/
def AgendaItem.raises (event : AgendaItem) : Bool :=
  event.isNullish || (event.start = JSVal.undefined ∨ event.start = JSVal.null) ||
    (event.stop = JSVal.undefined ∨ event.stop = JSVal.null)

/-- A value that answers an agenda request: a falsy one, an array of entries, or another
truthy value (an object, a number, a non-empty string), of which `slice` or `map` is no
function. -/
inductive AgendaAnswer where
  | falsy
  | array (events : List AgendaItem)
  | other
deriving DecidableEq

/-- The argument `response || []` of `_showCalendarPopup`: the array to show, `none` for a
value that is no array. -/
def AgendaAnswer.orEmpty : AgendaAnswer → Option (List AgendaItem)
  | AgendaAnswer.falsy => some []
  | AgendaAnswer.array events => some events
  | AgendaAnswer.other => none

/-- The answer of `callWS`: the value and its property `events` (falsy when the value has
none, as an array has). -/
structure WsAnswer where
  value : AgendaAnswer
  events : AgendaAnswer := AgendaAnswer.falsy
deriving DecidableEq

/-- The argument `events?.events || events || []` of `_showCalendarPopup`. -/
def WsAnswer.shown (answer : WsAnswer) : Option (List AgendaItem) :=
  match answer.events with
  | AgendaAnswer.falsy => answer.value.orEmpty
  | inner => inner.orEmpty

/-- A request for the agenda of a calendar: the entity and the window, in milliseconds. -/
structure AgendaRequest where
  entity : JSVal
  start : Int
  stop : Int
deriving DecidableEq

/-- An instance of `PrismSidebarCard` and what it holds in its environment: the fields set by
the constructor and by `setConfig`; of the rendered tree the energy values and the forecast
region (`none` for an element that is not in the tree; `gridGeneration` tells the trees
apart); the timer table; and the forecast subscriptions: `requests` issued by
`_handleWeatherClick` and not yet answered, `subscriptions` the host has opened, `released`
the unsubscribe functions called; the number of popups (`.popup-overlay`) in the shadow root;
the agenda requests sent and the `hass-more-info` notifications raised for the calendar.  A
handle returned by `setInterval` is a positive integer
and an unsubscribe function is an object, so a field holding one is truthy exactly when it is
not `null`. -/
structure Sidebar where
  timer : Option Nat := none
  cameraTimer : Option Nat := none
  hasRendered : Bool := false
  currentCameraIndex : JSNum := JSNum.fin 0
  cameraEntities : List JSVal := []
  forecastSubscriber : Option Nat := none
  config : Option SidebarOptions := none
  _hass : Option Hass := none
  temperatureEntity : JSVal := JSVal.undefined
  weatherEntity : JSVal := JSVal.undefined
  gridEntity : JSVal := JSVal.undefined
  solarEntity : JSVal := JSVal.undefined
  homeEntity : JSVal := JSVal.undefined
  calendarEntity : JSVal := JSVal.undefined
  temperatureTitle : JSVal := JSVal.undefined
  customCardConfig : JSVal := JSVal.undefined
  customCardType : JSVal := JSVal.undefined
  graphHours : JSVal := JSVal.undefined
  sidebarWidth : JSVal := JSVal.undefined
  rotationInterval : JSVal := JSVal.undefined
  forecastDays : JSVal := JSVal.undefined
  val_grid : Option String := none
  val_solar : Option String := none
  val_home : Option String := none
  forecastGrid : Option GridContent := none
  gridGeneration : Nat := 0
  renderCount : Nat := 0
  updateCount : Nat := 0
  forecastTimeouts : Nat := 0
  intervals : List Interval := []
  nextTimerId : Nat := 1
  gridCalls : List GridCall := []
  requests : List Nat := []
  subscriptions : List Nat := []
  released : List Nat := []
  nextRequestId : Nat := 0
  popups : Nat := 0
  apiRequests : List AgendaRequest := []
  wsRequests : List AgendaRequest := []
  notifications : List JSVal := []

namespace Sidebar

/-- The call `.replace(/\.?0+$/, '')`: the leftmost suffix made of an optional point and one
or more zeros is removed. -/
def replaceTrailingZeros : List Char → List Char
  | [] => []
  | c :: cs =>
    let zeros := if c = '.' then cs else c :: cs
    if ¬ zeros.isEmpty ∧ zeros.all (fun z => z = '0') then [] else c :: replaceTrailingZeros cs

/-- The method `_formatEnergyValue(value, unit)`. -/
def _formatEnergyValue (value unit : JSVal) : String :=
  if value = JSVal.undefined ∨ value = JSVal.null ∨ value = JSVal.str "unavailable" ∨
      value = JSVal.str "unknown" then
    "-- " ++ (unit.or (JSVal.str "kW")).toStr
  else
    let num := value.parseFloat
    if num.isNaN then "-- " ++ (unit.or (JSVal.str "kW")).toStr
    else
      let formatted := String.mk (replaceTrailingZeros (num.toFixed 2).toList)
      formatted ++ " " ++ (unit.or (JSVal.str "kW")).toStr

/-- The call `setInterval(callback, delay)`: a fresh handle is returned. -/
def setInterval (s : Sidebar) (kind : TimerKind) (delay : JSVal) : Sidebar × Nat :=
  ({ s with
      intervals := { id := s.nextTimerId, kind := kind, delay := delay } :: s.intervals
      nextTimerId := s.nextTimerId + 1 }, s.nextTimerId)

/-- The call `clearInterval(handle)`. -/
def clearInterval (s : Sidebar) (handle : Nat) : Sidebar :=
  { s with intervals := s.intervals.filter (fun t => t.id ≠ handle) }

/-- The statement `if (field) clearInterval(field)` for a field that holds a handle. -/
def clearIfSet (s : Sidebar) (field : Option Nat) : Sidebar :=
  match field with
  | some handle => s.clearInterval handle
  | none => s

/-- The method `startClock()`; `updateClock()` writes only the time and date texts. -/
def startClock (s : Sidebar) : Sidebar :=
  let r := (s.clearIfSet s.timer).setInterval TimerKind.clock (JSVal.num (JSNum.fin 1000))
  { r.1 with timer := some r.2 }

/-- The method `startCameraRotation()`. -/
def startCameraRotation (s : Sidebar) : Sidebar :=
  if s.cameraEntities.length > 1 then
    let r := (s.clearIfSet s.cameraTimer).setInterval TimerKind.camera s.rotationInterval
    { r.1 with cameraTimer := some r.2 }
  else s

/-- The callback of the camera timer: the cursor advances modulo the number of cameras;
`updateCamera()` writes only the camera image and name. -/
def cameraTick (s : Sidebar) : Sidebar :=
  { s with
    currentCameraIndex :=
      (s.currentCameraIndex.add (JSNum.fin 1)).rem (JSNum.fin s.cameraEntities.length) }

/-- The access `this._hass?.states[entityId]` (and the same after a check of `_hass`). -/
def stateOf (s : Sidebar) (entityId : JSVal) : Option StateObj :=
  s._hass.bind fun hass => hass.lookup entityId

/-- The text of an energy value in the markup of `render()`. -/
def renderedEnergyValue (st : Option StateObj) : String :=
  match st with
  | some st => st.state.toStr ++ " " ++ (st.unit_of_measurement.or (JSVal.str "kW")).toStr
  | none => "0 kW"

/-- The call `forecast.slice(0, end)`. -/
def sliceFromStart {α : Type} (xs : List α) (endArg : JSVal) : List α :=
  if endArg = JSVal.undefined then xs
  else
    match endArg.toNumber with
    | JSNum.nan => []
    | JSNum.posInf => xs
    | JSNum.negInf => []
    | JSNum.fin q =>
      if JSNum.truncate q < 0 then xs.take ((xs.length : Int) + JSNum.truncate q).toNat
      else xs.take (JSNum.truncate q).toNat

/-- The icon of a day: `iconMap[day.condition?.toLowerCase()] || 'mdi:weather-cloudy'`. -/
def iconOf (iconMap : List (String × String)) (day : ForecastEntry) : String :=
  ((day.condition.bind fun c => iconMap.lookup (String.mk (c.toList.map Char.toLower))).getD
    "mdi:weather-cloudy")

/-- The two temperature texts of a day: `temperature` for the high and `templow` for the low,
the one that is there standing in for the other, `'0'` when both are `undefined`. -/
def forecastItem (iconMap : List (String × String)) (day : ForecastEntry) : ForecastItem :=
  let pick (first second : JSVal) : JSVal :=
    if first ≠ JSVal.undefined then first
    else if second ≠ JSVal.undefined then second else JSVal.str "0"
  { icon := iconOf iconMap day
    temp := (pick day.temperature day.templow).toStr ++ "°"
    low := (pick day.templow day.temperature).toStr ++ "°" }

/-- The icons that `renderForecastGrid` knows. -/
def gridIconMap : List (String × String) :=
  [("sunny", "mdi:weather-sunny"), ("partlycloudy", "mdi:weather-partly-cloudy"),
   ("cloudy", "mdi:cloud"), ("rainy", "mdi:weather-rainy"), ("snowy", "mdi:weather-snowy"),
   ("pouring", "mdi:weather-pouring"), ("lightning", "mdi:weather-lightning"),
   ("fog", "mdi:weather-fog"), ("windy", "mdi:weather-windy"),
   ("clear-night", "mdi:weather-night")]

/-- The icons that the markup of `render()` knows. -/
def markupIconMap : List (String × String) := gridIconMap.take 5

/-- The content that `renderForecastGrid(forecast, forecastGridEl)` assigns. -/
def renderForecastGrid (s : Sidebar) (forecast : List ForecastEntry) : GridContent :=
  GridContent.items
    ((sliceFromStart forecast (s.forecastDays.or (JSVal.num (JSNum.fin 3)))).map
      (forecastItem gridIconMap))

/-- The assignment to `shadowRoot.innerHTML` in `render()`, as far as the energy values and
the forecast region go: the energy elements are in the tree when `showEnergy` holds, the
forecast region when `showForecast` does; the popups, children of the shadow root, go. -/
def writeMarkup (s : Sidebar) : Sidebar :=
  let configured (entity : JSVal) (sampleId : String) : Bool :=
    entity.truthy && !(entity.strictEq (JSVal.str sampleId))
  let showEnergy := configured s.gridEntity "sensor.example" ||
    configured s.solarEntity "sensor.example" || configured s.homeEntity "sensor.example"
  let showForecast := configured s.weatherEntity "weather.example"
  let forecast : List ForecastEntry :=
    match (s.stateOf s.weatherEntity).bind StateObj.forecast with
    | some days => sliceFromStart days (s.forecastDays.or (JSVal.num (JSNum.fin 3)))
    | none => []
  { s with
    val_grid := if showEnergy then some (renderedEnergyValue (s.stateOf s.gridEntity)) else none
    val_solar := if showEnergy then some (renderedEnergyValue (s.stateOf s.solarEntity)) else none
    val_home := if showEnergy then some (renderedEnergyValue (s.stateOf s.homeEntity)) else none
    forecastGrid :=
      if showForecast then
        some (if forecast.isEmpty then GridContent.sample
          else GridContent.items (forecast.map (forecastItem markupIconMap)))
      else none
    gridGeneration := s.gridGeneration + 1
    popups := 0 }

/-- Whether the call of `_createCustomCard()` in `render()` raises a `TypeError`: the type of
the custom card is truthy and no string, so `cardType.startsWith` is no function (the `try`
block of the method starts only after that call). -/
def customCardThrows (s : Sidebar) : Bool :=
  s.customCardConfig.truthy && s.customCardType.truthy &&
    (match s.customCardType with
      | JSVal.str _ => false
      | _ => true)

/-- The outcomes that the modelled part of `render()` allows: when `_createCustomCard()`
raises, the call cannot end normally. -/
def admissible (s : Sidebar) (outcome : RenderOutcome) : Bool :=
  !(s.customCardThrows && outcome = RenderOutcome.ok)

/-- The method `render()` followed by the rest `next` of the calling method: an exception
ends the calling method at once.  `renderCount` counts the calls. -/
def render (s : Sidebar) (outcome : RenderOutcome) (next : Sidebar → Sidebar) : Sidebar :=
  let s := { s with renderCount := s.renderCount + 1 }
  match outcome with
  | RenderOutcome.ok => next s.writeMarkup
  | RenderOutcome.throwsBefore => s
  | RenderOutcome.throwsAfter => s.writeMarkup

/-- The method `updateValues()`, as far as the energy values go: an element is written only
if it is in the tree and the snapshot has a record for the entity.  `updateCount` counts the
calls. -/
def updateValues (s : Sidebar) : Sidebar :=
  let s := { s with updateCount := s.updateCount + 1 }
  match s._hass with
  | none => s
  | some _ =>
    let write (el : Option String) (st : Option StateObj) : Option String :=
      match el, st with
      | some _, some st => some (_formatEnergyValue st.state st.unit_of_measurement)
      | el, _ => el
    { s with
      val_grid := write s.val_grid (s.stateOf s.gridEntity)
      val_solar := write s.val_solar (s.stateOf s.solarEntity)
      val_home := write s.val_home (s.stateOf s.homeEntity) }

/-- The first part of `setConfig(config)`: the options are stored, each with its default;
the camera list is rebuilt from the truthy camera options; the cursor is reset. -/
def assignConfig (s : Sidebar) (config : SidebarOptions) : Sidebar :=
  let cameras :=
    (if config.camera_entity.truthy then [config.camera_entity] else []) ++
    (if config.camera_entity_2.truthy then [config.camera_entity_2] else []) ++
    (if config.camera_entity_3.truthy then [config.camera_entity_3] else [])
  { s with
    config := some config
    temperatureEntity := config.temperature_entity.or (JSVal.str "sensor.outdoor_temperature")
    weatherEntity := config.weather_entity.or (JSVal.str "weather.example")
    gridEntity := config.grid_entity.or (JSVal.str "sensor.example")
    solarEntity := config.solar_entity.or (JSVal.str "sensor.example")
    homeEntity := config.home_entity.or (JSVal.str "sensor.example")
    calendarEntity := config.calendar_entity.or (JSVal.str "calendar.example")
    temperatureTitle := config.temperature_title.or (JSVal.str "Outdoor")
    customCardConfig := config.custom_card.or JSVal.null
    customCardType := if config.custom_card.truthy then config.custom_card_type else JSVal.undefined
    graphHours := config.graph_hours.or (JSVal.num (JSNum.fin 24))
    sidebarWidth := config.width.or JSVal.null
    cameraEntities := if cameras.length = 0 then [JSVal.str "camera.example"] else cameras
    rotationInterval :=
      if config.rotation_interval.truthy ∧
          config.rotation_interval.toNumber.ge (JSNum.fin 3) then
        JSVal.num (config.rotation_interval.toNumber.mul (JSNum.fin 1000))
      else JSVal.num (JSNum.fin 10000)
    forecastDays := config.forecast_days.or (JSVal.num (JSNum.fin 3))
    currentCameraIndex := JSNum.fin 0 }

/-- The part of `setConfig(config)` that stops the camera rotation timer. -/
def stopCameraRotation (s : Sidebar) : Sidebar :=
  match s.cameraTimer with
  | some handle => { s.clearInterval handle with cameraTimer := none }
  | none => s

/-- The check `needsRerender` of `setConfig(config)`: one of the weather entity, the number
of forecast days and the temperature entity is not `===` to what `previous` holds. -/
def needsRerender (previous s : Sidebar) : Bool :=
  !(previous.weatherEntity.strictEq s.weatherEntity) ||
    !(previous.forecastDays.strictEq s.forecastDays) ||
    !(previous.temperatureEntity.strictEq s.temperatureEntity)

/-- The end of a method that has rendered: the flag is set and both timers are started. -/
def afterRender (s : Sidebar) : Sidebar :=
  startCameraRotation (startClock { s with hasRendered := true })

/-- The method `setConfig(config)`. -/
def setConfig (previous : Sidebar) (config : SidebarOptions) (outcome : RenderOutcome) :
    Sidebar :=
  let s := stopCameraRotation (previous.assignConfig config)
  if s.hasRendered ∧ needsRerender previous s then
    render { s with hasRendered := false } outcome fun s =>
      if s._hass.isSome then s.afterRender.updateValues else s.afterRender
  else if s.hasRendered then
    if s._hass.isSome then s.startCameraRotation.updateValues else s.startCameraRotation
  else if s._hass.isNone then
    render s outcome afterRender
  else s

/-- The setter `set hass(hass)`; the custom card and the graph card it then feeds are not
modelled.  `forecastTimeouts` counts the calls of
`setTimeout(() => this.updateForecastGrid(), 100)` that have not fired yet. -/
def setHass (s : Sidebar) (hass : Option Hass) (outcome : RenderOutcome) : Sidebar :=
  let s := { s with _hass := hass }
  if !s.hasRendered then
    render s outcome fun s =>
      { s.afterRender with forecastTimeouts := s.afterRender.forecastTimeouts + 1 }
  else s.updateValues

/-- The method `connectedCallback()`. -/
def connectedCallback (s : Sidebar) (outcome : RenderOutcome) : Sidebar :=
  if s.config.isSome ∧ !s.hasRendered then render s outcome afterRender
  else s

/-- The end of `disconnectedCallback()`: a stored unsubscribe function is called and the
field is cleared; the function returns a promise, whose rejection is swallowed. -/
def releaseForecast (s : Sidebar) : Sidebar :=
  match s.forecastSubscriber with
  | some unsubscribe => { s with released := unsubscribe :: s.released, forecastSubscriber := none }
  | none => s

/-- The method `disconnectedCallback()`. -/
def disconnectedCallback (s : Sidebar) : Sidebar :=
  ((s.clearIfSet s.timer).clearIfSet s.cameraTimer).releaseForecast

/-- The method `isLegacyWeather()`. -/
def isLegacyWeather (s : Sidebar) : Bool :=
  match s._hass with
  | none => true
  | some hass =>
    if !s.weatherEntity.truthy then true
    else
      match hass.lookup s.weatherEntity with
      | none => true
      | some weatherState =>
        let supportedFeatures := weatherState.supported_features.or (JSVal.num (JSNum.fin 0))
        let supportsDaily := supportedFeatures.toNumber.toUint32 &&& 1 ≠ 0
        let supportsHourly := supportedFeatures.toNumber.toUint32 &&& 2 ≠ 0
        !supportsDaily && !supportsHourly

/-- An assignment to the element that a call of `updateForecastGrid()` captured: it shows
only if that element is still the one in the tree. -/
def writeGrid (s : Sidebar) (element : Nat) (content : GridContent) : Sidebar :=
  if element = s.gridGeneration then { s with forecastGrid := some content } else s

/-- The end of `updateForecastGrid()`: the forecast is rendered if it has entries, otherwise
the message naming the weather entity is shown. -/
def showForecast (s : Sidebar) (element : Nat) (forecast : List ForecastEntry) : Sidebar :=
  if forecast.length > 0 then s.writeGrid element (s.renderForecastGrid forecast)
  else s.writeGrid element (GridContent.placeholder s.weatherEntity.toStr)

/-- The forecast of the attributes when it has entries, `otherwise` else. -/
def attributeForecast (weatherState : StateObj) (otherwise : List ForecastEntry) :
    List ForecastEntry :=
  match weatherState.forecast with
  | some days => if days.length > 0 then days else otherwise
  | none => otherwise

/-- The method `updateForecastGrid()` up to its first suspension: the legacy path runs to the
end; the other path issues the request `subscribeMessage(callback, message, ...)` and
suspends (`gridCalls` keeps the call). -/
def updateForecastGrid (s : Sidebar) : Sidebar :=
  match s._hass with
  | none => s
  | some hass =>
    if s.forecastSubscriber.isSome then s
    else
      match hass.lookup s.weatherEntity, s.forecastGrid with
      | some weatherState, some _ =>
        if s.isLegacyWeather then
          s.showForecast s.gridGeneration (attributeForecast weatherState [])
        else
          { s with
            gridCalls :=
              { request := s.nextRequestId, element := s.gridGeneration,
                weatherState := weatherState } :: s.gridCalls
            nextRequestId := s.nextRequestId + 1 }
      | _, _ => s

/-- The call of `updateForecastGrid()` that issued `request`, if it is in the given phase. -/
def gridCall (s : Sidebar) (request : Nat) (phase : CallPhase) : Option GridCall :=
  s.gridCalls.find? fun c => c.request = request ∧ c.phase = phase

/-- The list of calls with the one for `request` replaced. -/
def setGridCall (s : Sidebar) (call : GridCall) : Sidebar :=
  { s with gridCalls := s.gridCalls.map fun c => if c.request = call.request then call else c }

/-- The request of a call of `updateForecastGrid()` succeeds: the unsubscribe function is
stored and the call waits 500 ms. -/
def gridSubscribed (s : Sidebar) (request : Nat) : Sidebar :=
  match s.gridCall request CallPhase.awaitingSubscribe with
  | some call =>
    { s.setGridCall { call with phase := CallPhase.awaitingGrace } with
      forecastSubscriber := some request
      subscriptions := request :: s.subscriptions }
  | none => s

/-- The request of a call of `updateForecastGrid()` fails: the `catch` block falls back to
the forecast of the attributes, and the call runs to its end. -/
def gridSubscribeFailed (s : Sidebar) (request : Nat) : Sidebar :=
  match s.gridCall request CallPhase.awaitingSubscribe with
  | some call =>
    let forecast := attributeForecast call.weatherState call.forecast
    (s.setGridCall { call with phase := CallPhase.finished, forecast := forecast }).showForecast
      call.element forecast
  | none => s

/-- The wait of 500 ms of a call of `updateForecastGrid()` is over: the call runs to its
end with what has arrived. -/
def gridGraceElapsed (s : Sidebar) (request : Nat) : Sidebar :=
  match s.gridCall request CallPhase.awaitingGrace with
  | some call =>
    (s.setGridCall { call with phase := CallPhase.finished }).showForecast call.element
      call.forecast
  | none => s

/-- The callback passed by `updateForecastGrid()` receives an event of an open subscription;
`payload` is `event.forecast` when that is an array. -/
def forecastEvent (s : Sidebar) (request : Nat) (payload : Option (List ForecastEntry)) :
    Sidebar :=
  match s.gridCalls.find? (fun c => c.request = request), payload with
  | some call, some forecast =>
    if request ∈ s.subscriptions ∧ request ∉ s.released then
      (s.setGridCall { call with forecast := forecast }).writeGrid call.element
        (s.renderForecastGrid forecast)
    else s
  | _, _ => s

/-- The method `_handleWeatherClick()` up to its first suspension, as far as subscriptions
go: for a weather entity that is not legacy it issues a request `subscribeMessage(...)` of
its own.  (The popup it ends with is the event `weatherPopup`.) -/
def _handleWeatherClick (s : Sidebar) : Sidebar :=
  match s._hass with
  | none => s
  | some hass =>
    if !s.weatherEntity.truthy then s
    else
      match hass.lookup s.weatherEntity with
      | none => s
      | some _ =>
        if s.isLegacyWeather then s
        else { s with requests := s.nextRequestId :: s.requests
                      nextRequestId := s.nextRequestId + 1 }

/-- The request of a call of `_handleWeatherClick()` succeeds: the subscription is open; the
unsubscribe function the promise resolves to is dropped. -/
def clickSubscribed (s : Sidebar) (request : Nat) : Sidebar :=
  if request ∈ s.requests then
    { s with requests := s.requests.erase request, subscriptions := request :: s.subscriptions }
  else s

/-- The request of a call of `_handleWeatherClick()` fails. -/
def clickSubscribeFailed (s : Sidebar) (request : Nat) : Sidebar :=
  { s with requests := s.requests.erase request }

/-- The start and the end of `_showWeatherPopup(...)`: the first popup found in the shadow
root is removed, then the new one is appended. -/
def showPopup (s : Sidebar) : Sidebar :=
  { s with popups := s.popups - 1 + 1 }

/-- What a call made inside a `try` block leaves: the state, and whether it raised. -/
structure Attempt where
  state : Sidebar
  raised : Bool

/-- Whether `_showCalendarPopup(events)` can build its popup: `events.slice(0, 5)` and, for
an array with entries, `upcomingEvents.map(...)` raise a `TypeError` when `events` is no
array (`none`), and the template raises at one of the first five entries of which `start` or
`end` cannot be read. -/
def popupBuilds (events : Option (List AgendaItem)) : Bool :=
  match events with
  | some items => !(items.take 5).any AgendaItem.raises
  | none => false

/-- The method `_showCalendarPopup(events)`, as far as the number of popups goes: the first
popup found in the shadow root is removed; then the new popup is built, which may raise, and
appended. -/
def _showCalendarPopup (s : Sidebar) (events : Option (List AgendaItem)) : Attempt :=
  let s := { s with popups := s.popups - 1 }
  if popupBuilds events then { state := { s with popups := s.popups + 1 }, raised := false }
  else { state := s, raised := true }

/-- The body of a `try` block of `_handleCalendarClick()`: the request is awaited, which
raises when the request fails (`none`), and the popup is built from its answer. -/
def requestAndShow (s : Sidebar) (answer : Option (Option (List AgendaItem))) : Attempt :=
  match answer with
  | some events => s._showCalendarPopup events
  | none => { state := s, raised := true }

/-- The method `_showWeatherPopup(weatherState, temperatureState, forecast)`, as far as the
number of popups goes. -/
def _showWeatherPopup (s : Sidebar) : Sidebar := s.showPopup

/-- A click that closes a popup (its close button, its backdrop or its button for more
details): the popup is removed. -/
def closePopup (s : Sidebar) : Sidebar :=
  { s with popups := s.popups - 1 }

/-- The method `_handleCalendarClick()`, run to its end: `now` is the time of the click,
`primary` the answer of `callApi` and `alternate` the answer of `callWS` (`none` for a
request that fails).  The popup is built inside the `try` block of its request, so an answer
from which it cannot be built is handled like a request that fails. -/
def _handleCalendarClick (s : Sidebar) (now : Int) (primary : Option AgendaAnswer)
    (alternate : Option WsAnswer) : Sidebar :=
  match s._hass with
  | none => s
  | some _ =>
    if !s.calendarEntity.truthy then s
    else
      let endDate := now + 14 * 24 * 60 * 60 * 1000
      let s := { s with
        apiRequests := { entity := s.calendarEntity, start := now, stop := endDate } :: s.apiRequests }
      let first := s.requestAndShow (primary.map AgendaAnswer.orEmpty)
      if !first.raised then first.state
      else
        let s := { first.state with
          wsRequests :=
            { entity := s.calendarEntity, start := now, stop := endDate } :: first.state.wsRequests }
        let second := s.requestAndShow (alternate.map WsAnswer.shown)
        if !second.raised then second.state
        else { second.state with notifications := s.calendarEntity :: second.state.notifications }

/-- The subscriptions that are open and not released. -/
def activeSubscriptions (s : Sidebar) : List Nat :=
  s.subscriptions.filter fun r => r ∉ s.released

/-- The timers of the given kind that are running. -/
def activeTimers (s : Sidebar) (kind : TimerKind) : List Interval :=
  s.intervals.filter fun t => t.kind = kind

/-- What can happen to a sidebar: the host calls `setConfig`, assigns `hass`, attaches or
detaches the element; a timer fires; the user clicks the weather region, the calendar or a
popup; a request or a subscription of the messaging channel reports; a click on the weather
region reaches its popup. -/
inductive Event where
  | setConfig (config : SidebarOptions) (outcome : RenderOutcome)
  | setHass (hass : Option Hass) (outcome : RenderOutcome)
  | connected (outcome : RenderOutcome)
  | disconnected
  | clockTick
  | cameraTick
  | forecastTimeout
  | gridSubscribed (request : Nat)
  | gridSubscribeFailed (request : Nat)
  | gridGraceElapsed (request : Nat)
  | forecastEvent (request : Nat) (payload : Option (List ForecastEntry))
  | weatherClick
  | clickSubscribed (request : Nat)
  | clickSubscribeFailed (request : Nat)
  | weatherPopup
  | calendarClick (now : Int) (primary : Option AgendaAnswer) (alternate : Option WsAnswer)
  | closePopup

/-- Whether the event can happen in the state: a timer fires only while it runs, a timeout
only while it is pending, a report only for what it reports on, a click only on a region
that is in the tree. -/
def enabled (s : Sidebar) : Event → Bool
  | Event.clockTick => !(s.activeTimers TimerKind.clock).isEmpty
  | Event.cameraTick => !(s.activeTimers TimerKind.camera).isEmpty
  | Event.forecastTimeout => s.forecastTimeouts > 0
  | Event.gridSubscribed r => (s.gridCall r CallPhase.awaitingSubscribe).isSome
  | Event.gridSubscribeFailed r => (s.gridCall r CallPhase.awaitingSubscribe).isSome
  | Event.gridGraceElapsed r => (s.gridCall r CallPhase.awaitingGrace).isSome
  | Event.forecastEvent r _ => r ∈ s.subscriptions ∧ r ∉ s.released
  | Event.weatherClick => s.forecastGrid.isSome
  | Event.clickSubscribed r => r ∈ s.requests
  | Event.clickSubscribeFailed r => r ∈ s.requests
  | Event.weatherPopup => s._hass.isSome
  | Event.closePopup => s.popups > 0
  | _ => true

/-- The state after an event. -/
def step (s : Sidebar) : Event → Sidebar
  | Event.setConfig config outcome => s.setConfig config outcome
  | Event.setHass hass outcome => s.setHass hass outcome
  | Event.connected outcome => s.connectedCallback outcome
  | Event.disconnected => s.disconnectedCallback
  | Event.clockTick => s
  | Event.cameraTick => s.cameraTick
  | Event.forecastTimeout =>
    updateForecastGrid { s with forecastTimeouts := s.forecastTimeouts - 1 }
  | Event.gridSubscribed r => s.gridSubscribed r
  | Event.gridSubscribeFailed r => s.gridSubscribeFailed r
  | Event.gridGraceElapsed r => s.gridGraceElapsed r
  | Event.forecastEvent r payload => s.forecastEvent r payload
  | Event.weatherClick => s._handleWeatherClick
  | Event.clickSubscribed r => s.clickSubscribed r
  | Event.clickSubscribeFailed r => s.clickSubscribeFailed r
  | Event.weatherPopup => s._showWeatherPopup
  | Event.calendarClick now primary alternate => s._handleCalendarClick now primary alternate
  | Event.closePopup => s.closePopup

/-- The state after a sequence of events, each of which can happen when its turn comes;
`none` when one of them cannot. -/
def run (s : Sidebar) : List Event → Option Sidebar
  | [] => some s
  | e :: es => if s.enabled e then (s.step e).run es else none

/-- The states a sidebar can be in: the one the constructor leaves, and every state an
event that can happen leads to. -/
inductive Reachable : Sidebar → Prop where
  | init : Reachable {}
  | step {s : Sidebar} (e : Event) : Reachable s → s.enabled e = true → Reachable (s.step e)

/-! ### Hourly to daily forecast -/

/-- An hourly forecast entry as `convertHourlyToDaily` sees it: the time (`none` when
`datetime` is missing), the condition and the numeric temperature. -/
structure HourlyEntry where
  datetime : Option Int
  condition : Option String := none
  temperature : ℚ
deriving DecidableEq

/-- A value of the map built by `convertHourlyToDaily`. -/
structure DailyEntry where
  datetime : Int
  condition : Option String
  temperature : ℚ
  templow : ℚ
  temps : List ℚ
deriving DecidableEq

/-- The greatest element of a list (`Math.max(...temps)`) above a first one. -/
def maxOf (t : ℚ) (ts : List ℚ) : ℚ := ts.foldl (fun m x => if m < x then x else m) t

/-- The least element of a list (`Math.min(...temps)`) below a first one. -/
def minOf (t : ℚ) (ts : List ℚ) : ℚ := ts.foldl (fun m x => if x < m then x else m) t

/-- One round of the `forEach` of `convertHourlyToDaily`; `dayKey` stands for
`new Date(datetime).toDateString()`, the calendar day of a time.  The map keeps its keys in
the order of insertion. -/
def addHour (dayKey : Int → Int) (dailyMap : List (Int × DailyEntry)) (hour : HourlyEntry) :
    List (Int × DailyEntry) :=
  match hour.datetime with
  | none => dailyMap
  | some time =>
    if (dailyMap.lookup (dayKey time)).isNone then
      dailyMap ++ [(dayKey time,
        { datetime := time, condition := hour.condition, temperature := hour.temperature,
          templow := hour.temperature, temps := [hour.temperature] })]
    else
      dailyMap.map fun kv =>
        if kv.1 = dayKey time then
          let temps := kv.2.temps ++ [hour.temperature]
          (kv.1,
            { kv.2 with
              temps := temps
              temperature := maxOf hour.temperature temps
              templow := minOf hour.temperature temps
              condition :=
                if hour.condition.isSome ∧ hour.condition ≠ some "" then hour.condition
                else kv.2.condition })
        else kv

/-- The method `convertHourlyToDaily(hourlyForecast)`: the values of the map, sorted by
time (the sort of an array is stable). -/
def convertHourlyToDaily (dayKey : Int → Int) (hourlyForecast : List HourlyEntry) :
    List DailyEntry :=
  ((hourlyForecast.foldl (addHour dayKey) []).map Prod.snd).insertionSort
    (fun a b => a.datetime ≤ b.datetime)

end Sidebar

/-! ## Sample inputs -/

/-- A snapshot: a weather entity that supports daily forecasts by subscription and carries a
forecast in its attributes, and a grid sensor. -/
def demoHass : Hass :=
  { states :=
      [("weather.home",
        { state := JSVal.str "sunny", supported_features := JSVal.num (JSNum.fin 1),
          forecast := some [{ temperature := JSVal.num (JSNum.fin 21),
                              templow := JSVal.num (JSNum.fin 12) }] }),
       ("sensor.grid", { state := JSVal.str "10.50", unit_of_measurement := JSVal.str "kW" })] }

/-- A configuration of the sidebar with three cameras, a weather entity and a grid entity. -/
def demoOptions : SidebarOptions :=
  { camera_entity := JSVal.str "camera.a", camera_entity_2 := JSVal.str "camera.b",
    camera_entity_3 := JSVal.str "camera.c", weather_entity := JSVal.str "weather.home",
    grid_entity := JSVal.str "sensor.grid" }

/-- The sidebar after the usual start: `setConfig`, then the first assignment of `hass`. -/
def demoSidebar : Sidebar :=
  (Sidebar.setConfig {} demoOptions RenderOutcome.ok).setHass (some demoHass) RenderOutcome.ok

/-! ## Invariants of the sidebar -/

namespace Sidebar

/-- Every running timer is the one its field holds, and a running camera timer goes with at
least two cameras. -/
def TimersOwned (s : Sidebar) : Prop :=
  ∀ t ∈ s.intervals,
    (t.kind = TimerKind.clock ∧ s.timer = some t.id) ∨
    (t.kind = TimerKind.camera ∧ s.cameraTimer = some t.id ∧ 2 ≤ s.cameraEntities.length)

/-- The handles of the forecast subscriptions are consistent: requests and released handles
are older than the next request; a call that still awaits its subscription has released
nothing; the stored handle has not been released and belongs to no call that still awaits
its subscription. -/
def HandlesFresh (s : Sidebar) : Prop :=
  (∀ c ∈ s.gridCalls, c.request < s.nextRequestId) ∧
  (∀ h ∈ s.released, h < s.nextRequestId) ∧
  (∀ c ∈ s.gridCalls, c.phase = CallPhase.awaitingSubscribe → c.request ∉ s.released) ∧
  (∀ h, s.forecastSubscriber = some h →
    h ∉ s.released ∧ h < s.nextRequestId ∧
    ∀ c ∈ s.gridCalls, c.request = h → c.phase ≠ CallPhase.awaitingSubscribe)

end Sidebar

/-- The sample sidebar in another order of events, which leads to a stored subscription
handle: `hass` is assigned first, then `setConfig` follows, the timeout of the first
assignment fires and the request of `updateForecastGrid` succeeds. -/
def demoSubscribed : Sidebar :=
  ((((({} : Sidebar).step (Sidebar.Event.setHass (some demoHass) RenderOutcome.ok)).step
    (Sidebar.Event.setConfig demoOptions RenderOutcome.ok)).step
    Sidebar.Event.forecastTimeout).step (Sidebar.Event.gridSubscribed 0))

/-- A configuration of the energy-details card with a solar and a battery entity. -/
def demoEnergyOptions : EnergyOptions :=
  { solar_power := JSVal.str "sensor.solar", battery_soc := JSVal.str "sensor.soc" }

/-- A snapshot with a negative solar power and a battery level above 100. -/
def demoEnergyHass : Hass :=
  { states :=
      [("sensor.solar", { state := JSVal.str "-500", unit_of_measurement := JSVal.str "W" }),
       ("sensor.soc", { state := JSVal.str "150", unit_of_measurement := JSVal.str "%" })] }

/-- The texts of the energy-details card and the label of the grid column. -/
def EnergyDom.texts (dom : EnergyDom) : List String :=
  [dom.val_solar, dom.val_grid, dom.label_grid, dom.val_consumption, dom.val_batt_power,
    dom.val_batt_soc]

/-- The widths of the four bars of the energy-details card. -/
def EnergyDom.widths (dom : EnergyDom) : List String :=
  [dom.bar_solar_width, dom.bar_grid_width, dom.bar_consumption_width, dom.bar_battery_width]

/-- A snapshot in which the grid entity of the sample configuration is unavailable. -/
def demoUnavailableHass : Hass :=
  { states :=
      [("sensor.grid", { state := JSVal.str "unavailable", unit_of_measurement := JSVal.str "kW" })] }

/-- The sample configuration of the sidebar with a custom card whose `type` is a Number. -/
def demoBrokenOptions : SidebarOptions :=
  { demoOptions with
    custom_card := JSVal.object 0 "[object Object]"
    custom_card_type := JSVal.num (JSNum.fin 5) }

/-- A snapshot whose weather entity supports daily forecasts by subscription and carries no
forecast in its attributes. -/
def demoBareHass : Hass :=
  { states :=
      [("weather.home",
        { state := JSVal.str "sunny", supported_features := JSVal.num (JSNum.fin 1) })] }

/-! ## Properties of the energy-details card -/

/-- C1: the grid label is "Export" exactly when the grid power is below -50 under the
`openems` sign convention and above 50 under the `inverted` one, for every Number (the
infinities and `NaN` included); at the threshold itself, and in every other case, it is
"Import".  The last part reads the label that `_updateValues` writes. -/
theorem isGridExport_iff_beyond_threshold (card : EnergyCard) (cfg : EnergyConfig)
    (hass : Hass) (dom : EnergyDom) (g : JSNum) :
    (EnergyCard._isGridExport
        { card with _config := { cfg with grid_sign := JSVal.str "openems" } } g = true ↔
      (g = JSNum.negInf ∨ ∃ q : ℚ, g = JSNum.fin q ∧ q < -50)) ∧
    (EnergyCard._isGridExport
        { card with _config := { cfg with grid_sign := JSVal.str "inverted" } } g = true ↔
      (g = JSNum.posInf ∨ ∃ q : ℚ, g = JSNum.fin q ∧ 50 < q)) ∧
    EnergyCard._isGridExport
        { card with _config := { cfg with grid_sign := JSVal.str "openems" } }
        (JSNum.fin (-50)) = false ∧
    EnergyCard._isGridExport
        { card with _config := { cfg with grid_sign := JSVal.str "inverted" } }
        (JSNum.fin 50) = false ∧
    ((EnergyCard._updateValues { card with _hass := some hass, dom := some dom }).dom.map
        EnergyDom.label_grid =
      some (if EnergyCard._isGridExport card
          (EnergyCard._getState { card with _hass := some hass } card._config.grid_power) = true
        then "Export" else "Import")) := by
  refine ⟨?_, ?_, ?_, ?_, ?_⟩
  · cases g <;> simp [EnergyCard._isGridExport, JSVal.strictEq, JSNum.lt]
  · cases g <;> simp [EnergyCard._isGridExport, JSVal.strictEq, JSNum.lt, JSNum.gt]
  · simp [EnergyCard._isGridExport, JSVal.strictEq, JSNum.lt]
  · simp [EnergyCard._isGridExport, JSVal.strictEq, JSNum.lt, JSNum.gt]
  · simp [EnergyCard._updateValues, EnergyCard._isGridExport, EnergyCard._getState]

/-- C5: `_getState` returns the default when the entity id is falsy (the empty string in
particular), when no snapshot has been assigned, when the snapshot has no record for the id
and when the state of the record does not parse as a number; in every other case it returns
the parsed number; the default is `0` when it is not given.  Being a total function of its
arguments, it never fails. -/
theorem getState_default_or_parsed (card : EnergyCard) (entityId : JSVal) (defaultVal : JSNum) :
    (entityId.truthy = false → card._getState entityId defaultVal = defaultVal) ∧
    card._getState (JSVal.str "") defaultVal = defaultVal ∧
    (card._hass = none → card._getState entityId defaultVal = defaultVal) ∧
    (∀ hass, card._hass = some hass → hass.lookup entityId = none →
      card._getState entityId defaultVal = defaultVal) ∧
    (∀ hass stateObj, card._hass = some hass → hass.lookup entityId = some stateObj →
      stateObj.state.parseFloat = JSNum.nan → card._getState entityId defaultVal = defaultVal) ∧
    (∀ hass stateObj, entityId.truthy = true → card._hass = some hass →
      hass.lookup entityId = some stateObj → stateObj.state.parseFloat ≠ JSNum.nan →
      card._getState entityId defaultVal = stateObj.state.parseFloat) ∧
    card._getState entityId = card._getState entityId (JSNum.fin 0) := by
  refine ⟨?_, ?_, ?_, ?_, ?_, ?_, rfl⟩
  · intro h
    simp [EnergyCard._getState, h]
  · simp [EnergyCard._getState, JSVal.truthy]
  · intro h
    simp [EnergyCard._getState, h]
  · intro hass h1 h2
    simp [EnergyCard._getState, h1, h2]
  · intro hass st h1 h2 h3
    simp [EnergyCard._getState, h1, h2, h3, JSNum.isNaN]
  · intro hass st h0 h1 h2 h3
    have h4 : st.state.parseFloat.isNaN = false := by
      cases h : st.state.parseFloat <;> simp_all [JSNum.isNaN]
    simp [EnergyCard._getState, h0, h1, h2, h4]

/-- Witness of `getState_default_or_parsed`: a snapshot with the record `"1500.5"` for
`sensor.grid`. -/
theorem getState_default_or_parsed_witness :
    EnergyCard._getState
      { _hass := some { states := [("sensor.grid", { state := JSVal.str "1500.5" })] } }
      (JSVal.str "sensor.grid") (JSNum.fin 7) = JSNum.fin (3001 / 2) := by
  have h := (getState_default_or_parsed
    { _hass := some { states := [("sensor.grid", { state := JSVal.str "1500.5" })] } }
    (JSVal.str "sensor.grid") (JSNum.fin 7)).2.2.2.2.2.1
    { states := [("sensor.grid", { state := JSVal.str "1500.5" })] }
    { state := JSVal.str "1500.5" } (by decide) rfl (by decide) (by decide!)
  rw [h]
  decide!

/-- The comparison `v === "text"` holds exactly for the string itself. -/
theorem JSVal.strictEq_str_iff (v : JSVal) (t : String) :
    v.strictEq (JSVal.str t) = true ↔ v = JSVal.str t := by
  cases v <;> simp [JSVal.strictEq]

/-- Falling back twice to the same default is falling back once. -/
theorem JSVal.or_or (v d : JSVal) : (v.or d).or d = v.or d := by
  cases h : v.truthy <;> simp [JSVal.or, h]

/-- C19: `setConfig` of the energy-details card stores `grid_sign` "inverted" exactly when
the option is the string "inverted" and "openems" in every other case, and
`battery_click_target` "power" exactly when the option is the string "power" and "soc" in
every other case; the `data-entity` of the battery column, as written by `render` and by
`_updateValues`, is then `battery_power` for "power" and `battery_soc` for "soc". -/
theorem energy_setConfig_normalises (card : EnergyCard) (o : EnergyOptions) (hass : Hass)
    (dom : EnergyDom) :
    (((card.setConfig o)._config.grid_sign = JSVal.str "inverted" ↔
        o.grid_sign = JSVal.str "inverted") ∧
      (o.grid_sign ≠ JSVal.str "inverted" →
        (card.setConfig o)._config.grid_sign = JSVal.str "openems")) ∧
    (((card.setConfig o)._config.battery_click_target = JSVal.str "power" ↔
        o.battery_click_target = JSVal.str "power") ∧
      (o.battery_click_target ≠ JSVal.str "power" →
        (card.setConfig o)._config.battery_click_target = JSVal.str "soc")) ∧
    ((EnergyCard._updateValues
        { card.setConfig o with _hass := some hass, dom := some dom }).dom.map
        EnergyDom.col_battery_entity =
      some (if o.battery_click_target = JSVal.str "power"
        then (o.battery_power.or (JSVal.str "")).toStr
        else (o.battery_soc.or (JSVal.str "")).toStr)) ∧
    ((EnergyCard.render (card.setConfig o)).dom.map EnergyDom.col_battery_entity =
      some (if o.battery_click_target = JSVal.str "power"
        then (o.battery_power.or (JSVal.str "")).toStr
        else (o.battery_soc.or (JSVal.str "")).toStr)) := by
  refine ⟨⟨?_, ?_⟩, ⟨?_, ?_⟩, ?_, ?_⟩
  · by_cases h : o.grid_sign = JSVal.str "inverted"
    · simp [EnergyCard.setConfig, h, JSVal.strictEq]
    · have h2 : o.grid_sign.strictEq (JSVal.str "inverted") = false := by
        rw [Bool.eq_false_iff, Ne, JSVal.strictEq_str_iff]; exact h
      simp [EnergyCard.setConfig, h, h2]
  · intro h
    have h2 : o.grid_sign.strictEq (JSVal.str "inverted") = false := by
      rw [Bool.eq_false_iff, Ne, JSVal.strictEq_str_iff]; exact h
    simp [EnergyCard.setConfig, h2]
  · by_cases h : o.battery_click_target = JSVal.str "power"
    · simp [EnergyCard.setConfig, h, JSVal.strictEq]
    · have h2 : o.battery_click_target.strictEq (JSVal.str "power") = false := by
        rw [Bool.eq_false_iff, Ne, JSVal.strictEq_str_iff]; exact h
      simp [EnergyCard.setConfig, h, h2]
  · intro h
    have h2 : o.battery_click_target.strictEq (JSVal.str "power") = false := by
      rw [Bool.eq_false_iff, Ne, JSVal.strictEq_str_iff]; exact h
    simp [EnergyCard.setConfig, h2]
  · by_cases h : o.battery_click_target = JSVal.str "power"
    · simp [EnergyCard.setConfig, EnergyCard._updateValues, h, JSVal.strictEq, JSVal.or_or]
    · have h2 : o.battery_click_target.strictEq (JSVal.str "power") = false := by
        rw [Bool.eq_false_iff, Ne, JSVal.strictEq_str_iff]; exact h
      have e2 : (JSVal.str "soc").strictEq (JSVal.str "power") = false := by decide
      simp [EnergyCard.setConfig, EnergyCard._updateValues, h, h2, e2, JSVal.or_or]
  · by_cases h : o.battery_click_target = JSVal.str "power"
    · simp [EnergyCard.setConfig, EnergyCard.render, EnergyCard._setupEventListeners, h,
        JSVal.strictEq, JSVal.or_or]
    · have h2 : o.battery_click_target.strictEq (JSVal.str "power") = false := by
        rw [Bool.eq_false_iff, Ne, JSVal.strictEq_str_iff]; exact h
      have e2 : (JSVal.str "soc").strictEq (JSVal.str "power") = false := by decide
      simp [EnergyCard.setConfig, EnergyCard.render, EnergyCard._setupEventListeners, h, h2,
        e2, JSVal.or_or]

/-- Witness of `energy_setConfig_normalises`: the option `grid_sign: "INVERTED"` is not the
string "inverted" and is stored as "openems". -/
theorem energy_setConfig_normalises_witness :
    (EnergyCard.setConfig {} { grid_sign := JSVal.str "INVERTED" })._config.grid_sign =
      JSVal.str "openems" :=
  (energy_setConfig_normalises {} { grid_sign := JSVal.str "INVERTED" } { states := [] } {}).1.2
    (by decide)

/-- C26 (the code at the failing input): on the first state assignment `render()` sets up
the click handlers and the setter sets them up once more, so every detail column carries two
click handlers and one click raises two notifications. -/
theorem energy_first_assignment_registers_handlers_twice (card : EnergyCard)
    (hass : Option Hass) :
    (EnergyCard.setHass { card with _initialized := false } hass).handlersPerColumn = 2 := by
  simp [EnergyCard.setHass, EnergyCard.render, EnergyCard._setupEventListeners]

/-! ## Frame lemmas: the fields a step of the sidebar leaves alone -/

@[simp] theorem Sidebar.clearInterval_timer (s : Sidebar) (handle : Nat) :
    (s.clearInterval handle).timer = s.timer := rfl

@[simp] theorem Sidebar.clearInterval_cameraTimer (s : Sidebar) (handle : Nat) :
    (s.clearInterval handle).cameraTimer = s.cameraTimer := rfl

@[simp] theorem Sidebar.clearInterval_hasRendered (s : Sidebar) (handle : Nat) :
    (s.clearInterval handle).hasRendered = s.hasRendered := rfl

@[simp] theorem Sidebar.clearInterval_currentCameraIndex (s : Sidebar) (handle : Nat) :
    (s.clearInterval handle).currentCameraIndex = s.currentCameraIndex := rfl

@[simp] theorem Sidebar.clearInterval_cameraEntities (s : Sidebar) (handle : Nat) :
    (s.clearInterval handle).cameraEntities = s.cameraEntities := rfl

@[simp] theorem Sidebar.clearInterval_forecastSubscriber (s : Sidebar) (handle : Nat) :
    (s.clearInterval handle).forecastSubscriber = s.forecastSubscriber := rfl

@[simp] theorem Sidebar.clearInterval_config (s : Sidebar) (handle : Nat) :
    (s.clearInterval handle).config = s.config := rfl

@[simp] theorem Sidebar.clearInterval__hass (s : Sidebar) (handle : Nat) :
    (s.clearInterval handle)._hass = s._hass := rfl

@[simp] theorem Sidebar.clearInterval_temperatureEntity (s : Sidebar) (handle : Nat) :
    (s.clearInterval handle).temperatureEntity = s.temperatureEntity := rfl

@[simp] theorem Sidebar.clearInterval_weatherEntity (s : Sidebar) (handle : Nat) :
    (s.clearInterval handle).weatherEntity = s.weatherEntity := rfl

@[simp] theorem Sidebar.clearInterval_gridEntity (s : Sidebar) (handle : Nat) :
    (s.clearInterval handle).gridEntity = s.gridEntity := rfl

@[simp] theorem Sidebar.clearInterval_solarEntity (s : Sidebar) (handle : Nat) :
    (s.clearInterval handle).solarEntity = s.solarEntity := rfl

@[simp] theorem Sidebar.clearInterval_homeEntity (s : Sidebar) (handle : Nat) :
    (s.clearInterval handle).homeEntity = s.homeEntity := rfl

@[simp] theorem Sidebar.clearInterval_calendarEntity (s : Sidebar) (handle : Nat) :
    (s.clearInterval handle).calendarEntity = s.calendarEntity := rfl

@[simp] theorem Sidebar.clearInterval_temperatureTitle (s : Sidebar) (handle : Nat) :
    (s.clearInterval handle).temperatureTitle = s.temperatureTitle := rfl

@[simp] theorem Sidebar.clearInterval_customCardConfig (s : Sidebar) (handle : Nat) :
    (s.clearInterval handle).customCardConfig = s.customCardConfig := rfl

@[simp] theorem Sidebar.clearInterval_customCardType (s : Sidebar) (handle : Nat) :
    (s.clearInterval handle).customCardType = s.customCardType := rfl

@[simp] theorem Sidebar.clearInterval_graphHours (s : Sidebar) (handle : Nat) :
    (s.clearInterval handle).graphHours = s.graphHours := rfl

@[simp] theorem Sidebar.clearInterval_sidebarWidth (s : Sidebar) (handle : Nat) :
    (s.clearInterval handle).sidebarWidth = s.sidebarWidth := rfl

@[simp] theorem Sidebar.clearInterval_rotationInterval (s : Sidebar) (handle : Nat) :
    (s.clearInterval handle).rotationInterval = s.rotationInterval := rfl

@[simp] theorem Sidebar.clearInterval_forecastDays (s : Sidebar) (handle : Nat) :
    (s.clearInterval handle).forecastDays = s.forecastDays := rfl

@[simp] theorem Sidebar.clearInterval_val_grid (s : Sidebar) (handle : Nat) :
    (s.clearInterval handle).val_grid = s.val_grid := rfl

@[simp] theorem Sidebar.clearInterval_val_solar (s : Sidebar) (handle : Nat) :
    (s.clearInterval handle).val_solar = s.val_solar := rfl

@[simp] theorem Sidebar.clearInterval_val_home (s : Sidebar) (handle : Nat) :
    (s.clearInterval handle).val_home = s.val_home := rfl

@[simp] theorem Sidebar.clearInterval_forecastGrid (s : Sidebar) (handle : Nat) :
    (s.clearInterval handle).forecastGrid = s.forecastGrid := rfl

@[simp] theorem Sidebar.clearInterval_gridGeneration (s : Sidebar) (handle : Nat) :
    (s.clearInterval handle).gridGeneration = s.gridGeneration := rfl

@[simp] theorem Sidebar.clearInterval_renderCount (s : Sidebar) (handle : Nat) :
    (s.clearInterval handle).renderCount = s.renderCount := rfl

@[simp] theorem Sidebar.clearInterval_updateCount (s : Sidebar) (handle : Nat) :
    (s.clearInterval handle).updateCount = s.updateCount := rfl

@[simp] theorem Sidebar.clearInterval_forecastTimeouts (s : Sidebar) (handle : Nat) :
    (s.clearInterval handle).forecastTimeouts = s.forecastTimeouts := rfl

@[simp] theorem Sidebar.clearInterval_nextTimerId (s : Sidebar) (handle : Nat) :
    (s.clearInterval handle).nextTimerId = s.nextTimerId := rfl

@[simp] theorem Sidebar.clearInterval_gridCalls (s : Sidebar) (handle : Nat) :
    (s.clearInterval handle).gridCalls = s.gridCalls := rfl

@[simp] theorem Sidebar.clearInterval_requests (s : Sidebar) (handle : Nat) :
    (s.clearInterval handle).requests = s.requests := rfl

@[simp] theorem Sidebar.clearInterval_subscriptions (s : Sidebar) (handle : Nat) :
    (s.clearInterval handle).subscriptions = s.subscriptions := rfl

@[simp] theorem Sidebar.clearInterval_released (s : Sidebar) (handle : Nat) :
    (s.clearInterval handle).released = s.released := rfl

@[simp] theorem Sidebar.clearInterval_nextRequestId (s : Sidebar) (handle : Nat) :
    (s.clearInterval handle).nextRequestId = s.nextRequestId := rfl

@[simp] theorem Sidebar.clearInterval_popups (s : Sidebar) (handle : Nat) :
    (s.clearInterval handle).popups = s.popups := rfl

@[simp] theorem Sidebar.clearInterval_apiRequests (s : Sidebar) (handle : Nat) :
    (s.clearInterval handle).apiRequests = s.apiRequests := rfl

@[simp] theorem Sidebar.clearInterval_wsRequests (s : Sidebar) (handle : Nat) :
    (s.clearInterval handle).wsRequests = s.wsRequests := rfl

@[simp] theorem Sidebar.clearInterval_notifications (s : Sidebar) (handle : Nat) :
    (s.clearInterval handle).notifications = s.notifications := rfl

@[simp] theorem Sidebar.clearIfSet_timer (s : Sidebar) (field : Option Nat) :
    (s.clearIfSet field).timer = s.timer := by cases field <;> rfl

@[simp] theorem Sidebar.clearIfSet_cameraTimer (s : Sidebar) (field : Option Nat) :
    (s.clearIfSet field).cameraTimer = s.cameraTimer := by cases field <;> rfl

@[simp] theorem Sidebar.clearIfSet_hasRendered (s : Sidebar) (field : Option Nat) :
    (s.clearIfSet field).hasRendered = s.hasRendered := by cases field <;> rfl

@[simp] theorem Sidebar.clearIfSet_currentCameraIndex (s : Sidebar) (field : Option Nat) :
    (s.clearIfSet field).currentCameraIndex = s.currentCameraIndex := by cases field <;> rfl

@[simp] theorem Sidebar.clearIfSet_cameraEntities (s : Sidebar) (field : Option Nat) :
    (s.clearIfSet field).cameraEntities = s.cameraEntities := by cases field <;> rfl

@[simp] theorem Sidebar.clearIfSet_forecastSubscriber (s : Sidebar) (field : Option Nat) :
    (s.clearIfSet field).forecastSubscriber = s.forecastSubscriber := by cases field <;> rfl

@[simp] theorem Sidebar.clearIfSet_config (s : Sidebar) (field : Option Nat) :
    (s.clearIfSet field).config = s.config := by cases field <;> rfl

@[simp] theorem Sidebar.clearIfSet__hass (s : Sidebar) (field : Option Nat) :
    (s.clearIfSet field)._hass = s._hass := by cases field <;> rfl

@[simp] theorem Sidebar.clearIfSet_temperatureEntity (s : Sidebar) (field : Option Nat) :
    (s.clearIfSet field).temperatureEntity = s.temperatureEntity := by cases field <;> rfl

@[simp] theorem Sidebar.clearIfSet_weatherEntity (s : Sidebar) (field : Option Nat) :
    (s.clearIfSet field).weatherEntity = s.weatherEntity := by cases field <;> rfl

@[simp] theorem Sidebar.clearIfSet_gridEntity (s : Sidebar) (field : Option Nat) :
    (s.clearIfSet field).gridEntity = s.gridEntity := by cases field <;> rfl

@[simp] theorem Sidebar.clearIfSet_solarEntity (s : Sidebar) (field : Option Nat) :
    (s.clearIfSet field).solarEntity = s.solarEntity := by cases field <;> rfl

@[simp] theorem Sidebar.clearIfSet_homeEntity (s : Sidebar) (field : Option Nat) :
    (s.clearIfSet field).homeEntity = s.homeEntity := by cases field <;> rfl

@[simp] theorem Sidebar.clearIfSet_calendarEntity (s : Sidebar) (field : Option Nat) :
    (s.clearIfSet field).calendarEntity = s.calendarEntity := by cases field <;> rfl

@[simp] theorem Sidebar.clearIfSet_temperatureTitle (s : Sidebar) (field : Option Nat) :
    (s.clearIfSet field).temperatureTitle = s.temperatureTitle := by cases field <;> rfl

@[simp] theorem Sidebar.clearIfSet_customCardConfig (s : Sidebar) (field : Option Nat) :
    (s.clearIfSet field).customCardConfig = s.customCardConfig := by cases field <;> rfl

@[simp] theorem Sidebar.clearIfSet_customCardType (s : Sidebar) (field : Option Nat) :
    (s.clearIfSet field).customCardType = s.customCardType := by cases field <;> rfl

@[simp] theorem Sidebar.clearIfSet_graphHours (s : Sidebar) (field : Option Nat) :
    (s.clearIfSet field).graphHours = s.graphHours := by cases field <;> rfl

@[simp] theorem Sidebar.clearIfSet_sidebarWidth (s : Sidebar) (field : Option Nat) :
    (s.clearIfSet field).sidebarWidth = s.sidebarWidth := by cases field <;> rfl

@[simp] theorem Sidebar.clearIfSet_rotationInterval (s : Sidebar) (field : Option Nat) :
    (s.clearIfSet field).rotationInterval = s.rotationInterval := by cases field <;> rfl

@[simp] theorem Sidebar.clearIfSet_forecastDays (s : Sidebar) (field : Option Nat) :
    (s.clearIfSet field).forecastDays = s.forecastDays := by cases field <;> rfl

@[simp] theorem Sidebar.clearIfSet_val_grid (s : Sidebar) (field : Option Nat) :
    (s.clearIfSet field).val_grid = s.val_grid := by cases field <;> rfl

@[simp] theorem Sidebar.clearIfSet_val_solar (s : Sidebar) (field : Option Nat) :
    (s.clearIfSet field).val_solar = s.val_solar := by cases field <;> rfl

@[simp] theorem Sidebar.clearIfSet_val_home (s : Sidebar) (field : Option Nat) :
    (s.clearIfSet field).val_home = s.val_home := by cases field <;> rfl

@[simp] theorem Sidebar.clearIfSet_forecastGrid (s : Sidebar) (field : Option Nat) :
    (s.clearIfSet field).forecastGrid = s.forecastGrid := by cases field <;> rfl

@[simp] theorem Sidebar.clearIfSet_gridGeneration (s : Sidebar) (field : Option Nat) :
    (s.clearIfSet field).gridGeneration = s.gridGeneration := by cases field <;> rfl

@[simp] theorem Sidebar.clearIfSet_renderCount (s : Sidebar) (field : Option Nat) :
    (s.clearIfSet field).renderCount = s.renderCount := by cases field <;> rfl

@[simp] theorem Sidebar.clearIfSet_updateCount (s : Sidebar) (field : Option Nat) :
    (s.clearIfSet field).updateCount = s.updateCount := by cases field <;> rfl

@[simp] theorem Sidebar.clearIfSet_forecastTimeouts (s : Sidebar) (field : Option Nat) :
    (s.clearIfSet field).forecastTimeouts = s.forecastTimeouts := by cases field <;> rfl

@[simp] theorem Sidebar.clearIfSet_nextTimerId (s : Sidebar) (field : Option Nat) :
    (s.clearIfSet field).nextTimerId = s.nextTimerId := by cases field <;> rfl

@[simp] theorem Sidebar.clearIfSet_gridCalls (s : Sidebar) (field : Option Nat) :
    (s.clearIfSet field).gridCalls = s.gridCalls := by cases field <;> rfl

@[simp] theorem Sidebar.clearIfSet_requests (s : Sidebar) (field : Option Nat) :
    (s.clearIfSet field).requests = s.requests := by cases field <;> rfl

@[simp] theorem Sidebar.clearIfSet_subscriptions (s : Sidebar) (field : Option Nat) :
    (s.clearIfSet field).subscriptions = s.subscriptions := by cases field <;> rfl

@[simp] theorem Sidebar.clearIfSet_released (s : Sidebar) (field : Option Nat) :
    (s.clearIfSet field).released = s.released := by cases field <;> rfl

@[simp] theorem Sidebar.clearIfSet_nextRequestId (s : Sidebar) (field : Option Nat) :
    (s.clearIfSet field).nextRequestId = s.nextRequestId := by cases field <;> rfl

@[simp] theorem Sidebar.clearIfSet_popups (s : Sidebar) (field : Option Nat) :
    (s.clearIfSet field).popups = s.popups := by cases field <;> rfl

@[simp] theorem Sidebar.clearIfSet_apiRequests (s : Sidebar) (field : Option Nat) :
    (s.clearIfSet field).apiRequests = s.apiRequests := by cases field <;> rfl

@[simp] theorem Sidebar.clearIfSet_wsRequests (s : Sidebar) (field : Option Nat) :
    (s.clearIfSet field).wsRequests = s.wsRequests := by cases field <;> rfl

@[simp] theorem Sidebar.clearIfSet_notifications (s : Sidebar) (field : Option Nat) :
    (s.clearIfSet field).notifications = s.notifications := by cases field <;> rfl

@[simp] theorem Sidebar.startClock_cameraTimer (s : Sidebar) :
    (s.startClock).cameraTimer = s.cameraTimer := by unfold Sidebar.startClock; cases s.timer <;> rfl

@[simp] theorem Sidebar.startClock_hasRendered (s : Sidebar) :
    (s.startClock).hasRendered = s.hasRendered := by unfold Sidebar.startClock; cases s.timer <;> rfl

@[simp] theorem Sidebar.startClock_currentCameraIndex (s : Sidebar) :
    (s.startClock).currentCameraIndex = s.currentCameraIndex := by unfold Sidebar.startClock; cases s.timer <;> rfl

@[simp] theorem Sidebar.startClock_cameraEntities (s : Sidebar) :
    (s.startClock).cameraEntities = s.cameraEntities := by unfold Sidebar.startClock; cases s.timer <;> rfl

@[simp] theorem Sidebar.startClock_forecastSubscriber (s : Sidebar) :
    (s.startClock).forecastSubscriber = s.forecastSubscriber := by unfold Sidebar.startClock; cases s.timer <;> rfl

@[simp] theorem Sidebar.startClock_config (s : Sidebar) :
    (s.startClock).config = s.config := by unfold Sidebar.startClock; cases s.timer <;> rfl

@[simp] theorem Sidebar.startClock__hass (s : Sidebar) :
    (s.startClock)._hass = s._hass := by unfold Sidebar.startClock; cases s.timer <;> rfl

@[simp] theorem Sidebar.startClock_temperatureEntity (s : Sidebar) :
    (s.startClock).temperatureEntity = s.temperatureEntity := by unfold Sidebar.startClock; cases s.timer <;> rfl

@[simp] theorem Sidebar.startClock_weatherEntity (s : Sidebar) :
    (s.startClock).weatherEntity = s.weatherEntity := by unfold Sidebar.startClock; cases s.timer <;> rfl

@[simp] theorem Sidebar.startClock_gridEntity (s : Sidebar) :
    (s.startClock).gridEntity = s.gridEntity := by unfold Sidebar.startClock; cases s.timer <;> rfl

@[simp] theorem Sidebar.startClock_solarEntity (s : Sidebar) :
    (s.startClock).solarEntity = s.solarEntity := by unfold Sidebar.startClock; cases s.timer <;> rfl

@[simp] theorem Sidebar.startClock_homeEntity (s : Sidebar) :
    (s.startClock).homeEntity = s.homeEntity := by unfold Sidebar.startClock; cases s.timer <;> rfl

@[simp] theorem Sidebar.startClock_calendarEntity (s : Sidebar) :
    (s.startClock).calendarEntity = s.calendarEntity := by unfold Sidebar.startClock; cases s.timer <;> rfl

@[simp] theorem Sidebar.startClock_temperatureTitle (s : Sidebar) :
    (s.startClock).temperatureTitle = s.temperatureTitle := by unfold Sidebar.startClock; cases s.timer <;> rfl

@[simp] theorem Sidebar.startClock_customCardConfig (s : Sidebar) :
    (s.startClock).customCardConfig = s.customCardConfig := by unfold Sidebar.startClock; cases s.timer <;> rfl

@[simp] theorem Sidebar.startClock_customCardType (s : Sidebar) :
    (s.startClock).customCardType = s.customCardType := by unfold Sidebar.startClock; cases s.timer <;> rfl

@[simp] theorem Sidebar.startClock_graphHours (s : Sidebar) :
    (s.startClock).graphHours = s.graphHours := by unfold Sidebar.startClock; cases s.timer <;> rfl

@[simp] theorem Sidebar.startClock_sidebarWidth (s : Sidebar) :
    (s.startClock).sidebarWidth = s.sidebarWidth := by unfold Sidebar.startClock; cases s.timer <;> rfl

@[simp] theorem Sidebar.startClock_rotationInterval (s : Sidebar) :
    (s.startClock).rotationInterval = s.rotationInterval := by unfold Sidebar.startClock; cases s.timer <;> rfl

@[simp] theorem Sidebar.startClock_forecastDays (s : Sidebar) :
    (s.startClock).forecastDays = s.forecastDays := by unfold Sidebar.startClock; cases s.timer <;> rfl

@[simp] theorem Sidebar.startClock_val_grid (s : Sidebar) :
    (s.startClock).val_grid = s.val_grid := by unfold Sidebar.startClock; cases s.timer <;> rfl

@[simp] theorem Sidebar.startClock_val_solar (s : Sidebar) :
    (s.startClock).val_solar = s.val_solar := by unfold Sidebar.startClock; cases s.timer <;> rfl

@[simp] theorem Sidebar.startClock_val_home (s : Sidebar) :
    (s.startClock).val_home = s.val_home := by unfold Sidebar.startClock; cases s.timer <;> rfl

@[simp] theorem Sidebar.startClock_forecastGrid (s : Sidebar) :
    (s.startClock).forecastGrid = s.forecastGrid := by unfold Sidebar.startClock; cases s.timer <;> rfl

@[simp] theorem Sidebar.startClock_gridGeneration (s : Sidebar) :
    (s.startClock).gridGeneration = s.gridGeneration := by unfold Sidebar.startClock; cases s.timer <;> rfl

@[simp] theorem Sidebar.startClock_renderCount (s : Sidebar) :
    (s.startClock).renderCount = s.renderCount := by unfold Sidebar.startClock; cases s.timer <;> rfl

@[simp] theorem Sidebar.startClock_updateCount (s : Sidebar) :
    (s.startClock).updateCount = s.updateCount := by unfold Sidebar.startClock; cases s.timer <;> rfl

@[simp] theorem Sidebar.startClock_forecastTimeouts (s : Sidebar) :
    (s.startClock).forecastTimeouts = s.forecastTimeouts := by unfold Sidebar.startClock; cases s.timer <;> rfl

@[simp] theorem Sidebar.startClock_gridCalls (s : Sidebar) :
    (s.startClock).gridCalls = s.gridCalls := by unfold Sidebar.startClock; cases s.timer <;> rfl

@[simp] theorem Sidebar.startClock_requests (s : Sidebar) :
    (s.startClock).requests = s.requests := by unfold Sidebar.startClock; cases s.timer <;> rfl

@[simp] theorem Sidebar.startClock_subscriptions (s : Sidebar) :
    (s.startClock).subscriptions = s.subscriptions := by unfold Sidebar.startClock; cases s.timer <;> rfl

@[simp] theorem Sidebar.startClock_released (s : Sidebar) :
    (s.startClock).released = s.released := by unfold Sidebar.startClock; cases s.timer <;> rfl

@[simp] theorem Sidebar.startClock_nextRequestId (s : Sidebar) :
    (s.startClock).nextRequestId = s.nextRequestId := by unfold Sidebar.startClock; cases s.timer <;> rfl

@[simp] theorem Sidebar.startClock_popups (s : Sidebar) :
    (s.startClock).popups = s.popups := by unfold Sidebar.startClock; cases s.timer <;> rfl

@[simp] theorem Sidebar.startClock_apiRequests (s : Sidebar) :
    (s.startClock).apiRequests = s.apiRequests := by unfold Sidebar.startClock; cases s.timer <;> rfl

@[simp] theorem Sidebar.startClock_wsRequests (s : Sidebar) :
    (s.startClock).wsRequests = s.wsRequests := by unfold Sidebar.startClock; cases s.timer <;> rfl

@[simp] theorem Sidebar.startClock_notifications (s : Sidebar) :
    (s.startClock).notifications = s.notifications := by unfold Sidebar.startClock; cases s.timer <;> rfl

@[simp] theorem Sidebar.releaseForecast_timer (s : Sidebar) :
    (s.releaseForecast).timer = s.timer := by unfold Sidebar.releaseForecast; cases s.forecastSubscriber <;> rfl

@[simp] theorem Sidebar.releaseForecast_cameraTimer (s : Sidebar) :
    (s.releaseForecast).cameraTimer = s.cameraTimer := by unfold Sidebar.releaseForecast; cases s.forecastSubscriber <;> rfl

@[simp] theorem Sidebar.releaseForecast_hasRendered (s : Sidebar) :
    (s.releaseForecast).hasRendered = s.hasRendered := by unfold Sidebar.releaseForecast; cases s.forecastSubscriber <;> rfl

@[simp] theorem Sidebar.releaseForecast_currentCameraIndex (s : Sidebar) :
    (s.releaseForecast).currentCameraIndex = s.currentCameraIndex := by unfold Sidebar.releaseForecast; cases s.forecastSubscriber <;> rfl

@[simp] theorem Sidebar.releaseForecast_cameraEntities (s : Sidebar) :
    (s.releaseForecast).cameraEntities = s.cameraEntities := by unfold Sidebar.releaseForecast; cases s.forecastSubscriber <;> rfl

@[simp] theorem Sidebar.releaseForecast_config (s : Sidebar) :
    (s.releaseForecast).config = s.config := by unfold Sidebar.releaseForecast; cases s.forecastSubscriber <;> rfl

@[simp] theorem Sidebar.releaseForecast__hass (s : Sidebar) :
    (s.releaseForecast)._hass = s._hass := by unfold Sidebar.releaseForecast; cases s.forecastSubscriber <;> rfl

@[simp] theorem Sidebar.releaseForecast_temperatureEntity (s : Sidebar) :
    (s.releaseForecast).temperatureEntity = s.temperatureEntity := by unfold Sidebar.releaseForecast; cases s.forecastSubscriber <;> rfl

@[simp] theorem Sidebar.releaseForecast_weatherEntity (s : Sidebar) :
    (s.releaseForecast).weatherEntity = s.weatherEntity := by unfold Sidebar.releaseForecast; cases s.forecastSubscriber <;> rfl

@[simp] theorem Sidebar.releaseForecast_gridEntity (s : Sidebar) :
    (s.releaseForecast).gridEntity = s.gridEntity := by unfold Sidebar.releaseForecast; cases s.forecastSubscriber <;> rfl

@[simp] theorem Sidebar.releaseForecast_solarEntity (s : Sidebar) :
    (s.releaseForecast).solarEntity = s.solarEntity := by unfold Sidebar.releaseForecast; cases s.forecastSubscriber <;> rfl

@[simp] theorem Sidebar.releaseForecast_homeEntity (s : Sidebar) :
    (s.releaseForecast).homeEntity = s.homeEntity := by unfold Sidebar.releaseForecast; cases s.forecastSubscriber <;> rfl

@[simp] theorem Sidebar.releaseForecast_calendarEntity (s : Sidebar) :
    (s.releaseForecast).calendarEntity = s.calendarEntity := by unfold Sidebar.releaseForecast; cases s.forecastSubscriber <;> rfl

@[simp] theorem Sidebar.releaseForecast_temperatureTitle (s : Sidebar) :
    (s.releaseForecast).temperatureTitle = s.temperatureTitle := by unfold Sidebar.releaseForecast; cases s.forecastSubscriber <;> rfl

@[simp] theorem Sidebar.releaseForecast_customCardConfig (s : Sidebar) :
    (s.releaseForecast).customCardConfig = s.customCardConfig := by unfold Sidebar.releaseForecast; cases s.forecastSubscriber <;> rfl

@[simp] theorem Sidebar.releaseForecast_customCardType (s : Sidebar) :
    (s.releaseForecast).customCardType = s.customCardType := by unfold Sidebar.releaseForecast; cases s.forecastSubscriber <;> rfl

@[simp] theorem Sidebar.releaseForecast_graphHours (s : Sidebar) :
    (s.releaseForecast).graphHours = s.graphHours := by unfold Sidebar.releaseForecast; cases s.forecastSubscriber <;> rfl

@[simp] theorem Sidebar.releaseForecast_sidebarWidth (s : Sidebar) :
    (s.releaseForecast).sidebarWidth = s.sidebarWidth := by unfold Sidebar.releaseForecast; cases s.forecastSubscriber <;> rfl

@[simp] theorem Sidebar.releaseForecast_rotationInterval (s : Sidebar) :
    (s.releaseForecast).rotationInterval = s.rotationInterval := by unfold Sidebar.releaseForecast; cases s.forecastSubscriber <;> rfl

@[simp] theorem Sidebar.releaseForecast_forecastDays (s : Sidebar) :
    (s.releaseForecast).forecastDays = s.forecastDays := by unfold Sidebar.releaseForecast; cases s.forecastSubscriber <;> rfl

@[simp] theorem Sidebar.releaseForecast_val_grid (s : Sidebar) :
    (s.releaseForecast).val_grid = s.val_grid := by unfold Sidebar.releaseForecast; cases s.forecastSubscriber <;> rfl

@[simp] theorem Sidebar.releaseForecast_val_solar (s : Sidebar) :
    (s.releaseForecast).val_solar = s.val_solar := by unfold Sidebar.releaseForecast; cases s.forecastSubscriber <;> rfl

@[simp] theorem Sidebar.releaseForecast_val_home (s : Sidebar) :
    (s.releaseForecast).val_home = s.val_home := by unfold Sidebar.releaseForecast; cases s.forecastSubscriber <;> rfl

@[simp] theorem Sidebar.releaseForecast_forecastGrid (s : Sidebar) :
    (s.releaseForecast).forecastGrid = s.forecastGrid := by unfold Sidebar.releaseForecast; cases s.forecastSubscriber <;> rfl

@[simp] theorem Sidebar.releaseForecast_gridGeneration (s : Sidebar) :
    (s.releaseForecast).gridGeneration = s.gridGeneration := by unfold Sidebar.releaseForecast; cases s.forecastSubscriber <;> rfl

@[simp] theorem Sidebar.releaseForecast_renderCount (s : Sidebar) :
    (s.releaseForecast).renderCount = s.renderCount := by unfold Sidebar.releaseForecast; cases s.forecastSubscriber <;> rfl

@[simp] theorem Sidebar.releaseForecast_updateCount (s : Sidebar) :
    (s.releaseForecast).updateCount = s.updateCount := by unfold Sidebar.releaseForecast; cases s.forecastSubscriber <;> rfl

@[simp] theorem Sidebar.releaseForecast_forecastTimeouts (s : Sidebar) :
    (s.releaseForecast).forecastTimeouts = s.forecastTimeouts := by unfold Sidebar.releaseForecast; cases s.forecastSubscriber <;> rfl

@[simp] theorem Sidebar.releaseForecast_intervals (s : Sidebar) :
    (s.releaseForecast).intervals = s.intervals := by unfold Sidebar.releaseForecast; cases s.forecastSubscriber <;> rfl

@[simp] theorem Sidebar.releaseForecast_nextTimerId (s : Sidebar) :
    (s.releaseForecast).nextTimerId = s.nextTimerId := by unfold Sidebar.releaseForecast; cases s.forecastSubscriber <;> rfl

@[simp] theorem Sidebar.releaseForecast_gridCalls (s : Sidebar) :
    (s.releaseForecast).gridCalls = s.gridCalls := by unfold Sidebar.releaseForecast; cases s.forecastSubscriber <;> rfl

@[simp] theorem Sidebar.releaseForecast_requests (s : Sidebar) :
    (s.releaseForecast).requests = s.requests := by unfold Sidebar.releaseForecast; cases s.forecastSubscriber <;> rfl

@[simp] theorem Sidebar.releaseForecast_subscriptions (s : Sidebar) :
    (s.releaseForecast).subscriptions = s.subscriptions := by unfold Sidebar.releaseForecast; cases s.forecastSubscriber <;> rfl

@[simp] theorem Sidebar.releaseForecast_nextRequestId (s : Sidebar) :
    (s.releaseForecast).nextRequestId = s.nextRequestId := by unfold Sidebar.releaseForecast; cases s.forecastSubscriber <;> rfl

@[simp] theorem Sidebar.releaseForecast_popups (s : Sidebar) :
    (s.releaseForecast).popups = s.popups := by unfold Sidebar.releaseForecast; cases s.forecastSubscriber <;> rfl

@[simp] theorem Sidebar.releaseForecast_apiRequests (s : Sidebar) :
    (s.releaseForecast).apiRequests = s.apiRequests := by unfold Sidebar.releaseForecast; cases s.forecastSubscriber <;> rfl

@[simp] theorem Sidebar.releaseForecast_wsRequests (s : Sidebar) :
    (s.releaseForecast).wsRequests = s.wsRequests := by unfold Sidebar.releaseForecast; cases s.forecastSubscriber <;> rfl

@[simp] theorem Sidebar.releaseForecast_notifications (s : Sidebar) :
    (s.releaseForecast).notifications = s.notifications := by unfold Sidebar.releaseForecast; cases s.forecastSubscriber <;> rfl

@[simp] theorem Sidebar.startCameraRotation_timer (s : Sidebar) :
    (s.startCameraRotation).timer = s.timer := by unfold Sidebar.startCameraRotation; split <;> [(cases s.cameraTimer <;> rfl); rfl]

@[simp] theorem Sidebar.startCameraRotation_hasRendered (s : Sidebar) :
    (s.startCameraRotation).hasRendered = s.hasRendered := by unfold Sidebar.startCameraRotation; split <;> [(cases s.cameraTimer <;> rfl); rfl]

@[simp] theorem Sidebar.startCameraRotation_currentCameraIndex (s : Sidebar) :
    (s.startCameraRotation).currentCameraIndex = s.currentCameraIndex := by unfold Sidebar.startCameraRotation; split <;> [(cases s.cameraTimer <;> rfl); rfl]

@[simp] theorem Sidebar.startCameraRotation_cameraEntities (s : Sidebar) :
    (s.startCameraRotation).cameraEntities = s.cameraEntities := by unfold Sidebar.startCameraRotation; split <;> [(cases s.cameraTimer <;> rfl); rfl]

@[simp] theorem Sidebar.startCameraRotation_forecastSubscriber (s : Sidebar) :
    (s.startCameraRotation).forecastSubscriber = s.forecastSubscriber := by unfold Sidebar.startCameraRotation; split <;> [(cases s.cameraTimer <;> rfl); rfl]

@[simp] theorem Sidebar.startCameraRotation_config (s : Sidebar) :
    (s.startCameraRotation).config = s.config := by unfold Sidebar.startCameraRotation; split <;> [(cases s.cameraTimer <;> rfl); rfl]

@[simp] theorem Sidebar.startCameraRotation__hass (s : Sidebar) :
    (s.startCameraRotation)._hass = s._hass := by unfold Sidebar.startCameraRotation; split <;> [(cases s.cameraTimer <;> rfl); rfl]

@[simp] theorem Sidebar.startCameraRotation_temperatureEntity (s : Sidebar) :
    (s.startCameraRotation).temperatureEntity = s.temperatureEntity := by unfold Sidebar.startCameraRotation; split <;> [(cases s.cameraTimer <;> rfl); rfl]

@[simp] theorem Sidebar.startCameraRotation_weatherEntity (s : Sidebar) :
    (s.startCameraRotation).weatherEntity = s.weatherEntity := by unfold Sidebar.startCameraRotation; split <;> [(cases s.cameraTimer <;> rfl); rfl]

@[simp] theorem Sidebar.startCameraRotation_gridEntity (s : Sidebar) :
    (s.startCameraRotation).gridEntity = s.gridEntity := by unfold Sidebar.startCameraRotation; split <;> [(cases s.cameraTimer <;> rfl); rfl]

@[simp] theorem Sidebar.startCameraRotation_solarEntity (s : Sidebar) :
    (s.startCameraRotation).solarEntity = s.solarEntity := by unfold Sidebar.startCameraRotation; split <;> [(cases s.cameraTimer <;> rfl); rfl]

@[simp] theorem Sidebar.startCameraRotation_homeEntity (s : Sidebar) :
    (s.startCameraRotation).homeEntity = s.homeEntity := by unfold Sidebar.startCameraRotation; split <;> [(cases s.cameraTimer <;> rfl); rfl]

@[simp] theorem Sidebar.startCameraRotation_calendarEntity (s : Sidebar) :
    (s.startCameraRotation).calendarEntity = s.calendarEntity := by unfold Sidebar.startCameraRotation; split <;> [(cases s.cameraTimer <;> rfl); rfl]

@[simp] theorem Sidebar.startCameraRotation_temperatureTitle (s : Sidebar) :
    (s.startCameraRotation).temperatureTitle = s.temperatureTitle := by unfold Sidebar.startCameraRotation; split <;> [(cases s.cameraTimer <;> rfl); rfl]

@[simp] theorem Sidebar.startCameraRotation_customCardConfig (s : Sidebar) :
    (s.startCameraRotation).customCardConfig = s.customCardConfig := by unfold Sidebar.startCameraRotation; split <;> [(cases s.cameraTimer <;> rfl); rfl]

@[simp] theorem Sidebar.startCameraRotation_customCardType (s : Sidebar) :
    (s.startCameraRotation).customCardType = s.customCardType := by unfold Sidebar.startCameraRotation; split <;> [(cases s.cameraTimer <;> rfl); rfl]

@[simp] theorem Sidebar.startCameraRotation_graphHours (s : Sidebar) :
    (s.startCameraRotation).graphHours = s.graphHours := by unfold Sidebar.startCameraRotation; split <;> [(cases s.cameraTimer <;> rfl); rfl]

@[simp] theorem Sidebar.startCameraRotation_sidebarWidth (s : Sidebar) :
    (s.startCameraRotation).sidebarWidth = s.sidebarWidth := by unfold Sidebar.startCameraRotation; split <;> [(cases s.cameraTimer <;> rfl); rfl]

@[simp] theorem Sidebar.startCameraRotation_rotationInterval (s : Sidebar) :
    (s.startCameraRotation).rotationInterval = s.rotationInterval := by unfold Sidebar.startCameraRotation; split <;> [(cases s.cameraTimer <;> rfl); rfl]

@[simp] theorem Sidebar.startCameraRotation_forecastDays (s : Sidebar) :
    (s.startCameraRotation).forecastDays = s.forecastDays := by unfold Sidebar.startCameraRotation; split <;> [(cases s.cameraTimer <;> rfl); rfl]

@[simp] theorem Sidebar.startCameraRotation_val_grid (s : Sidebar) :
    (s.startCameraRotation).val_grid = s.val_grid := by unfold Sidebar.startCameraRotation; split <;> [(cases s.cameraTimer <;> rfl); rfl]

@[simp] theorem Sidebar.startCameraRotation_val_solar (s : Sidebar) :
    (s.startCameraRotation).val_solar = s.val_solar := by unfold Sidebar.startCameraRotation; split <;> [(cases s.cameraTimer <;> rfl); rfl]

@[simp] theorem Sidebar.startCameraRotation_val_home (s : Sidebar) :
    (s.startCameraRotation).val_home = s.val_home := by unfold Sidebar.startCameraRotation; split <;> [(cases s.cameraTimer <;> rfl); rfl]

@[simp] theorem Sidebar.startCameraRotation_forecastGrid (s : Sidebar) :
    (s.startCameraRotation).forecastGrid = s.forecastGrid := by unfold Sidebar.startCameraRotation; split <;> [(cases s.cameraTimer <;> rfl); rfl]

@[simp] theorem Sidebar.startCameraRotation_gridGeneration (s : Sidebar) :
    (s.startCameraRotation).gridGeneration = s.gridGeneration := by unfold Sidebar.startCameraRotation; split <;> [(cases s.cameraTimer <;> rfl); rfl]

@[simp] theorem Sidebar.startCameraRotation_renderCount (s : Sidebar) :
    (s.startCameraRotation).renderCount = s.renderCount := by unfold Sidebar.startCameraRotation; split <;> [(cases s.cameraTimer <;> rfl); rfl]

@[simp] theorem Sidebar.startCameraRotation_updateCount (s : Sidebar) :
    (s.startCameraRotation).updateCount = s.updateCount := by unfold Sidebar.startCameraRotation; split <;> [(cases s.cameraTimer <;> rfl); rfl]

@[simp] theorem Sidebar.startCameraRotation_forecastTimeouts (s : Sidebar) :
    (s.startCameraRotation).forecastTimeouts = s.forecastTimeouts := by unfold Sidebar.startCameraRotation; split <;> [(cases s.cameraTimer <;> rfl); rfl]

@[simp] theorem Sidebar.startCameraRotation_gridCalls (s : Sidebar) :
    (s.startCameraRotation).gridCalls = s.gridCalls := by unfold Sidebar.startCameraRotation; split <;> [(cases s.cameraTimer <;> rfl); rfl]

@[simp] theorem Sidebar.startCameraRotation_requests (s : Sidebar) :
    (s.startCameraRotation).requests = s.requests := by unfold Sidebar.startCameraRotation; split <;> [(cases s.cameraTimer <;> rfl); rfl]

@[simp] theorem Sidebar.startCameraRotation_subscriptions (s : Sidebar) :
    (s.startCameraRotation).subscriptions = s.subscriptions := by unfold Sidebar.startCameraRotation; split <;> [(cases s.cameraTimer <;> rfl); rfl]

@[simp] theorem Sidebar.startCameraRotation_released (s : Sidebar) :
    (s.startCameraRotation).released = s.released := by unfold Sidebar.startCameraRotation; split <;> [(cases s.cameraTimer <;> rfl); rfl]

@[simp] theorem Sidebar.startCameraRotation_nextRequestId (s : Sidebar) :
    (s.startCameraRotation).nextRequestId = s.nextRequestId := by unfold Sidebar.startCameraRotation; split <;> [(cases s.cameraTimer <;> rfl); rfl]

@[simp] theorem Sidebar.startCameraRotation_popups (s : Sidebar) :
    (s.startCameraRotation).popups = s.popups := by unfold Sidebar.startCameraRotation; split <;> [(cases s.cameraTimer <;> rfl); rfl]

@[simp] theorem Sidebar.startCameraRotation_apiRequests (s : Sidebar) :
    (s.startCameraRotation).apiRequests = s.apiRequests := by unfold Sidebar.startCameraRotation; split <;> [(cases s.cameraTimer <;> rfl); rfl]

@[simp] theorem Sidebar.startCameraRotation_wsRequests (s : Sidebar) :
    (s.startCameraRotation).wsRequests = s.wsRequests := by unfold Sidebar.startCameraRotation; split <;> [(cases s.cameraTimer <;> rfl); rfl]

@[simp] theorem Sidebar.startCameraRotation_notifications (s : Sidebar) :
    (s.startCameraRotation).notifications = s.notifications := by unfold Sidebar.startCameraRotation; split <;> [(cases s.cameraTimer <;> rfl); rfl]

@[simp] theorem Sidebar.stopCameraRotation_timer (s : Sidebar) :
    (s.stopCameraRotation).timer = s.timer := by unfold Sidebar.stopCameraRotation; cases s.cameraTimer <;> rfl

@[simp] theorem Sidebar.stopCameraRotation_hasRendered (s : Sidebar) :
    (s.stopCameraRotation).hasRendered = s.hasRendered := by unfold Sidebar.stopCameraRotation; cases s.cameraTimer <;> rfl

@[simp] theorem Sidebar.stopCameraRotation_currentCameraIndex (s : Sidebar) :
    (s.stopCameraRotation).currentCameraIndex = s.currentCameraIndex := by unfold Sidebar.stopCameraRotation; cases s.cameraTimer <;> rfl

@[simp] theorem Sidebar.stopCameraRotation_cameraEntities (s : Sidebar) :
    (s.stopCameraRotation).cameraEntities = s.cameraEntities := by unfold Sidebar.stopCameraRotation; cases s.cameraTimer <;> rfl

@[simp] theorem Sidebar.stopCameraRotation_forecastSubscriber (s : Sidebar) :
    (s.stopCameraRotation).forecastSubscriber = s.forecastSubscriber := by unfold Sidebar.stopCameraRotation; cases s.cameraTimer <;> rfl

@[simp] theorem Sidebar.stopCameraRotation_config (s : Sidebar) :
    (s.stopCameraRotation).config = s.config := by unfold Sidebar.stopCameraRotation; cases s.cameraTimer <;> rfl

@[simp] theorem Sidebar.stopCameraRotation__hass (s : Sidebar) :
    (s.stopCameraRotation)._hass = s._hass := by unfold Sidebar.stopCameraRotation; cases s.cameraTimer <;> rfl

@[simp] theorem Sidebar.stopCameraRotation_temperatureEntity (s : Sidebar) :
    (s.stopCameraRotation).temperatureEntity = s.temperatureEntity := by unfold Sidebar.stopCameraRotation; cases s.cameraTimer <;> rfl

@[simp] theorem Sidebar.stopCameraRotation_weatherEntity (s : Sidebar) :
    (s.stopCameraRotation).weatherEntity = s.weatherEntity := by unfold Sidebar.stopCameraRotation; cases s.cameraTimer <;> rfl

@[simp] theorem Sidebar.stopCameraRotation_gridEntity (s : Sidebar) :
    (s.stopCameraRotation).gridEntity = s.gridEntity := by unfold Sidebar.stopCameraRotation; cases s.cameraTimer <;> rfl

@[simp] theorem Sidebar.stopCameraRotation_solarEntity (s : Sidebar) :
    (s.stopCameraRotation).solarEntity = s.solarEntity := by unfold Sidebar.stopCameraRotation; cases s.cameraTimer <;> rfl

@[simp] theorem Sidebar.stopCameraRotation_homeEntity (s : Sidebar) :
    (s.stopCameraRotation).homeEntity = s.homeEntity := by unfold Sidebar.stopCameraRotation; cases s.cameraTimer <;> rfl

@[simp] theorem Sidebar.stopCameraRotation_calendarEntity (s : Sidebar) :
    (s.stopCameraRotation).calendarEntity = s.calendarEntity := by unfold Sidebar.stopCameraRotation; cases s.cameraTimer <;> rfl

@[simp] theorem Sidebar.stopCameraRotation_temperatureTitle (s : Sidebar) :
    (s.stopCameraRotation).temperatureTitle = s.temperatureTitle := by unfold Sidebar.stopCameraRotation; cases s.cameraTimer <;> rfl

@[simp] theorem Sidebar.stopCameraRotation_customCardConfig (s : Sidebar) :
    (s.stopCameraRotation).customCardConfig = s.customCardConfig := by unfold Sidebar.stopCameraRotation; cases s.cameraTimer <;> rfl

@[simp] theorem Sidebar.stopCameraRotation_customCardType (s : Sidebar) :
    (s.stopCameraRotation).customCardType = s.customCardType := by unfold Sidebar.stopCameraRotation; cases s.cameraTimer <;> rfl

@[simp] theorem Sidebar.stopCameraRotation_graphHours (s : Sidebar) :
    (s.stopCameraRotation).graphHours = s.graphHours := by unfold Sidebar.stopCameraRotation; cases s.cameraTimer <;> rfl

@[simp] theorem Sidebar.stopCameraRotation_sidebarWidth (s : Sidebar) :
    (s.stopCameraRotation).sidebarWidth = s.sidebarWidth := by unfold Sidebar.stopCameraRotation; cases s.cameraTimer <;> rfl

@[simp] theorem Sidebar.stopCameraRotation_rotationInterval (s : Sidebar) :
    (s.stopCameraRotation).rotationInterval = s.rotationInterval := by unfold Sidebar.stopCameraRotation; cases s.cameraTimer <;> rfl

@[simp] theorem Sidebar.stopCameraRotation_forecastDays (s : Sidebar) :
    (s.stopCameraRotation).forecastDays = s.forecastDays := by unfold Sidebar.stopCameraRotation; cases s.cameraTimer <;> rfl

@[simp] theorem Sidebar.stopCameraRotation_val_grid (s : Sidebar) :
    (s.stopCameraRotation).val_grid = s.val_grid := by unfold Sidebar.stopCameraRotation; cases s.cameraTimer <;> rfl

@[simp] theorem Sidebar.stopCameraRotation_val_solar (s : Sidebar) :
    (s.stopCameraRotation).val_solar = s.val_solar := by unfold Sidebar.stopCameraRotation; cases s.cameraTimer <;> rfl

@[simp] theorem Sidebar.stopCameraRotation_val_home (s : Sidebar) :
    (s.stopCameraRotation).val_home = s.val_home := by unfold Sidebar.stopCameraRotation; cases s.cameraTimer <;> rfl

@[simp] theorem Sidebar.stopCameraRotation_forecastGrid (s : Sidebar) :
    (s.stopCameraRotation).forecastGrid = s.forecastGrid := by unfold Sidebar.stopCameraRotation; cases s.cameraTimer <;> rfl

@[simp] theorem Sidebar.stopCameraRotation_gridGeneration (s : Sidebar) :
    (s.stopCameraRotation).gridGeneration = s.gridGeneration := by unfold Sidebar.stopCameraRotation; cases s.cameraTimer <;> rfl

@[simp] theorem Sidebar.stopCameraRotation_renderCount (s : Sidebar) :
    (s.stopCameraRotation).renderCount = s.renderCount := by unfold Sidebar.stopCameraRotation; cases s.cameraTimer <;> rfl

@[simp] theorem Sidebar.stopCameraRotation_updateCount (s : Sidebar) :
    (s.stopCameraRotation).updateCount = s.updateCount := by unfold Sidebar.stopCameraRotation; cases s.cameraTimer <;> rfl

@[simp] theorem Sidebar.stopCameraRotation_forecastTimeouts (s : Sidebar) :
    (s.stopCameraRotation).forecastTimeouts = s.forecastTimeouts := by unfold Sidebar.stopCameraRotation; cases s.cameraTimer <;> rfl

@[simp] theorem Sidebar.stopCameraRotation_nextTimerId (s : Sidebar) :
    (s.stopCameraRotation).nextTimerId = s.nextTimerId := by unfold Sidebar.stopCameraRotation; cases s.cameraTimer <;> rfl

@[simp] theorem Sidebar.stopCameraRotation_gridCalls (s : Sidebar) :
    (s.stopCameraRotation).gridCalls = s.gridCalls := by unfold Sidebar.stopCameraRotation; cases s.cameraTimer <;> rfl

@[simp] theorem Sidebar.stopCameraRotation_requests (s : Sidebar) :
    (s.stopCameraRotation).requests = s.requests := by unfold Sidebar.stopCameraRotation; cases s.cameraTimer <;> rfl

@[simp] theorem Sidebar.stopCameraRotation_subscriptions (s : Sidebar) :
    (s.stopCameraRotation).subscriptions = s.subscriptions := by unfold Sidebar.stopCameraRotation; cases s.cameraTimer <;> rfl

@[simp] theorem Sidebar.stopCameraRotation_released (s : Sidebar) :
    (s.stopCameraRotation).released = s.released := by unfold Sidebar.stopCameraRotation; cases s.cameraTimer <;> rfl

@[simp] theorem Sidebar.stopCameraRotation_nextRequestId (s : Sidebar) :
    (s.stopCameraRotation).nextRequestId = s.nextRequestId := by unfold Sidebar.stopCameraRotation; cases s.cameraTimer <;> rfl

@[simp] theorem Sidebar.stopCameraRotation_popups (s : Sidebar) :
    (s.stopCameraRotation).popups = s.popups := by unfold Sidebar.stopCameraRotation; cases s.cameraTimer <;> rfl

@[simp] theorem Sidebar.stopCameraRotation_apiRequests (s : Sidebar) :
    (s.stopCameraRotation).apiRequests = s.apiRequests := by unfold Sidebar.stopCameraRotation; cases s.cameraTimer <;> rfl

@[simp] theorem Sidebar.stopCameraRotation_wsRequests (s : Sidebar) :
    (s.stopCameraRotation).wsRequests = s.wsRequests := by unfold Sidebar.stopCameraRotation; cases s.cameraTimer <;> rfl

@[simp] theorem Sidebar.stopCameraRotation_notifications (s : Sidebar) :
    (s.stopCameraRotation).notifications = s.notifications := by unfold Sidebar.stopCameraRotation; cases s.cameraTimer <;> rfl

@[simp] theorem Sidebar.writeMarkup_timer (s : Sidebar) :
    (s.writeMarkup).timer = s.timer := rfl

@[simp] theorem Sidebar.writeMarkup_cameraTimer (s : Sidebar) :
    (s.writeMarkup).cameraTimer = s.cameraTimer := rfl

@[simp] theorem Sidebar.writeMarkup_hasRendered (s : Sidebar) :
    (s.writeMarkup).hasRendered = s.hasRendered := rfl

@[simp] theorem Sidebar.writeMarkup_currentCameraIndex (s : Sidebar) :
    (s.writeMarkup).currentCameraIndex = s.currentCameraIndex := rfl

@[simp] theorem Sidebar.writeMarkup_cameraEntities (s : Sidebar) :
    (s.writeMarkup).cameraEntities = s.cameraEntities := rfl

@[simp] theorem Sidebar.writeMarkup_forecastSubscriber (s : Sidebar) :
    (s.writeMarkup).forecastSubscriber = s.forecastSubscriber := rfl

@[simp] theorem Sidebar.writeMarkup_config (s : Sidebar) :
    (s.writeMarkup).config = s.config := rfl

@[simp] theorem Sidebar.writeMarkup__hass (s : Sidebar) :
    (s.writeMarkup)._hass = s._hass := rfl

@[simp] theorem Sidebar.writeMarkup_temperatureEntity (s : Sidebar) :
    (s.writeMarkup).temperatureEntity = s.temperatureEntity := rfl

@[simp] theorem Sidebar.writeMarkup_weatherEntity (s : Sidebar) :
    (s.writeMarkup).weatherEntity = s.weatherEntity := rfl

@[simp] theorem Sidebar.writeMarkup_gridEntity (s : Sidebar) :
    (s.writeMarkup).gridEntity = s.gridEntity := rfl

@[simp] theorem Sidebar.writeMarkup_solarEntity (s : Sidebar) :
    (s.writeMarkup).solarEntity = s.solarEntity := rfl

@[simp] theorem Sidebar.writeMarkup_homeEntity (s : Sidebar) :
    (s.writeMarkup).homeEntity = s.homeEntity := rfl

@[simp] theorem Sidebar.writeMarkup_calendarEntity (s : Sidebar) :
    (s.writeMarkup).calendarEntity = s.calendarEntity := rfl

@[simp] theorem Sidebar.writeMarkup_temperatureTitle (s : Sidebar) :
    (s.writeMarkup).temperatureTitle = s.temperatureTitle := rfl

@[simp] theorem Sidebar.writeMarkup_customCardConfig (s : Sidebar) :
    (s.writeMarkup).customCardConfig = s.customCardConfig := rfl

@[simp] theorem Sidebar.writeMarkup_customCardType (s : Sidebar) :
    (s.writeMarkup).customCardType = s.customCardType := rfl

@[simp] theorem Sidebar.writeMarkup_graphHours (s : Sidebar) :
    (s.writeMarkup).graphHours = s.graphHours := rfl

@[simp] theorem Sidebar.writeMarkup_sidebarWidth (s : Sidebar) :
    (s.writeMarkup).sidebarWidth = s.sidebarWidth := rfl

@[simp] theorem Sidebar.writeMarkup_rotationInterval (s : Sidebar) :
    (s.writeMarkup).rotationInterval = s.rotationInterval := rfl

@[simp] theorem Sidebar.writeMarkup_forecastDays (s : Sidebar) :
    (s.writeMarkup).forecastDays = s.forecastDays := rfl

@[simp] theorem Sidebar.writeMarkup_renderCount (s : Sidebar) :
    (s.writeMarkup).renderCount = s.renderCount := rfl

@[simp] theorem Sidebar.writeMarkup_updateCount (s : Sidebar) :
    (s.writeMarkup).updateCount = s.updateCount := rfl

@[simp] theorem Sidebar.writeMarkup_forecastTimeouts (s : Sidebar) :
    (s.writeMarkup).forecastTimeouts = s.forecastTimeouts := rfl

@[simp] theorem Sidebar.writeMarkup_intervals (s : Sidebar) :
    (s.writeMarkup).intervals = s.intervals := rfl

@[simp] theorem Sidebar.writeMarkup_nextTimerId (s : Sidebar) :
    (s.writeMarkup).nextTimerId = s.nextTimerId := rfl

@[simp] theorem Sidebar.writeMarkup_gridCalls (s : Sidebar) :
    (s.writeMarkup).gridCalls = s.gridCalls := rfl

@[simp] theorem Sidebar.writeMarkup_requests (s : Sidebar) :
    (s.writeMarkup).requests = s.requests := rfl

@[simp] theorem Sidebar.writeMarkup_subscriptions (s : Sidebar) :
    (s.writeMarkup).subscriptions = s.subscriptions := rfl

@[simp] theorem Sidebar.writeMarkup_released (s : Sidebar) :
    (s.writeMarkup).released = s.released := rfl

@[simp] theorem Sidebar.writeMarkup_nextRequestId (s : Sidebar) :
    (s.writeMarkup).nextRequestId = s.nextRequestId := rfl

@[simp] theorem Sidebar.writeMarkup_apiRequests (s : Sidebar) :
    (s.writeMarkup).apiRequests = s.apiRequests := rfl

@[simp] theorem Sidebar.writeMarkup_wsRequests (s : Sidebar) :
    (s.writeMarkup).wsRequests = s.wsRequests := rfl

@[simp] theorem Sidebar.writeMarkup_notifications (s : Sidebar) :
    (s.writeMarkup).notifications = s.notifications := rfl

@[simp] theorem Sidebar.updateValues_timer (s : Sidebar) :
    (s.updateValues).timer = s.timer := by unfold Sidebar.updateValues; cases s._hass <;> rfl

@[simp] theorem Sidebar.updateValues_cameraTimer (s : Sidebar) :
    (s.updateValues).cameraTimer = s.cameraTimer := by unfold Sidebar.updateValues; cases s._hass <;> rfl

@[simp] theorem Sidebar.updateValues_hasRendered (s : Sidebar) :
    (s.updateValues).hasRendered = s.hasRendered := by unfold Sidebar.updateValues; cases s._hass <;> rfl

@[simp] theorem Sidebar.updateValues_currentCameraIndex (s : Sidebar) :
    (s.updateValues).currentCameraIndex = s.currentCameraIndex := by unfold Sidebar.updateValues; cases s._hass <;> rfl

@[simp] theorem Sidebar.updateValues_cameraEntities (s : Sidebar) :
    (s.updateValues).cameraEntities = s.cameraEntities := by unfold Sidebar.updateValues; cases s._hass <;> rfl

@[simp] theorem Sidebar.updateValues_forecastSubscriber (s : Sidebar) :
    (s.updateValues).forecastSubscriber = s.forecastSubscriber := by unfold Sidebar.updateValues; cases s._hass <;> rfl

@[simp] theorem Sidebar.updateValues_config (s : Sidebar) :
    (s.updateValues).config = s.config := by unfold Sidebar.updateValues; cases s._hass <;> rfl

@[simp] theorem Sidebar.updateValues__hass (s : Sidebar) :
    (s.updateValues)._hass = s._hass := by unfold Sidebar.updateValues; cases s._hass <;> rfl

@[simp] theorem Sidebar.updateValues_temperatureEntity (s : Sidebar) :
    (s.updateValues).temperatureEntity = s.temperatureEntity := by unfold Sidebar.updateValues; cases s._hass <;> rfl

@[simp] theorem Sidebar.updateValues_weatherEntity (s : Sidebar) :
    (s.updateValues).weatherEntity = s.weatherEntity := by unfold Sidebar.updateValues; cases s._hass <;> rfl

@[simp] theorem Sidebar.updateValues_gridEntity (s : Sidebar) :
    (s.updateValues).gridEntity = s.gridEntity := by unfold Sidebar.updateValues; cases s._hass <;> rfl

@[simp] theorem Sidebar.updateValues_solarEntity (s : Sidebar) :
    (s.updateValues).solarEntity = s.solarEntity := by unfold Sidebar.updateValues; cases s._hass <;> rfl

@[simp] theorem Sidebar.updateValues_homeEntity (s : Sidebar) :
    (s.updateValues).homeEntity = s.homeEntity := by unfold Sidebar.updateValues; cases s._hass <;> rfl

@[simp] theorem Sidebar.updateValues_calendarEntity (s : Sidebar) :
    (s.updateValues).calendarEntity = s.calendarEntity := by unfold Sidebar.updateValues; cases s._hass <;> rfl

@[simp] theorem Sidebar.updateValues_temperatureTitle (s : Sidebar) :
    (s.updateValues).temperatureTitle = s.temperatureTitle := by unfold Sidebar.updateValues; cases s._hass <;> rfl

@[simp] theorem Sidebar.updateValues_customCardConfig (s : Sidebar) :
    (s.updateValues).customCardConfig = s.customCardConfig := by unfold Sidebar.updateValues; cases s._hass <;> rfl

@[simp] theorem Sidebar.updateValues_customCardType (s : Sidebar) :
    (s.updateValues).customCardType = s.customCardType := by unfold Sidebar.updateValues; cases s._hass <;> rfl

@[simp] theorem Sidebar.updateValues_graphHours (s : Sidebar) :
    (s.updateValues).graphHours = s.graphHours := by unfold Sidebar.updateValues; cases s._hass <;> rfl

@[simp] theorem Sidebar.updateValues_sidebarWidth (s : Sidebar) :
    (s.updateValues).sidebarWidth = s.sidebarWidth := by unfold Sidebar.updateValues; cases s._hass <;> rfl

@[simp] theorem Sidebar.updateValues_rotationInterval (s : Sidebar) :
    (s.updateValues).rotationInterval = s.rotationInterval := by unfold Sidebar.updateValues; cases s._hass <;> rfl

@[simp] theorem Sidebar.updateValues_forecastDays (s : Sidebar) :
    (s.updateValues).forecastDays = s.forecastDays := by unfold Sidebar.updateValues; cases s._hass <;> rfl

@[simp] theorem Sidebar.updateValues_forecastGrid (s : Sidebar) :
    (s.updateValues).forecastGrid = s.forecastGrid := by unfold Sidebar.updateValues; cases s._hass <;> rfl

@[simp] theorem Sidebar.updateValues_gridGeneration (s : Sidebar) :
    (s.updateValues).gridGeneration = s.gridGeneration := by unfold Sidebar.updateValues; cases s._hass <;> rfl

@[simp] theorem Sidebar.updateValues_renderCount (s : Sidebar) :
    (s.updateValues).renderCount = s.renderCount := by unfold Sidebar.updateValues; cases s._hass <;> rfl

@[simp] theorem Sidebar.updateValues_forecastTimeouts (s : Sidebar) :
    (s.updateValues).forecastTimeouts = s.forecastTimeouts := by unfold Sidebar.updateValues; cases s._hass <;> rfl

@[simp] theorem Sidebar.updateValues_intervals (s : Sidebar) :
    (s.updateValues).intervals = s.intervals := by unfold Sidebar.updateValues; cases s._hass <;> rfl

@[simp] theorem Sidebar.updateValues_nextTimerId (s : Sidebar) :
    (s.updateValues).nextTimerId = s.nextTimerId := by unfold Sidebar.updateValues; cases s._hass <;> rfl

@[simp] theorem Sidebar.updateValues_gridCalls (s : Sidebar) :
    (s.updateValues).gridCalls = s.gridCalls := by unfold Sidebar.updateValues; cases s._hass <;> rfl

@[simp] theorem Sidebar.updateValues_requests (s : Sidebar) :
    (s.updateValues).requests = s.requests := by unfold Sidebar.updateValues; cases s._hass <;> rfl

@[simp] theorem Sidebar.updateValues_subscriptions (s : Sidebar) :
    (s.updateValues).subscriptions = s.subscriptions := by unfold Sidebar.updateValues; cases s._hass <;> rfl

@[simp] theorem Sidebar.updateValues_released (s : Sidebar) :
    (s.updateValues).released = s.released := by unfold Sidebar.updateValues; cases s._hass <;> rfl

@[simp] theorem Sidebar.updateValues_nextRequestId (s : Sidebar) :
    (s.updateValues).nextRequestId = s.nextRequestId := by unfold Sidebar.updateValues; cases s._hass <;> rfl

@[simp] theorem Sidebar.updateValues_popups (s : Sidebar) :
    (s.updateValues).popups = s.popups := by unfold Sidebar.updateValues; cases s._hass <;> rfl

@[simp] theorem Sidebar.updateValues_apiRequests (s : Sidebar) :
    (s.updateValues).apiRequests = s.apiRequests := by unfold Sidebar.updateValues; cases s._hass <;> rfl

@[simp] theorem Sidebar.updateValues_wsRequests (s : Sidebar) :
    (s.updateValues).wsRequests = s.wsRequests := by unfold Sidebar.updateValues; cases s._hass <;> rfl

@[simp] theorem Sidebar.updateValues_notifications (s : Sidebar) :
    (s.updateValues).notifications = s.notifications := by unfold Sidebar.updateValues; cases s._hass <;> rfl

@[simp] theorem Sidebar.assignConfig_timer (s : Sidebar) (config : SidebarOptions) :
    (s.assignConfig config).timer = s.timer := rfl

@[simp] theorem Sidebar.assignConfig_cameraTimer (s : Sidebar) (config : SidebarOptions) :
    (s.assignConfig config).cameraTimer = s.cameraTimer := rfl

@[simp] theorem Sidebar.assignConfig_hasRendered (s : Sidebar) (config : SidebarOptions) :
    (s.assignConfig config).hasRendered = s.hasRendered := rfl

@[simp] theorem Sidebar.assignConfig_forecastSubscriber (s : Sidebar) (config : SidebarOptions) :
    (s.assignConfig config).forecastSubscriber = s.forecastSubscriber := rfl

@[simp] theorem Sidebar.assignConfig__hass (s : Sidebar) (config : SidebarOptions) :
    (s.assignConfig config)._hass = s._hass := rfl

@[simp] theorem Sidebar.assignConfig_val_grid (s : Sidebar) (config : SidebarOptions) :
    (s.assignConfig config).val_grid = s.val_grid := rfl

@[simp] theorem Sidebar.assignConfig_val_solar (s : Sidebar) (config : SidebarOptions) :
    (s.assignConfig config).val_solar = s.val_solar := rfl

@[simp] theorem Sidebar.assignConfig_val_home (s : Sidebar) (config : SidebarOptions) :
    (s.assignConfig config).val_home = s.val_home := rfl

@[simp] theorem Sidebar.assignConfig_forecastGrid (s : Sidebar) (config : SidebarOptions) :
    (s.assignConfig config).forecastGrid = s.forecastGrid := rfl

@[simp] theorem Sidebar.assignConfig_gridGeneration (s : Sidebar) (config : SidebarOptions) :
    (s.assignConfig config).gridGeneration = s.gridGeneration := rfl

@[simp] theorem Sidebar.assignConfig_renderCount (s : Sidebar) (config : SidebarOptions) :
    (s.assignConfig config).renderCount = s.renderCount := rfl

@[simp] theorem Sidebar.assignConfig_updateCount (s : Sidebar) (config : SidebarOptions) :
    (s.assignConfig config).updateCount = s.updateCount := rfl

@[simp] theorem Sidebar.assignConfig_forecastTimeouts (s : Sidebar) (config : SidebarOptions) :
    (s.assignConfig config).forecastTimeouts = s.forecastTimeouts := rfl

@[simp] theorem Sidebar.assignConfig_intervals (s : Sidebar) (config : SidebarOptions) :
    (s.assignConfig config).intervals = s.intervals := rfl

@[simp] theorem Sidebar.assignConfig_nextTimerId (s : Sidebar) (config : SidebarOptions) :
    (s.assignConfig config).nextTimerId = s.nextTimerId := rfl

@[simp] theorem Sidebar.assignConfig_gridCalls (s : Sidebar) (config : SidebarOptions) :
    (s.assignConfig config).gridCalls = s.gridCalls := rfl

@[simp] theorem Sidebar.assignConfig_requests (s : Sidebar) (config : SidebarOptions) :
    (s.assignConfig config).requests = s.requests := rfl

@[simp] theorem Sidebar.assignConfig_subscriptions (s : Sidebar) (config : SidebarOptions) :
    (s.assignConfig config).subscriptions = s.subscriptions := rfl

@[simp] theorem Sidebar.assignConfig_released (s : Sidebar) (config : SidebarOptions) :
    (s.assignConfig config).released = s.released := rfl

@[simp] theorem Sidebar.assignConfig_nextRequestId (s : Sidebar) (config : SidebarOptions) :
    (s.assignConfig config).nextRequestId = s.nextRequestId := rfl

@[simp] theorem Sidebar.assignConfig_popups (s : Sidebar) (config : SidebarOptions) :
    (s.assignConfig config).popups = s.popups := rfl

@[simp] theorem Sidebar.assignConfig_apiRequests (s : Sidebar) (config : SidebarOptions) :
    (s.assignConfig config).apiRequests = s.apiRequests := rfl

@[simp] theorem Sidebar.assignConfig_wsRequests (s : Sidebar) (config : SidebarOptions) :
    (s.assignConfig config).wsRequests = s.wsRequests := rfl

@[simp] theorem Sidebar.assignConfig_notifications (s : Sidebar) (config : SidebarOptions) :
    (s.assignConfig config).notifications = s.notifications := rfl

@[simp] theorem Sidebar.cameraTick_timer (s : Sidebar) :
    (s.cameraTick).timer = s.timer := rfl

@[simp] theorem Sidebar.cameraTick_cameraTimer (s : Sidebar) :
    (s.cameraTick).cameraTimer = s.cameraTimer := rfl

@[simp] theorem Sidebar.cameraTick_hasRendered (s : Sidebar) :
    (s.cameraTick).hasRendered = s.hasRendered := rfl

@[simp] theorem Sidebar.cameraTick_cameraEntities (s : Sidebar) :
    (s.cameraTick).cameraEntities = s.cameraEntities := rfl

@[simp] theorem Sidebar.cameraTick_forecastSubscriber (s : Sidebar) :
    (s.cameraTick).forecastSubscriber = s.forecastSubscriber := rfl

@[simp] theorem Sidebar.cameraTick_config (s : Sidebar) :
    (s.cameraTick).config = s.config := rfl

@[simp] theorem Sidebar.cameraTick__hass (s : Sidebar) :
    (s.cameraTick)._hass = s._hass := rfl

@[simp] theorem Sidebar.cameraTick_temperatureEntity (s : Sidebar) :
    (s.cameraTick).temperatureEntity = s.temperatureEntity := rfl

@[simp] theorem Sidebar.cameraTick_weatherEntity (s : Sidebar) :
    (s.cameraTick).weatherEntity = s.weatherEntity := rfl

@[simp] theorem Sidebar.cameraTick_gridEntity (s : Sidebar) :
    (s.cameraTick).gridEntity = s.gridEntity := rfl

@[simp] theorem Sidebar.cameraTick_solarEntity (s : Sidebar) :
    (s.cameraTick).solarEntity = s.solarEntity := rfl

@[simp] theorem Sidebar.cameraTick_homeEntity (s : Sidebar) :
    (s.cameraTick).homeEntity = s.homeEntity := rfl

@[simp] theorem Sidebar.cameraTick_calendarEntity (s : Sidebar) :
    (s.cameraTick).calendarEntity = s.calendarEntity := rfl

@[simp] theorem Sidebar.cameraTick_temperatureTitle (s : Sidebar) :
    (s.cameraTick).temperatureTitle = s.temperatureTitle := rfl

@[simp] theorem Sidebar.cameraTick_customCardConfig (s : Sidebar) :
    (s.cameraTick).customCardConfig = s.customCardConfig := rfl

@[simp] theorem Sidebar.cameraTick_customCardType (s : Sidebar) :
    (s.cameraTick).customCardType = s.customCardType := rfl

@[simp] theorem Sidebar.cameraTick_graphHours (s : Sidebar) :
    (s.cameraTick).graphHours = s.graphHours := rfl

@[simp] theorem Sidebar.cameraTick_sidebarWidth (s : Sidebar) :
    (s.cameraTick).sidebarWidth = s.sidebarWidth := rfl

@[simp] theorem Sidebar.cameraTick_rotationInterval (s : Sidebar) :
    (s.cameraTick).rotationInterval = s.rotationInterval := rfl

@[simp] theorem Sidebar.cameraTick_forecastDays (s : Sidebar) :
    (s.cameraTick).forecastDays = s.forecastDays := rfl

@[simp] theorem Sidebar.cameraTick_val_grid (s : Sidebar) :
    (s.cameraTick).val_grid = s.val_grid := rfl

@[simp] theorem Sidebar.cameraTick_val_solar (s : Sidebar) :
    (s.cameraTick).val_solar = s.val_solar := rfl

@[simp] theorem Sidebar.cameraTick_val_home (s : Sidebar) :
    (s.cameraTick).val_home = s.val_home := rfl

@[simp] theorem Sidebar.cameraTick_forecastGrid (s : Sidebar) :
    (s.cameraTick).forecastGrid = s.forecastGrid := rfl

@[simp] theorem Sidebar.cameraTick_gridGeneration (s : Sidebar) :
    (s.cameraTick).gridGeneration = s.gridGeneration := rfl

@[simp] theorem Sidebar.cameraTick_renderCount (s : Sidebar) :
    (s.cameraTick).renderCount = s.renderCount := rfl

@[simp] theorem Sidebar.cameraTick_updateCount (s : Sidebar) :
    (s.cameraTick).updateCount = s.updateCount := rfl

@[simp] theorem Sidebar.cameraTick_forecastTimeouts (s : Sidebar) :
    (s.cameraTick).forecastTimeouts = s.forecastTimeouts := rfl

@[simp] theorem Sidebar.cameraTick_intervals (s : Sidebar) :
    (s.cameraTick).intervals = s.intervals := rfl

@[simp] theorem Sidebar.cameraTick_nextTimerId (s : Sidebar) :
    (s.cameraTick).nextTimerId = s.nextTimerId := rfl

@[simp] theorem Sidebar.cameraTick_gridCalls (s : Sidebar) :
    (s.cameraTick).gridCalls = s.gridCalls := rfl

@[simp] theorem Sidebar.cameraTick_requests (s : Sidebar) :
    (s.cameraTick).requests = s.requests := rfl

@[simp] theorem Sidebar.cameraTick_subscriptions (s : Sidebar) :
    (s.cameraTick).subscriptions = s.subscriptions := rfl

@[simp] theorem Sidebar.cameraTick_released (s : Sidebar) :
    (s.cameraTick).released = s.released := rfl

@[simp] theorem Sidebar.cameraTick_nextRequestId (s : Sidebar) :
    (s.cameraTick).nextRequestId = s.nextRequestId := rfl

@[simp] theorem Sidebar.cameraTick_popups (s : Sidebar) :
    (s.cameraTick).popups = s.popups := rfl

@[simp] theorem Sidebar.cameraTick_apiRequests (s : Sidebar) :
    (s.cameraTick).apiRequests = s.apiRequests := rfl

@[simp] theorem Sidebar.cameraTick_wsRequests (s : Sidebar) :
    (s.cameraTick).wsRequests = s.wsRequests := rfl

@[simp] theorem Sidebar.cameraTick_notifications (s : Sidebar) :
    (s.cameraTick).notifications = s.notifications := rfl

@[simp] theorem Sidebar.disconnectedCallback_timer (s : Sidebar) :
    (s.disconnectedCallback).timer = s.timer := by simp [Sidebar.disconnectedCallback]

@[simp] theorem Sidebar.disconnectedCallback_cameraTimer (s : Sidebar) :
    (s.disconnectedCallback).cameraTimer = s.cameraTimer := by simp [Sidebar.disconnectedCallback]

@[simp] theorem Sidebar.disconnectedCallback_hasRendered (s : Sidebar) :
    (s.disconnectedCallback).hasRendered = s.hasRendered := by simp [Sidebar.disconnectedCallback]

@[simp] theorem Sidebar.disconnectedCallback_currentCameraIndex (s : Sidebar) :
    (s.disconnectedCallback).currentCameraIndex = s.currentCameraIndex := by simp [Sidebar.disconnectedCallback]

@[simp] theorem Sidebar.disconnectedCallback_cameraEntities (s : Sidebar) :
    (s.disconnectedCallback).cameraEntities = s.cameraEntities := by simp [Sidebar.disconnectedCallback]

@[simp] theorem Sidebar.disconnectedCallback_config (s : Sidebar) :
    (s.disconnectedCallback).config = s.config := by simp [Sidebar.disconnectedCallback]

@[simp] theorem Sidebar.disconnectedCallback__hass (s : Sidebar) :
    (s.disconnectedCallback)._hass = s._hass := by simp [Sidebar.disconnectedCallback]

@[simp] theorem Sidebar.disconnectedCallback_temperatureEntity (s : Sidebar) :
    (s.disconnectedCallback).temperatureEntity = s.temperatureEntity := by simp [Sidebar.disconnectedCallback]

@[simp] theorem Sidebar.disconnectedCallback_weatherEntity (s : Sidebar) :
    (s.disconnectedCallback).weatherEntity = s.weatherEntity := by simp [Sidebar.disconnectedCallback]

@[simp] theorem Sidebar.disconnectedCallback_gridEntity (s : Sidebar) :
    (s.disconnectedCallback).gridEntity = s.gridEntity := by simp [Sidebar.disconnectedCallback]

@[simp] theorem Sidebar.disconnectedCallback_solarEntity (s : Sidebar) :
    (s.disconnectedCallback).solarEntity = s.solarEntity := by simp [Sidebar.disconnectedCallback]

@[simp] theorem Sidebar.disconnectedCallback_homeEntity (s : Sidebar) :
    (s.disconnectedCallback).homeEntity = s.homeEntity := by simp [Sidebar.disconnectedCallback]

@[simp] theorem Sidebar.disconnectedCallback_calendarEntity (s : Sidebar) :
    (s.disconnectedCallback).calendarEntity = s.calendarEntity := by simp [Sidebar.disconnectedCallback]

@[simp] theorem Sidebar.disconnectedCallback_temperatureTitle (s : Sidebar) :
    (s.disconnectedCallback).temperatureTitle = s.temperatureTitle := by simp [Sidebar.disconnectedCallback]

@[simp] theorem Sidebar.disconnectedCallback_customCardConfig (s : Sidebar) :
    (s.disconnectedCallback).customCardConfig = s.customCardConfig := by simp [Sidebar.disconnectedCallback]

@[simp] theorem Sidebar.disconnectedCallback_customCardType (s : Sidebar) :
    (s.disconnectedCallback).customCardType = s.customCardType := by simp [Sidebar.disconnectedCallback]

@[simp] theorem Sidebar.disconnectedCallback_graphHours (s : Sidebar) :
    (s.disconnectedCallback).graphHours = s.graphHours := by simp [Sidebar.disconnectedCallback]

@[simp] theorem Sidebar.disconnectedCallback_sidebarWidth (s : Sidebar) :
    (s.disconnectedCallback).sidebarWidth = s.sidebarWidth := by simp [Sidebar.disconnectedCallback]

@[simp] theorem Sidebar.disconnectedCallback_rotationInterval (s : Sidebar) :
    (s.disconnectedCallback).rotationInterval = s.rotationInterval := by simp [Sidebar.disconnectedCallback]

@[simp] theorem Sidebar.disconnectedCallback_forecastDays (s : Sidebar) :
    (s.disconnectedCallback).forecastDays = s.forecastDays := by simp [Sidebar.disconnectedCallback]

@[simp] theorem Sidebar.disconnectedCallback_val_grid (s : Sidebar) :
    (s.disconnectedCallback).val_grid = s.val_grid := by simp [Sidebar.disconnectedCallback]

@[simp] theorem Sidebar.disconnectedCallback_val_solar (s : Sidebar) :
    (s.disconnectedCallback).val_solar = s.val_solar := by simp [Sidebar.disconnectedCallback]

@[simp] theorem Sidebar.disconnectedCallback_val_home (s : Sidebar) :
    (s.disconnectedCallback).val_home = s.val_home := by simp [Sidebar.disconnectedCallback]

@[simp] theorem Sidebar.disconnectedCallback_forecastGrid (s : Sidebar) :
    (s.disconnectedCallback).forecastGrid = s.forecastGrid := by simp [Sidebar.disconnectedCallback]

@[simp] theorem Sidebar.disconnectedCallback_gridGeneration (s : Sidebar) :
    (s.disconnectedCallback).gridGeneration = s.gridGeneration := by simp [Sidebar.disconnectedCallback]

@[simp] theorem Sidebar.disconnectedCallback_renderCount (s : Sidebar) :
    (s.disconnectedCallback).renderCount = s.renderCount := by simp [Sidebar.disconnectedCallback]

@[simp] theorem Sidebar.disconnectedCallback_updateCount (s : Sidebar) :
    (s.disconnectedCallback).updateCount = s.updateCount := by simp [Sidebar.disconnectedCallback]

@[simp] theorem Sidebar.disconnectedCallback_forecastTimeouts (s : Sidebar) :
    (s.disconnectedCallback).forecastTimeouts = s.forecastTimeouts := by simp [Sidebar.disconnectedCallback]

@[simp] theorem Sidebar.disconnectedCallback_nextTimerId (s : Sidebar) :
    (s.disconnectedCallback).nextTimerId = s.nextTimerId := by simp [Sidebar.disconnectedCallback]

@[simp] theorem Sidebar.disconnectedCallback_gridCalls (s : Sidebar) :
    (s.disconnectedCallback).gridCalls = s.gridCalls := by simp [Sidebar.disconnectedCallback]

@[simp] theorem Sidebar.disconnectedCallback_requests (s : Sidebar) :
    (s.disconnectedCallback).requests = s.requests := by simp [Sidebar.disconnectedCallback]

@[simp] theorem Sidebar.disconnectedCallback_subscriptions (s : Sidebar) :
    (s.disconnectedCallback).subscriptions = s.subscriptions := by simp [Sidebar.disconnectedCallback]

@[simp] theorem Sidebar.disconnectedCallback_nextRequestId (s : Sidebar) :
    (s.disconnectedCallback).nextRequestId = s.nextRequestId := by simp [Sidebar.disconnectedCallback]

@[simp] theorem Sidebar.disconnectedCallback_popups (s : Sidebar) :
    (s.disconnectedCallback).popups = s.popups := by simp [Sidebar.disconnectedCallback]

@[simp] theorem Sidebar.disconnectedCallback_apiRequests (s : Sidebar) :
    (s.disconnectedCallback).apiRequests = s.apiRequests := by simp [Sidebar.disconnectedCallback]

@[simp] theorem Sidebar.disconnectedCallback_wsRequests (s : Sidebar) :
    (s.disconnectedCallback).wsRequests = s.wsRequests := by simp [Sidebar.disconnectedCallback]

@[simp] theorem Sidebar.disconnectedCallback_notifications (s : Sidebar) :
    (s.disconnectedCallback).notifications = s.notifications := by simp [Sidebar.disconnectedCallback]

@[simp] theorem Sidebar.writeGrid_timer (s : Sidebar) (element : Nat) (content : GridContent) :
    (s.writeGrid element content).timer = s.timer := by unfold Sidebar.writeGrid; split <;> rfl

@[simp] theorem Sidebar.writeGrid_cameraTimer (s : Sidebar) (element : Nat) (content : GridContent) :
    (s.writeGrid element content).cameraTimer = s.cameraTimer := by unfold Sidebar.writeGrid; split <;> rfl

@[simp] theorem Sidebar.writeGrid_hasRendered (s : Sidebar) (element : Nat) (content : GridContent) :
    (s.writeGrid element content).hasRendered = s.hasRendered := by unfold Sidebar.writeGrid; split <;> rfl

@[simp] theorem Sidebar.writeGrid_currentCameraIndex (s : Sidebar) (element : Nat) (content : GridContent) :
    (s.writeGrid element content).currentCameraIndex = s.currentCameraIndex := by unfold Sidebar.writeGrid; split <;> rfl

@[simp] theorem Sidebar.writeGrid_cameraEntities (s : Sidebar) (element : Nat) (content : GridContent) :
    (s.writeGrid element content).cameraEntities = s.cameraEntities := by unfold Sidebar.writeGrid; split <;> rfl

@[simp] theorem Sidebar.writeGrid_forecastSubscriber (s : Sidebar) (element : Nat) (content : GridContent) :
    (s.writeGrid element content).forecastSubscriber = s.forecastSubscriber := by unfold Sidebar.writeGrid; split <;> rfl

@[simp] theorem Sidebar.writeGrid_config (s : Sidebar) (element : Nat) (content : GridContent) :
    (s.writeGrid element content).config = s.config := by unfold Sidebar.writeGrid; split <;> rfl

@[simp] theorem Sidebar.writeGrid__hass (s : Sidebar) (element : Nat) (content : GridContent) :
    (s.writeGrid element content)._hass = s._hass := by unfold Sidebar.writeGrid; split <;> rfl

@[simp] theorem Sidebar.writeGrid_temperatureEntity (s : Sidebar) (element : Nat) (content : GridContent) :
    (s.writeGrid element content).temperatureEntity = s.temperatureEntity := by unfold Sidebar.writeGrid; split <;> rfl

@[simp] theorem Sidebar.writeGrid_weatherEntity (s : Sidebar) (element : Nat) (content : GridContent) :
    (s.writeGrid element content).weatherEntity = s.weatherEntity := by unfold Sidebar.writeGrid; split <;> rfl

@[simp] theorem Sidebar.writeGrid_gridEntity (s : Sidebar) (element : Nat) (content : GridContent) :
    (s.writeGrid element content).gridEntity = s.gridEntity := by unfold Sidebar.writeGrid; split <;> rfl

@[simp] theorem Sidebar.writeGrid_solarEntity (s : Sidebar) (element : Nat) (content : GridContent) :
    (s.writeGrid element content).solarEntity = s.solarEntity := by unfold Sidebar.writeGrid; split <;> rfl

@[simp] theorem Sidebar.writeGrid_homeEntity (s : Sidebar) (element : Nat) (content : GridContent) :
    (s.writeGrid element content).homeEntity = s.homeEntity := by unfold Sidebar.writeGrid; split <;> rfl

@[simp] theorem Sidebar.writeGrid_calendarEntity (s : Sidebar) (element : Nat) (content : GridContent) :
    (s.writeGrid element content).calendarEntity = s.calendarEntity := by unfold Sidebar.writeGrid; split <;> rfl

@[simp] theorem Sidebar.writeGrid_temperatureTitle (s : Sidebar) (element : Nat) (content : GridContent) :
    (s.writeGrid element content).temperatureTitle = s.temperatureTitle := by unfold Sidebar.writeGrid; split <;> rfl

@[simp] theorem Sidebar.writeGrid_customCardConfig (s : Sidebar) (element : Nat) (content : GridContent) :
    (s.writeGrid element content).customCardConfig = s.customCardConfig := by unfold Sidebar.writeGrid; split <;> rfl

@[simp] theorem Sidebar.writeGrid_customCardType (s : Sidebar) (element : Nat) (content : GridContent) :
    (s.writeGrid element content).customCardType = s.customCardType := by unfold Sidebar.writeGrid; split <;> rfl

@[simp] theorem Sidebar.writeGrid_graphHours (s : Sidebar) (element : Nat) (content : GridContent) :
    (s.writeGrid element content).graphHours = s.graphHours := by unfold Sidebar.writeGrid; split <;> rfl

@[simp] theorem Sidebar.writeGrid_sidebarWidth (s : Sidebar) (element : Nat) (content : GridContent) :
    (s.writeGrid element content).sidebarWidth = s.sidebarWidth := by unfold Sidebar.writeGrid; split <;> rfl

@[simp] theorem Sidebar.writeGrid_rotationInterval (s : Sidebar) (element : Nat) (content : GridContent) :
    (s.writeGrid element content).rotationInterval = s.rotationInterval := by unfold Sidebar.writeGrid; split <;> rfl

@[simp] theorem Sidebar.writeGrid_forecastDays (s : Sidebar) (element : Nat) (content : GridContent) :
    (s.writeGrid element content).forecastDays = s.forecastDays := by unfold Sidebar.writeGrid; split <;> rfl

@[simp] theorem Sidebar.writeGrid_val_grid (s : Sidebar) (element : Nat) (content : GridContent) :
    (s.writeGrid element content).val_grid = s.val_grid := by unfold Sidebar.writeGrid; split <;> rfl

@[simp] theorem Sidebar.writeGrid_val_solar (s : Sidebar) (element : Nat) (content : GridContent) :
    (s.writeGrid element content).val_solar = s.val_solar := by unfold Sidebar.writeGrid; split <;> rfl

@[simp] theorem Sidebar.writeGrid_val_home (s : Sidebar) (element : Nat) (content : GridContent) :
    (s.writeGrid element content).val_home = s.val_home := by unfold Sidebar.writeGrid; split <;> rfl

@[simp] theorem Sidebar.writeGrid_gridGeneration (s : Sidebar) (element : Nat) (content : GridContent) :
    (s.writeGrid element content).gridGeneration = s.gridGeneration := by unfold Sidebar.writeGrid; split <;> rfl

@[simp] theorem Sidebar.writeGrid_renderCount (s : Sidebar) (element : Nat) (content : GridContent) :
    (s.writeGrid element content).renderCount = s.renderCount := by unfold Sidebar.writeGrid; split <;> rfl

@[simp] theorem Sidebar.writeGrid_updateCount (s : Sidebar) (element : Nat) (content : GridContent) :
    (s.writeGrid element content).updateCount = s.updateCount := by unfold Sidebar.writeGrid; split <;> rfl

@[simp] theorem Sidebar.writeGrid_forecastTimeouts (s : Sidebar) (element : Nat) (content : GridContent) :
    (s.writeGrid element content).forecastTimeouts = s.forecastTimeouts := by unfold Sidebar.writeGrid; split <;> rfl

@[simp] theorem Sidebar.writeGrid_intervals (s : Sidebar) (element : Nat) (content : GridContent) :
    (s.writeGrid element content).intervals = s.intervals := by unfold Sidebar.writeGrid; split <;> rfl

@[simp] theorem Sidebar.writeGrid_nextTimerId (s : Sidebar) (element : Nat) (content : GridContent) :
    (s.writeGrid element content).nextTimerId = s.nextTimerId := by unfold Sidebar.writeGrid; split <;> rfl

@[simp] theorem Sidebar.writeGrid_gridCalls (s : Sidebar) (element : Nat) (content : GridContent) :
    (s.writeGrid element content).gridCalls = s.gridCalls := by unfold Sidebar.writeGrid; split <;> rfl

@[simp] theorem Sidebar.writeGrid_requests (s : Sidebar) (element : Nat) (content : GridContent) :
    (s.writeGrid element content).requests = s.requests := by unfold Sidebar.writeGrid; split <;> rfl

@[simp] theorem Sidebar.writeGrid_subscriptions (s : Sidebar) (element : Nat) (content : GridContent) :
    (s.writeGrid element content).subscriptions = s.subscriptions := by unfold Sidebar.writeGrid; split <;> rfl

@[simp] theorem Sidebar.writeGrid_released (s : Sidebar) (element : Nat) (content : GridContent) :
    (s.writeGrid element content).released = s.released := by unfold Sidebar.writeGrid; split <;> rfl

@[simp] theorem Sidebar.writeGrid_nextRequestId (s : Sidebar) (element : Nat) (content : GridContent) :
    (s.writeGrid element content).nextRequestId = s.nextRequestId := by unfold Sidebar.writeGrid; split <;> rfl

@[simp] theorem Sidebar.writeGrid_popups (s : Sidebar) (element : Nat) (content : GridContent) :
    (s.writeGrid element content).popups = s.popups := by unfold Sidebar.writeGrid; split <;> rfl

@[simp] theorem Sidebar.writeGrid_apiRequests (s : Sidebar) (element : Nat) (content : GridContent) :
    (s.writeGrid element content).apiRequests = s.apiRequests := by unfold Sidebar.writeGrid; split <;> rfl

@[simp] theorem Sidebar.writeGrid_wsRequests (s : Sidebar) (element : Nat) (content : GridContent) :
    (s.writeGrid element content).wsRequests = s.wsRequests := by unfold Sidebar.writeGrid; split <;> rfl

@[simp] theorem Sidebar.writeGrid_notifications (s : Sidebar) (element : Nat) (content : GridContent) :
    (s.writeGrid element content).notifications = s.notifications := by unfold Sidebar.writeGrid; split <;> rfl

@[simp] theorem Sidebar.setGridCall_timer (s : Sidebar) (call : GridCall) :
    (s.setGridCall call).timer = s.timer := rfl

@[simp] theorem Sidebar.setGridCall_cameraTimer (s : Sidebar) (call : GridCall) :
    (s.setGridCall call).cameraTimer = s.cameraTimer := rfl

@[simp] theorem Sidebar.setGridCall_hasRendered (s : Sidebar) (call : GridCall) :
    (s.setGridCall call).hasRendered = s.hasRendered := rfl

@[simp] theorem Sidebar.setGridCall_currentCameraIndex (s : Sidebar) (call : GridCall) :
    (s.setGridCall call).currentCameraIndex = s.currentCameraIndex := rfl

@[simp] theorem Sidebar.setGridCall_cameraEntities (s : Sidebar) (call : GridCall) :
    (s.setGridCall call).cameraEntities = s.cameraEntities := rfl

@[simp] theorem Sidebar.setGridCall_forecastSubscriber (s : Sidebar) (call : GridCall) :
    (s.setGridCall call).forecastSubscriber = s.forecastSubscriber := rfl

@[simp] theorem Sidebar.setGridCall_config (s : Sidebar) (call : GridCall) :
    (s.setGridCall call).config = s.config := rfl

@[simp] theorem Sidebar.setGridCall__hass (s : Sidebar) (call : GridCall) :
    (s.setGridCall call)._hass = s._hass := rfl

@[simp] theorem Sidebar.setGridCall_temperatureEntity (s : Sidebar) (call : GridCall) :
    (s.setGridCall call).temperatureEntity = s.temperatureEntity := rfl

@[simp] theorem Sidebar.setGridCall_weatherEntity (s : Sidebar) (call : GridCall) :
    (s.setGridCall call).weatherEntity = s.weatherEntity := rfl

@[simp] theorem Sidebar.setGridCall_gridEntity (s : Sidebar) (call : GridCall) :
    (s.setGridCall call).gridEntity = s.gridEntity := rfl

@[simp] theorem Sidebar.setGridCall_solarEntity (s : Sidebar) (call : GridCall) :
    (s.setGridCall call).solarEntity = s.solarEntity := rfl

@[simp] theorem Sidebar.setGridCall_homeEntity (s : Sidebar) (call : GridCall) :
    (s.setGridCall call).homeEntity = s.homeEntity := rfl

@[simp] theorem Sidebar.setGridCall_calendarEntity (s : Sidebar) (call : GridCall) :
    (s.setGridCall call).calendarEntity = s.calendarEntity := rfl

@[simp] theorem Sidebar.setGridCall_temperatureTitle (s : Sidebar) (call : GridCall) :
    (s.setGridCall call).temperatureTitle = s.temperatureTitle := rfl

@[simp] theorem Sidebar.setGridCall_customCardConfig (s : Sidebar) (call : GridCall) :
    (s.setGridCall call).customCardConfig = s.customCardConfig := rfl

@[simp] theorem Sidebar.setGridCall_customCardType (s : Sidebar) (call : GridCall) :
    (s.setGridCall call).customCardType = s.customCardType := rfl

@[simp] theorem Sidebar.setGridCall_graphHours (s : Sidebar) (call : GridCall) :
    (s.setGridCall call).graphHours = s.graphHours := rfl

@[simp] theorem Sidebar.setGridCall_sidebarWidth (s : Sidebar) (call : GridCall) :
    (s.setGridCall call).sidebarWidth = s.sidebarWidth := rfl

@[simp] theorem Sidebar.setGridCall_rotationInterval (s : Sidebar) (call : GridCall) :
    (s.setGridCall call).rotationInterval = s.rotationInterval := rfl

@[simp] theorem Sidebar.setGridCall_forecastDays (s : Sidebar) (call : GridCall) :
    (s.setGridCall call).forecastDays = s.forecastDays := rfl

@[simp] theorem Sidebar.setGridCall_val_grid (s : Sidebar) (call : GridCall) :
    (s.setGridCall call).val_grid = s.val_grid := rfl

@[simp] theorem Sidebar.setGridCall_val_solar (s : Sidebar) (call : GridCall) :
    (s.setGridCall call).val_solar = s.val_solar := rfl

@[simp] theorem Sidebar.setGridCall_val_home (s : Sidebar) (call : GridCall) :
    (s.setGridCall call).val_home = s.val_home := rfl

@[simp] theorem Sidebar.setGridCall_forecastGrid (s : Sidebar) (call : GridCall) :
    (s.setGridCall call).forecastGrid = s.forecastGrid := rfl

@[simp] theorem Sidebar.setGridCall_gridGeneration (s : Sidebar) (call : GridCall) :
    (s.setGridCall call).gridGeneration = s.gridGeneration := rfl

@[simp] theorem Sidebar.setGridCall_renderCount (s : Sidebar) (call : GridCall) :
    (s.setGridCall call).renderCount = s.renderCount := rfl

@[simp] theorem Sidebar.setGridCall_updateCount (s : Sidebar) (call : GridCall) :
    (s.setGridCall call).updateCount = s.updateCount := rfl

@[simp] theorem Sidebar.setGridCall_forecastTimeouts (s : Sidebar) (call : GridCall) :
    (s.setGridCall call).forecastTimeouts = s.forecastTimeouts := rfl

@[simp] theorem Sidebar.setGridCall_intervals (s : Sidebar) (call : GridCall) :
    (s.setGridCall call).intervals = s.intervals := rfl

@[simp] theorem Sidebar.setGridCall_nextTimerId (s : Sidebar) (call : GridCall) :
    (s.setGridCall call).nextTimerId = s.nextTimerId := rfl

@[simp] theorem Sidebar.setGridCall_requests (s : Sidebar) (call : GridCall) :
    (s.setGridCall call).requests = s.requests := rfl

@[simp] theorem Sidebar.setGridCall_subscriptions (s : Sidebar) (call : GridCall) :
    (s.setGridCall call).subscriptions = s.subscriptions := rfl

@[simp] theorem Sidebar.setGridCall_released (s : Sidebar) (call : GridCall) :
    (s.setGridCall call).released = s.released := rfl

@[simp] theorem Sidebar.setGridCall_nextRequestId (s : Sidebar) (call : GridCall) :
    (s.setGridCall call).nextRequestId = s.nextRequestId := rfl

@[simp] theorem Sidebar.setGridCall_popups (s : Sidebar) (call : GridCall) :
    (s.setGridCall call).popups = s.popups := rfl

@[simp] theorem Sidebar.setGridCall_apiRequests (s : Sidebar) (call : GridCall) :
    (s.setGridCall call).apiRequests = s.apiRequests := rfl

@[simp] theorem Sidebar.setGridCall_wsRequests (s : Sidebar) (call : GridCall) :
    (s.setGridCall call).wsRequests = s.wsRequests := rfl

@[simp] theorem Sidebar.setGridCall_notifications (s : Sidebar) (call : GridCall) :
    (s.setGridCall call).notifications = s.notifications := rfl

@[simp] theorem Sidebar.showPopup_timer (s : Sidebar) :
    (s.showPopup).timer = s.timer := rfl

@[simp] theorem Sidebar.showPopup_cameraTimer (s : Sidebar) :
    (s.showPopup).cameraTimer = s.cameraTimer := rfl

@[simp] theorem Sidebar.showPopup_hasRendered (s : Sidebar) :
    (s.showPopup).hasRendered = s.hasRendered := rfl

@[simp] theorem Sidebar.showPopup_currentCameraIndex (s : Sidebar) :
    (s.showPopup).currentCameraIndex = s.currentCameraIndex := rfl

@[simp] theorem Sidebar.showPopup_cameraEntities (s : Sidebar) :
    (s.showPopup).cameraEntities = s.cameraEntities := rfl

@[simp] theorem Sidebar.showPopup_forecastSubscriber (s : Sidebar) :
    (s.showPopup).forecastSubscriber = s.forecastSubscriber := rfl

@[simp] theorem Sidebar.showPopup_config (s : Sidebar) :
    (s.showPopup).config = s.config := rfl

@[simp] theorem Sidebar.showPopup__hass (s : Sidebar) :
    (s.showPopup)._hass = s._hass := rfl

@[simp] theorem Sidebar.showPopup_temperatureEntity (s : Sidebar) :
    (s.showPopup).temperatureEntity = s.temperatureEntity := rfl

@[simp] theorem Sidebar.showPopup_weatherEntity (s : Sidebar) :
    (s.showPopup).weatherEntity = s.weatherEntity := rfl

@[simp] theorem Sidebar.showPopup_gridEntity (s : Sidebar) :
    (s.showPopup).gridEntity = s.gridEntity := rfl

@[simp] theorem Sidebar.showPopup_solarEntity (s : Sidebar) :
    (s.showPopup).solarEntity = s.solarEntity := rfl

@[simp] theorem Sidebar.showPopup_homeEntity (s : Sidebar) :
    (s.showPopup).homeEntity = s.homeEntity := rfl

@[simp] theorem Sidebar.showPopup_calendarEntity (s : Sidebar) :
    (s.showPopup).calendarEntity = s.calendarEntity := rfl

@[simp] theorem Sidebar.showPopup_temperatureTitle (s : Sidebar) :
    (s.showPopup).temperatureTitle = s.temperatureTitle := rfl

@[simp] theorem Sidebar.showPopup_customCardConfig (s : Sidebar) :
    (s.showPopup).customCardConfig = s.customCardConfig := rfl

@[simp] theorem Sidebar.showPopup_customCardType (s : Sidebar) :
    (s.showPopup).customCardType = s.customCardType := rfl

@[simp] theorem Sidebar.showPopup_graphHours (s : Sidebar) :
    (s.showPopup).graphHours = s.graphHours := rfl

@[simp] theorem Sidebar.showPopup_sidebarWidth (s : Sidebar) :
    (s.showPopup).sidebarWidth = s.sidebarWidth := rfl

@[simp] theorem Sidebar.showPopup_rotationInterval (s : Sidebar) :
    (s.showPopup).rotationInterval = s.rotationInterval := rfl

@[simp] theorem Sidebar.showPopup_forecastDays (s : Sidebar) :
    (s.showPopup).forecastDays = s.forecastDays := rfl

@[simp] theorem Sidebar.showPopup_val_grid (s : Sidebar) :
    (s.showPopup).val_grid = s.val_grid := rfl

@[simp] theorem Sidebar.showPopup_val_solar (s : Sidebar) :
    (s.showPopup).val_solar = s.val_solar := rfl

@[simp] theorem Sidebar.showPopup_val_home (s : Sidebar) :
    (s.showPopup).val_home = s.val_home := rfl

@[simp] theorem Sidebar.showPopup_forecastGrid (s : Sidebar) :
    (s.showPopup).forecastGrid = s.forecastGrid := rfl

@[simp] theorem Sidebar.showPopup_gridGeneration (s : Sidebar) :
    (s.showPopup).gridGeneration = s.gridGeneration := rfl

@[simp] theorem Sidebar.showPopup_renderCount (s : Sidebar) :
    (s.showPopup).renderCount = s.renderCount := rfl

@[simp] theorem Sidebar.showPopup_updateCount (s : Sidebar) :
    (s.showPopup).updateCount = s.updateCount := rfl

@[simp] theorem Sidebar.showPopup_forecastTimeouts (s : Sidebar) :
    (s.showPopup).forecastTimeouts = s.forecastTimeouts := rfl

@[simp] theorem Sidebar.showPopup_intervals (s : Sidebar) :
    (s.showPopup).intervals = s.intervals := rfl

@[simp] theorem Sidebar.showPopup_nextTimerId (s : Sidebar) :
    (s.showPopup).nextTimerId = s.nextTimerId := rfl

@[simp] theorem Sidebar.showPopup_gridCalls (s : Sidebar) :
    (s.showPopup).gridCalls = s.gridCalls := rfl

@[simp] theorem Sidebar.showPopup_requests (s : Sidebar) :
    (s.showPopup).requests = s.requests := rfl

@[simp] theorem Sidebar.showPopup_subscriptions (s : Sidebar) :
    (s.showPopup).subscriptions = s.subscriptions := rfl

@[simp] theorem Sidebar.showPopup_released (s : Sidebar) :
    (s.showPopup).released = s.released := rfl

@[simp] theorem Sidebar.showPopup_nextRequestId (s : Sidebar) :
    (s.showPopup).nextRequestId = s.nextRequestId := rfl

@[simp] theorem Sidebar.showPopup_apiRequests (s : Sidebar) :
    (s.showPopup).apiRequests = s.apiRequests := rfl

@[simp] theorem Sidebar.showPopup_wsRequests (s : Sidebar) :
    (s.showPopup).wsRequests = s.wsRequests := rfl

@[simp] theorem Sidebar.showPopup_notifications (s : Sidebar) :
    (s.showPopup).notifications = s.notifications := rfl

@[simp] theorem Sidebar.closePopup_timer (s : Sidebar) :
    (s.closePopup).timer = s.timer := rfl

@[simp] theorem Sidebar.closePopup_cameraTimer (s : Sidebar) :
    (s.closePopup).cameraTimer = s.cameraTimer := rfl

@[simp] theorem Sidebar.closePopup_hasRendered (s : Sidebar) :
    (s.closePopup).hasRendered = s.hasRendered := rfl

@[simp] theorem Sidebar.closePopup_currentCameraIndex (s : Sidebar) :
    (s.closePopup).currentCameraIndex = s.currentCameraIndex := rfl

@[simp] theorem Sidebar.closePopup_cameraEntities (s : Sidebar) :
    (s.closePopup).cameraEntities = s.cameraEntities := rfl

@[simp] theorem Sidebar.closePopup_forecastSubscriber (s : Sidebar) :
    (s.closePopup).forecastSubscriber = s.forecastSubscriber := rfl

@[simp] theorem Sidebar.closePopup_config (s : Sidebar) :
    (s.closePopup).config = s.config := rfl

@[simp] theorem Sidebar.closePopup__hass (s : Sidebar) :
    (s.closePopup)._hass = s._hass := rfl

@[simp] theorem Sidebar.closePopup_temperatureEntity (s : Sidebar) :
    (s.closePopup).temperatureEntity = s.temperatureEntity := rfl

@[simp] theorem Sidebar.closePopup_weatherEntity (s : Sidebar) :
    (s.closePopup).weatherEntity = s.weatherEntity := rfl

@[simp] theorem Sidebar.closePopup_gridEntity (s : Sidebar) :
    (s.closePopup).gridEntity = s.gridEntity := rfl

@[simp] theorem Sidebar.closePopup_solarEntity (s : Sidebar) :
    (s.closePopup).solarEntity = s.solarEntity := rfl

@[simp] theorem Sidebar.closePopup_homeEntity (s : Sidebar) :
    (s.closePopup).homeEntity = s.homeEntity := rfl

@[simp] theorem Sidebar.closePopup_calendarEntity (s : Sidebar) :
    (s.closePopup).calendarEntity = s.calendarEntity := rfl

@[simp] theorem Sidebar.closePopup_temperatureTitle (s : Sidebar) :
    (s.closePopup).temperatureTitle = s.temperatureTitle := rfl

@[simp] theorem Sidebar.closePopup_customCardConfig (s : Sidebar) :
    (s.closePopup).customCardConfig = s.customCardConfig := rfl

@[simp] theorem Sidebar.closePopup_customCardType (s : Sidebar) :
    (s.closePopup).customCardType = s.customCardType := rfl

@[simp] theorem Sidebar.closePopup_graphHours (s : Sidebar) :
    (s.closePopup).graphHours = s.graphHours := rfl

@[simp] theorem Sidebar.closePopup_sidebarWidth (s : Sidebar) :
    (s.closePopup).sidebarWidth = s.sidebarWidth := rfl

@[simp] theorem Sidebar.closePopup_rotationInterval (s : Sidebar) :
    (s.closePopup).rotationInterval = s.rotationInterval := rfl

@[simp] theorem Sidebar.closePopup_forecastDays (s : Sidebar) :
    (s.closePopup).forecastDays = s.forecastDays := rfl

@[simp] theorem Sidebar.closePopup_val_grid (s : Sidebar) :
    (s.closePopup).val_grid = s.val_grid := rfl

@[simp] theorem Sidebar.closePopup_val_solar (s : Sidebar) :
    (s.closePopup).val_solar = s.val_solar := rfl

@[simp] theorem Sidebar.closePopup_val_home (s : Sidebar) :
    (s.closePopup).val_home = s.val_home := rfl

@[simp] theorem Sidebar.closePopup_forecastGrid (s : Sidebar) :
    (s.closePopup).forecastGrid = s.forecastGrid := rfl

@[simp] theorem Sidebar.closePopup_gridGeneration (s : Sidebar) :
    (s.closePopup).gridGeneration = s.gridGeneration := rfl

@[simp] theorem Sidebar.closePopup_renderCount (s : Sidebar) :
    (s.closePopup).renderCount = s.renderCount := rfl

@[simp] theorem Sidebar.closePopup_updateCount (s : Sidebar) :
    (s.closePopup).updateCount = s.updateCount := rfl

@[simp] theorem Sidebar.closePopup_forecastTimeouts (s : Sidebar) :
    (s.closePopup).forecastTimeouts = s.forecastTimeouts := rfl

@[simp] theorem Sidebar.closePopup_intervals (s : Sidebar) :
    (s.closePopup).intervals = s.intervals := rfl

@[simp] theorem Sidebar.closePopup_nextTimerId (s : Sidebar) :
    (s.closePopup).nextTimerId = s.nextTimerId := rfl

@[simp] theorem Sidebar.closePopup_gridCalls (s : Sidebar) :
    (s.closePopup).gridCalls = s.gridCalls := rfl

@[simp] theorem Sidebar.closePopup_requests (s : Sidebar) :
    (s.closePopup).requests = s.requests := rfl

@[simp] theorem Sidebar.closePopup_subscriptions (s : Sidebar) :
    (s.closePopup).subscriptions = s.subscriptions := rfl

@[simp] theorem Sidebar.closePopup_released (s : Sidebar) :
    (s.closePopup).released = s.released := rfl

@[simp] theorem Sidebar.closePopup_nextRequestId (s : Sidebar) :
    (s.closePopup).nextRequestId = s.nextRequestId := rfl

@[simp] theorem Sidebar.closePopup_apiRequests (s : Sidebar) :
    (s.closePopup).apiRequests = s.apiRequests := rfl

@[simp] theorem Sidebar.closePopup_wsRequests (s : Sidebar) :
    (s.closePopup).wsRequests = s.wsRequests := rfl

@[simp] theorem Sidebar.closePopup_notifications (s : Sidebar) :
    (s.closePopup).notifications = s.notifications := rfl

@[simp] theorem Sidebar.clickSubscribeFailed_timer (s : Sidebar) (request : Nat) :
    (s.clickSubscribeFailed request).timer = s.timer := rfl

@[simp] theorem Sidebar.clickSubscribeFailed_cameraTimer (s : Sidebar) (request : Nat) :
    (s.clickSubscribeFailed request).cameraTimer = s.cameraTimer := rfl

@[simp] theorem Sidebar.clickSubscribeFailed_hasRendered (s : Sidebar) (request : Nat) :
    (s.clickSubscribeFailed request).hasRendered = s.hasRendered := rfl

@[simp] theorem Sidebar.clickSubscribeFailed_currentCameraIndex (s : Sidebar) (request : Nat) :
    (s.clickSubscribeFailed request).currentCameraIndex = s.currentCameraIndex := rfl

@[simp] theorem Sidebar.clickSubscribeFailed_cameraEntities (s : Sidebar) (request : Nat) :
    (s.clickSubscribeFailed request).cameraEntities = s.cameraEntities := rfl

@[simp] theorem Sidebar.clickSubscribeFailed_forecastSubscriber (s : Sidebar) (request : Nat) :
    (s.clickSubscribeFailed request).forecastSubscriber = s.forecastSubscriber := rfl

@[simp] theorem Sidebar.clickSubscribeFailed_config (s : Sidebar) (request : Nat) :
    (s.clickSubscribeFailed request).config = s.config := rfl

@[simp] theorem Sidebar.clickSubscribeFailed__hass (s : Sidebar) (request : Nat) :
    (s.clickSubscribeFailed request)._hass = s._hass := rfl

@[simp] theorem Sidebar.clickSubscribeFailed_temperatureEntity (s : Sidebar) (request : Nat) :
    (s.clickSubscribeFailed request).temperatureEntity = s.temperatureEntity := rfl

@[simp] theorem Sidebar.clickSubscribeFailed_weatherEntity (s : Sidebar) (request : Nat) :
    (s.clickSubscribeFailed request).weatherEntity = s.weatherEntity := rfl

@[simp] theorem Sidebar.clickSubscribeFailed_gridEntity (s : Sidebar) (request : Nat) :
    (s.clickSubscribeFailed request).gridEntity = s.gridEntity := rfl

@[simp] theorem Sidebar.clickSubscribeFailed_solarEntity (s : Sidebar) (request : Nat) :
    (s.clickSubscribeFailed request).solarEntity = s.solarEntity := rfl

@[simp] theorem Sidebar.clickSubscribeFailed_homeEntity (s : Sidebar) (request : Nat) :
    (s.clickSubscribeFailed request).homeEntity = s.homeEntity := rfl

@[simp] theorem Sidebar.clickSubscribeFailed_calendarEntity (s : Sidebar) (request : Nat) :
    (s.clickSubscribeFailed request).calendarEntity = s.calendarEntity := rfl

@[simp] theorem Sidebar.clickSubscribeFailed_temperatureTitle (s : Sidebar) (request : Nat) :
    (s.clickSubscribeFailed request).temperatureTitle = s.temperatureTitle := rfl

@[simp] theorem Sidebar.clickSubscribeFailed_customCardConfig (s : Sidebar) (request : Nat) :
    (s.clickSubscribeFailed request).customCardConfig = s.customCardConfig := rfl

@[simp] theorem Sidebar.clickSubscribeFailed_customCardType (s : Sidebar) (request : Nat) :
    (s.clickSubscribeFailed request).customCardType = s.customCardType := rfl

@[simp] theorem Sidebar.clickSubscribeFailed_graphHours (s : Sidebar) (request : Nat) :
    (s.clickSubscribeFailed request).graphHours = s.graphHours := rfl

@[simp] theorem Sidebar.clickSubscribeFailed_sidebarWidth (s : Sidebar) (request : Nat) :
    (s.clickSubscribeFailed request).sidebarWidth = s.sidebarWidth := rfl

@[simp] theorem Sidebar.clickSubscribeFailed_rotationInterval (s : Sidebar) (request : Nat) :
    (s.clickSubscribeFailed request).rotationInterval = s.rotationInterval := rfl

@[simp] theorem Sidebar.clickSubscribeFailed_forecastDays (s : Sidebar) (request : Nat) :
    (s.clickSubscribeFailed request).forecastDays = s.forecastDays := rfl

@[simp] theorem Sidebar.clickSubscribeFailed_val_grid (s : Sidebar) (request : Nat) :
    (s.clickSubscribeFailed request).val_grid = s.val_grid := rfl

@[simp] theorem Sidebar.clickSubscribeFailed_val_solar (s : Sidebar) (request : Nat) :
    (s.clickSubscribeFailed request).val_solar = s.val_solar := rfl

@[simp] theorem Sidebar.clickSubscribeFailed_val_home (s : Sidebar) (request : Nat) :
    (s.clickSubscribeFailed request).val_home = s.val_home := rfl

@[simp] theorem Sidebar.clickSubscribeFailed_forecastGrid (s : Sidebar) (request : Nat) :
    (s.clickSubscribeFailed request).forecastGrid = s.forecastGrid := rfl

@[simp] theorem Sidebar.clickSubscribeFailed_gridGeneration (s : Sidebar) (request : Nat) :
    (s.clickSubscribeFailed request).gridGeneration = s.gridGeneration := rfl

@[simp] theorem Sidebar.clickSubscribeFailed_renderCount (s : Sidebar) (request : Nat) :
    (s.clickSubscribeFailed request).renderCount = s.renderCount := rfl

@[simp] theorem Sidebar.clickSubscribeFailed_updateCount (s : Sidebar) (request : Nat) :
    (s.clickSubscribeFailed request).updateCount = s.updateCount := rfl

@[simp] theorem Sidebar.clickSubscribeFailed_forecastTimeouts (s : Sidebar) (request : Nat) :
    (s.clickSubscribeFailed request).forecastTimeouts = s.forecastTimeouts := rfl

@[simp] theorem Sidebar.clickSubscribeFailed_intervals (s : Sidebar) (request : Nat) :
    (s.clickSubscribeFailed request).intervals = s.intervals := rfl

@[simp] theorem Sidebar.clickSubscribeFailed_nextTimerId (s : Sidebar) (request : Nat) :
    (s.clickSubscribeFailed request).nextTimerId = s.nextTimerId := rfl

@[simp] theorem Sidebar.clickSubscribeFailed_gridCalls (s : Sidebar) (request : Nat) :
    (s.clickSubscribeFailed request).gridCalls = s.gridCalls := rfl

@[simp] theorem Sidebar.clickSubscribeFailed_subscriptions (s : Sidebar) (request : Nat) :
    (s.clickSubscribeFailed request).subscriptions = s.subscriptions := rfl

@[simp] theorem Sidebar.clickSubscribeFailed_released (s : Sidebar) (request : Nat) :
    (s.clickSubscribeFailed request).released = s.released := rfl

@[simp] theorem Sidebar.clickSubscribeFailed_nextRequestId (s : Sidebar) (request : Nat) :
    (s.clickSubscribeFailed request).nextRequestId = s.nextRequestId := rfl

@[simp] theorem Sidebar.clickSubscribeFailed_popups (s : Sidebar) (request : Nat) :
    (s.clickSubscribeFailed request).popups = s.popups := rfl

@[simp] theorem Sidebar.clickSubscribeFailed_apiRequests (s : Sidebar) (request : Nat) :
    (s.clickSubscribeFailed request).apiRequests = s.apiRequests := rfl

@[simp] theorem Sidebar.clickSubscribeFailed_wsRequests (s : Sidebar) (request : Nat) :
    (s.clickSubscribeFailed request).wsRequests = s.wsRequests := rfl

@[simp] theorem Sidebar.clickSubscribeFailed_notifications (s : Sidebar) (request : Nat) :
    (s.clickSubscribeFailed request).notifications = s.notifications := rfl

@[simp] theorem Sidebar.clickSubscribed_timer (s : Sidebar) (request : Nat) :
    (s.clickSubscribed request).timer = s.timer := by unfold Sidebar.clickSubscribed; split <;> rfl

@[simp] theorem Sidebar.clickSubscribed_cameraTimer (s : Sidebar) (request : Nat) :
    (s.clickSubscribed request).cameraTimer = s.cameraTimer := by unfold Sidebar.clickSubscribed; split <;> rfl

@[simp] theorem Sidebar.clickSubscribed_hasRendered (s : Sidebar) (request : Nat) :
    (s.clickSubscribed request).hasRendered = s.hasRendered := by unfold Sidebar.clickSubscribed; split <;> rfl

@[simp] theorem Sidebar.clickSubscribed_currentCameraIndex (s : Sidebar) (request : Nat) :
    (s.clickSubscribed request).currentCameraIndex = s.currentCameraIndex := by unfold Sidebar.clickSubscribed; split <;> rfl

@[simp] theorem Sidebar.clickSubscribed_cameraEntities (s : Sidebar) (request : Nat) :
    (s.clickSubscribed request).cameraEntities = s.cameraEntities := by unfold Sidebar.clickSubscribed; split <;> rfl

@[simp] theorem Sidebar.clickSubscribed_forecastSubscriber (s : Sidebar) (request : Nat) :
    (s.clickSubscribed request).forecastSubscriber = s.forecastSubscriber := by unfold Sidebar.clickSubscribed; split <;> rfl

@[simp] theorem Sidebar.clickSubscribed_config (s : Sidebar) (request : Nat) :
    (s.clickSubscribed request).config = s.config := by unfold Sidebar.clickSubscribed; split <;> rfl

@[simp] theorem Sidebar.clickSubscribed__hass (s : Sidebar) (request : Nat) :
    (s.clickSubscribed request)._hass = s._hass := by unfold Sidebar.clickSubscribed; split <;> rfl

@[simp] theorem Sidebar.clickSubscribed_temperatureEntity (s : Sidebar) (request : Nat) :
    (s.clickSubscribed request).temperatureEntity = s.temperatureEntity := by unfold Sidebar.clickSubscribed; split <;> rfl

@[simp] theorem Sidebar.clickSubscribed_weatherEntity (s : Sidebar) (request : Nat) :
    (s.clickSubscribed request).weatherEntity = s.weatherEntity := by unfold Sidebar.clickSubscribed; split <;> rfl

@[simp] theorem Sidebar.clickSubscribed_gridEntity (s : Sidebar) (request : Nat) :
    (s.clickSubscribed request).gridEntity = s.gridEntity := by unfold Sidebar.clickSubscribed; split <;> rfl

@[simp] theorem Sidebar.clickSubscribed_solarEntity (s : Sidebar) (request : Nat) :
    (s.clickSubscribed request).solarEntity = s.solarEntity := by unfold Sidebar.clickSubscribed; split <;> rfl

@[simp] theorem Sidebar.clickSubscribed_homeEntity (s : Sidebar) (request : Nat) :
    (s.clickSubscribed request).homeEntity = s.homeEntity := by unfold Sidebar.clickSubscribed; split <;> rfl

@[simp] theorem Sidebar.clickSubscribed_calendarEntity (s : Sidebar) (request : Nat) :
    (s.clickSubscribed request).calendarEntity = s.calendarEntity := by unfold Sidebar.clickSubscribed; split <;> rfl

@[simp] theorem Sidebar.clickSubscribed_temperatureTitle (s : Sidebar) (request : Nat) :
    (s.clickSubscribed request).temperatureTitle = s.temperatureTitle := by unfold Sidebar.clickSubscribed; split <;> rfl

@[simp] theorem Sidebar.clickSubscribed_customCardConfig (s : Sidebar) (request : Nat) :
    (s.clickSubscribed request).customCardConfig = s.customCardConfig := by unfold Sidebar.clickSubscribed; split <;> rfl

@[simp] theorem Sidebar.clickSubscribed_customCardType (s : Sidebar) (request : Nat) :
    (s.clickSubscribed request).customCardType = s.customCardType := by unfold Sidebar.clickSubscribed; split <;> rfl

@[simp] theorem Sidebar.clickSubscribed_graphHours (s : Sidebar) (request : Nat) :
    (s.clickSubscribed request).graphHours = s.graphHours := by unfold Sidebar.clickSubscribed; split <;> rfl

@[simp] theorem Sidebar.clickSubscribed_sidebarWidth (s : Sidebar) (request : Nat) :
    (s.clickSubscribed request).sidebarWidth = s.sidebarWidth := by unfold Sidebar.clickSubscribed; split <;> rfl

@[simp] theorem Sidebar.clickSubscribed_rotationInterval (s : Sidebar) (request : Nat) :
    (s.clickSubscribed request).rotationInterval = s.rotationInterval := by unfold Sidebar.clickSubscribed; split <;> rfl

@[simp] theorem Sidebar.clickSubscribed_forecastDays (s : Sidebar) (request : Nat) :
    (s.clickSubscribed request).forecastDays = s.forecastDays := by unfold Sidebar.clickSubscribed; split <;> rfl

@[simp] theorem Sidebar.clickSubscribed_val_grid (s : Sidebar) (request : Nat) :
    (s.clickSubscribed request).val_grid = s.val_grid := by unfold Sidebar.clickSubscribed; split <;> rfl

@[simp] theorem Sidebar.clickSubscribed_val_solar (s : Sidebar) (request : Nat) :
    (s.clickSubscribed request).val_solar = s.val_solar := by unfold Sidebar.clickSubscribed; split <;> rfl

@[simp] theorem Sidebar.clickSubscribed_val_home (s : Sidebar) (request : Nat) :
    (s.clickSubscribed request).val_home = s.val_home := by unfold Sidebar.clickSubscribed; split <;> rfl

@[simp] theorem Sidebar.clickSubscribed_forecastGrid (s : Sidebar) (request : Nat) :
    (s.clickSubscribed request).forecastGrid = s.forecastGrid := by unfold Sidebar.clickSubscribed; split <;> rfl

@[simp] theorem Sidebar.clickSubscribed_gridGeneration (s : Sidebar) (request : Nat) :
    (s.clickSubscribed request).gridGeneration = s.gridGeneration := by unfold Sidebar.clickSubscribed; split <;> rfl

@[simp] theorem Sidebar.clickSubscribed_renderCount (s : Sidebar) (request : Nat) :
    (s.clickSubscribed request).renderCount = s.renderCount := by unfold Sidebar.clickSubscribed; split <;> rfl

@[simp] theorem Sidebar.clickSubscribed_updateCount (s : Sidebar) (request : Nat) :
    (s.clickSubscribed request).updateCount = s.updateCount := by unfold Sidebar.clickSubscribed; split <;> rfl

@[simp] theorem Sidebar.clickSubscribed_forecastTimeouts (s : Sidebar) (request : Nat) :
    (s.clickSubscribed request).forecastTimeouts = s.forecastTimeouts := by unfold Sidebar.clickSubscribed; split <;> rfl

@[simp] theorem Sidebar.clickSubscribed_intervals (s : Sidebar) (request : Nat) :
    (s.clickSubscribed request).intervals = s.intervals := by unfold Sidebar.clickSubscribed; split <;> rfl

@[simp] theorem Sidebar.clickSubscribed_nextTimerId (s : Sidebar) (request : Nat) :
    (s.clickSubscribed request).nextTimerId = s.nextTimerId := by unfold Sidebar.clickSubscribed; split <;> rfl

@[simp] theorem Sidebar.clickSubscribed_gridCalls (s : Sidebar) (request : Nat) :
    (s.clickSubscribed request).gridCalls = s.gridCalls := by unfold Sidebar.clickSubscribed; split <;> rfl

@[simp] theorem Sidebar.clickSubscribed_released (s : Sidebar) (request : Nat) :
    (s.clickSubscribed request).released = s.released := by unfold Sidebar.clickSubscribed; split <;> rfl

@[simp] theorem Sidebar.clickSubscribed_nextRequestId (s : Sidebar) (request : Nat) :
    (s.clickSubscribed request).nextRequestId = s.nextRequestId := by unfold Sidebar.clickSubscribed; split <;> rfl

@[simp] theorem Sidebar.clickSubscribed_popups (s : Sidebar) (request : Nat) :
    (s.clickSubscribed request).popups = s.popups := by unfold Sidebar.clickSubscribed; split <;> rfl

@[simp] theorem Sidebar.clickSubscribed_apiRequests (s : Sidebar) (request : Nat) :
    (s.clickSubscribed request).apiRequests = s.apiRequests := by unfold Sidebar.clickSubscribed; split <;> rfl

@[simp] theorem Sidebar.clickSubscribed_wsRequests (s : Sidebar) (request : Nat) :
    (s.clickSubscribed request).wsRequests = s.wsRequests := by unfold Sidebar.clickSubscribed; split <;> rfl

@[simp] theorem Sidebar.clickSubscribed_notifications (s : Sidebar) (request : Nat) :
    (s.clickSubscribed request).notifications = s.notifications := by unfold Sidebar.clickSubscribed; split <;> rfl

@[simp] theorem Sidebar.afterRender_currentCameraIndex (s : Sidebar) :
    (s.afterRender).currentCameraIndex = s.currentCameraIndex := by simp [Sidebar.afterRender]

@[simp] theorem Sidebar.afterRender_cameraEntities (s : Sidebar) :
    (s.afterRender).cameraEntities = s.cameraEntities := by simp [Sidebar.afterRender]

@[simp] theorem Sidebar.afterRender_forecastSubscriber (s : Sidebar) :
    (s.afterRender).forecastSubscriber = s.forecastSubscriber := by simp [Sidebar.afterRender]

@[simp] theorem Sidebar.afterRender_config (s : Sidebar) :
    (s.afterRender).config = s.config := by simp [Sidebar.afterRender]

@[simp] theorem Sidebar.afterRender__hass (s : Sidebar) :
    (s.afterRender)._hass = s._hass := by simp [Sidebar.afterRender]

@[simp] theorem Sidebar.afterRender_temperatureEntity (s : Sidebar) :
    (s.afterRender).temperatureEntity = s.temperatureEntity := by simp [Sidebar.afterRender]

@[simp] theorem Sidebar.afterRender_weatherEntity (s : Sidebar) :
    (s.afterRender).weatherEntity = s.weatherEntity := by simp [Sidebar.afterRender]

@[simp] theorem Sidebar.afterRender_gridEntity (s : Sidebar) :
    (s.afterRender).gridEntity = s.gridEntity := by simp [Sidebar.afterRender]

@[simp] theorem Sidebar.afterRender_solarEntity (s : Sidebar) :
    (s.afterRender).solarEntity = s.solarEntity := by simp [Sidebar.afterRender]

@[simp] theorem Sidebar.afterRender_homeEntity (s : Sidebar) :
    (s.afterRender).homeEntity = s.homeEntity := by simp [Sidebar.afterRender]

@[simp] theorem Sidebar.afterRender_calendarEntity (s : Sidebar) :
    (s.afterRender).calendarEntity = s.calendarEntity := by simp [Sidebar.afterRender]

@[simp] theorem Sidebar.afterRender_temperatureTitle (s : Sidebar) :
    (s.afterRender).temperatureTitle = s.temperatureTitle := by simp [Sidebar.afterRender]

@[simp] theorem Sidebar.afterRender_customCardConfig (s : Sidebar) :
    (s.afterRender).customCardConfig = s.customCardConfig := by simp [Sidebar.afterRender]

@[simp] theorem Sidebar.afterRender_customCardType (s : Sidebar) :
    (s.afterRender).customCardType = s.customCardType := by simp [Sidebar.afterRender]

@[simp] theorem Sidebar.afterRender_graphHours (s : Sidebar) :
    (s.afterRender).graphHours = s.graphHours := by simp [Sidebar.afterRender]

@[simp] theorem Sidebar.afterRender_sidebarWidth (s : Sidebar) :
    (s.afterRender).sidebarWidth = s.sidebarWidth := by simp [Sidebar.afterRender]

@[simp] theorem Sidebar.afterRender_rotationInterval (s : Sidebar) :
    (s.afterRender).rotationInterval = s.rotationInterval := by simp [Sidebar.afterRender]

@[simp] theorem Sidebar.afterRender_forecastDays (s : Sidebar) :
    (s.afterRender).forecastDays = s.forecastDays := by simp [Sidebar.afterRender]

@[simp] theorem Sidebar.afterRender_val_grid (s : Sidebar) :
    (s.afterRender).val_grid = s.val_grid := by simp [Sidebar.afterRender]

@[simp] theorem Sidebar.afterRender_val_solar (s : Sidebar) :
    (s.afterRender).val_solar = s.val_solar := by simp [Sidebar.afterRender]

@[simp] theorem Sidebar.afterRender_val_home (s : Sidebar) :
    (s.afterRender).val_home = s.val_home := by simp [Sidebar.afterRender]

@[simp] theorem Sidebar.afterRender_forecastGrid (s : Sidebar) :
    (s.afterRender).forecastGrid = s.forecastGrid := by simp [Sidebar.afterRender]

@[simp] theorem Sidebar.afterRender_gridGeneration (s : Sidebar) :
    (s.afterRender).gridGeneration = s.gridGeneration := by simp [Sidebar.afterRender]

@[simp] theorem Sidebar.afterRender_renderCount (s : Sidebar) :
    (s.afterRender).renderCount = s.renderCount := by simp [Sidebar.afterRender]

@[simp] theorem Sidebar.afterRender_updateCount (s : Sidebar) :
    (s.afterRender).updateCount = s.updateCount := by simp [Sidebar.afterRender]

@[simp] theorem Sidebar.afterRender_forecastTimeouts (s : Sidebar) :
    (s.afterRender).forecastTimeouts = s.forecastTimeouts := by simp [Sidebar.afterRender]

@[simp] theorem Sidebar.afterRender_gridCalls (s : Sidebar) :
    (s.afterRender).gridCalls = s.gridCalls := by simp [Sidebar.afterRender]

@[simp] theorem Sidebar.afterRender_requests (s : Sidebar) :
    (s.afterRender).requests = s.requests := by simp [Sidebar.afterRender]

@[simp] theorem Sidebar.afterRender_subscriptions (s : Sidebar) :
    (s.afterRender).subscriptions = s.subscriptions := by simp [Sidebar.afterRender]

@[simp] theorem Sidebar.afterRender_released (s : Sidebar) :
    (s.afterRender).released = s.released := by simp [Sidebar.afterRender]

@[simp] theorem Sidebar.afterRender_nextRequestId (s : Sidebar) :
    (s.afterRender).nextRequestId = s.nextRequestId := by simp [Sidebar.afterRender]

@[simp] theorem Sidebar.afterRender_popups (s : Sidebar) :
    (s.afterRender).popups = s.popups := by simp [Sidebar.afterRender]

@[simp] theorem Sidebar.afterRender_apiRequests (s : Sidebar) :
    (s.afterRender).apiRequests = s.apiRequests := by simp [Sidebar.afterRender]

@[simp] theorem Sidebar.afterRender_wsRequests (s : Sidebar) :
    (s.afterRender).wsRequests = s.wsRequests := by simp [Sidebar.afterRender]

@[simp] theorem Sidebar.afterRender_notifications (s : Sidebar) :
    (s.afterRender).notifications = s.notifications := by simp [Sidebar.afterRender]

@[simp] theorem Sidebar.showForecast_timer (s : Sidebar) (element : Nat) (forecast : List ForecastEntry) :
    (s.showForecast element forecast).timer = s.timer := by unfold Sidebar.showForecast; split <;> simp

@[simp] theorem Sidebar.showForecast_cameraTimer (s : Sidebar) (element : Nat) (forecast : List ForecastEntry) :
    (s.showForecast element forecast).cameraTimer = s.cameraTimer := by unfold Sidebar.showForecast; split <;> simp

@[simp] theorem Sidebar.showForecast_hasRendered (s : Sidebar) (element : Nat) (forecast : List ForecastEntry) :
    (s.showForecast element forecast).hasRendered = s.hasRendered := by unfold Sidebar.showForecast; split <;> simp

@[simp] theorem Sidebar.showForecast_currentCameraIndex (s : Sidebar) (element : Nat) (forecast : List ForecastEntry) :
    (s.showForecast element forecast).currentCameraIndex = s.currentCameraIndex := by unfold Sidebar.showForecast; split <;> simp

@[simp] theorem Sidebar.showForecast_cameraEntities (s : Sidebar) (element : Nat) (forecast : List ForecastEntry) :
    (s.showForecast element forecast).cameraEntities = s.cameraEntities := by unfold Sidebar.showForecast; split <;> simp

@[simp] theorem Sidebar.showForecast_forecastSubscriber (s : Sidebar) (element : Nat) (forecast : List ForecastEntry) :
    (s.showForecast element forecast).forecastSubscriber = s.forecastSubscriber := by unfold Sidebar.showForecast; split <;> simp

@[simp] theorem Sidebar.showForecast_config (s : Sidebar) (element : Nat) (forecast : List ForecastEntry) :
    (s.showForecast element forecast).config = s.config := by unfold Sidebar.showForecast; split <;> simp

@[simp] theorem Sidebar.showForecast__hass (s : Sidebar) (element : Nat) (forecast : List ForecastEntry) :
    (s.showForecast element forecast)._hass = s._hass := by unfold Sidebar.showForecast; split <;> simp

@[simp] theorem Sidebar.showForecast_temperatureEntity (s : Sidebar) (element : Nat) (forecast : List ForecastEntry) :
    (s.showForecast element forecast).temperatureEntity = s.temperatureEntity := by unfold Sidebar.showForecast; split <;> simp

@[simp] theorem Sidebar.showForecast_weatherEntity (s : Sidebar) (element : Nat) (forecast : List ForecastEntry) :
    (s.showForecast element forecast).weatherEntity = s.weatherEntity := by unfold Sidebar.showForecast; split <;> simp

@[simp] theorem Sidebar.showForecast_gridEntity (s : Sidebar) (element : Nat) (forecast : List ForecastEntry) :
    (s.showForecast element forecast).gridEntity = s.gridEntity := by unfold Sidebar.showForecast; split <;> simp

@[simp] theorem Sidebar.showForecast_solarEntity (s : Sidebar) (element : Nat) (forecast : List ForecastEntry) :
    (s.showForecast element forecast).solarEntity = s.solarEntity := by unfold Sidebar.showForecast; split <;> simp

@[simp] theorem Sidebar.showForecast_homeEntity (s : Sidebar) (element : Nat) (forecast : List ForecastEntry) :
    (s.showForecast element forecast).homeEntity = s.homeEntity := by unfold Sidebar.showForecast; split <;> simp

@[simp] theorem Sidebar.showForecast_calendarEntity (s : Sidebar) (element : Nat) (forecast : List ForecastEntry) :
    (s.showForecast element forecast).calendarEntity = s.calendarEntity := by unfold Sidebar.showForecast; split <;> simp

@[simp] theorem Sidebar.showForecast_temperatureTitle (s : Sidebar) (element : Nat) (forecast : List ForecastEntry) :
    (s.showForecast element forecast).temperatureTitle = s.temperatureTitle := by unfold Sidebar.showForecast; split <;> simp

@[simp] theorem Sidebar.showForecast_customCardConfig (s : Sidebar) (element : Nat) (forecast : List ForecastEntry) :
    (s.showForecast element forecast).customCardConfig = s.customCardConfig := by unfold Sidebar.showForecast; split <;> simp

@[simp] theorem Sidebar.showForecast_customCardType (s : Sidebar) (element : Nat) (forecast : List ForecastEntry) :
    (s.showForecast element forecast).customCardType = s.customCardType := by unfold Sidebar.showForecast; split <;> simp

@[simp] theorem Sidebar.showForecast_graphHours (s : Sidebar) (element : Nat) (forecast : List ForecastEntry) :
    (s.showForecast element forecast).graphHours = s.graphHours := by unfold Sidebar.showForecast; split <;> simp

@[simp] theorem Sidebar.showForecast_sidebarWidth (s : Sidebar) (element : Nat) (forecast : List ForecastEntry) :
    (s.showForecast element forecast).sidebarWidth = s.sidebarWidth := by unfold Sidebar.showForecast; split <;> simp

@[simp] theorem Sidebar.showForecast_rotationInterval (s : Sidebar) (element : Nat) (forecast : List ForecastEntry) :
    (s.showForecast element forecast).rotationInterval = s.rotationInterval := by unfold Sidebar.showForecast; split <;> simp

@[simp] theorem Sidebar.showForecast_forecastDays (s : Sidebar) (element : Nat) (forecast : List ForecastEntry) :
    (s.showForecast element forecast).forecastDays = s.forecastDays := by unfold Sidebar.showForecast; split <;> simp

@[simp] theorem Sidebar.showForecast_val_grid (s : Sidebar) (element : Nat) (forecast : List ForecastEntry) :
    (s.showForecast element forecast).val_grid = s.val_grid := by unfold Sidebar.showForecast; split <;> simp

@[simp] theorem Sidebar.showForecast_val_solar (s : Sidebar) (element : Nat) (forecast : List ForecastEntry) :
    (s.showForecast element forecast).val_solar = s.val_solar := by unfold Sidebar.showForecast; split <;> simp

@[simp] theorem Sidebar.showForecast_val_home (s : Sidebar) (element : Nat) (forecast : List ForecastEntry) :
    (s.showForecast element forecast).val_home = s.val_home := by unfold Sidebar.showForecast; split <;> simp

@[simp] theorem Sidebar.showForecast_gridGeneration (s : Sidebar) (element : Nat) (forecast : List ForecastEntry) :
    (s.showForecast element forecast).gridGeneration = s.gridGeneration := by unfold Sidebar.showForecast; split <;> simp

@[simp] theorem Sidebar.showForecast_renderCount (s : Sidebar) (element : Nat) (forecast : List ForecastEntry) :
    (s.showForecast element forecast).renderCount = s.renderCount := by unfold Sidebar.showForecast; split <;> simp

@[simp] theorem Sidebar.showForecast_updateCount (s : Sidebar) (element : Nat) (forecast : List ForecastEntry) :
    (s.showForecast element forecast).updateCount = s.updateCount := by unfold Sidebar.showForecast; split <;> simp

@[simp] theorem Sidebar.showForecast_forecastTimeouts (s : Sidebar) (element : Nat) (forecast : List ForecastEntry) :
    (s.showForecast element forecast).forecastTimeouts = s.forecastTimeouts := by unfold Sidebar.showForecast; split <;> simp

@[simp] theorem Sidebar.showForecast_intervals (s : Sidebar) (element : Nat) (forecast : List ForecastEntry) :
    (s.showForecast element forecast).intervals = s.intervals := by unfold Sidebar.showForecast; split <;> simp

@[simp] theorem Sidebar.showForecast_nextTimerId (s : Sidebar) (element : Nat) (forecast : List ForecastEntry) :
    (s.showForecast element forecast).nextTimerId = s.nextTimerId := by unfold Sidebar.showForecast; split <;> simp

@[simp] theorem Sidebar.showForecast_gridCalls (s : Sidebar) (element : Nat) (forecast : List ForecastEntry) :
    (s.showForecast element forecast).gridCalls = s.gridCalls := by unfold Sidebar.showForecast; split <;> simp

@[simp] theorem Sidebar.showForecast_requests (s : Sidebar) (element : Nat) (forecast : List ForecastEntry) :
    (s.showForecast element forecast).requests = s.requests := by unfold Sidebar.showForecast; split <;> simp

@[simp] theorem Sidebar.showForecast_subscriptions (s : Sidebar) (element : Nat) (forecast : List ForecastEntry) :
    (s.showForecast element forecast).subscriptions = s.subscriptions := by unfold Sidebar.showForecast; split <;> simp

@[simp] theorem Sidebar.showForecast_released (s : Sidebar) (element : Nat) (forecast : List ForecastEntry) :
    (s.showForecast element forecast).released = s.released := by unfold Sidebar.showForecast; split <;> simp

@[simp] theorem Sidebar.showForecast_nextRequestId (s : Sidebar) (element : Nat) (forecast : List ForecastEntry) :
    (s.showForecast element forecast).nextRequestId = s.nextRequestId := by unfold Sidebar.showForecast; split <;> simp

@[simp] theorem Sidebar.showForecast_popups (s : Sidebar) (element : Nat) (forecast : List ForecastEntry) :
    (s.showForecast element forecast).popups = s.popups := by unfold Sidebar.showForecast; split <;> simp

@[simp] theorem Sidebar.showForecast_apiRequests (s : Sidebar) (element : Nat) (forecast : List ForecastEntry) :
    (s.showForecast element forecast).apiRequests = s.apiRequests := by unfold Sidebar.showForecast; split <;> simp

@[simp] theorem Sidebar.showForecast_wsRequests (s : Sidebar) (element : Nat) (forecast : List ForecastEntry) :
    (s.showForecast element forecast).wsRequests = s.wsRequests := by unfold Sidebar.showForecast; split <;> simp

@[simp] theorem Sidebar.showForecast_notifications (s : Sidebar) (element : Nat) (forecast : List ForecastEntry) :
    (s.showForecast element forecast).notifications = s.notifications := by unfold Sidebar.showForecast; split <;> simp

@[simp] theorem Sidebar._showCalendarPopup_timer (s : Sidebar)
    (events : Option (List AgendaItem)) :
    (s._showCalendarPopup events).state.timer = s.timer := by
  unfold Sidebar._showCalendarPopup; (repeat' split) <;> rfl

@[simp] theorem Sidebar._showCalendarPopup_cameraTimer (s : Sidebar)
    (events : Option (List AgendaItem)) :
    (s._showCalendarPopup events).state.cameraTimer = s.cameraTimer := by
  unfold Sidebar._showCalendarPopup; (repeat' split) <;> rfl

@[simp] theorem Sidebar._showCalendarPopup_hasRendered (s : Sidebar)
    (events : Option (List AgendaItem)) :
    (s._showCalendarPopup events).state.hasRendered = s.hasRendered := by
  unfold Sidebar._showCalendarPopup; (repeat' split) <;> rfl

@[simp] theorem Sidebar._showCalendarPopup_currentCameraIndex (s : Sidebar)
    (events : Option (List AgendaItem)) :
    (s._showCalendarPopup events).state.currentCameraIndex = s.currentCameraIndex := by
  unfold Sidebar._showCalendarPopup; (repeat' split) <;> rfl

@[simp] theorem Sidebar._showCalendarPopup_cameraEntities (s : Sidebar)
    (events : Option (List AgendaItem)) :
    (s._showCalendarPopup events).state.cameraEntities = s.cameraEntities := by
  unfold Sidebar._showCalendarPopup; (repeat' split) <;> rfl

@[simp] theorem Sidebar._showCalendarPopup_forecastSubscriber (s : Sidebar)
    (events : Option (List AgendaItem)) :
    (s._showCalendarPopup events).state.forecastSubscriber = s.forecastSubscriber := by
  unfold Sidebar._showCalendarPopup; (repeat' split) <;> rfl

@[simp] theorem Sidebar._showCalendarPopup_config (s : Sidebar)
    (events : Option (List AgendaItem)) :
    (s._showCalendarPopup events).state.config = s.config := by
  unfold Sidebar._showCalendarPopup; (repeat' split) <;> rfl

@[simp] theorem Sidebar._showCalendarPopup__hass (s : Sidebar)
    (events : Option (List AgendaItem)) :
    (s._showCalendarPopup events).state._hass = s._hass := by
  unfold Sidebar._showCalendarPopup; (repeat' split) <;> rfl

@[simp] theorem Sidebar._showCalendarPopup_temperatureEntity (s : Sidebar)
    (events : Option (List AgendaItem)) :
    (s._showCalendarPopup events).state.temperatureEntity = s.temperatureEntity := by
  unfold Sidebar._showCalendarPopup; (repeat' split) <;> rfl

@[simp] theorem Sidebar._showCalendarPopup_weatherEntity (s : Sidebar)
    (events : Option (List AgendaItem)) :
    (s._showCalendarPopup events).state.weatherEntity = s.weatherEntity := by
  unfold Sidebar._showCalendarPopup; (repeat' split) <;> rfl

@[simp] theorem Sidebar._showCalendarPopup_gridEntity (s : Sidebar)
    (events : Option (List AgendaItem)) :
    (s._showCalendarPopup events).state.gridEntity = s.gridEntity := by
  unfold Sidebar._showCalendarPopup; (repeat' split) <;> rfl

@[simp] theorem Sidebar._showCalendarPopup_solarEntity (s : Sidebar)
    (events : Option (List AgendaItem)) :
    (s._showCalendarPopup events).state.solarEntity = s.solarEntity := by
  unfold Sidebar._showCalendarPopup; (repeat' split) <;> rfl

@[simp] theorem Sidebar._showCalendarPopup_homeEntity (s : Sidebar)
    (events : Option (List AgendaItem)) :
    (s._showCalendarPopup events).state.homeEntity = s.homeEntity := by
  unfold Sidebar._showCalendarPopup; (repeat' split) <;> rfl

@[simp] theorem Sidebar._showCalendarPopup_calendarEntity (s : Sidebar)
    (events : Option (List AgendaItem)) :
    (s._showCalendarPopup events).state.calendarEntity = s.calendarEntity := by
  unfold Sidebar._showCalendarPopup; (repeat' split) <;> rfl

@[simp] theorem Sidebar._showCalendarPopup_temperatureTitle (s : Sidebar)
    (events : Option (List AgendaItem)) :
    (s._showCalendarPopup events).state.temperatureTitle = s.temperatureTitle := by
  unfold Sidebar._showCalendarPopup; (repeat' split) <;> rfl

@[simp] theorem Sidebar._showCalendarPopup_customCardConfig (s : Sidebar)
    (events : Option (List AgendaItem)) :
    (s._showCalendarPopup events).state.customCardConfig = s.customCardConfig := by
  unfold Sidebar._showCalendarPopup; (repeat' split) <;> rfl

@[simp] theorem Sidebar._showCalendarPopup_customCardType (s : Sidebar)
    (events : Option (List AgendaItem)) :
    (s._showCalendarPopup events).state.customCardType = s.customCardType := by
  unfold Sidebar._showCalendarPopup; (repeat' split) <;> rfl

@[simp] theorem Sidebar._showCalendarPopup_graphHours (s : Sidebar)
    (events : Option (List AgendaItem)) :
    (s._showCalendarPopup events).state.graphHours = s.graphHours := by
  unfold Sidebar._showCalendarPopup; (repeat' split) <;> rfl

@[simp] theorem Sidebar._showCalendarPopup_sidebarWidth (s : Sidebar)
    (events : Option (List AgendaItem)) :
    (s._showCalendarPopup events).state.sidebarWidth = s.sidebarWidth := by
  unfold Sidebar._showCalendarPopup; (repeat' split) <;> rfl

@[simp] theorem Sidebar._showCalendarPopup_rotationInterval (s : Sidebar)
    (events : Option (List AgendaItem)) :
    (s._showCalendarPopup events).state.rotationInterval = s.rotationInterval := by
  unfold Sidebar._showCalendarPopup; (repeat' split) <;> rfl

@[simp] theorem Sidebar._showCalendarPopup_forecastDays (s : Sidebar)
    (events : Option (List AgendaItem)) :
    (s._showCalendarPopup events).state.forecastDays = s.forecastDays := by
  unfold Sidebar._showCalendarPopup; (repeat' split) <;> rfl

@[simp] theorem Sidebar._showCalendarPopup_val_grid (s : Sidebar)
    (events : Option (List AgendaItem)) :
    (s._showCalendarPopup events).state.val_grid = s.val_grid := by
  unfold Sidebar._showCalendarPopup; (repeat' split) <;> rfl

@[simp] theorem Sidebar._showCalendarPopup_val_solar (s : Sidebar)
    (events : Option (List AgendaItem)) :
    (s._showCalendarPopup events).state.val_solar = s.val_solar := by
  unfold Sidebar._showCalendarPopup; (repeat' split) <;> rfl

@[simp] theorem Sidebar._showCalendarPopup_val_home (s : Sidebar)
    (events : Option (List AgendaItem)) :
    (s._showCalendarPopup events).state.val_home = s.val_home := by
  unfold Sidebar._showCalendarPopup; (repeat' split) <;> rfl

@[simp] theorem Sidebar._showCalendarPopup_forecastGrid (s : Sidebar)
    (events : Option (List AgendaItem)) :
    (s._showCalendarPopup events).state.forecastGrid = s.forecastGrid := by
  unfold Sidebar._showCalendarPopup; (repeat' split) <;> rfl

@[simp] theorem Sidebar._showCalendarPopup_gridGeneration (s : Sidebar)
    (events : Option (List AgendaItem)) :
    (s._showCalendarPopup events).state.gridGeneration = s.gridGeneration := by
  unfold Sidebar._showCalendarPopup; (repeat' split) <;> rfl

@[simp] theorem Sidebar._showCalendarPopup_renderCount (s : Sidebar)
    (events : Option (List AgendaItem)) :
    (s._showCalendarPopup events).state.renderCount = s.renderCount := by
  unfold Sidebar._showCalendarPopup; (repeat' split) <;> rfl

@[simp] theorem Sidebar._showCalendarPopup_updateCount (s : Sidebar)
    (events : Option (List AgendaItem)) :
    (s._showCalendarPopup events).state.updateCount = s.updateCount := by
  unfold Sidebar._showCalendarPopup; (repeat' split) <;> rfl

@[simp] theorem Sidebar._showCalendarPopup_forecastTimeouts (s : Sidebar)
    (events : Option (List AgendaItem)) :
    (s._showCalendarPopup events).state.forecastTimeouts = s.forecastTimeouts := by
  unfold Sidebar._showCalendarPopup; (repeat' split) <;> rfl

@[simp] theorem Sidebar._showCalendarPopup_intervals (s : Sidebar)
    (events : Option (List AgendaItem)) :
    (s._showCalendarPopup events).state.intervals = s.intervals := by
  unfold Sidebar._showCalendarPopup; (repeat' split) <;> rfl

@[simp] theorem Sidebar._showCalendarPopup_nextTimerId (s : Sidebar)
    (events : Option (List AgendaItem)) :
    (s._showCalendarPopup events).state.nextTimerId = s.nextTimerId := by
  unfold Sidebar._showCalendarPopup; (repeat' split) <;> rfl

@[simp] theorem Sidebar._showCalendarPopup_gridCalls (s : Sidebar)
    (events : Option (List AgendaItem)) :
    (s._showCalendarPopup events).state.gridCalls = s.gridCalls := by
  unfold Sidebar._showCalendarPopup; (repeat' split) <;> rfl

@[simp] theorem Sidebar._showCalendarPopup_requests (s : Sidebar)
    (events : Option (List AgendaItem)) :
    (s._showCalendarPopup events).state.requests = s.requests := by
  unfold Sidebar._showCalendarPopup; (repeat' split) <;> rfl

@[simp] theorem Sidebar._showCalendarPopup_subscriptions (s : Sidebar)
    (events : Option (List AgendaItem)) :
    (s._showCalendarPopup events).state.subscriptions = s.subscriptions := by
  unfold Sidebar._showCalendarPopup; (repeat' split) <;> rfl

@[simp] theorem Sidebar._showCalendarPopup_released (s : Sidebar)
    (events : Option (List AgendaItem)) :
    (s._showCalendarPopup events).state.released = s.released := by
  unfold Sidebar._showCalendarPopup; (repeat' split) <;> rfl

@[simp] theorem Sidebar._showCalendarPopup_nextRequestId (s : Sidebar)
    (events : Option (List AgendaItem)) :
    (s._showCalendarPopup events).state.nextRequestId = s.nextRequestId := by
  unfold Sidebar._showCalendarPopup; (repeat' split) <;> rfl

@[simp] theorem Sidebar._showCalendarPopup_apiRequests (s : Sidebar)
    (events : Option (List AgendaItem)) :
    (s._showCalendarPopup events).state.apiRequests = s.apiRequests := by
  unfold Sidebar._showCalendarPopup; (repeat' split) <;> rfl

@[simp] theorem Sidebar._showCalendarPopup_wsRequests (s : Sidebar)
    (events : Option (List AgendaItem)) :
    (s._showCalendarPopup events).state.wsRequests = s.wsRequests := by
  unfold Sidebar._showCalendarPopup; (repeat' split) <;> rfl

@[simp] theorem Sidebar._showCalendarPopup_notifications (s : Sidebar)
    (events : Option (List AgendaItem)) :
    (s._showCalendarPopup events).state.notifications = s.notifications := by
  unfold Sidebar._showCalendarPopup; (repeat' split) <;> rfl

@[simp] theorem Sidebar.requestAndShow_timer (s : Sidebar)
    (answer : Option (Option (List AgendaItem))) :
    (s.requestAndShow answer).state.timer = s.timer := by
  unfold Sidebar.requestAndShow; split <;> simp

@[simp] theorem Sidebar.requestAndShow_cameraTimer (s : Sidebar)
    (answer : Option (Option (List AgendaItem))) :
    (s.requestAndShow answer).state.cameraTimer = s.cameraTimer := by
  unfold Sidebar.requestAndShow; split <;> simp

@[simp] theorem Sidebar.requestAndShow_hasRendered (s : Sidebar)
    (answer : Option (Option (List AgendaItem))) :
    (s.requestAndShow answer).state.hasRendered = s.hasRendered := by
  unfold Sidebar.requestAndShow; split <;> simp

@[simp] theorem Sidebar.requestAndShow_currentCameraIndex (s : Sidebar)
    (answer : Option (Option (List AgendaItem))) :
    (s.requestAndShow answer).state.currentCameraIndex = s.currentCameraIndex := by
  unfold Sidebar.requestAndShow; split <;> simp

@[simp] theorem Sidebar.requestAndShow_cameraEntities (s : Sidebar)
    (answer : Option (Option (List AgendaItem))) :
    (s.requestAndShow answer).state.cameraEntities = s.cameraEntities := by
  unfold Sidebar.requestAndShow; split <;> simp

@[simp] theorem Sidebar.requestAndShow_forecastSubscriber (s : Sidebar)
    (answer : Option (Option (List AgendaItem))) :
    (s.requestAndShow answer).state.forecastSubscriber = s.forecastSubscriber := by
  unfold Sidebar.requestAndShow; split <;> simp

@[simp] theorem Sidebar.requestAndShow_config (s : Sidebar)
    (answer : Option (Option (List AgendaItem))) :
    (s.requestAndShow answer).state.config = s.config := by
  unfold Sidebar.requestAndShow; split <;> simp

@[simp] theorem Sidebar.requestAndShow__hass (s : Sidebar)
    (answer : Option (Option (List AgendaItem))) :
    (s.requestAndShow answer).state._hass = s._hass := by
  unfold Sidebar.requestAndShow; split <;> simp

@[simp] theorem Sidebar.requestAndShow_temperatureEntity (s : Sidebar)
    (answer : Option (Option (List AgendaItem))) :
    (s.requestAndShow answer).state.temperatureEntity = s.temperatureEntity := by
  unfold Sidebar.requestAndShow; split <;> simp

@[simp] theorem Sidebar.requestAndShow_weatherEntity (s : Sidebar)
    (answer : Option (Option (List AgendaItem))) :
    (s.requestAndShow answer).state.weatherEntity = s.weatherEntity := by
  unfold Sidebar.requestAndShow; split <;> simp

@[simp] theorem Sidebar.requestAndShow_gridEntity (s : Sidebar)
    (answer : Option (Option (List AgendaItem))) :
    (s.requestAndShow answer).state.gridEntity = s.gridEntity := by
  unfold Sidebar.requestAndShow; split <;> simp

@[simp] theorem Sidebar.requestAndShow_solarEntity (s : Sidebar)
    (answer : Option (Option (List AgendaItem))) :
    (s.requestAndShow answer).state.solarEntity = s.solarEntity := by
  unfold Sidebar.requestAndShow; split <;> simp

@[simp] theorem Sidebar.requestAndShow_homeEntity (s : Sidebar)
    (answer : Option (Option (List AgendaItem))) :
    (s.requestAndShow answer).state.homeEntity = s.homeEntity := by
  unfold Sidebar.requestAndShow; split <;> simp

@[simp] theorem Sidebar.requestAndShow_calendarEntity (s : Sidebar)
    (answer : Option (Option (List AgendaItem))) :
    (s.requestAndShow answer).state.calendarEntity = s.calendarEntity := by
  unfold Sidebar.requestAndShow; split <;> simp

@[simp] theorem Sidebar.requestAndShow_temperatureTitle (s : Sidebar)
    (answer : Option (Option (List AgendaItem))) :
    (s.requestAndShow answer).state.temperatureTitle = s.temperatureTitle := by
  unfold Sidebar.requestAndShow; split <;> simp

@[simp] theorem Sidebar.requestAndShow_customCardConfig (s : Sidebar)
    (answer : Option (Option (List AgendaItem))) :
    (s.requestAndShow answer).state.customCardConfig = s.customCardConfig := by
  unfold Sidebar.requestAndShow; split <;> simp

@[simp] theorem Sidebar.requestAndShow_customCardType (s : Sidebar)
    (answer : Option (Option (List AgendaItem))) :
    (s.requestAndShow answer).state.customCardType = s.customCardType := by
  unfold Sidebar.requestAndShow; split <;> simp

@[simp] theorem Sidebar.requestAndShow_graphHours (s : Sidebar)
    (answer : Option (Option (List AgendaItem))) :
    (s.requestAndShow answer).state.graphHours = s.graphHours := by
  unfold Sidebar.requestAndShow; split <;> simp

@[simp] theorem Sidebar.requestAndShow_sidebarWidth (s : Sidebar)
    (answer : Option (Option (List AgendaItem))) :
    (s.requestAndShow answer).state.sidebarWidth = s.sidebarWidth := by
  unfold Sidebar.requestAndShow; split <;> simp

@[simp] theorem Sidebar.requestAndShow_rotationInterval (s : Sidebar)
    (answer : Option (Option (List AgendaItem))) :
    (s.requestAndShow answer).state.rotationInterval = s.rotationInterval := by
  unfold Sidebar.requestAndShow; split <;> simp

@[simp] theorem Sidebar.requestAndShow_forecastDays (s : Sidebar)
    (answer : Option (Option (List AgendaItem))) :
    (s.requestAndShow answer).state.forecastDays = s.forecastDays := by
  unfold Sidebar.requestAndShow; split <;> simp

@[simp] theorem Sidebar.requestAndShow_val_grid (s : Sidebar)
    (answer : Option (Option (List AgendaItem))) :
    (s.requestAndShow answer).state.val_grid = s.val_grid := by
  unfold Sidebar.requestAndShow; split <;> simp

@[simp] theorem Sidebar.requestAndShow_val_solar (s : Sidebar)
    (answer : Option (Option (List AgendaItem))) :
    (s.requestAndShow answer).state.val_solar = s.val_solar := by
  unfold Sidebar.requestAndShow; split <;> simp

@[simp] theorem Sidebar.requestAndShow_val_home (s : Sidebar)
    (answer : Option (Option (List AgendaItem))) :
    (s.requestAndShow answer).state.val_home = s.val_home := by
  unfold Sidebar.requestAndShow; split <;> simp

@[simp] theorem Sidebar.requestAndShow_forecastGrid (s : Sidebar)
    (answer : Option (Option (List AgendaItem))) :
    (s.requestAndShow answer).state.forecastGrid = s.forecastGrid := by
  unfold Sidebar.requestAndShow; split <;> simp

@[simp] theorem Sidebar.requestAndShow_gridGeneration (s : Sidebar)
    (answer : Option (Option (List AgendaItem))) :
    (s.requestAndShow answer).state.gridGeneration = s.gridGeneration := by
  unfold Sidebar.requestAndShow; split <;> simp

@[simp] theorem Sidebar.requestAndShow_renderCount (s : Sidebar)
    (answer : Option (Option (List AgendaItem))) :
    (s.requestAndShow answer).state.renderCount = s.renderCount := by
  unfold Sidebar.requestAndShow; split <;> simp

@[simp] theorem Sidebar.requestAndShow_updateCount (s : Sidebar)
    (answer : Option (Option (List AgendaItem))) :
    (s.requestAndShow answer).state.updateCount = s.updateCount := by
  unfold Sidebar.requestAndShow; split <;> simp

@[simp] theorem Sidebar.requestAndShow_forecastTimeouts (s : Sidebar)
    (answer : Option (Option (List AgendaItem))) :
    (s.requestAndShow answer).state.forecastTimeouts = s.forecastTimeouts := by
  unfold Sidebar.requestAndShow; split <;> simp

@[simp] theorem Sidebar.requestAndShow_intervals (s : Sidebar)
    (answer : Option (Option (List AgendaItem))) :
    (s.requestAndShow answer).state.intervals = s.intervals := by
  unfold Sidebar.requestAndShow; split <;> simp

@[simp] theorem Sidebar.requestAndShow_nextTimerId (s : Sidebar)
    (answer : Option (Option (List AgendaItem))) :
    (s.requestAndShow answer).state.nextTimerId = s.nextTimerId := by
  unfold Sidebar.requestAndShow; split <;> simp

@[simp] theorem Sidebar.requestAndShow_gridCalls (s : Sidebar)
    (answer : Option (Option (List AgendaItem))) :
    (s.requestAndShow answer).state.gridCalls = s.gridCalls := by
  unfold Sidebar.requestAndShow; split <;> simp

@[simp] theorem Sidebar.requestAndShow_requests (s : Sidebar)
    (answer : Option (Option (List AgendaItem))) :
    (s.requestAndShow answer).state.requests = s.requests := by
  unfold Sidebar.requestAndShow; split <;> simp

@[simp] theorem Sidebar.requestAndShow_subscriptions (s : Sidebar)
    (answer : Option (Option (List AgendaItem))) :
    (s.requestAndShow answer).state.subscriptions = s.subscriptions := by
  unfold Sidebar.requestAndShow; split <;> simp

@[simp] theorem Sidebar.requestAndShow_released (s : Sidebar)
    (answer : Option (Option (List AgendaItem))) :
    (s.requestAndShow answer).state.released = s.released := by
  unfold Sidebar.requestAndShow; split <;> simp

@[simp] theorem Sidebar.requestAndShow_nextRequestId (s : Sidebar)
    (answer : Option (Option (List AgendaItem))) :
    (s.requestAndShow answer).state.nextRequestId = s.nextRequestId := by
  unfold Sidebar.requestAndShow; split <;> simp

@[simp] theorem Sidebar.requestAndShow_apiRequests (s : Sidebar)
    (answer : Option (Option (List AgendaItem))) :
    (s.requestAndShow answer).state.apiRequests = s.apiRequests := by
  unfold Sidebar.requestAndShow; split <;> simp

@[simp] theorem Sidebar.requestAndShow_wsRequests (s : Sidebar)
    (answer : Option (Option (List AgendaItem))) :
    (s.requestAndShow answer).state.wsRequests = s.wsRequests := by
  unfold Sidebar.requestAndShow; split <;> simp

@[simp] theorem Sidebar.requestAndShow_notifications (s : Sidebar)
    (answer : Option (Option (List AgendaItem))) :
    (s.requestAndShow answer).state.notifications = s.notifications := by
  unfold Sidebar.requestAndShow; split <;> simp

@[simp] theorem Sidebar._showWeatherPopup_timer (s : Sidebar) :
    (s._showWeatherPopup).timer = s.timer := rfl

@[simp] theorem Sidebar._showWeatherPopup_cameraTimer (s : Sidebar) :
    (s._showWeatherPopup).cameraTimer = s.cameraTimer := rfl

@[simp] theorem Sidebar._showWeatherPopup_hasRendered (s : Sidebar) :
    (s._showWeatherPopup).hasRendered = s.hasRendered := rfl

@[simp] theorem Sidebar._showWeatherPopup_currentCameraIndex (s : Sidebar) :
    (s._showWeatherPopup).currentCameraIndex = s.currentCameraIndex := rfl

@[simp] theorem Sidebar._showWeatherPopup_cameraEntities (s : Sidebar) :
    (s._showWeatherPopup).cameraEntities = s.cameraEntities := rfl

@[simp] theorem Sidebar._showWeatherPopup_forecastSubscriber (s : Sidebar) :
    (s._showWeatherPopup).forecastSubscriber = s.forecastSubscriber := rfl

@[simp] theorem Sidebar._showWeatherPopup_config (s : Sidebar) :
    (s._showWeatherPopup).config = s.config := rfl

@[simp] theorem Sidebar._showWeatherPopup__hass (s : Sidebar) :
    (s._showWeatherPopup)._hass = s._hass := rfl

@[simp] theorem Sidebar._showWeatherPopup_temperatureEntity (s : Sidebar) :
    (s._showWeatherPopup).temperatureEntity = s.temperatureEntity := rfl

@[simp] theorem Sidebar._showWeatherPopup_weatherEntity (s : Sidebar) :
    (s._showWeatherPopup).weatherEntity = s.weatherEntity := rfl

@[simp] theorem Sidebar._showWeatherPopup_gridEntity (s : Sidebar) :
    (s._showWeatherPopup).gridEntity = s.gridEntity := rfl

@[simp] theorem Sidebar._showWeatherPopup_solarEntity (s : Sidebar) :
    (s._showWeatherPopup).solarEntity = s.solarEntity := rfl

@[simp] theorem Sidebar._showWeatherPopup_homeEntity (s : Sidebar) :
    (s._showWeatherPopup).homeEntity = s.homeEntity := rfl

@[simp] theorem Sidebar._showWeatherPopup_calendarEntity (s : Sidebar) :
    (s._showWeatherPopup).calendarEntity = s.calendarEntity := rfl

@[simp] theorem Sidebar._showWeatherPopup_temperatureTitle (s : Sidebar) :
    (s._showWeatherPopup).temperatureTitle = s.temperatureTitle := rfl

@[simp] theorem Sidebar._showWeatherPopup_customCardConfig (s : Sidebar) :
    (s._showWeatherPopup).customCardConfig = s.customCardConfig := rfl

@[simp] theorem Sidebar._showWeatherPopup_customCardType (s : Sidebar) :
    (s._showWeatherPopup).customCardType = s.customCardType := rfl

@[simp] theorem Sidebar._showWeatherPopup_graphHours (s : Sidebar) :
    (s._showWeatherPopup).graphHours = s.graphHours := rfl

@[simp] theorem Sidebar._showWeatherPopup_sidebarWidth (s : Sidebar) :
    (s._showWeatherPopup).sidebarWidth = s.sidebarWidth := rfl

@[simp] theorem Sidebar._showWeatherPopup_rotationInterval (s : Sidebar) :
    (s._showWeatherPopup).rotationInterval = s.rotationInterval := rfl

@[simp] theorem Sidebar._showWeatherPopup_forecastDays (s : Sidebar) :
    (s._showWeatherPopup).forecastDays = s.forecastDays := rfl

@[simp] theorem Sidebar._showWeatherPopup_val_grid (s : Sidebar) :
    (s._showWeatherPopup).val_grid = s.val_grid := rfl

@[simp] theorem Sidebar._showWeatherPopup_val_solar (s : Sidebar) :
    (s._showWeatherPopup).val_solar = s.val_solar := rfl

@[simp] theorem Sidebar._showWeatherPopup_val_home (s : Sidebar) :
    (s._showWeatherPopup).val_home = s.val_home := rfl

@[simp] theorem Sidebar._showWeatherPopup_forecastGrid (s : Sidebar) :
    (s._showWeatherPopup).forecastGrid = s.forecastGrid := rfl

@[simp] theorem Sidebar._showWeatherPopup_gridGeneration (s : Sidebar) :
    (s._showWeatherPopup).gridGeneration = s.gridGeneration := rfl

@[simp] theorem Sidebar._showWeatherPopup_renderCount (s : Sidebar) :
    (s._showWeatherPopup).renderCount = s.renderCount := rfl

@[simp] theorem Sidebar._showWeatherPopup_updateCount (s : Sidebar) :
    (s._showWeatherPopup).updateCount = s.updateCount := rfl

@[simp] theorem Sidebar._showWeatherPopup_forecastTimeouts (s : Sidebar) :
    (s._showWeatherPopup).forecastTimeouts = s.forecastTimeouts := rfl

@[simp] theorem Sidebar._showWeatherPopup_intervals (s : Sidebar) :
    (s._showWeatherPopup).intervals = s.intervals := rfl

@[simp] theorem Sidebar._showWeatherPopup_nextTimerId (s : Sidebar) :
    (s._showWeatherPopup).nextTimerId = s.nextTimerId := rfl

@[simp] theorem Sidebar._showWeatherPopup_gridCalls (s : Sidebar) :
    (s._showWeatherPopup).gridCalls = s.gridCalls := rfl

@[simp] theorem Sidebar._showWeatherPopup_requests (s : Sidebar) :
    (s._showWeatherPopup).requests = s.requests := rfl

@[simp] theorem Sidebar._showWeatherPopup_subscriptions (s : Sidebar) :
    (s._showWeatherPopup).subscriptions = s.subscriptions := rfl

@[simp] theorem Sidebar._showWeatherPopup_released (s : Sidebar) :
    (s._showWeatherPopup).released = s.released := rfl

@[simp] theorem Sidebar._showWeatherPopup_nextRequestId (s : Sidebar) :
    (s._showWeatherPopup).nextRequestId = s.nextRequestId := rfl

@[simp] theorem Sidebar._showWeatherPopup_apiRequests (s : Sidebar) :
    (s._showWeatherPopup).apiRequests = s.apiRequests := rfl

@[simp] theorem Sidebar._showWeatherPopup_wsRequests (s : Sidebar) :
    (s._showWeatherPopup).wsRequests = s.wsRequests := rfl

@[simp] theorem Sidebar._showWeatherPopup_notifications (s : Sidebar) :
    (s._showWeatherPopup).notifications = s.notifications := rfl

@[simp] theorem Sidebar.updateForecastGrid_timer (s : Sidebar) :
    (s.updateForecastGrid).timer = s.timer := by unfold Sidebar.updateForecastGrid; (repeat' split) <;> simp

@[simp] theorem Sidebar.updateForecastGrid_cameraTimer (s : Sidebar) :
    (s.updateForecastGrid).cameraTimer = s.cameraTimer := by unfold Sidebar.updateForecastGrid; (repeat' split) <;> simp

@[simp] theorem Sidebar.updateForecastGrid_hasRendered (s : Sidebar) :
    (s.updateForecastGrid).hasRendered = s.hasRendered := by unfold Sidebar.updateForecastGrid; (repeat' split) <;> simp

@[simp] theorem Sidebar.updateForecastGrid_currentCameraIndex (s : Sidebar) :
    (s.updateForecastGrid).currentCameraIndex = s.currentCameraIndex := by unfold Sidebar.updateForecastGrid; (repeat' split) <;> simp

@[simp] theorem Sidebar.updateForecastGrid_cameraEntities (s : Sidebar) :
    (s.updateForecastGrid).cameraEntities = s.cameraEntities := by unfold Sidebar.updateForecastGrid; (repeat' split) <;> simp

@[simp] theorem Sidebar.updateForecastGrid_forecastSubscriber (s : Sidebar) :
    (s.updateForecastGrid).forecastSubscriber = s.forecastSubscriber := by unfold Sidebar.updateForecastGrid; (repeat' split) <;> simp

@[simp] theorem Sidebar.updateForecastGrid_config (s : Sidebar) :
    (s.updateForecastGrid).config = s.config := by unfold Sidebar.updateForecastGrid; (repeat' split) <;> simp

@[simp] theorem Sidebar.updateForecastGrid__hass (s : Sidebar) :
    (s.updateForecastGrid)._hass = s._hass := by unfold Sidebar.updateForecastGrid; (repeat' split) <;> simp

@[simp] theorem Sidebar.updateForecastGrid_temperatureEntity (s : Sidebar) :
    (s.updateForecastGrid).temperatureEntity = s.temperatureEntity := by unfold Sidebar.updateForecastGrid; (repeat' split) <;> simp

@[simp] theorem Sidebar.updateForecastGrid_weatherEntity (s : Sidebar) :
    (s.updateForecastGrid).weatherEntity = s.weatherEntity := by unfold Sidebar.updateForecastGrid; (repeat' split) <;> simp

@[simp] theorem Sidebar.updateForecastGrid_gridEntity (s : Sidebar) :
    (s.updateForecastGrid).gridEntity = s.gridEntity := by unfold Sidebar.updateForecastGrid; (repeat' split) <;> simp

@[simp] theorem Sidebar.updateForecastGrid_solarEntity (s : Sidebar) :
    (s.updateForecastGrid).solarEntity = s.solarEntity := by unfold Sidebar.updateForecastGrid; (repeat' split) <;> simp

@[simp] theorem Sidebar.updateForecastGrid_homeEntity (s : Sidebar) :
    (s.updateForecastGrid).homeEntity = s.homeEntity := by unfold Sidebar.updateForecastGrid; (repeat' split) <;> simp

@[simp] theorem Sidebar.updateForecastGrid_calendarEntity (s : Sidebar) :
    (s.updateForecastGrid).calendarEntity = s.calendarEntity := by unfold Sidebar.updateForecastGrid; (repeat' split) <;> simp

@[simp] theorem Sidebar.updateForecastGrid_temperatureTitle (s : Sidebar) :
    (s.updateForecastGrid).temperatureTitle = s.temperatureTitle := by unfold Sidebar.updateForecastGrid; (repeat' split) <;> simp

@[simp] theorem Sidebar.updateForecastGrid_customCardConfig (s : Sidebar) :
    (s.updateForecastGrid).customCardConfig = s.customCardConfig := by unfold Sidebar.updateForecastGrid; (repeat' split) <;> simp

@[simp] theorem Sidebar.updateForecastGrid_customCardType (s : Sidebar) :
    (s.updateForecastGrid).customCardType = s.customCardType := by unfold Sidebar.updateForecastGrid; (repeat' split) <;> simp

@[simp] theorem Sidebar.updateForecastGrid_graphHours (s : Sidebar) :
    (s.updateForecastGrid).graphHours = s.graphHours := by unfold Sidebar.updateForecastGrid; (repeat' split) <;> simp

@[simp] theorem Sidebar.updateForecastGrid_sidebarWidth (s : Sidebar) :
    (s.updateForecastGrid).sidebarWidth = s.sidebarWidth := by unfold Sidebar.updateForecastGrid; (repeat' split) <;> simp

@[simp] theorem Sidebar.updateForecastGrid_rotationInterval (s : Sidebar) :
    (s.updateForecastGrid).rotationInterval = s.rotationInterval := by unfold Sidebar.updateForecastGrid; (repeat' split) <;> simp

@[simp] theorem Sidebar.updateForecastGrid_forecastDays (s : Sidebar) :
    (s.updateForecastGrid).forecastDays = s.forecastDays := by unfold Sidebar.updateForecastGrid; (repeat' split) <;> simp

@[simp] theorem Sidebar.updateForecastGrid_val_grid (s : Sidebar) :
    (s.updateForecastGrid).val_grid = s.val_grid := by unfold Sidebar.updateForecastGrid; (repeat' split) <;> simp

@[simp] theorem Sidebar.updateForecastGrid_val_solar (s : Sidebar) :
    (s.updateForecastGrid).val_solar = s.val_solar := by unfold Sidebar.updateForecastGrid; (repeat' split) <;> simp

@[simp] theorem Sidebar.updateForecastGrid_val_home (s : Sidebar) :
    (s.updateForecastGrid).val_home = s.val_home := by unfold Sidebar.updateForecastGrid; (repeat' split) <;> simp

@[simp] theorem Sidebar.updateForecastGrid_gridGeneration (s : Sidebar) :
    (s.updateForecastGrid).gridGeneration = s.gridGeneration := by unfold Sidebar.updateForecastGrid; (repeat' split) <;> simp

@[simp] theorem Sidebar.updateForecastGrid_renderCount (s : Sidebar) :
    (s.updateForecastGrid).renderCount = s.renderCount := by unfold Sidebar.updateForecastGrid; (repeat' split) <;> simp

@[simp] theorem Sidebar.updateForecastGrid_updateCount (s : Sidebar) :
    (s.updateForecastGrid).updateCount = s.updateCount := by unfold Sidebar.updateForecastGrid; (repeat' split) <;> simp

@[simp] theorem Sidebar.updateForecastGrid_forecastTimeouts (s : Sidebar) :
    (s.updateForecastGrid).forecastTimeouts = s.forecastTimeouts := by unfold Sidebar.updateForecastGrid; (repeat' split) <;> simp

@[simp] theorem Sidebar.updateForecastGrid_intervals (s : Sidebar) :
    (s.updateForecastGrid).intervals = s.intervals := by unfold Sidebar.updateForecastGrid; (repeat' split) <;> simp

@[simp] theorem Sidebar.updateForecastGrid_nextTimerId (s : Sidebar) :
    (s.updateForecastGrid).nextTimerId = s.nextTimerId := by unfold Sidebar.updateForecastGrid; (repeat' split) <;> simp

@[simp] theorem Sidebar.updateForecastGrid_requests (s : Sidebar) :
    (s.updateForecastGrid).requests = s.requests := by unfold Sidebar.updateForecastGrid; (repeat' split) <;> simp

@[simp] theorem Sidebar.updateForecastGrid_subscriptions (s : Sidebar) :
    (s.updateForecastGrid).subscriptions = s.subscriptions := by unfold Sidebar.updateForecastGrid; (repeat' split) <;> simp

@[simp] theorem Sidebar.updateForecastGrid_released (s : Sidebar) :
    (s.updateForecastGrid).released = s.released := by unfold Sidebar.updateForecastGrid; (repeat' split) <;> simp

@[simp] theorem Sidebar.updateForecastGrid_popups (s : Sidebar) :
    (s.updateForecastGrid).popups = s.popups := by unfold Sidebar.updateForecastGrid; (repeat' split) <;> simp

@[simp] theorem Sidebar.updateForecastGrid_apiRequests (s : Sidebar) :
    (s.updateForecastGrid).apiRequests = s.apiRequests := by unfold Sidebar.updateForecastGrid; (repeat' split) <;> simp

@[simp] theorem Sidebar.updateForecastGrid_wsRequests (s : Sidebar) :
    (s.updateForecastGrid).wsRequests = s.wsRequests := by unfold Sidebar.updateForecastGrid; (repeat' split) <;> simp

@[simp] theorem Sidebar.updateForecastGrid_notifications (s : Sidebar) :
    (s.updateForecastGrid).notifications = s.notifications := by unfold Sidebar.updateForecastGrid; (repeat' split) <;> simp

@[simp] theorem Sidebar.gridSubscribed_timer (s : Sidebar) (request : Nat) :
    (s.gridSubscribed request).timer = s.timer := by unfold Sidebar.gridSubscribed; split <;> simp

@[simp] theorem Sidebar.gridSubscribed_cameraTimer (s : Sidebar) (request : Nat) :
    (s.gridSubscribed request).cameraTimer = s.cameraTimer := by unfold Sidebar.gridSubscribed; split <;> simp

@[simp] theorem Sidebar.gridSubscribed_hasRendered (s : Sidebar) (request : Nat) :
    (s.gridSubscribed request).hasRendered = s.hasRendered := by unfold Sidebar.gridSubscribed; split <;> simp

@[simp] theorem Sidebar.gridSubscribed_currentCameraIndex (s : Sidebar) (request : Nat) :
    (s.gridSubscribed request).currentCameraIndex = s.currentCameraIndex := by unfold Sidebar.gridSubscribed; split <;> simp

@[simp] theorem Sidebar.gridSubscribed_cameraEntities (s : Sidebar) (request : Nat) :
    (s.gridSubscribed request).cameraEntities = s.cameraEntities := by unfold Sidebar.gridSubscribed; split <;> simp

@[simp] theorem Sidebar.gridSubscribed_config (s : Sidebar) (request : Nat) :
    (s.gridSubscribed request).config = s.config := by unfold Sidebar.gridSubscribed; split <;> simp

@[simp] theorem Sidebar.gridSubscribed__hass (s : Sidebar) (request : Nat) :
    (s.gridSubscribed request)._hass = s._hass := by unfold Sidebar.gridSubscribed; split <;> simp

@[simp] theorem Sidebar.gridSubscribed_temperatureEntity (s : Sidebar) (request : Nat) :
    (s.gridSubscribed request).temperatureEntity = s.temperatureEntity := by unfold Sidebar.gridSubscribed; split <;> simp

@[simp] theorem Sidebar.gridSubscribed_weatherEntity (s : Sidebar) (request : Nat) :
    (s.gridSubscribed request).weatherEntity = s.weatherEntity := by unfold Sidebar.gridSubscribed; split <;> simp

@[simp] theorem Sidebar.gridSubscribed_gridEntity (s : Sidebar) (request : Nat) :
    (s.gridSubscribed request).gridEntity = s.gridEntity := by unfold Sidebar.gridSubscribed; split <;> simp

@[simp] theorem Sidebar.gridSubscribed_solarEntity (s : Sidebar) (request : Nat) :
    (s.gridSubscribed request).solarEntity = s.solarEntity := by unfold Sidebar.gridSubscribed; split <;> simp

@[simp] theorem Sidebar.gridSubscribed_homeEntity (s : Sidebar) (request : Nat) :
    (s.gridSubscribed request).homeEntity = s.homeEntity := by unfold Sidebar.gridSubscribed; split <;> simp

@[simp] theorem Sidebar.gridSubscribed_calendarEntity (s : Sidebar) (request : Nat) :
    (s.gridSubscribed request).calendarEntity = s.calendarEntity := by unfold Sidebar.gridSubscribed; split <;> simp

@[simp] theorem Sidebar.gridSubscribed_temperatureTitle (s : Sidebar) (request : Nat) :
    (s.gridSubscribed request).temperatureTitle = s.temperatureTitle := by unfold Sidebar.gridSubscribed; split <;> simp

@[simp] theorem Sidebar.gridSubscribed_customCardConfig (s : Sidebar) (request : Nat) :
    (s.gridSubscribed request).customCardConfig = s.customCardConfig := by unfold Sidebar.gridSubscribed; split <;> simp

@[simp] theorem Sidebar.gridSubscribed_customCardType (s : Sidebar) (request : Nat) :
    (s.gridSubscribed request).customCardType = s.customCardType := by unfold Sidebar.gridSubscribed; split <;> simp

@[simp] theorem Sidebar.gridSubscribed_graphHours (s : Sidebar) (request : Nat) :
    (s.gridSubscribed request).graphHours = s.graphHours := by unfold Sidebar.gridSubscribed; split <;> simp

@[simp] theorem Sidebar.gridSubscribed_sidebarWidth (s : Sidebar) (request : Nat) :
    (s.gridSubscribed request).sidebarWidth = s.sidebarWidth := by unfold Sidebar.gridSubscribed; split <;> simp

@[simp] theorem Sidebar.gridSubscribed_rotationInterval (s : Sidebar) (request : Nat) :
    (s.gridSubscribed request).rotationInterval = s.rotationInterval := by unfold Sidebar.gridSubscribed; split <;> simp

@[simp] theorem Sidebar.gridSubscribed_forecastDays (s : Sidebar) (request : Nat) :
    (s.gridSubscribed request).forecastDays = s.forecastDays := by unfold Sidebar.gridSubscribed; split <;> simp

@[simp] theorem Sidebar.gridSubscribed_val_grid (s : Sidebar) (request : Nat) :
    (s.gridSubscribed request).val_grid = s.val_grid := by unfold Sidebar.gridSubscribed; split <;> simp

@[simp] theorem Sidebar.gridSubscribed_val_solar (s : Sidebar) (request : Nat) :
    (s.gridSubscribed request).val_solar = s.val_solar := by unfold Sidebar.gridSubscribed; split <;> simp

@[simp] theorem Sidebar.gridSubscribed_val_home (s : Sidebar) (request : Nat) :
    (s.gridSubscribed request).val_home = s.val_home := by unfold Sidebar.gridSubscribed; split <;> simp

@[simp] theorem Sidebar.gridSubscribed_forecastGrid (s : Sidebar) (request : Nat) :
    (s.gridSubscribed request).forecastGrid = s.forecastGrid := by unfold Sidebar.gridSubscribed; split <;> simp

@[simp] theorem Sidebar.gridSubscribed_gridGeneration (s : Sidebar) (request : Nat) :
    (s.gridSubscribed request).gridGeneration = s.gridGeneration := by unfold Sidebar.gridSubscribed; split <;> simp

@[simp] theorem Sidebar.gridSubscribed_renderCount (s : Sidebar) (request : Nat) :
    (s.gridSubscribed request).renderCount = s.renderCount := by unfold Sidebar.gridSubscribed; split <;> simp

@[simp] theorem Sidebar.gridSubscribed_updateCount (s : Sidebar) (request : Nat) :
    (s.gridSubscribed request).updateCount = s.updateCount := by unfold Sidebar.gridSubscribed; split <;> simp

@[simp] theorem Sidebar.gridSubscribed_forecastTimeouts (s : Sidebar) (request : Nat) :
    (s.gridSubscribed request).forecastTimeouts = s.forecastTimeouts := by unfold Sidebar.gridSubscribed; split <;> simp

@[simp] theorem Sidebar.gridSubscribed_intervals (s : Sidebar) (request : Nat) :
    (s.gridSubscribed request).intervals = s.intervals := by unfold Sidebar.gridSubscribed; split <;> simp

@[simp] theorem Sidebar.gridSubscribed_nextTimerId (s : Sidebar) (request : Nat) :
    (s.gridSubscribed request).nextTimerId = s.nextTimerId := by unfold Sidebar.gridSubscribed; split <;> simp

@[simp] theorem Sidebar.gridSubscribed_requests (s : Sidebar) (request : Nat) :
    (s.gridSubscribed request).requests = s.requests := by unfold Sidebar.gridSubscribed; split <;> simp

@[simp] theorem Sidebar.gridSubscribed_released (s : Sidebar) (request : Nat) :
    (s.gridSubscribed request).released = s.released := by unfold Sidebar.gridSubscribed; split <;> simp

@[simp] theorem Sidebar.gridSubscribed_nextRequestId (s : Sidebar) (request : Nat) :
    (s.gridSubscribed request).nextRequestId = s.nextRequestId := by unfold Sidebar.gridSubscribed; split <;> simp

@[simp] theorem Sidebar.gridSubscribed_popups (s : Sidebar) (request : Nat) :
    (s.gridSubscribed request).popups = s.popups := by unfold Sidebar.gridSubscribed; split <;> simp

@[simp] theorem Sidebar.gridSubscribed_apiRequests (s : Sidebar) (request : Nat) :
    (s.gridSubscribed request).apiRequests = s.apiRequests := by unfold Sidebar.gridSubscribed; split <;> simp

@[simp] theorem Sidebar.gridSubscribed_wsRequests (s : Sidebar) (request : Nat) :
    (s.gridSubscribed request).wsRequests = s.wsRequests := by unfold Sidebar.gridSubscribed; split <;> simp

@[simp] theorem Sidebar.gridSubscribed_notifications (s : Sidebar) (request : Nat) :
    (s.gridSubscribed request).notifications = s.notifications := by unfold Sidebar.gridSubscribed; split <;> simp

@[simp] theorem Sidebar.gridSubscribeFailed_timer (s : Sidebar) (request : Nat) :
    (s.gridSubscribeFailed request).timer = s.timer := by unfold Sidebar.gridSubscribeFailed; split <;> simp

@[simp] theorem Sidebar.gridSubscribeFailed_cameraTimer (s : Sidebar) (request : Nat) :
    (s.gridSubscribeFailed request).cameraTimer = s.cameraTimer := by unfold Sidebar.gridSubscribeFailed; split <;> simp

@[simp] theorem Sidebar.gridSubscribeFailed_hasRendered (s : Sidebar) (request : Nat) :
    (s.gridSubscribeFailed request).hasRendered = s.hasRendered := by unfold Sidebar.gridSubscribeFailed; split <;> simp

@[simp] theorem Sidebar.gridSubscribeFailed_currentCameraIndex (s : Sidebar) (request : Nat) :
    (s.gridSubscribeFailed request).currentCameraIndex = s.currentCameraIndex := by unfold Sidebar.gridSubscribeFailed; split <;> simp

@[simp] theorem Sidebar.gridSubscribeFailed_cameraEntities (s : Sidebar) (request : Nat) :
    (s.gridSubscribeFailed request).cameraEntities = s.cameraEntities := by unfold Sidebar.gridSubscribeFailed; split <;> simp

@[simp] theorem Sidebar.gridSubscribeFailed_forecastSubscriber (s : Sidebar) (request : Nat) :
    (s.gridSubscribeFailed request).forecastSubscriber = s.forecastSubscriber := by unfold Sidebar.gridSubscribeFailed; split <;> simp

@[simp] theorem Sidebar.gridSubscribeFailed_config (s : Sidebar) (request : Nat) :
    (s.gridSubscribeFailed request).config = s.config := by unfold Sidebar.gridSubscribeFailed; split <;> simp

@[simp] theorem Sidebar.gridSubscribeFailed__hass (s : Sidebar) (request : Nat) :
    (s.gridSubscribeFailed request)._hass = s._hass := by unfold Sidebar.gridSubscribeFailed; split <;> simp

@[simp] theorem Sidebar.gridSubscribeFailed_temperatureEntity (s : Sidebar) (request : Nat) :
    (s.gridSubscribeFailed request).temperatureEntity = s.temperatureEntity := by unfold Sidebar.gridSubscribeFailed; split <;> simp

@[simp] theorem Sidebar.gridSubscribeFailed_weatherEntity (s : Sidebar) (request : Nat) :
    (s.gridSubscribeFailed request).weatherEntity = s.weatherEntity := by unfold Sidebar.gridSubscribeFailed; split <;> simp

@[simp] theorem Sidebar.gridSubscribeFailed_gridEntity (s : Sidebar) (request : Nat) :
    (s.gridSubscribeFailed request).gridEntity = s.gridEntity := by unfold Sidebar.gridSubscribeFailed; split <;> simp

@[simp] theorem Sidebar.gridSubscribeFailed_solarEntity (s : Sidebar) (request : Nat) :
    (s.gridSubscribeFailed request).solarEntity = s.solarEntity := by unfold Sidebar.gridSubscribeFailed; split <;> simp

@[simp] theorem Sidebar.gridSubscribeFailed_homeEntity (s : Sidebar) (request : Nat) :
    (s.gridSubscribeFailed request).homeEntity = s.homeEntity := by unfold Sidebar.gridSubscribeFailed; split <;> simp

@[simp] theorem Sidebar.gridSubscribeFailed_calendarEntity (s : Sidebar) (request : Nat) :
    (s.gridSubscribeFailed request).calendarEntity = s.calendarEntity := by unfold Sidebar.gridSubscribeFailed; split <;> simp

@[simp] theorem Sidebar.gridSubscribeFailed_temperatureTitle (s : Sidebar) (request : Nat) :
    (s.gridSubscribeFailed request).temperatureTitle = s.temperatureTitle := by unfold Sidebar.gridSubscribeFailed; split <;> simp

@[simp] theorem Sidebar.gridSubscribeFailed_customCardConfig (s : Sidebar) (request : Nat) :
    (s.gridSubscribeFailed request).customCardConfig = s.customCardConfig := by unfold Sidebar.gridSubscribeFailed; split <;> simp

@[simp] theorem Sidebar.gridSubscribeFailed_customCardType (s : Sidebar) (request : Nat) :
    (s.gridSubscribeFailed request).customCardType = s.customCardType := by unfold Sidebar.gridSubscribeFailed; split <;> simp

@[simp] theorem Sidebar.gridSubscribeFailed_graphHours (s : Sidebar) (request : Nat) :
    (s.gridSubscribeFailed request).graphHours = s.graphHours := by unfold Sidebar.gridSubscribeFailed; split <;> simp

@[simp] theorem Sidebar.gridSubscribeFailed_sidebarWidth (s : Sidebar) (request : Nat) :
    (s.gridSubscribeFailed request).sidebarWidth = s.sidebarWidth := by unfold Sidebar.gridSubscribeFailed; split <;> simp

@[simp] theorem Sidebar.gridSubscribeFailed_rotationInterval (s : Sidebar) (request : Nat) :
    (s.gridSubscribeFailed request).rotationInterval = s.rotationInterval := by unfold Sidebar.gridSubscribeFailed; split <;> simp

@[simp] theorem Sidebar.gridSubscribeFailed_forecastDays (s : Sidebar) (request : Nat) :
    (s.gridSubscribeFailed request).forecastDays = s.forecastDays := by unfold Sidebar.gridSubscribeFailed; split <;> simp

@[simp] theorem Sidebar.gridSubscribeFailed_val_grid (s : Sidebar) (request : Nat) :
    (s.gridSubscribeFailed request).val_grid = s.val_grid := by unfold Sidebar.gridSubscribeFailed; split <;> simp

@[simp] theorem Sidebar.gridSubscribeFailed_val_solar (s : Sidebar) (request : Nat) :
    (s.gridSubscribeFailed request).val_solar = s.val_solar := by unfold Sidebar.gridSubscribeFailed; split <;> simp

@[simp] theorem Sidebar.gridSubscribeFailed_val_home (s : Sidebar) (request : Nat) :
    (s.gridSubscribeFailed request).val_home = s.val_home := by unfold Sidebar.gridSubscribeFailed; split <;> simp

@[simp] theorem Sidebar.gridSubscribeFailed_gridGeneration (s : Sidebar) (request : Nat) :
    (s.gridSubscribeFailed request).gridGeneration = s.gridGeneration := by unfold Sidebar.gridSubscribeFailed; split <;> simp

@[simp] theorem Sidebar.gridSubscribeFailed_renderCount (s : Sidebar) (request : Nat) :
    (s.gridSubscribeFailed request).renderCount = s.renderCount := by unfold Sidebar.gridSubscribeFailed; split <;> simp

@[simp] theorem Sidebar.gridSubscribeFailed_updateCount (s : Sidebar) (request : Nat) :
    (s.gridSubscribeFailed request).updateCount = s.updateCount := by unfold Sidebar.gridSubscribeFailed; split <;> simp

@[simp] theorem Sidebar.gridSubscribeFailed_forecastTimeouts (s : Sidebar) (request : Nat) :
    (s.gridSubscribeFailed request).forecastTimeouts = s.forecastTimeouts := by unfold Sidebar.gridSubscribeFailed; split <;> simp

@[simp] theorem Sidebar.gridSubscribeFailed_intervals (s : Sidebar) (request : Nat) :
    (s.gridSubscribeFailed request).intervals = s.intervals := by unfold Sidebar.gridSubscribeFailed; split <;> simp

@[simp] theorem Sidebar.gridSubscribeFailed_nextTimerId (s : Sidebar) (request : Nat) :
    (s.gridSubscribeFailed request).nextTimerId = s.nextTimerId := by unfold Sidebar.gridSubscribeFailed; split <;> simp

@[simp] theorem Sidebar.gridSubscribeFailed_requests (s : Sidebar) (request : Nat) :
    (s.gridSubscribeFailed request).requests = s.requests := by unfold Sidebar.gridSubscribeFailed; split <;> simp

@[simp] theorem Sidebar.gridSubscribeFailed_subscriptions (s : Sidebar) (request : Nat) :
    (s.gridSubscribeFailed request).subscriptions = s.subscriptions := by unfold Sidebar.gridSubscribeFailed; split <;> simp

@[simp] theorem Sidebar.gridSubscribeFailed_released (s : Sidebar) (request : Nat) :
    (s.gridSubscribeFailed request).released = s.released := by unfold Sidebar.gridSubscribeFailed; split <;> simp

@[simp] theorem Sidebar.gridSubscribeFailed_nextRequestId (s : Sidebar) (request : Nat) :
    (s.gridSubscribeFailed request).nextRequestId = s.nextRequestId := by unfold Sidebar.gridSubscribeFailed; split <;> simp

@[simp] theorem Sidebar.gridSubscribeFailed_popups (s : Sidebar) (request : Nat) :
    (s.gridSubscribeFailed request).popups = s.popups := by unfold Sidebar.gridSubscribeFailed; split <;> simp

@[simp] theorem Sidebar.gridSubscribeFailed_apiRequests (s : Sidebar) (request : Nat) :
    (s.gridSubscribeFailed request).apiRequests = s.apiRequests := by unfold Sidebar.gridSubscribeFailed; split <;> simp

@[simp] theorem Sidebar.gridSubscribeFailed_wsRequests (s : Sidebar) (request : Nat) :
    (s.gridSubscribeFailed request).wsRequests = s.wsRequests := by unfold Sidebar.gridSubscribeFailed; split <;> simp

@[simp] theorem Sidebar.gridSubscribeFailed_notifications (s : Sidebar) (request : Nat) :
    (s.gridSubscribeFailed request).notifications = s.notifications := by unfold Sidebar.gridSubscribeFailed; split <;> simp

@[simp] theorem Sidebar.gridGraceElapsed_timer (s : Sidebar) (request : Nat) :
    (s.gridGraceElapsed request).timer = s.timer := by unfold Sidebar.gridGraceElapsed; split <;> simp

@[simp] theorem Sidebar.gridGraceElapsed_cameraTimer (s : Sidebar) (request : Nat) :
    (s.gridGraceElapsed request).cameraTimer = s.cameraTimer := by unfold Sidebar.gridGraceElapsed; split <;> simp

@[simp] theorem Sidebar.gridGraceElapsed_hasRendered (s : Sidebar) (request : Nat) :
    (s.gridGraceElapsed request).hasRendered = s.hasRendered := by unfold Sidebar.gridGraceElapsed; split <;> simp

@[simp] theorem Sidebar.gridGraceElapsed_currentCameraIndex (s : Sidebar) (request : Nat) :
    (s.gridGraceElapsed request).currentCameraIndex = s.currentCameraIndex := by unfold Sidebar.gridGraceElapsed; split <;> simp

@[simp] theorem Sidebar.gridGraceElapsed_cameraEntities (s : Sidebar) (request : Nat) :
    (s.gridGraceElapsed request).cameraEntities = s.cameraEntities := by unfold Sidebar.gridGraceElapsed; split <;> simp

@[simp] theorem Sidebar.gridGraceElapsed_forecastSubscriber (s : Sidebar) (request : Nat) :
    (s.gridGraceElapsed request).forecastSubscriber = s.forecastSubscriber := by unfold Sidebar.gridGraceElapsed; split <;> simp

@[simp] theorem Sidebar.gridGraceElapsed_config (s : Sidebar) (request : Nat) :
    (s.gridGraceElapsed request).config = s.config := by unfold Sidebar.gridGraceElapsed; split <;> simp

@[simp] theorem Sidebar.gridGraceElapsed__hass (s : Sidebar) (request : Nat) :
    (s.gridGraceElapsed request)._hass = s._hass := by unfold Sidebar.gridGraceElapsed; split <;> simp

@[simp] theorem Sidebar.gridGraceElapsed_temperatureEntity (s : Sidebar) (request : Nat) :
    (s.gridGraceElapsed request).temperatureEntity = s.temperatureEntity := by unfold Sidebar.gridGraceElapsed; split <;> simp

@[simp] theorem Sidebar.gridGraceElapsed_weatherEntity (s : Sidebar) (request : Nat) :
    (s.gridGraceElapsed request).weatherEntity = s.weatherEntity := by unfold Sidebar.gridGraceElapsed; split <;> simp

@[simp] theorem Sidebar.gridGraceElapsed_gridEntity (s : Sidebar) (request : Nat) :
    (s.gridGraceElapsed request).gridEntity = s.gridEntity := by unfold Sidebar.gridGraceElapsed; split <;> simp

@[simp] theorem Sidebar.gridGraceElapsed_solarEntity (s : Sidebar) (request : Nat) :
    (s.gridGraceElapsed request).solarEntity = s.solarEntity := by unfold Sidebar.gridGraceElapsed; split <;> simp

@[simp] theorem Sidebar.gridGraceElapsed_homeEntity (s : Sidebar) (request : Nat) :
    (s.gridGraceElapsed request).homeEntity = s.homeEntity := by unfold Sidebar.gridGraceElapsed; split <;> simp

@[simp] theorem Sidebar.gridGraceElapsed_calendarEntity (s : Sidebar) (request : Nat) :
    (s.gridGraceElapsed request).calendarEntity = s.calendarEntity := by unfold Sidebar.gridGraceElapsed; split <;> simp

@[simp] theorem Sidebar.gridGraceElapsed_temperatureTitle (s : Sidebar) (request : Nat) :
    (s.gridGraceElapsed request).temperatureTitle = s.temperatureTitle := by unfold Sidebar.gridGraceElapsed; split <;> simp

@[simp] theorem Sidebar.gridGraceElapsed_customCardConfig (s : Sidebar) (request : Nat) :
    (s.gridGraceElapsed request).customCardConfig = s.customCardConfig := by unfold Sidebar.gridGraceElapsed; split <;> simp

@[simp] theorem Sidebar.gridGraceElapsed_customCardType (s : Sidebar) (request : Nat) :
    (s.gridGraceElapsed request).customCardType = s.customCardType := by unfold Sidebar.gridGraceElapsed; split <;> simp

@[simp] theorem Sidebar.gridGraceElapsed_graphHours (s : Sidebar) (request : Nat) :
    (s.gridGraceElapsed request).graphHours = s.graphHours := by unfold Sidebar.gridGraceElapsed; split <;> simp

@[simp] theorem Sidebar.gridGraceElapsed_sidebarWidth (s : Sidebar) (request : Nat) :
    (s.gridGraceElapsed request).sidebarWidth = s.sidebarWidth := by unfold Sidebar.gridGraceElapsed; split <;> simp

@[simp] theorem Sidebar.gridGraceElapsed_rotationInterval (s : Sidebar) (request : Nat) :
    (s.gridGraceElapsed request).rotationInterval = s.rotationInterval := by unfold Sidebar.gridGraceElapsed; split <;> simp

@[simp] theorem Sidebar.gridGraceElapsed_forecastDays (s : Sidebar) (request : Nat) :
    (s.gridGraceElapsed request).forecastDays = s.forecastDays := by unfold Sidebar.gridGraceElapsed; split <;> simp

@[simp] theorem Sidebar.gridGraceElapsed_val_grid (s : Sidebar) (request : Nat) :
    (s.gridGraceElapsed request).val_grid = s.val_grid := by unfold Sidebar.gridGraceElapsed; split <;> simp

@[simp] theorem Sidebar.gridGraceElapsed_val_solar (s : Sidebar) (request : Nat) :
    (s.gridGraceElapsed request).val_solar = s.val_solar := by unfold Sidebar.gridGraceElapsed; split <;> simp

@[simp] theorem Sidebar.gridGraceElapsed_val_home (s : Sidebar) (request : Nat) :
    (s.gridGraceElapsed request).val_home = s.val_home := by unfold Sidebar.gridGraceElapsed; split <;> simp

@[simp] theorem Sidebar.gridGraceElapsed_gridGeneration (s : Sidebar) (request : Nat) :
    (s.gridGraceElapsed request).gridGeneration = s.gridGeneration := by unfold Sidebar.gridGraceElapsed; split <;> simp

@[simp] theorem Sidebar.gridGraceElapsed_renderCount (s : Sidebar) (request : Nat) :
    (s.gridGraceElapsed request).renderCount = s.renderCount := by unfold Sidebar.gridGraceElapsed; split <;> simp

@[simp] theorem Sidebar.gridGraceElapsed_updateCount (s : Sidebar) (request : Nat) :
    (s.gridGraceElapsed request).updateCount = s.updateCount := by unfold Sidebar.gridGraceElapsed; split <;> simp

@[simp] theorem Sidebar.gridGraceElapsed_forecastTimeouts (s : Sidebar) (request : Nat) :
    (s.gridGraceElapsed request).forecastTimeouts = s.forecastTimeouts := by unfold Sidebar.gridGraceElapsed; split <;> simp

@[simp] theorem Sidebar.gridGraceElapsed_intervals (s : Sidebar) (request : Nat) :
    (s.gridGraceElapsed request).intervals = s.intervals := by unfold Sidebar.gridGraceElapsed; split <;> simp

@[simp] theorem Sidebar.gridGraceElapsed_nextTimerId (s : Sidebar) (request : Nat) :
    (s.gridGraceElapsed request).nextTimerId = s.nextTimerId := by unfold Sidebar.gridGraceElapsed; split <;> simp

@[simp] theorem Sidebar.gridGraceElapsed_requests (s : Sidebar) (request : Nat) :
    (s.gridGraceElapsed request).requests = s.requests := by unfold Sidebar.gridGraceElapsed; split <;> simp

@[simp] theorem Sidebar.gridGraceElapsed_subscriptions (s : Sidebar) (request : Nat) :
    (s.gridGraceElapsed request).subscriptions = s.subscriptions := by unfold Sidebar.gridGraceElapsed; split <;> simp

@[simp] theorem Sidebar.gridGraceElapsed_released (s : Sidebar) (request : Nat) :
    (s.gridGraceElapsed request).released = s.released := by unfold Sidebar.gridGraceElapsed; split <;> simp

@[simp] theorem Sidebar.gridGraceElapsed_nextRequestId (s : Sidebar) (request : Nat) :
    (s.gridGraceElapsed request).nextRequestId = s.nextRequestId := by unfold Sidebar.gridGraceElapsed; split <;> simp

@[simp] theorem Sidebar.gridGraceElapsed_popups (s : Sidebar) (request : Nat) :
    (s.gridGraceElapsed request).popups = s.popups := by unfold Sidebar.gridGraceElapsed; split <;> simp

@[simp] theorem Sidebar.gridGraceElapsed_apiRequests (s : Sidebar) (request : Nat) :
    (s.gridGraceElapsed request).apiRequests = s.apiRequests := by unfold Sidebar.gridGraceElapsed; split <;> simp

@[simp] theorem Sidebar.gridGraceElapsed_wsRequests (s : Sidebar) (request : Nat) :
    (s.gridGraceElapsed request).wsRequests = s.wsRequests := by unfold Sidebar.gridGraceElapsed; split <;> simp

@[simp] theorem Sidebar.gridGraceElapsed_notifications (s : Sidebar) (request : Nat) :
    (s.gridGraceElapsed request).notifications = s.notifications := by unfold Sidebar.gridGraceElapsed; split <;> simp

@[simp] theorem Sidebar.forecastEvent_timer (s : Sidebar) (request : Nat) (payload : Option (List ForecastEntry)) :
    (s.forecastEvent request payload).timer = s.timer := by unfold Sidebar.forecastEvent; (repeat' split) <;> simp

@[simp] theorem Sidebar.forecastEvent_cameraTimer (s : Sidebar) (request : Nat) (payload : Option (List ForecastEntry)) :
    (s.forecastEvent request payload).cameraTimer = s.cameraTimer := by unfold Sidebar.forecastEvent; (repeat' split) <;> simp

@[simp] theorem Sidebar.forecastEvent_hasRendered (s : Sidebar) (request : Nat) (payload : Option (List ForecastEntry)) :
    (s.forecastEvent request payload).hasRendered = s.hasRendered := by unfold Sidebar.forecastEvent; (repeat' split) <;> simp

@[simp] theorem Sidebar.forecastEvent_currentCameraIndex (s : Sidebar) (request : Nat) (payload : Option (List ForecastEntry)) :
    (s.forecastEvent request payload).currentCameraIndex = s.currentCameraIndex := by unfold Sidebar.forecastEvent; (repeat' split) <;> simp

@[simp] theorem Sidebar.forecastEvent_cameraEntities (s : Sidebar) (request : Nat) (payload : Option (List ForecastEntry)) :
    (s.forecastEvent request payload).cameraEntities = s.cameraEntities := by unfold Sidebar.forecastEvent; (repeat' split) <;> simp

@[simp] theorem Sidebar.forecastEvent_forecastSubscriber (s : Sidebar) (request : Nat) (payload : Option (List ForecastEntry)) :
    (s.forecastEvent request payload).forecastSubscriber = s.forecastSubscriber := by unfold Sidebar.forecastEvent; (repeat' split) <;> simp

@[simp] theorem Sidebar.forecastEvent_config (s : Sidebar) (request : Nat) (payload : Option (List ForecastEntry)) :
    (s.forecastEvent request payload).config = s.config := by unfold Sidebar.forecastEvent; (repeat' split) <;> simp

@[simp] theorem Sidebar.forecastEvent__hass (s : Sidebar) (request : Nat) (payload : Option (List ForecastEntry)) :
    (s.forecastEvent request payload)._hass = s._hass := by unfold Sidebar.forecastEvent; (repeat' split) <;> simp

@[simp] theorem Sidebar.forecastEvent_temperatureEntity (s : Sidebar) (request : Nat) (payload : Option (List ForecastEntry)) :
    (s.forecastEvent request payload).temperatureEntity = s.temperatureEntity := by unfold Sidebar.forecastEvent; (repeat' split) <;> simp

@[simp] theorem Sidebar.forecastEvent_weatherEntity (s : Sidebar) (request : Nat) (payload : Option (List ForecastEntry)) :
    (s.forecastEvent request payload).weatherEntity = s.weatherEntity := by unfold Sidebar.forecastEvent; (repeat' split) <;> simp

@[simp] theorem Sidebar.forecastEvent_gridEntity (s : Sidebar) (request : Nat) (payload : Option (List ForecastEntry)) :
    (s.forecastEvent request payload).gridEntity = s.gridEntity := by unfold Sidebar.forecastEvent; (repeat' split) <;> simp

@[simp] theorem Sidebar.forecastEvent_solarEntity (s : Sidebar) (request : Nat) (payload : Option (List ForecastEntry)) :
    (s.forecastEvent request payload).solarEntity = s.solarEntity := by unfold Sidebar.forecastEvent; (repeat' split) <;> simp

@[simp] theorem Sidebar.forecastEvent_homeEntity (s : Sidebar) (request : Nat) (payload : Option (List ForecastEntry)) :
    (s.forecastEvent request payload).homeEntity = s.homeEntity := by unfold Sidebar.forecastEvent; (repeat' split) <;> simp

@[simp] theorem Sidebar.forecastEvent_calendarEntity (s : Sidebar) (request : Nat) (payload : Option (List ForecastEntry)) :
    (s.forecastEvent request payload).calendarEntity = s.calendarEntity := by unfold Sidebar.forecastEvent; (repeat' split) <;> simp

@[simp] theorem Sidebar.forecastEvent_temperatureTitle (s : Sidebar) (request : Nat) (payload : Option (List ForecastEntry)) :
    (s.forecastEvent request payload).temperatureTitle = s.temperatureTitle := by unfold Sidebar.forecastEvent; (repeat' split) <;> simp

@[simp] theorem Sidebar.forecastEvent_customCardConfig (s : Sidebar) (request : Nat) (payload : Option (List ForecastEntry)) :
    (s.forecastEvent request payload).customCardConfig = s.customCardConfig := by unfold Sidebar.forecastEvent; (repeat' split) <;> simp

@[simp] theorem Sidebar.forecastEvent_customCardType (s : Sidebar) (request : Nat) (payload : Option (List ForecastEntry)) :
    (s.forecastEvent request payload).customCardType = s.customCardType := by unfold Sidebar.forecastEvent; (repeat' split) <;> simp

@[simp] theorem Sidebar.forecastEvent_graphHours (s : Sidebar) (request : Nat) (payload : Option (List ForecastEntry)) :
    (s.forecastEvent request payload).graphHours = s.graphHours := by unfold Sidebar.forecastEvent; (repeat' split) <;> simp

@[simp] theorem Sidebar.forecastEvent_sidebarWidth (s : Sidebar) (request : Nat) (payload : Option (List ForecastEntry)) :
    (s.forecastEvent request payload).sidebarWidth = s.sidebarWidth := by unfold Sidebar.forecastEvent; (repeat' split) <;> simp

@[simp] theorem Sidebar.forecastEvent_rotationInterval (s : Sidebar) (request : Nat) (payload : Option (List ForecastEntry)) :
    (s.forecastEvent request payload).rotationInterval = s.rotationInterval := by unfold Sidebar.forecastEvent; (repeat' split) <;> simp

@[simp] theorem Sidebar.forecastEvent_forecastDays (s : Sidebar) (request : Nat) (payload : Option (List ForecastEntry)) :
    (s.forecastEvent request payload).forecastDays = s.forecastDays := by unfold Sidebar.forecastEvent; (repeat' split) <;> simp

@[simp] theorem Sidebar.forecastEvent_val_grid (s : Sidebar) (request : Nat) (payload : Option (List ForecastEntry)) :
    (s.forecastEvent request payload).val_grid = s.val_grid := by unfold Sidebar.forecastEvent; (repeat' split) <;> simp

@[simp] theorem Sidebar.forecastEvent_val_solar (s : Sidebar) (request : Nat) (payload : Option (List ForecastEntry)) :
    (s.forecastEvent request payload).val_solar = s.val_solar := by unfold Sidebar.forecastEvent; (repeat' split) <;> simp

@[simp] theorem Sidebar.forecastEvent_val_home (s : Sidebar) (request : Nat) (payload : Option (List ForecastEntry)) :
    (s.forecastEvent request payload).val_home = s.val_home := by unfold Sidebar.forecastEvent; (repeat' split) <;> simp

@[simp] theorem Sidebar.forecastEvent_gridGeneration (s : Sidebar) (request : Nat) (payload : Option (List ForecastEntry)) :
    (s.forecastEvent request payload).gridGeneration = s.gridGeneration := by unfold Sidebar.forecastEvent; (repeat' split) <;> simp

@[simp] theorem Sidebar.forecastEvent_renderCount (s : Sidebar) (request : Nat) (payload : Option (List ForecastEntry)) :
    (s.forecastEvent request payload).renderCount = s.renderCount := by unfold Sidebar.forecastEvent; (repeat' split) <;> simp

@[simp] theorem Sidebar.forecastEvent_updateCount (s : Sidebar) (request : Nat) (payload : Option (List ForecastEntry)) :
    (s.forecastEvent request payload).updateCount = s.updateCount := by unfold Sidebar.forecastEvent; (repeat' split) <;> simp

@[simp] theorem Sidebar.forecastEvent_forecastTimeouts (s : Sidebar) (request : Nat) (payload : Option (List ForecastEntry)) :
    (s.forecastEvent request payload).forecastTimeouts = s.forecastTimeouts := by unfold Sidebar.forecastEvent; (repeat' split) <;> simp

@[simp] theorem Sidebar.forecastEvent_intervals (s : Sidebar) (request : Nat) (payload : Option (List ForecastEntry)) :
    (s.forecastEvent request payload).intervals = s.intervals := by unfold Sidebar.forecastEvent; (repeat' split) <;> simp

@[simp] theorem Sidebar.forecastEvent_nextTimerId (s : Sidebar) (request : Nat) (payload : Option (List ForecastEntry)) :
    (s.forecastEvent request payload).nextTimerId = s.nextTimerId := by unfold Sidebar.forecastEvent; (repeat' split) <;> simp

@[simp] theorem Sidebar.forecastEvent_requests (s : Sidebar) (request : Nat) (payload : Option (List ForecastEntry)) :
    (s.forecastEvent request payload).requests = s.requests := by unfold Sidebar.forecastEvent; (repeat' split) <;> simp

@[simp] theorem Sidebar.forecastEvent_subscriptions (s : Sidebar) (request : Nat) (payload : Option (List ForecastEntry)) :
    (s.forecastEvent request payload).subscriptions = s.subscriptions := by unfold Sidebar.forecastEvent; (repeat' split) <;> simp

@[simp] theorem Sidebar.forecastEvent_released (s : Sidebar) (request : Nat) (payload : Option (List ForecastEntry)) :
    (s.forecastEvent request payload).released = s.released := by unfold Sidebar.forecastEvent; (repeat' split) <;> simp

@[simp] theorem Sidebar.forecastEvent_nextRequestId (s : Sidebar) (request : Nat) (payload : Option (List ForecastEntry)) :
    (s.forecastEvent request payload).nextRequestId = s.nextRequestId := by unfold Sidebar.forecastEvent; (repeat' split) <;> simp

@[simp] theorem Sidebar.forecastEvent_popups (s : Sidebar) (request : Nat) (payload : Option (List ForecastEntry)) :
    (s.forecastEvent request payload).popups = s.popups := by unfold Sidebar.forecastEvent; (repeat' split) <;> simp

@[simp] theorem Sidebar.forecastEvent_apiRequests (s : Sidebar) (request : Nat) (payload : Option (List ForecastEntry)) :
    (s.forecastEvent request payload).apiRequests = s.apiRequests := by unfold Sidebar.forecastEvent; (repeat' split) <;> simp

@[simp] theorem Sidebar.forecastEvent_wsRequests (s : Sidebar) (request : Nat) (payload : Option (List ForecastEntry)) :
    (s.forecastEvent request payload).wsRequests = s.wsRequests := by unfold Sidebar.forecastEvent; (repeat' split) <;> simp

@[simp] theorem Sidebar.forecastEvent_notifications (s : Sidebar) (request : Nat) (payload : Option (List ForecastEntry)) :
    (s.forecastEvent request payload).notifications = s.notifications := by unfold Sidebar.forecastEvent; (repeat' split) <;> simp

@[simp] theorem Sidebar._handleWeatherClick_timer (s : Sidebar) :
    (s._handleWeatherClick).timer = s.timer := by unfold Sidebar._handleWeatherClick; (repeat' split) <;> simp

@[simp] theorem Sidebar._handleWeatherClick_cameraTimer (s : Sidebar) :
    (s._handleWeatherClick).cameraTimer = s.cameraTimer := by unfold Sidebar._handleWeatherClick; (repeat' split) <;> simp

@[simp] theorem Sidebar._handleWeatherClick_hasRendered (s : Sidebar) :
    (s._handleWeatherClick).hasRendered = s.hasRendered := by unfold Sidebar._handleWeatherClick; (repeat' split) <;> simp

@[simp] theorem Sidebar._handleWeatherClick_currentCameraIndex (s : Sidebar) :
    (s._handleWeatherClick).currentCameraIndex = s.currentCameraIndex := by unfold Sidebar._handleWeatherClick; (repeat' split) <;> simp

@[simp] theorem Sidebar._handleWeatherClick_cameraEntities (s : Sidebar) :
    (s._handleWeatherClick).cameraEntities = s.cameraEntities := by unfold Sidebar._handleWeatherClick; (repeat' split) <;> simp

@[simp] theorem Sidebar._handleWeatherClick_forecastSubscriber (s : Sidebar) :
    (s._handleWeatherClick).forecastSubscriber = s.forecastSubscriber := by unfold Sidebar._handleWeatherClick; (repeat' split) <;> simp

@[simp] theorem Sidebar._handleWeatherClick_config (s : Sidebar) :
    (s._handleWeatherClick).config = s.config := by unfold Sidebar._handleWeatherClick; (repeat' split) <;> simp

@[simp] theorem Sidebar._handleWeatherClick__hass (s : Sidebar) :
    (s._handleWeatherClick)._hass = s._hass := by unfold Sidebar._handleWeatherClick; (repeat' split) <;> simp

@[simp] theorem Sidebar._handleWeatherClick_temperatureEntity (s : Sidebar) :
    (s._handleWeatherClick).temperatureEntity = s.temperatureEntity := by unfold Sidebar._handleWeatherClick; (repeat' split) <;> simp

@[simp] theorem Sidebar._handleWeatherClick_weatherEntity (s : Sidebar) :
    (s._handleWeatherClick).weatherEntity = s.weatherEntity := by unfold Sidebar._handleWeatherClick; (repeat' split) <;> simp

@[simp] theorem Sidebar._handleWeatherClick_gridEntity (s : Sidebar) :
    (s._handleWeatherClick).gridEntity = s.gridEntity := by unfold Sidebar._handleWeatherClick; (repeat' split) <;> simp

@[simp] theorem Sidebar._handleWeatherClick_solarEntity (s : Sidebar) :
    (s._handleWeatherClick).solarEntity = s.solarEntity := by unfold Sidebar._handleWeatherClick; (repeat' split) <;> simp

@[simp] theorem Sidebar._handleWeatherClick_homeEntity (s : Sidebar) :
    (s._handleWeatherClick).homeEntity = s.homeEntity := by unfold Sidebar._handleWeatherClick; (repeat' split) <;> simp

@[simp] theorem Sidebar._handleWeatherClick_calendarEntity (s : Sidebar) :
    (s._handleWeatherClick).calendarEntity = s.calendarEntity := by unfold Sidebar._handleWeatherClick; (repeat' split) <;> simp

@[simp] theorem Sidebar._handleWeatherClick_temperatureTitle (s : Sidebar) :
    (s._handleWeatherClick).temperatureTitle = s.temperatureTitle := by unfold Sidebar._handleWeatherClick; (repeat' split) <;> simp

@[simp] theorem Sidebar._handleWeatherClick_customCardConfig (s : Sidebar) :
    (s._handleWeatherClick).customCardConfig = s.customCardConfig := by unfold Sidebar._handleWeatherClick; (repeat' split) <;> simp

@[simp] theorem Sidebar._handleWeatherClick_customCardType (s : Sidebar) :
    (s._handleWeatherClick).customCardType = s.customCardType := by unfold Sidebar._handleWeatherClick; (repeat' split) <;> simp

@[simp] theorem Sidebar._handleWeatherClick_graphHours (s : Sidebar) :
    (s._handleWeatherClick).graphHours = s.graphHours := by unfold Sidebar._handleWeatherClick; (repeat' split) <;> simp

@[simp] theorem Sidebar._handleWeatherClick_sidebarWidth (s : Sidebar) :
    (s._handleWeatherClick).sidebarWidth = s.sidebarWidth := by unfold Sidebar._handleWeatherClick; (repeat' split) <;> simp

@[simp] theorem Sidebar._handleWeatherClick_rotationInterval (s : Sidebar) :
    (s._handleWeatherClick).rotationInterval = s.rotationInterval := by unfold Sidebar._handleWeatherClick; (repeat' split) <;> simp

@[simp] theorem Sidebar._handleWeatherClick_forecastDays (s : Sidebar) :
    (s._handleWeatherClick).forecastDays = s.forecastDays := by unfold Sidebar._handleWeatherClick; (repeat' split) <;> simp

@[simp] theorem Sidebar._handleWeatherClick_val_grid (s : Sidebar) :
    (s._handleWeatherClick).val_grid = s.val_grid := by unfold Sidebar._handleWeatherClick; (repeat' split) <;> simp

@[simp] theorem Sidebar._handleWeatherClick_val_solar (s : Sidebar) :
    (s._handleWeatherClick).val_solar = s.val_solar := by unfold Sidebar._handleWeatherClick; (repeat' split) <;> simp

@[simp] theorem Sidebar._handleWeatherClick_val_home (s : Sidebar) :
    (s._handleWeatherClick).val_home = s.val_home := by unfold Sidebar._handleWeatherClick; (repeat' split) <;> simp

@[simp] theorem Sidebar._handleWeatherClick_forecastGrid (s : Sidebar) :
    (s._handleWeatherClick).forecastGrid = s.forecastGrid := by unfold Sidebar._handleWeatherClick; (repeat' split) <;> simp

@[simp] theorem Sidebar._handleWeatherClick_gridGeneration (s : Sidebar) :
    (s._handleWeatherClick).gridGeneration = s.gridGeneration := by unfold Sidebar._handleWeatherClick; (repeat' split) <;> simp

@[simp] theorem Sidebar._handleWeatherClick_renderCount (s : Sidebar) :
    (s._handleWeatherClick).renderCount = s.renderCount := by unfold Sidebar._handleWeatherClick; (repeat' split) <;> simp

@[simp] theorem Sidebar._handleWeatherClick_updateCount (s : Sidebar) :
    (s._handleWeatherClick).updateCount = s.updateCount := by unfold Sidebar._handleWeatherClick; (repeat' split) <;> simp

@[simp] theorem Sidebar._handleWeatherClick_forecastTimeouts (s : Sidebar) :
    (s._handleWeatherClick).forecastTimeouts = s.forecastTimeouts := by unfold Sidebar._handleWeatherClick; (repeat' split) <;> simp

@[simp] theorem Sidebar._handleWeatherClick_intervals (s : Sidebar) :
    (s._handleWeatherClick).intervals = s.intervals := by unfold Sidebar._handleWeatherClick; (repeat' split) <;> simp

@[simp] theorem Sidebar._handleWeatherClick_nextTimerId (s : Sidebar) :
    (s._handleWeatherClick).nextTimerId = s.nextTimerId := by unfold Sidebar._handleWeatherClick; (repeat' split) <;> simp

@[simp] theorem Sidebar._handleWeatherClick_gridCalls (s : Sidebar) :
    (s._handleWeatherClick).gridCalls = s.gridCalls := by unfold Sidebar._handleWeatherClick; (repeat' split) <;> simp

@[simp] theorem Sidebar._handleWeatherClick_subscriptions (s : Sidebar) :
    (s._handleWeatherClick).subscriptions = s.subscriptions := by unfold Sidebar._handleWeatherClick; (repeat' split) <;> simp

@[simp] theorem Sidebar._handleWeatherClick_released (s : Sidebar) :
    (s._handleWeatherClick).released = s.released := by unfold Sidebar._handleWeatherClick; (repeat' split) <;> simp

@[simp] theorem Sidebar._handleWeatherClick_popups (s : Sidebar) :
    (s._handleWeatherClick).popups = s.popups := by unfold Sidebar._handleWeatherClick; (repeat' split) <;> simp

@[simp] theorem Sidebar._handleWeatherClick_apiRequests (s : Sidebar) :
    (s._handleWeatherClick).apiRequests = s.apiRequests := by unfold Sidebar._handleWeatherClick; (repeat' split) <;> simp

@[simp] theorem Sidebar._handleWeatherClick_wsRequests (s : Sidebar) :
    (s._handleWeatherClick).wsRequests = s.wsRequests := by unfold Sidebar._handleWeatherClick; (repeat' split) <;> simp

@[simp] theorem Sidebar._handleWeatherClick_notifications (s : Sidebar) :
    (s._handleWeatherClick).notifications = s.notifications := by unfold Sidebar._handleWeatherClick; (repeat' split) <;> simp

@[simp] theorem Sidebar._handleCalendarClick_timer (s : Sidebar) (now : Int)
    (primary : Option AgendaAnswer) (alternate : Option WsAnswer) :
    (s._handleCalendarClick now primary alternate).timer = s.timer := by
  unfold Sidebar._handleCalendarClick
  (repeat' split) <;> simp only [] <;> split_ifs <;> simp

@[simp] theorem Sidebar._handleCalendarClick_cameraTimer (s : Sidebar) (now : Int)
    (primary : Option AgendaAnswer) (alternate : Option WsAnswer) :
    (s._handleCalendarClick now primary alternate).cameraTimer = s.cameraTimer := by
  unfold Sidebar._handleCalendarClick
  (repeat' split) <;> simp only [] <;> split_ifs <;> simp

@[simp] theorem Sidebar._handleCalendarClick_hasRendered (s : Sidebar) (now : Int)
    (primary : Option AgendaAnswer) (alternate : Option WsAnswer) :
    (s._handleCalendarClick now primary alternate).hasRendered = s.hasRendered := by
  unfold Sidebar._handleCalendarClick
  (repeat' split) <;> simp only [] <;> split_ifs <;> simp

@[simp] theorem Sidebar._handleCalendarClick_currentCameraIndex (s : Sidebar) (now : Int)
    (primary : Option AgendaAnswer) (alternate : Option WsAnswer) :
    (s._handleCalendarClick now primary alternate).currentCameraIndex = s.currentCameraIndex := by
  unfold Sidebar._handleCalendarClick
  (repeat' split) <;> simp only [] <;> split_ifs <;> simp

@[simp] theorem Sidebar._handleCalendarClick_cameraEntities (s : Sidebar) (now : Int)
    (primary : Option AgendaAnswer) (alternate : Option WsAnswer) :
    (s._handleCalendarClick now primary alternate).cameraEntities = s.cameraEntities := by
  unfold Sidebar._handleCalendarClick
  (repeat' split) <;> simp only [] <;> split_ifs <;> simp

@[simp] theorem Sidebar._handleCalendarClick_forecastSubscriber (s : Sidebar) (now : Int)
    (primary : Option AgendaAnswer) (alternate : Option WsAnswer) :
    (s._handleCalendarClick now primary alternate).forecastSubscriber = s.forecastSubscriber := by
  unfold Sidebar._handleCalendarClick
  (repeat' split) <;> simp only [] <;> split_ifs <;> simp

@[simp] theorem Sidebar._handleCalendarClick_config (s : Sidebar) (now : Int)
    (primary : Option AgendaAnswer) (alternate : Option WsAnswer) :
    (s._handleCalendarClick now primary alternate).config = s.config := by
  unfold Sidebar._handleCalendarClick
  (repeat' split) <;> simp only [] <;> split_ifs <;> simp

@[simp] theorem Sidebar._handleCalendarClick__hass (s : Sidebar) (now : Int)
    (primary : Option AgendaAnswer) (alternate : Option WsAnswer) :
    (s._handleCalendarClick now primary alternate)._hass = s._hass := by
  unfold Sidebar._handleCalendarClick
  (repeat' split) <;> simp only [] <;> split_ifs <;> simp

@[simp] theorem Sidebar._handleCalendarClick_temperatureEntity (s : Sidebar) (now : Int)
    (primary : Option AgendaAnswer) (alternate : Option WsAnswer) :
    (s._handleCalendarClick now primary alternate).temperatureEntity = s.temperatureEntity := by
  unfold Sidebar._handleCalendarClick
  (repeat' split) <;> simp only [] <;> split_ifs <;> simp

@[simp] theorem Sidebar._handleCalendarClick_weatherEntity (s : Sidebar) (now : Int)
    (primary : Option AgendaAnswer) (alternate : Option WsAnswer) :
    (s._handleCalendarClick now primary alternate).weatherEntity = s.weatherEntity := by
  unfold Sidebar._handleCalendarClick
  (repeat' split) <;> simp only [] <;> split_ifs <;> simp

@[simp] theorem Sidebar._handleCalendarClick_gridEntity (s : Sidebar) (now : Int)
    (primary : Option AgendaAnswer) (alternate : Option WsAnswer) :
    (s._handleCalendarClick now primary alternate).gridEntity = s.gridEntity := by
  unfold Sidebar._handleCalendarClick
  (repeat' split) <;> simp only [] <;> split_ifs <;> simp

@[simp] theorem Sidebar._handleCalendarClick_solarEntity (s : Sidebar) (now : Int)
    (primary : Option AgendaAnswer) (alternate : Option WsAnswer) :
    (s._handleCalendarClick now primary alternate).solarEntity = s.solarEntity := by
  unfold Sidebar._handleCalendarClick
  (repeat' split) <;> simp only [] <;> split_ifs <;> simp

@[simp] theorem Sidebar._handleCalendarClick_homeEntity (s : Sidebar) (now : Int)
    (primary : Option AgendaAnswer) (alternate : Option WsAnswer) :
    (s._handleCalendarClick now primary alternate).homeEntity = s.homeEntity := by
  unfold Sidebar._handleCalendarClick
  (repeat' split) <;> simp only [] <;> split_ifs <;> simp

@[simp] theorem Sidebar._handleCalendarClick_calendarEntity (s : Sidebar) (now : Int)
    (primary : Option AgendaAnswer) (alternate : Option WsAnswer) :
    (s._handleCalendarClick now primary alternate).calendarEntity = s.calendarEntity := by
  unfold Sidebar._handleCalendarClick
  (repeat' split) <;> simp only [] <;> split_ifs <;> simp

@[simp] theorem Sidebar._handleCalendarClick_temperatureTitle (s : Sidebar) (now : Int)
    (primary : Option AgendaAnswer) (alternate : Option WsAnswer) :
    (s._handleCalendarClick now primary alternate).temperatureTitle = s.temperatureTitle := by
  unfold Sidebar._handleCalendarClick
  (repeat' split) <;> simp only [] <;> split_ifs <;> simp

@[simp] theorem Sidebar._handleCalendarClick_customCardConfig (s : Sidebar) (now : Int)
    (primary : Option AgendaAnswer) (alternate : Option WsAnswer) :
    (s._handleCalendarClick now primary alternate).customCardConfig = s.customCardConfig := by
  unfold Sidebar._handleCalendarClick
  (repeat' split) <;> simp only [] <;> split_ifs <;> simp

@[simp] theorem Sidebar._handleCalendarClick_customCardType (s : Sidebar) (now : Int)
    (primary : Option AgendaAnswer) (alternate : Option WsAnswer) :
    (s._handleCalendarClick now primary alternate).customCardType = s.customCardType := by
  unfold Sidebar._handleCalendarClick
  (repeat' split) <;> simp only [] <;> split_ifs <;> simp

@[simp] theorem Sidebar._handleCalendarClick_graphHours (s : Sidebar) (now : Int)
    (primary : Option AgendaAnswer) (alternate : Option WsAnswer) :
    (s._handleCalendarClick now primary alternate).graphHours = s.graphHours := by
  unfold Sidebar._handleCalendarClick
  (repeat' split) <;> simp only [] <;> split_ifs <;> simp

@[simp] theorem Sidebar._handleCalendarClick_sidebarWidth (s : Sidebar) (now : Int)
    (primary : Option AgendaAnswer) (alternate : Option WsAnswer) :
    (s._handleCalendarClick now primary alternate).sidebarWidth = s.sidebarWidth := by
  unfold Sidebar._handleCalendarClick
  (repeat' split) <;> simp only [] <;> split_ifs <;> simp

@[simp] theorem Sidebar._handleCalendarClick_rotationInterval (s : Sidebar) (now : Int)
    (primary : Option AgendaAnswer) (alternate : Option WsAnswer) :
    (s._handleCalendarClick now primary alternate).rotationInterval = s.rotationInterval := by
  unfold Sidebar._handleCalendarClick
  (repeat' split) <;> simp only [] <;> split_ifs <;> simp

@[simp] theorem Sidebar._handleCalendarClick_forecastDays (s : Sidebar) (now : Int)
    (primary : Option AgendaAnswer) (alternate : Option WsAnswer) :
    (s._handleCalendarClick now primary alternate).forecastDays = s.forecastDays := by
  unfold Sidebar._handleCalendarClick
  (repeat' split) <;> simp only [] <;> split_ifs <;> simp

@[simp] theorem Sidebar._handleCalendarClick_val_grid (s : Sidebar) (now : Int)
    (primary : Option AgendaAnswer) (alternate : Option WsAnswer) :
    (s._handleCalendarClick now primary alternate).val_grid = s.val_grid := by
  unfold Sidebar._handleCalendarClick
  (repeat' split) <;> simp only [] <;> split_ifs <;> simp

@[simp] theorem Sidebar._handleCalendarClick_val_solar (s : Sidebar) (now : Int)
    (primary : Option AgendaAnswer) (alternate : Option WsAnswer) :
    (s._handleCalendarClick now primary alternate).val_solar = s.val_solar := by
  unfold Sidebar._handleCalendarClick
  (repeat' split) <;> simp only [] <;> split_ifs <;> simp

@[simp] theorem Sidebar._handleCalendarClick_val_home (s : Sidebar) (now : Int)
    (primary : Option AgendaAnswer) (alternate : Option WsAnswer) :
    (s._handleCalendarClick now primary alternate).val_home = s.val_home := by
  unfold Sidebar._handleCalendarClick
  (repeat' split) <;> simp only [] <;> split_ifs <;> simp

@[simp] theorem Sidebar._handleCalendarClick_forecastGrid (s : Sidebar) (now : Int)
    (primary : Option AgendaAnswer) (alternate : Option WsAnswer) :
    (s._handleCalendarClick now primary alternate).forecastGrid = s.forecastGrid := by
  unfold Sidebar._handleCalendarClick
  (repeat' split) <;> simp only [] <;> split_ifs <;> simp

@[simp] theorem Sidebar._handleCalendarClick_gridGeneration (s : Sidebar) (now : Int)
    (primary : Option AgendaAnswer) (alternate : Option WsAnswer) :
    (s._handleCalendarClick now primary alternate).gridGeneration = s.gridGeneration := by
  unfold Sidebar._handleCalendarClick
  (repeat' split) <;> simp only [] <;> split_ifs <;> simp

@[simp] theorem Sidebar._handleCalendarClick_renderCount (s : Sidebar) (now : Int)
    (primary : Option AgendaAnswer) (alternate : Option WsAnswer) :
    (s._handleCalendarClick now primary alternate).renderCount = s.renderCount := by
  unfold Sidebar._handleCalendarClick
  (repeat' split) <;> simp only [] <;> split_ifs <;> simp

@[simp] theorem Sidebar._handleCalendarClick_updateCount (s : Sidebar) (now : Int)
    (primary : Option AgendaAnswer) (alternate : Option WsAnswer) :
    (s._handleCalendarClick now primary alternate).updateCount = s.updateCount := by
  unfold Sidebar._handleCalendarClick
  (repeat' split) <;> simp only [] <;> split_ifs <;> simp

@[simp] theorem Sidebar._handleCalendarClick_forecastTimeouts (s : Sidebar) (now : Int)
    (primary : Option AgendaAnswer) (alternate : Option WsAnswer) :
    (s._handleCalendarClick now primary alternate).forecastTimeouts = s.forecastTimeouts := by
  unfold Sidebar._handleCalendarClick
  (repeat' split) <;> simp only [] <;> split_ifs <;> simp

@[simp] theorem Sidebar._handleCalendarClick_intervals (s : Sidebar) (now : Int)
    (primary : Option AgendaAnswer) (alternate : Option WsAnswer) :
    (s._handleCalendarClick now primary alternate).intervals = s.intervals := by
  unfold Sidebar._handleCalendarClick
  (repeat' split) <;> simp only [] <;> split_ifs <;> simp

@[simp] theorem Sidebar._handleCalendarClick_nextTimerId (s : Sidebar) (now : Int)
    (primary : Option AgendaAnswer) (alternate : Option WsAnswer) :
    (s._handleCalendarClick now primary alternate).nextTimerId = s.nextTimerId := by
  unfold Sidebar._handleCalendarClick
  (repeat' split) <;> simp only [] <;> split_ifs <;> simp

@[simp] theorem Sidebar._handleCalendarClick_gridCalls (s : Sidebar) (now : Int)
    (primary : Option AgendaAnswer) (alternate : Option WsAnswer) :
    (s._handleCalendarClick now primary alternate).gridCalls = s.gridCalls := by
  unfold Sidebar._handleCalendarClick
  (repeat' split) <;> simp only [] <;> split_ifs <;> simp

@[simp] theorem Sidebar._handleCalendarClick_requests (s : Sidebar) (now : Int)
    (primary : Option AgendaAnswer) (alternate : Option WsAnswer) :
    (s._handleCalendarClick now primary alternate).requests = s.requests := by
  unfold Sidebar._handleCalendarClick
  (repeat' split) <;> simp only [] <;> split_ifs <;> simp

@[simp] theorem Sidebar._handleCalendarClick_subscriptions (s : Sidebar) (now : Int)
    (primary : Option AgendaAnswer) (alternate : Option WsAnswer) :
    (s._handleCalendarClick now primary alternate).subscriptions = s.subscriptions := by
  unfold Sidebar._handleCalendarClick
  (repeat' split) <;> simp only [] <;> split_ifs <;> simp

@[simp] theorem Sidebar._handleCalendarClick_released (s : Sidebar) (now : Int)
    (primary : Option AgendaAnswer) (alternate : Option WsAnswer) :
    (s._handleCalendarClick now primary alternate).released = s.released := by
  unfold Sidebar._handleCalendarClick
  (repeat' split) <;> simp only [] <;> split_ifs <;> simp

@[simp] theorem Sidebar._handleCalendarClick_nextRequestId (s : Sidebar) (now : Int)
    (primary : Option AgendaAnswer) (alternate : Option WsAnswer) :
    (s._handleCalendarClick now primary alternate).nextRequestId = s.nextRequestId := by
  unfold Sidebar._handleCalendarClick
  (repeat' split) <;> simp only [] <;> split_ifs <;> simp

@[simp] theorem Sidebar.setConfig_forecastSubscriber (s : Sidebar) (config : SidebarOptions) (outcome : RenderOutcome) :
    (s.setConfig config outcome).forecastSubscriber = s.forecastSubscriber := by unfold Sidebar.setConfig Sidebar.render; cases outcome <;> simp only [] <;> split_ifs <;> simp

@[simp] theorem Sidebar.setConfig__hass (s : Sidebar) (config : SidebarOptions) (outcome : RenderOutcome) :
    (s.setConfig config outcome)._hass = s._hass := by unfold Sidebar.setConfig Sidebar.render; cases outcome <;> simp only [] <;> split_ifs <;> simp

@[simp] theorem Sidebar.setConfig_forecastTimeouts (s : Sidebar) (config : SidebarOptions) (outcome : RenderOutcome) :
    (s.setConfig config outcome).forecastTimeouts = s.forecastTimeouts := by unfold Sidebar.setConfig Sidebar.render; cases outcome <;> simp only [] <;> split_ifs <;> simp

@[simp] theorem Sidebar.setConfig_gridCalls (s : Sidebar) (config : SidebarOptions) (outcome : RenderOutcome) :
    (s.setConfig config outcome).gridCalls = s.gridCalls := by unfold Sidebar.setConfig Sidebar.render; cases outcome <;> simp only [] <;> split_ifs <;> simp

@[simp] theorem Sidebar.setConfig_requests (s : Sidebar) (config : SidebarOptions) (outcome : RenderOutcome) :
    (s.setConfig config outcome).requests = s.requests := by unfold Sidebar.setConfig Sidebar.render; cases outcome <;> simp only [] <;> split_ifs <;> simp

@[simp] theorem Sidebar.setConfig_subscriptions (s : Sidebar) (config : SidebarOptions) (outcome : RenderOutcome) :
    (s.setConfig config outcome).subscriptions = s.subscriptions := by unfold Sidebar.setConfig Sidebar.render; cases outcome <;> simp only [] <;> split_ifs <;> simp

@[simp] theorem Sidebar.setConfig_released (s : Sidebar) (config : SidebarOptions) (outcome : RenderOutcome) :
    (s.setConfig config outcome).released = s.released := by unfold Sidebar.setConfig Sidebar.render; cases outcome <;> simp only [] <;> split_ifs <;> simp

@[simp] theorem Sidebar.setConfig_nextRequestId (s : Sidebar) (config : SidebarOptions) (outcome : RenderOutcome) :
    (s.setConfig config outcome).nextRequestId = s.nextRequestId := by unfold Sidebar.setConfig Sidebar.render; cases outcome <;> simp only [] <;> split_ifs <;> simp

@[simp] theorem Sidebar.setConfig_apiRequests (s : Sidebar) (config : SidebarOptions) (outcome : RenderOutcome) :
    (s.setConfig config outcome).apiRequests = s.apiRequests := by unfold Sidebar.setConfig Sidebar.render; cases outcome <;> simp only [] <;> split_ifs <;> simp

@[simp] theorem Sidebar.setConfig_wsRequests (s : Sidebar) (config : SidebarOptions) (outcome : RenderOutcome) :
    (s.setConfig config outcome).wsRequests = s.wsRequests := by unfold Sidebar.setConfig Sidebar.render; cases outcome <;> simp only [] <;> split_ifs <;> simp

@[simp] theorem Sidebar.setConfig_notifications (s : Sidebar) (config : SidebarOptions) (outcome : RenderOutcome) :
    (s.setConfig config outcome).notifications = s.notifications := by unfold Sidebar.setConfig Sidebar.render; cases outcome <;> simp only [] <;> split_ifs <;> simp

@[simp] theorem Sidebar.setHass_currentCameraIndex (s : Sidebar) (hass : Option Hass) (outcome : RenderOutcome) :
    (s.setHass hass outcome).currentCameraIndex = s.currentCameraIndex := by unfold Sidebar.setHass Sidebar.render; cases outcome <;> simp only [] <;> split_ifs <;> simp

@[simp] theorem Sidebar.setHass_cameraEntities (s : Sidebar) (hass : Option Hass) (outcome : RenderOutcome) :
    (s.setHass hass outcome).cameraEntities = s.cameraEntities := by unfold Sidebar.setHass Sidebar.render; cases outcome <;> simp only [] <;> split_ifs <;> simp

@[simp] theorem Sidebar.setHass_forecastSubscriber (s : Sidebar) (hass : Option Hass) (outcome : RenderOutcome) :
    (s.setHass hass outcome).forecastSubscriber = s.forecastSubscriber := by unfold Sidebar.setHass Sidebar.render; cases outcome <;> simp only [] <;> split_ifs <;> simp

@[simp] theorem Sidebar.setHass_config (s : Sidebar) (hass : Option Hass) (outcome : RenderOutcome) :
    (s.setHass hass outcome).config = s.config := by unfold Sidebar.setHass Sidebar.render; cases outcome <;> simp only [] <;> split_ifs <;> simp

@[simp] theorem Sidebar.setHass_temperatureEntity (s : Sidebar) (hass : Option Hass) (outcome : RenderOutcome) :
    (s.setHass hass outcome).temperatureEntity = s.temperatureEntity := by unfold Sidebar.setHass Sidebar.render; cases outcome <;> simp only [] <;> split_ifs <;> simp

@[simp] theorem Sidebar.setHass_weatherEntity (s : Sidebar) (hass : Option Hass) (outcome : RenderOutcome) :
    (s.setHass hass outcome).weatherEntity = s.weatherEntity := by unfold Sidebar.setHass Sidebar.render; cases outcome <;> simp only [] <;> split_ifs <;> simp

@[simp] theorem Sidebar.setHass_gridEntity (s : Sidebar) (hass : Option Hass) (outcome : RenderOutcome) :
    (s.setHass hass outcome).gridEntity = s.gridEntity := by unfold Sidebar.setHass Sidebar.render; cases outcome <;> simp only [] <;> split_ifs <;> simp

@[simp] theorem Sidebar.setHass_solarEntity (s : Sidebar) (hass : Option Hass) (outcome : RenderOutcome) :
    (s.setHass hass outcome).solarEntity = s.solarEntity := by unfold Sidebar.setHass Sidebar.render; cases outcome <;> simp only [] <;> split_ifs <;> simp

@[simp] theorem Sidebar.setHass_homeEntity (s : Sidebar) (hass : Option Hass) (outcome : RenderOutcome) :
    (s.setHass hass outcome).homeEntity = s.homeEntity := by unfold Sidebar.setHass Sidebar.render; cases outcome <;> simp only [] <;> split_ifs <;> simp

@[simp] theorem Sidebar.setHass_calendarEntity (s : Sidebar) (hass : Option Hass) (outcome : RenderOutcome) :
    (s.setHass hass outcome).calendarEntity = s.calendarEntity := by unfold Sidebar.setHass Sidebar.render; cases outcome <;> simp only [] <;> split_ifs <;> simp

@[simp] theorem Sidebar.setHass_temperatureTitle (s : Sidebar) (hass : Option Hass) (outcome : RenderOutcome) :
    (s.setHass hass outcome).temperatureTitle = s.temperatureTitle := by unfold Sidebar.setHass Sidebar.render; cases outcome <;> simp only [] <;> split_ifs <;> simp

@[simp] theorem Sidebar.setHass_customCardConfig (s : Sidebar) (hass : Option Hass) (outcome : RenderOutcome) :
    (s.setHass hass outcome).customCardConfig = s.customCardConfig := by unfold Sidebar.setHass Sidebar.render; cases outcome <;> simp only [] <;> split_ifs <;> simp

@[simp] theorem Sidebar.setHass_customCardType (s : Sidebar) (hass : Option Hass) (outcome : RenderOutcome) :
    (s.setHass hass outcome).customCardType = s.customCardType := by unfold Sidebar.setHass Sidebar.render; cases outcome <;> simp only [] <;> split_ifs <;> simp

@[simp] theorem Sidebar.setHass_graphHours (s : Sidebar) (hass : Option Hass) (outcome : RenderOutcome) :
    (s.setHass hass outcome).graphHours = s.graphHours := by unfold Sidebar.setHass Sidebar.render; cases outcome <;> simp only [] <;> split_ifs <;> simp

@[simp] theorem Sidebar.setHass_sidebarWidth (s : Sidebar) (hass : Option Hass) (outcome : RenderOutcome) :
    (s.setHass hass outcome).sidebarWidth = s.sidebarWidth := by unfold Sidebar.setHass Sidebar.render; cases outcome <;> simp only [] <;> split_ifs <;> simp

@[simp] theorem Sidebar.setHass_rotationInterval (s : Sidebar) (hass : Option Hass) (outcome : RenderOutcome) :
    (s.setHass hass outcome).rotationInterval = s.rotationInterval := by unfold Sidebar.setHass Sidebar.render; cases outcome <;> simp only [] <;> split_ifs <;> simp

@[simp] theorem Sidebar.setHass_forecastDays (s : Sidebar) (hass : Option Hass) (outcome : RenderOutcome) :
    (s.setHass hass outcome).forecastDays = s.forecastDays := by unfold Sidebar.setHass Sidebar.render; cases outcome <;> simp only [] <;> split_ifs <;> simp

@[simp] theorem Sidebar.setHass_gridCalls (s : Sidebar) (hass : Option Hass) (outcome : RenderOutcome) :
    (s.setHass hass outcome).gridCalls = s.gridCalls := by unfold Sidebar.setHass Sidebar.render; cases outcome <;> simp only [] <;> split_ifs <;> simp

@[simp] theorem Sidebar.setHass_requests (s : Sidebar) (hass : Option Hass) (outcome : RenderOutcome) :
    (s.setHass hass outcome).requests = s.requests := by unfold Sidebar.setHass Sidebar.render; cases outcome <;> simp only [] <;> split_ifs <;> simp

@[simp] theorem Sidebar.setHass_subscriptions (s : Sidebar) (hass : Option Hass) (outcome : RenderOutcome) :
    (s.setHass hass outcome).subscriptions = s.subscriptions := by unfold Sidebar.setHass Sidebar.render; cases outcome <;> simp only [] <;> split_ifs <;> simp

@[simp] theorem Sidebar.setHass_released (s : Sidebar) (hass : Option Hass) (outcome : RenderOutcome) :
    (s.setHass hass outcome).released = s.released := by unfold Sidebar.setHass Sidebar.render; cases outcome <;> simp only [] <;> split_ifs <;> simp

@[simp] theorem Sidebar.setHass_nextRequestId (s : Sidebar) (hass : Option Hass) (outcome : RenderOutcome) :
    (s.setHass hass outcome).nextRequestId = s.nextRequestId := by unfold Sidebar.setHass Sidebar.render; cases outcome <;> simp only [] <;> split_ifs <;> simp

@[simp] theorem Sidebar.setHass_apiRequests (s : Sidebar) (hass : Option Hass) (outcome : RenderOutcome) :
    (s.setHass hass outcome).apiRequests = s.apiRequests := by unfold Sidebar.setHass Sidebar.render; cases outcome <;> simp only [] <;> split_ifs <;> simp

@[simp] theorem Sidebar.setHass_wsRequests (s : Sidebar) (hass : Option Hass) (outcome : RenderOutcome) :
    (s.setHass hass outcome).wsRequests = s.wsRequests := by unfold Sidebar.setHass Sidebar.render; cases outcome <;> simp only [] <;> split_ifs <;> simp

@[simp] theorem Sidebar.setHass_notifications (s : Sidebar) (hass : Option Hass) (outcome : RenderOutcome) :
    (s.setHass hass outcome).notifications = s.notifications := by unfold Sidebar.setHass Sidebar.render; cases outcome <;> simp only [] <;> split_ifs <;> simp

@[simp] theorem Sidebar.connectedCallback_currentCameraIndex (s : Sidebar) (outcome : RenderOutcome) :
    (s.connectedCallback outcome).currentCameraIndex = s.currentCameraIndex := by unfold Sidebar.connectedCallback Sidebar.render; cases outcome <;> simp only [] <;> split_ifs <;> simp

@[simp] theorem Sidebar.connectedCallback_cameraEntities (s : Sidebar) (outcome : RenderOutcome) :
    (s.connectedCallback outcome).cameraEntities = s.cameraEntities := by unfold Sidebar.connectedCallback Sidebar.render; cases outcome <;> simp only [] <;> split_ifs <;> simp

@[simp] theorem Sidebar.connectedCallback_forecastSubscriber (s : Sidebar) (outcome : RenderOutcome) :
    (s.connectedCallback outcome).forecastSubscriber = s.forecastSubscriber := by unfold Sidebar.connectedCallback Sidebar.render; cases outcome <;> simp only [] <;> split_ifs <;> simp

@[simp] theorem Sidebar.connectedCallback_config (s : Sidebar) (outcome : RenderOutcome) :
    (s.connectedCallback outcome).config = s.config := by unfold Sidebar.connectedCallback Sidebar.render; cases outcome <;> simp only [] <;> split_ifs <;> simp

@[simp] theorem Sidebar.connectedCallback__hass (s : Sidebar) (outcome : RenderOutcome) :
    (s.connectedCallback outcome)._hass = s._hass := by unfold Sidebar.connectedCallback Sidebar.render; cases outcome <;> simp only [] <;> split_ifs <;> simp

@[simp] theorem Sidebar.connectedCallback_temperatureEntity (s : Sidebar) (outcome : RenderOutcome) :
    (s.connectedCallback outcome).temperatureEntity = s.temperatureEntity := by unfold Sidebar.connectedCallback Sidebar.render; cases outcome <;> simp only [] <;> split_ifs <;> simp

@[simp] theorem Sidebar.connectedCallback_weatherEntity (s : Sidebar) (outcome : RenderOutcome) :
    (s.connectedCallback outcome).weatherEntity = s.weatherEntity := by unfold Sidebar.connectedCallback Sidebar.render; cases outcome <;> simp only [] <;> split_ifs <;> simp

@[simp] theorem Sidebar.connectedCallback_gridEntity (s : Sidebar) (outcome : RenderOutcome) :
    (s.connectedCallback outcome).gridEntity = s.gridEntity := by unfold Sidebar.connectedCallback Sidebar.render; cases outcome <;> simp only [] <;> split_ifs <;> simp

@[simp] theorem Sidebar.connectedCallback_solarEntity (s : Sidebar) (outcome : RenderOutcome) :
    (s.connectedCallback outcome).solarEntity = s.solarEntity := by unfold Sidebar.connectedCallback Sidebar.render; cases outcome <;> simp only [] <;> split_ifs <;> simp

@[simp] theorem Sidebar.connectedCallback_homeEntity (s : Sidebar) (outcome : RenderOutcome) :
    (s.connectedCallback outcome).homeEntity = s.homeEntity := by unfold Sidebar.connectedCallback Sidebar.render; cases outcome <;> simp only [] <;> split_ifs <;> simp

@[simp] theorem Sidebar.connectedCallback_calendarEntity (s : Sidebar) (outcome : RenderOutcome) :
    (s.connectedCallback outcome).calendarEntity = s.calendarEntity := by unfold Sidebar.connectedCallback Sidebar.render; cases outcome <;> simp only [] <;> split_ifs <;> simp

@[simp] theorem Sidebar.connectedCallback_temperatureTitle (s : Sidebar) (outcome : RenderOutcome) :
    (s.connectedCallback outcome).temperatureTitle = s.temperatureTitle := by unfold Sidebar.connectedCallback Sidebar.render; cases outcome <;> simp only [] <;> split_ifs <;> simp

@[simp] theorem Sidebar.connectedCallback_customCardConfig (s : Sidebar) (outcome : RenderOutcome) :
    (s.connectedCallback outcome).customCardConfig = s.customCardConfig := by unfold Sidebar.connectedCallback Sidebar.render; cases outcome <;> simp only [] <;> split_ifs <;> simp

@[simp] theorem Sidebar.connectedCallback_customCardType (s : Sidebar) (outcome : RenderOutcome) :
    (s.connectedCallback outcome).customCardType = s.customCardType := by unfold Sidebar.connectedCallback Sidebar.render; cases outcome <;> simp only [] <;> split_ifs <;> simp

@[simp] theorem Sidebar.connectedCallback_graphHours (s : Sidebar) (outcome : RenderOutcome) :
    (s.connectedCallback outcome).graphHours = s.graphHours := by unfold Sidebar.connectedCallback Sidebar.render; cases outcome <;> simp only [] <;> split_ifs <;> simp

@[simp] theorem Sidebar.connectedCallback_sidebarWidth (s : Sidebar) (outcome : RenderOutcome) :
    (s.connectedCallback outcome).sidebarWidth = s.sidebarWidth := by unfold Sidebar.connectedCallback Sidebar.render; cases outcome <;> simp only [] <;> split_ifs <;> simp

@[simp] theorem Sidebar.connectedCallback_rotationInterval (s : Sidebar) (outcome : RenderOutcome) :
    (s.connectedCallback outcome).rotationInterval = s.rotationInterval := by unfold Sidebar.connectedCallback Sidebar.render; cases outcome <;> simp only [] <;> split_ifs <;> simp

@[simp] theorem Sidebar.connectedCallback_forecastDays (s : Sidebar) (outcome : RenderOutcome) :
    (s.connectedCallback outcome).forecastDays = s.forecastDays := by unfold Sidebar.connectedCallback Sidebar.render; cases outcome <;> simp only [] <;> split_ifs <;> simp

@[simp] theorem Sidebar.connectedCallback_forecastTimeouts (s : Sidebar) (outcome : RenderOutcome) :
    (s.connectedCallback outcome).forecastTimeouts = s.forecastTimeouts := by unfold Sidebar.connectedCallback Sidebar.render; cases outcome <;> simp only [] <;> split_ifs <;> simp

@[simp] theorem Sidebar.connectedCallback_gridCalls (s : Sidebar) (outcome : RenderOutcome) :
    (s.connectedCallback outcome).gridCalls = s.gridCalls := by unfold Sidebar.connectedCallback Sidebar.render; cases outcome <;> simp only [] <;> split_ifs <;> simp

@[simp] theorem Sidebar.connectedCallback_requests (s : Sidebar) (outcome : RenderOutcome) :
    (s.connectedCallback outcome).requests = s.requests := by unfold Sidebar.connectedCallback Sidebar.render; cases outcome <;> simp only [] <;> split_ifs <;> simp

@[simp] theorem Sidebar.connectedCallback_subscriptions (s : Sidebar) (outcome : RenderOutcome) :
    (s.connectedCallback outcome).subscriptions = s.subscriptions := by unfold Sidebar.connectedCallback Sidebar.render; cases outcome <;> simp only [] <;> split_ifs <;> simp

@[simp] theorem Sidebar.connectedCallback_released (s : Sidebar) (outcome : RenderOutcome) :
    (s.connectedCallback outcome).released = s.released := by unfold Sidebar.connectedCallback Sidebar.render; cases outcome <;> simp only [] <;> split_ifs <;> simp

@[simp] theorem Sidebar.connectedCallback_nextRequestId (s : Sidebar) (outcome : RenderOutcome) :
    (s.connectedCallback outcome).nextRequestId = s.nextRequestId := by unfold Sidebar.connectedCallback Sidebar.render; cases outcome <;> simp only [] <;> split_ifs <;> simp

@[simp] theorem Sidebar.connectedCallback_apiRequests (s : Sidebar) (outcome : RenderOutcome) :
    (s.connectedCallback outcome).apiRequests = s.apiRequests := by unfold Sidebar.connectedCallback Sidebar.render; cases outcome <;> simp only [] <;> split_ifs <;> simp

@[simp] theorem Sidebar.connectedCallback_wsRequests (s : Sidebar) (outcome : RenderOutcome) :
    (s.connectedCallback outcome).wsRequests = s.wsRequests := by unfold Sidebar.connectedCallback Sidebar.render; cases outcome <;> simp only [] <;> split_ifs <;> simp

@[simp] theorem Sidebar.connectedCallback_notifications (s : Sidebar) (outcome : RenderOutcome) :
    (s.connectedCallback outcome).notifications = s.notifications := by unfold Sidebar.connectedCallback Sidebar.render; cases outcome <;> simp only [] <;> split_ifs <;> simp

/-! ## Properties of the sidebar: values and life cycle -/

/-- C4: for a value that is `undefined`, `null`, "unavailable", "unknown" or that does not
parse as a number, `_formatEnergyValue` returns "-- " followed by the unit, the unit being
"kW" when it is missing or empty (or falsy in another way); the function is total, so it
does not fail. -/
theorem formatEnergyValue_placeholder (value unit : JSVal)
    (h : value = JSVal.undefined ∨ value = JSVal.null ∨ value = JSVal.str "unavailable" ∨
      value = JSVal.str "unknown" ∨ value.parseFloat = JSNum.nan) :
    Sidebar._formatEnergyValue value unit = "-- " ++ (unit.or (JSVal.str "kW")).toStr ∧
    (unit.truthy = true → Sidebar._formatEnergyValue value unit = "-- " ++ unit.toStr) ∧
    (unit = JSVal.undefined ∨ unit = JSVal.str "" →
      Sidebar._formatEnergyValue value unit = "-- kW") := by
  have main : Sidebar._formatEnergyValue value unit =
      "-- " ++ (unit.or (JSVal.str "kW")).toStr := by
    unfold Sidebar._formatEnergyValue
    split
    · rfl
    · rename_i hs
      have hn : value.parseFloat = JSNum.nan := by
        rcases h with h | h | h | h | h
        · exact absurd (Or.inl h) hs
        · exact absurd (Or.inr (Or.inl h)) hs
        · exact absurd (Or.inr (Or.inr (Or.inl h))) hs
        · exact absurd (Or.inr (Or.inr (Or.inr h))) hs
        · exact h
      simp [hn, JSNum.isNaN]
  refine ⟨main, ?_, ?_⟩
  · intro hu
    rw [main]
    simp [JSVal.or, hu]
  · intro hu
    rw [main]
    rcases hu with hu | hu <;> subst hu <;> decide

/-- Witness of `formatEnergyValue_placeholder`: the state "unavailable" with the unit "W". -/
theorem formatEnergyValue_placeholder_witness :
    (JSVal.str "unavailable" = JSVal.undefined ∨ JSVal.str "unavailable" = JSVal.null ∨
      JSVal.str "unavailable" = JSVal.str "unavailable" ∨
      JSVal.str "unavailable" = JSVal.str "unknown" ∨
      (JSVal.str "unavailable").parseFloat = JSNum.nan) ∧
    Sidebar._formatEnergyValue (JSVal.str "unavailable") (JSVal.str "W") = "-- W" :=
  ⟨Or.inr (Or.inr (Or.inl rfl)),
    ((formatEnergyValue_placeholder (JSVal.str "unavailable") (JSVal.str "W")
      (Or.inr (Or.inr (Or.inl rfl)))).2.1 (by decide)).trans (by decide)⟩

/-- Once a method has rendered normally, the flag `hasRendered` is set. -/
@[simp] theorem Sidebar.afterRender_hasRendered (s : Sidebar) :
    s.afterRender.hasRendered = true := by
  simp [Sidebar.afterRender]

/-- A state assignment on a rendered sidebar is the incremental update. -/
theorem Sidebar.setHass_of_rendered (s : Sidebar) (hass : Option Hass) (outcome : RenderOutcome)
    (h : s.hasRendered = true) :
    s.setHass hass outcome = Sidebar.updateValues { s with _hass := hass } := by
  simp [Sidebar.setHass, h]

/-- The first `setConfig` on a fresh sidebar renders the preview and sets the flag. -/
theorem Sidebar.setConfig_fresh_hasRendered (s : Sidebar) (config : SidebarOptions)
    (h1 : s.hasRendered = false) (h2 : s._hass = none) :
    (s.setConfig config RenderOutcome.ok).hasRendered = true ∧
    (s.setConfig config RenderOutcome.ok).renderCount = s.renderCount + 1 := by
  unfold Sidebar.setConfig Sidebar.render
  simp [h1, h2]

/-- C16 (the code at the failing input): when `setConfig` has run before the first snapshot
is assigned, it has rendered already, so the first assignment of `hass` only updates values:
no call of `updateForecastGrid` is pending and no request has been issued.  The sibling path
(a first assignment before any `setConfig`) does schedule one. -/
theorem first_hass_after_setConfig_schedules_no_forecast (config : SidebarOptions)
    (hass : Option Hass) (outcome : RenderOutcome) :
    ((Sidebar.setConfig {} config RenderOutcome.ok).setHass hass outcome).forecastTimeouts = 0 ∧
    ((Sidebar.setConfig {} config RenderOutcome.ok).setHass hass outcome).gridCalls = [] ∧
    ((Sidebar.setConfig {} config RenderOutcome.ok).setHass hass outcome).nextRequestId = 0 ∧
    (Sidebar.setHass {} hass RenderOutcome.ok).forecastTimeouts = 1 := by
  have hr := (Sidebar.setConfig_fresh_hasRendered {} config rfl rfl).1
  refine ⟨?_, ?_, ?_, ?_⟩
  · rw [Sidebar.setHass_of_rendered _ _ _ hr]; simp
  · simp
  · simp
  · simp [Sidebar.setHass, Sidebar.render]

/-- The number of calls of `render()` that `setConfig` adds on a rendered sidebar: one when
`needsRerender` holds, none otherwise, however the call of `render()` ends. -/
theorem Sidebar.setConfig_renderCount_of_rendered (s : Sidebar) (config : SidebarOptions)
    (outcome : RenderOutcome) (h : s.hasRendered = true) :
    (s.setConfig config outcome).renderCount =
      if s.needsRerender (s.assignConfig config) = true then s.renderCount + 1
      else s.renderCount := by
  have hn : s.needsRerender (s.assignConfig config).stopCameraRotation =
      s.needsRerender (s.assignConfig config) := by
    simp [Sidebar.needsRerender]
  unfold Sidebar.setConfig Sidebar.render
  cases outcome <;> simp only [] <;> split_ifs <;> simp_all

/-- C17: on a rendered sidebar `setConfig` calls the full `render()` exactly when the weather
entity, the number of forecast days or the temperature entity, each after defaulting, is not
`===` to the value held before; a configuration that changes none of the three (whatever it
does to the cameras, the energy entities, the calendar or the width) calls no `render()`. -/
theorem setConfig_rerenders_iff_structural_change (s : Sidebar) (config : SidebarOptions)
    (outcome : RenderOutcome) :
    ((Sidebar.setConfig { s with hasRendered := true } config outcome).renderCount =
        s.renderCount + 1 ↔
      (s.weatherEntity.strictEq (config.weather_entity.or (JSVal.str "weather.example")) = false ∨
       s.forecastDays.strictEq (config.forecast_days.or (JSVal.num (JSNum.fin 3))) = false ∨
       s.temperatureEntity.strictEq
         (config.temperature_entity.or (JSVal.str "sensor.outdoor_temperature")) = false)) ∧
    ((Sidebar.setConfig { s with hasRendered := true } config outcome).renderCount =
        s.renderCount ↔
      (s.weatherEntity.strictEq (config.weather_entity.or (JSVal.str "weather.example")) = true ∧
       s.forecastDays.strictEq (config.forecast_days.or (JSVal.num (JSNum.fin 3))) = true ∧
       s.temperatureEntity.strictEq
         (config.temperature_entity.or (JSVal.str "sensor.outdoor_temperature")) = true)) := by
  rw [Sidebar.setConfig_renderCount_of_rendered _ _ _ rfl]
  simp only [Sidebar.needsRerender, Sidebar.assignConfig]
  cases s.weatherEntity.strictEq (config.weather_entity.or (JSVal.str "weather.example")) <;>
  cases s.forecastDays.strictEq (config.forecast_days.or (JSVal.num (JSNum.fin 3))) <;>
  cases s.temperatureEntity.strictEq
    (config.temperature_entity.or (JSVal.str "sensor.outdoor_temperature")) <;>
  simp

/-- Once a card has rendered, a state assignment never calls the full render again and
calls the incremental updater once; so over any sequence of state assignments the full
render runs exactly once when the first render ends normally, be it in the first assignment
(energy-details card, sidebar without configuration) or in the `setConfig` before it
(sidebar). -/
theorem hass_assignments_update_only_once_rendered (card : EnergyCard) (s : Sidebar)
    (hs : List (Option Hass)) (os : List (Option Hass × RenderOutcome))
    (hass : Option Hass) (config : SidebarOptions) :
    ((hs.foldl EnergyCard.setHass { card with _initialized := true }).renderCount =
        card.renderCount ∧
      (hs.foldl EnergyCard.setHass { card with _initialized := true }).updateCount =
        card.updateCount + hs.length) ∧
    ((hass :: hs).foldl EnergyCard.setHass { card with _initialized := false }).renderCount =
      card.renderCount + 1 ∧
    ((os.foldl (fun t x => Sidebar.setHass t x.1 x.2) { s with hasRendered := true }).renderCount =
        s.renderCount ∧
      (os.foldl (fun t x => Sidebar.setHass t x.1 x.2) { s with hasRendered := true }).updateCount =
        s.updateCount + os.length) ∧
    (((hass, RenderOutcome.ok) :: os).foldl (fun t x => Sidebar.setHass t x.1 x.2)
      ({} : Sidebar)).renderCount = 1 ∧
    (os.foldl (fun t x => Sidebar.setHass t x.1 x.2)
      (Sidebar.setConfig {} config RenderOutcome.ok)).renderCount = 1 := by
  have energy : ∀ (hs : List (Option Hass)) (c : EnergyCard), c._initialized = true →
      (hs.foldl EnergyCard.setHass c).renderCount = c.renderCount ∧
      (hs.foldl EnergyCard.setHass c).updateCount = c.updateCount + hs.length := by
    intro hs
    induction hs with
    | nil => intro c _; simp
    | cons h t ih =>
      intro c hc
      have step : (c.setHass h)._initialized = true ∧ (c.setHass h).renderCount = c.renderCount ∧
          (c.setHass h).updateCount = c.updateCount + 1 := by
        simp only [EnergyCard.setHass, hc, EnergyCard._updateValues]
        cases h <;> cases c.dom <;> simp
      rw [List.foldl_cons, (ih _ step.1).1, (ih _ step.1).2, step.2.1, step.2.2, List.length_cons]
      omega
  have sidebar : ∀ (os : List (Option Hass × RenderOutcome)) (t : Sidebar),
      t.hasRendered = true →
      (os.foldl (fun t x => Sidebar.setHass t x.1 x.2) t).renderCount = t.renderCount ∧
      (os.foldl (fun t x => Sidebar.setHass t x.1 x.2) t).updateCount =
        t.updateCount + os.length := by
    intro os
    induction os with
    | nil => intro t _; simp
    | cons x xs ih =>
      intro t ht
      have e := Sidebar.setHass_of_rendered t x.1 x.2 ht
      have step : (t.setHass x.1 x.2).hasRendered = true ∧
          (t.setHass x.1 x.2).renderCount = t.renderCount ∧
          (t.setHass x.1 x.2).updateCount = t.updateCount + 1 := by
        rw [e]
        refine ⟨by simpa using ht, by simp, ?_⟩
        unfold Sidebar.updateValues
        cases x.1 <;> rfl
      rw [List.foldl_cons, (ih _ step.1).1, (ih _ step.1).2, step.2.1, step.2.2, List.length_cons]
      omega
  refine ⟨energy hs _ rfl, ?_, sidebar os _ rfl, ?_, ?_⟩
  · rw [List.foldl_cons]
    have step : (EnergyCard.setHass { card with _initialized := false } hass)._initialized = true ∧
        (EnergyCard.setHass { card with _initialized := false } hass).renderCount =
          card.renderCount + 1 := by
      simp [EnergyCard.setHass, EnergyCard.render, EnergyCard._setupEventListeners]
    rw [(energy hs _ step.1).1, step.2]
  · rw [List.foldl_cons]
    have step : (Sidebar.setHass {} hass RenderOutcome.ok).hasRendered = true ∧
        (Sidebar.setHass {} hass RenderOutcome.ok).renderCount = 1 := by
      simp [Sidebar.setHass, Sidebar.render]
    rw [(sidebar os _ step.1).1, step.2]
  · have step := Sidebar.setConfig_fresh_hasRendered {} config rfl rfl
    rw [(sidebar os _ step.1).1, step.2]

/-- An assignment of `hass` whose render raises: the render is counted, nothing is updated
and `hasRendered` stays unset. -/
theorem Sidebar.setHass_of_raising (t : Sidebar) (hass : Option Hass) (outcome : RenderOutcome)
    (ht : t.hasRendered = false) (ho : outcome ≠ RenderOutcome.ok) :
    (t.setHass hass outcome).hasRendered = false ∧
    (t.setHass hass outcome).renderCount = t.renderCount + 1 ∧
    (t.setHass hass outcome).updateCount = t.updateCount ∧
    (t.setHass hass outcome).customCardThrows = t.customCardThrows := by
  cases outcome with
  | ok => exact absurd rfl ho
  | throwsBefore =>
    simp [Sidebar.setHass, Sidebar.render, ht, Sidebar.customCardThrows]
  | throwsAfter =>
    simp [Sidebar.setHass, Sidebar.render, ht, Sidebar.customCardThrows]

/-- C18: with a custom card whose `type` is a Number, `render()` raises in `setConfig` and
in every assignment of `hass` (it cannot end normally), so `hasRendered` is never set: every
state assignment runs the full render again and none runs the incremental updater.  After
`setConfig` and three assignments the full render has run four times and `updateValues`
never; after `setConfig` and any number `n` of assignments it has run `n + 1` times. -/
theorem hass_assignments_render_again_after_raising_render
    (os : List (Option Hass × RenderOutcome)) :
    (∀ outcome, Sidebar.admissible (Sidebar.stopCameraRotation
        (Sidebar.assignConfig {} demoBrokenOptions)) outcome = true →
      outcome ≠ RenderOutcome.ok) ∧
    ((∀ x ∈ os, x.2 ≠ RenderOutcome.ok) →
      (os.foldl (fun t x => Sidebar.setHass t x.1 x.2)
        (Sidebar.setConfig {} demoBrokenOptions RenderOutcome.throwsAfter)).renderCount =
          os.length + 1 ∧
      (os.foldl (fun t x => Sidebar.setHass t x.1 x.2)
        (Sidebar.setConfig {} demoBrokenOptions RenderOutcome.throwsAfter)).updateCount = 0 ∧
      (os.foldl (fun t x => Sidebar.setHass t x.1 x.2)
        (Sidebar.setConfig {} demoBrokenOptions RenderOutcome.throwsAfter)).hasRendered =
          false ∧
      Sidebar.admissible (os.foldl (fun t x => Sidebar.setHass t x.1 x.2)
        (Sidebar.setConfig {} demoBrokenOptions RenderOutcome.throwsAfter))
        RenderOutcome.ok = false) ∧
    ((((Sidebar.setConfig {} demoBrokenOptions RenderOutcome.throwsAfter).setHass
        (some demoHass) RenderOutcome.throwsAfter).setHass (some demoHass)
        RenderOutcome.throwsAfter).setHass (some demoHass)
        RenderOutcome.throwsAfter).renderCount = 4 ∧
    ((((Sidebar.setConfig {} demoBrokenOptions RenderOutcome.throwsAfter).setHass
        (some demoHass) RenderOutcome.throwsAfter).setHass (some demoHass)
        RenderOutcome.throwsAfter).setHass (some demoHass)
        RenderOutcome.throwsAfter).updateCount = 0 := by
  have key : ∀ (os : List (Option Hass × RenderOutcome)) (t : Sidebar),
      t.hasRendered = false → (∀ x ∈ os, x.2 ≠ RenderOutcome.ok) →
      (os.foldl (fun t x => Sidebar.setHass t x.1 x.2) t).renderCount =
        t.renderCount + os.length ∧
      (os.foldl (fun t x => Sidebar.setHass t x.1 x.2) t).updateCount = t.updateCount ∧
      (os.foldl (fun t x => Sidebar.setHass t x.1 x.2) t).hasRendered = false ∧
      (os.foldl (fun t x => Sidebar.setHass t x.1 x.2) t).customCardThrows =
        t.customCardThrows := by
    intro os
    induction os with
    | nil => intro t ht _; simp [ht]
    | cons x xs ih =>
      intro t ht hx
      obtain ⟨a, b, c, d⟩ := Sidebar.setHass_of_raising t x.1 x.2 ht
        (hx x (List.mem_cons_self _ _))
      obtain ⟨a2, b2, c2, d2⟩ := ih _ a (fun y hy => hx y (List.mem_cons_of_mem _ hy))
      rw [List.foldl_cons, a2, b2, c2, d2, b, c, d, List.length_cons]
      exact ⟨by omega, rfl, rfl, rfl⟩
  refine ⟨?_, ?_, by decide!, by decide!⟩
  · intro outcome h
    cases outcome with
    | ok => exact absurd h (by decide!)
    | throwsBefore => decide
    | throwsAfter => decide
  · intro hx
    obtain ⟨a, b, c, d⟩ := key os (Sidebar.setConfig {} demoBrokenOptions
      RenderOutcome.throwsAfter) (by decide!) hx
    refine ⟨?_, ?_, c, ?_⟩
    · rw [a, show (Sidebar.setConfig {} demoBrokenOptions
        RenderOutcome.throwsAfter).renderCount = 1 by decide!]
      omega
    · rw [b]
      decide!
    · rw [Sidebar.admissible, d]
      decide!

/-! ## Properties of the sidebar: forecast acquisition -/

/-- The test `(x & 1) !== 0` reads bit 0. -/
theorem land_one_ne_zero_iff (n : Nat) : n &&& 1 ≠ 0 ↔ n.testBit 0 = true := by
  rw [Nat.and_one_is_mod, Nat.testBit_zero]
  have := Nat.mod_two_eq_zero_or_one n
  rcases this with h | h <;> simp [h]

/-- The test `(x & 2) !== 0` reads bit 1. -/
theorem land_two_ne_zero_iff (n : Nat) : n &&& 2 ≠ 0 ↔ n.testBit 1 = true := by
  constructor
  · intro h
    obtain ⟨i, hi⟩ := Nat.ne_zero_implies_bit_true h
    rw [Nat.testBit_and, Bool.and_eq_true] at hi
    have h2 : Nat.testBit 2 i = true := hi.2
    have : i = 1 := by
      have := @Nat.testBit_two_pow 1 i
      simp only [pow_one] at this
      rw [this] at h2
      exact (of_decide_eq_true h2).symm
    rw [← this]
    exact hi.1
  · intro h hz
    have : (n &&& 2).testBit 1 = true := by
      rw [Nat.testBit_and, h]
      decide
    rw [hz] at this
    simp at this

/-- What `isLegacyWeather()` returns when the snapshot has a record for the configured
weather entity: whether neither bit 0 nor bit 1 of `supported_features` is set. -/
theorem Sidebar.isLegacyWeather_eq (s : Sidebar) (hass : Hass) (weatherState : StateObj)
    (h1 : s._hass = some hass) (h2 : hass.lookup s.weatherEntity = some weatherState)
    (h5 : s.weatherEntity.truthy = true) :
    s.isLegacyWeather =
      (!((weatherState.supported_features.or (JSVal.num (JSNum.fin 0))).toNumber.toUint32.testBit 0)
        && !((weatherState.supported_features.or
          (JSVal.num (JSNum.fin 0))).toNumber.toUint32.testBit 1)) := by
  unfold Sidebar.isLegacyWeather
  simp only [h1, h2, h5, Bool.not_true, Bool.false_eq_true, if_false]
  generalize (weatherState.supported_features.or (JSVal.num (JSNum.fin 0))).toNumber.toUint32 = n
  have a := land_one_ne_zero_iff n
  have b := land_two_ne_zero_iff n
  cases h0 : n.testBit 0 <;> cases h1 : n.testBit 1 <;> simp_all

/-- C14: with a snapshot that holds the configured weather entity, a rendered forecast region
and no stored handle, `updateForecastGrid` issues a subscription request exactly when bit 0
or bit 1 of `supported_features` is set; when neither is set (in particular for the bitmask
0 and for a missing attribute) `isLegacyWeather` holds, no request is issued and the region
shows the forecast of the attributes, or the message naming the entity when that is empty. -/
theorem updateForecastGrid_subscribes_iff_feature_bits (s : Sidebar) (hass : Hass)
    (weatherState : StateObj) (content : GridContent)
    (h1 : s._hass = some hass) (h2 : hass.lookup s.weatherEntity = some weatherState)
    (h3 : s.forecastGrid = some content) (h4 : s.forecastSubscriber = none)
    (h5 : s.weatherEntity.truthy = true) :
    (s.updateForecastGrid.nextRequestId = s.nextRequestId + 1 ↔
      ((weatherState.supported_features.or
          (JSVal.num (JSNum.fin 0))).toNumber.toUint32.testBit 0 = true ∨
        (weatherState.supported_features.or
          (JSVal.num (JSNum.fin 0))).toNumber.toUint32.testBit 1 = true)) ∧
    (((weatherState.supported_features.or
          (JSVal.num (JSNum.fin 0))).toNumber.toUint32.testBit 0 = false ∧
        (weatherState.supported_features.or
          (JSVal.num (JSNum.fin 0))).toNumber.toUint32.testBit 1 = false) →
      s.isLegacyWeather = true ∧ s.updateForecastGrid.nextRequestId = s.nextRequestId ∧
      s.updateForecastGrid.gridCalls = s.gridCalls ∧
      s.updateForecastGrid.forecastGrid =
        some (if (Sidebar.attributeForecast weatherState []).length > 0
          then s.renderForecastGrid (Sidebar.attributeForecast weatherState [])
          else GridContent.placeholder s.weatherEntity.toStr)) ∧
    ((weatherState.supported_features = JSVal.undefined ∨
        weatherState.supported_features = JSVal.num (JSNum.fin 0)) →
      (weatherState.supported_features.or (JSVal.num (JSNum.fin 0))).toNumber.toUint32 = 0) := by
  have hl := Sidebar.isLegacyWeather_eq s hass weatherState h1 h2 h5
  refine ⟨?_, ?_, ?_⟩
  · unfold Sidebar.updateForecastGrid
    simp only [h1, h2, h3, h4, Option.isSome_none, Bool.false_eq_true, if_false]
    cases hb0 : (weatherState.supported_features.or
        (JSVal.num (JSNum.fin 0))).toNumber.toUint32.testBit 0 <;>
      cases hb1 : (weatherState.supported_features.or
        (JSVal.num (JSNum.fin 0))).toNumber.toUint32.testBit 1 <;>
      simp [hl, hb0, hb1]
  · rintro ⟨hb0, hb1⟩
    have hleg : s.isLegacyWeather = true := by simp [hl, hb0, hb1]
    refine ⟨hleg, ?_, ?_, ?_⟩
    · unfold Sidebar.updateForecastGrid
      simp [h1, h2, h3, h4, hleg]
    · unfold Sidebar.updateForecastGrid
      simp [h1, h2, h3, h4, hleg]
    · unfold Sidebar.updateForecastGrid
      simp only [h1, h2, h3, h4, hleg, Option.isSome_none, Bool.false_eq_true, if_false, if_true]
      unfold Sidebar.showForecast Sidebar.writeGrid
      split_ifs <;> simp_all
  · rintro (h | h) <;> rw [h] <;> decide!
/-- Witness of `updateForecastGrid_subscribes_iff_feature_bits`: the sample sidebar, whose
weather entity has `supported_features: 1`, issues a request. -/
theorem updateForecastGrid_subscribes_iff_feature_bits_witness :
    demoSidebar.updateForecastGrid.nextRequestId = demoSidebar.nextRequestId + 1 :=
  (updateForecastGrid_subscribes_iff_feature_bits demoSidebar demoHass
    { state := JSVal.str "sunny", supported_features := JSVal.num (JSNum.fin 1),
      forecast := some [{ temperature := JSVal.num (JSNum.fin 21),
                          templow := JSVal.num (JSNum.fin 12) }] }
    GridContent.sample (by decide!) (by decide!) (by decide!) (by decide!) (by decide!)).1.mpr
    (Or.inl (by decide!))

/-- The handle guard of `updateForecastGrid`: with a stored handle the call changes nothing. -/
theorem Sidebar.updateForecastGrid_of_subscribed (s : Sidebar) (handle : Nat)
    (h : s.forecastSubscriber = some handle) : s.updateForecastGrid = s := by
  unfold Sidebar.updateForecastGrid
  cases s._hass <;> simp [h]

/-- C13 (the code at the failing input): the guard of `updateForecastGrid` looks at the
stored handle only, and the handle is stored when the request completes.  On the sample
sidebar a second call made while the request of the first is pending issues a second
request; when both complete, two subscriptions are open and only the second handle is kept.
Once a handle is stored, a further call is a no-op, as the second sentence of the claim
says. -/
theorem updateForecastGrid_reentered_while_pending_subscribes_again :
    demoSidebar.forecastSubscriber = none ∧
    demoSidebar.updateForecastGrid.forecastSubscriber = none ∧
    demoSidebar.updateForecastGrid.gridCalls.length = 1 ∧
    demoSidebar.updateForecastGrid.updateForecastGrid.gridCalls.length = 2 ∧
    demoSidebar.updateForecastGrid.updateForecastGrid.nextRequestId =
      demoSidebar.nextRequestId + 2 ∧
    ((demoSidebar.updateForecastGrid.updateForecastGrid.gridSubscribed 0).gridSubscribed
      1).activeSubscriptions = [1, 0] ∧
    ((demoSidebar.updateForecastGrid.updateForecastGrid.gridSubscribed 0).gridSubscribed
      1).forecastSubscriber = some 1 ∧
    (demoSidebar.updateForecastGrid.gridSubscribed 0).updateForecastGrid =
      demoSidebar.updateForecastGrid.gridSubscribed 0 := by
  exact ⟨by decide!, by decide!, by decide!, by decide!, by decide!, by decide!, by decide!,
    Sidebar.updateForecastGrid_of_subscribed _ 0 (by decide!)⟩

/-- C12 (the code at the failing input): `_handleWeatherClick` opens a subscription of its
own on every click and drops the unsubscribe function, so after two clicks on the weather
region of the sample sidebar two subscriptions are open, none of them ever released: not
even `disconnectedCallback` releases one, the stored handle being empty. -/
theorem weather_clicks_leave_subscriptions_open :
    (Sidebar.run {}
      [Sidebar.Event.setConfig demoOptions RenderOutcome.ok,
       Sidebar.Event.setHass (some demoHass) RenderOutcome.ok,
       Sidebar.Event.weatherClick, Sidebar.Event.clickSubscribed 0,
       Sidebar.Event.weatherClick, Sidebar.Event.clickSubscribed 1]).map
      Sidebar.activeSubscriptions = some [1, 0] ∧
    (Sidebar.run {}
      [Sidebar.Event.setConfig demoOptions RenderOutcome.ok,
       Sidebar.Event.setHass (some demoHass) RenderOutcome.ok,
       Sidebar.Event.weatherClick, Sidebar.Event.clickSubscribed 0,
       Sidebar.Event.weatherClick, Sidebar.Event.clickSubscribed 1,
       Sidebar.Event.disconnected]).map
      Sidebar.activeSubscriptions = some [1, 0] := by
  constructor <;> decide!

/-- A request of `updateForecastGrid` that fails in the very state the call left: the `catch`
block takes the forecast of the attributes captured on entry, and the forecast region shows
its entries (the first `forecastDays` of them, as `renderForecastGrid` does) when it is a
non-empty list and the message naming the configured weather entity otherwise; no handle is
stored and no subscription is open for the request. -/
theorem updateForecastGrid_request_failure_at_once (s : Sidebar) (hass : Hass)
    (weatherState : StateObj) (content : GridContent)
    (h1 : s._hass = some hass) (h2 : hass.lookup s.weatherEntity = some weatherState)
    (h3 : s.forecastGrid = some content) (h4 : s.forecastSubscriber = none)
    (h6 : s.isLegacyWeather = false) :
    (s.updateForecastGrid.gridSubscribeFailed s.nextRequestId).forecastGrid =
      some (match weatherState.forecast with
        | some (day :: days) => s.renderForecastGrid (day :: days)
        | _ => GridContent.placeholder s.weatherEntity.toStr) ∧
    (s.updateForecastGrid.gridSubscribeFailed s.nextRequestId).forecastSubscriber = none ∧
    (s.updateForecastGrid.gridSubscribeFailed s.nextRequestId).subscriptions =
      s.subscriptions := by
  have hu : s.updateForecastGrid =
      { s with
        gridCalls :=
          { request := s.nextRequestId, element := s.gridGeneration,
            weatherState := weatherState } :: s.gridCalls
        nextRequestId := s.nextRequestId + 1 } := by
    unfold Sidebar.updateForecastGrid
    simp [h1, h2, h3, h4, h6]
  refine ⟨?_, ?_, ?_⟩
  · rw [hu]
    unfold Sidebar.gridSubscribeFailed Sidebar.gridCall
    simp only [List.find?_cons, decide_True, and_self]
    simp only [Sidebar.showForecast, Sidebar.writeGrid, Sidebar.setGridCall,
      Sidebar.attributeForecast, Sidebar.renderForecastGrid]
    rcases hf : weatherState.forecast with _ | days
    · simp
    · cases days <;> simp
  · simp [h4]
  · simp

/-- On the sample sidebar a request that fails at once leaves the one day of the attribute
forecast in the region. -/
theorem updateForecastGrid_request_failure_at_once_sample :
    (demoSidebar.updateForecastGrid.gridSubscribeFailed demoSidebar.nextRequestId).forecastGrid =
      some (GridContent.items [{ icon := "mdi:weather-cloudy", temp := "21°", low := "12°" }]) :=
  (updateForecastGrid_request_failure_at_once demoSidebar demoHass
    { state := JSVal.str "sunny", supported_features := JSVal.num (JSNum.fin 1),
      forecast := some [{ temperature := JSVal.num (JSNum.fin 21),
                          templow := JSVal.num (JSNum.fin 12) }] }
    GridContent.sample (by decide!) (by decide!) (by decide!) (by decide!) (by decide!)).1.trans
    (by decide!)

/-- C15: a request of `updateForecastGrid` that fails is answered in the `catch` block with
the forecast of the attributes or the message naming the weather entity, but written to the
element that the call captured on entry, before its `await`.  When the request fails at once
the forecast region shows the message; when `setConfig` has rendered the tree anew in between
(here with another `forecast_days`), the captured element is no longer in the tree, and the
forecast region keeps the sample days of the markup: neither the forecast of the attributes
nor the message.  No further call of `updateForecastGrid` is pending then. -/
theorem updateForecastGrid_failure_after_rerender_keeps_sample_days :
    (Sidebar.run {}
      [Sidebar.Event.setHass (some demoBareHass) RenderOutcome.ok,
       Sidebar.Event.setConfig demoOptions RenderOutcome.ok,
       Sidebar.Event.forecastTimeout,
       Sidebar.Event.gridSubscribeFailed 0]).map Sidebar.forecastGrid =
      some (some (GridContent.placeholder "weather.home")) ∧
    (Sidebar.run {}
      [Sidebar.Event.setHass (some demoBareHass) RenderOutcome.ok,
       Sidebar.Event.setConfig demoOptions RenderOutcome.ok,
       Sidebar.Event.forecastTimeout,
       Sidebar.Event.setConfig { demoOptions with forecast_days := JSVal.num (JSNum.fin 5) }
         RenderOutcome.ok,
       Sidebar.Event.gridSubscribeFailed 0]).map
      (fun s => (s.forecastGrid, s.forecastTimeouts, s.gridCalls.map GridCall.phase,
        s.forecastSubscriber)) =
      some (some GridContent.sample, 0, [CallPhase.finished], none) ∧
    (demoBareHass.lookup (JSVal.str "weather.home")).bind StateObj.forecast = none := by
  refine ⟨by decide!, by decide!, by decide!⟩

/-! ## Properties of the sidebar: timers -/

/-- The invariant on timers reads four fields only. -/
theorem Sidebar.TimersOwned.transfer {s t : Sidebar} (h : s.TimersOwned)
    (h1 : t.intervals = s.intervals) (h2 : t.timer = s.timer)
    (h3 : t.cameraTimer = s.cameraTimer) (h4 : t.cameraEntities = s.cameraEntities) :
    t.TimersOwned := by
  unfold Sidebar.TimersOwned at *
  rw [h1, h2, h3, h4]
  exact h

/-- What `if (field) clearInterval(field)` leaves in the timer table. -/
theorem Sidebar.mem_clearIfSet_intervals (s : Sidebar) (field : Option Nat) (t : Interval) :
    t ∈ (s.clearIfSet field).intervals ↔ t ∈ s.intervals ∧ field ≠ some t.id := by
  cases field with
  | none => simp [Sidebar.clearIfSet]
  | some h =>
    simp only [Sidebar.clearIfSet, Sidebar.clearInterval, List.mem_filter, ne_eq,
      decide_not, Bool.not_eq_true', decide_eq_false_iff_not, Option.some.injEq]
    constructor
    · rintro ⟨a, b⟩; exact ⟨a, fun e => b e.symm⟩
    · rintro ⟨a, b⟩; exact ⟨a, fun e => b e.symm⟩

/-- The timer table after `startClock()`. -/
theorem Sidebar.startClock_intervals (s : Sidebar) :
    s.startClock.intervals =
      { id := s.nextTimerId, kind := TimerKind.clock, delay := JSVal.num (JSNum.fin 1000) } ::
        (s.clearIfSet s.timer).intervals ∧
    s.startClock.timer = some s.nextTimerId := by
  unfold Sidebar.startClock Sidebar.setInterval
  simp

/-- The timer table after `startCameraRotation()` with two cameras or more. -/
theorem Sidebar.startCameraRotation_intervals (s : Sidebar) (h : 1 < s.cameraEntities.length) :
    s.startCameraRotation.intervals =
      { id := s.nextTimerId, kind := TimerKind.camera, delay := s.rotationInterval } ::
        (s.clearIfSet s.cameraTimer).intervals ∧
    s.startCameraRotation.cameraTimer = some s.nextTimerId := by
  unfold Sidebar.startCameraRotation Sidebar.setInterval
  simp [h]

/-- With one camera or none `startCameraRotation()` does nothing. -/
theorem Sidebar.startCameraRotation_of_le_one (s : Sidebar) (h : s.cameraEntities.length ≤ 1) :
    s.startCameraRotation = s := by
  unfold Sidebar.startCameraRotation
  simp [Nat.not_lt.mpr h]

/-- The method `startClock()` keeps the invariant on timers. -/
theorem Sidebar.TimersOwned.startClock {s : Sidebar} (h : s.TimersOwned) :
    s.startClock.TimersOwned := by
  intro t ht
  rw [(Sidebar.startClock_intervals s).1, List.mem_cons] at ht
  rw [(Sidebar.startClock_intervals s).2]
  simp only [Sidebar.startClock_cameraTimer, Sidebar.startClock_cameraEntities]
  rcases ht with rfl | ht
  · exact Or.inl ⟨rfl, rfl⟩
  · rw [Sidebar.mem_clearIfSet_intervals] at ht
    rcases h t ht.1 with ⟨_, h2⟩ | h2
    · exact absurd h2 ht.2
    · exact Or.inr h2

/-- The method `startCameraRotation()` keeps the invariant on timers. -/
theorem Sidebar.TimersOwned.startCameraRotation {s : Sidebar} (h : s.TimersOwned) :
    s.startCameraRotation.TimersOwned := by
  by_cases hl : 1 < s.cameraEntities.length
  · intro t ht
    rw [(Sidebar.startCameraRotation_intervals s hl).1, List.mem_cons] at ht
    rw [(Sidebar.startCameraRotation_intervals s hl).2]
    simp only [Sidebar.startCameraRotation_timer, Sidebar.startCameraRotation_cameraEntities]
    rcases ht with rfl | ht
    · exact Or.inr ⟨rfl, rfl, hl⟩
    · rw [Sidebar.mem_clearIfSet_intervals] at ht
      rcases h t ht.1 with h2 | ⟨_, h2, _⟩
      · exact Or.inl h2
      · exact absurd h2 ht.2
  · rw [Sidebar.startCameraRotation_of_le_one s (Nat.not_lt.mp hl)]
    exact h

/-- The end of a rendering method keeps the invariant on timers. -/
theorem Sidebar.TimersOwned.afterRender {s : Sidebar} (h : s.TimersOwned) :
    s.afterRender.TimersOwned := by
  unfold Sidebar.afterRender
  have h0 : Sidebar.TimersOwned { s with hasRendered := true } :=
    Sidebar.TimersOwned.transfer h rfl rfl rfl rfl
  exact h0.startClock.startCameraRotation

/-- After the first part of `setConfig` and the stop of the camera rotation no camera timer
runs, whatever the new camera list is, and the clock timer is untouched. -/
theorem Sidebar.TimersOwned.reconfigure {s : Sidebar} (h : s.TimersOwned)
    (config : SidebarOptions) :
    (s.assignConfig config).stopCameraRotation.TimersOwned ∧
    ∀ t ∈ (s.assignConfig config).stopCameraRotation.intervals, t.kind = TimerKind.clock := by
  have key : ∀ t ∈ (s.assignConfig config).stopCameraRotation.intervals,
      t.kind = TimerKind.clock ∧ s.timer = some t.id := by
    intro t ht
    unfold Sidebar.stopCameraRotation at ht
    cases hc : (s.assignConfig config).cameraTimer with
    | none =>
      rw [hc] at ht
      simp only [Sidebar.assignConfig_intervals] at ht
      rcases h t ht with h2 | ⟨_, h2, _⟩
      · exact h2
      · simp only [Sidebar.assignConfig_cameraTimer] at hc
        rw [hc] at h2
        exact absurd h2 (by simp)
    | some handle =>
      rw [hc] at ht
      simp only [Sidebar.clearInterval, Sidebar.assignConfig_intervals, List.mem_filter, ne_eq,
        decide_not, Bool.not_eq_true', decide_eq_false_iff_not] at ht
      rcases h t ht.1 with h2 | ⟨_, h2, _⟩
      · exact h2
      · simp only [Sidebar.assignConfig_cameraTimer] at hc
        rw [hc] at h2
        exact absurd (Option.some.inj h2).symm ht.2
  constructor
  · intro t ht
    left
    have := key t ht
    simpa using this
  · intro t ht
    exact (key t ht).1

/-- The method `render()` keeps the invariant on timers when the rest of the calling method
does. -/
theorem Sidebar.TimersOwned.render {s : Sidebar} (h : s.TimersOwned) (outcome : RenderOutcome)
    (next : Sidebar → Sidebar) (hn : ∀ t : Sidebar, t.TimersOwned → (next t).TimersOwned) :
    (s.render outcome next).TimersOwned := by
  have h0 : Sidebar.TimersOwned { s with renderCount := s.renderCount + 1 } :=
    h.transfer rfl rfl rfl rfl
  have h1 : (Sidebar.writeMarkup { s with renderCount := s.renderCount + 1 }).TimersOwned :=
    h0.transfer rfl rfl rfl rfl
  unfold Sidebar.render
  cases outcome
  · exact hn _ h1
  · exact h0
  · exact h1

/-- The method `updateValues()` keeps the invariant on timers. -/
theorem Sidebar.TimersOwned.updateValues {s : Sidebar} (h : s.TimersOwned) :
    s.updateValues.TimersOwned :=
  h.transfer (by simp) (by simp) (by simp) (by simp)

/-- The method `setConfig` keeps the invariant on timers. -/
theorem Sidebar.TimersOwned.setConfig {s : Sidebar} (h : s.TimersOwned)
    (config : SidebarOptions) (outcome : RenderOutcome) :
    (s.setConfig config outcome).TimersOwned := by
  have h1 := (h.reconfigure config).1
  unfold Sidebar.setConfig
  simp only []
  split_ifs
  · refine Sidebar.TimersOwned.render ?_ _ _ ?_
    · exact h1.transfer rfl rfl rfl rfl
    · intro t ht
      split_ifs
      · exact ht.afterRender.updateValues
      · exact ht.afterRender
  · exact h1.startCameraRotation.updateValues
  · exact h1.startCameraRotation
  · exact Sidebar.TimersOwned.render h1 _ _ (fun t ht => ht.afterRender)
  · exact h1

/-- The setter of `hass` keeps the invariant on timers. -/
theorem Sidebar.TimersOwned.setHass {s : Sidebar} (h : s.TimersOwned) (hass : Option Hass)
    (outcome : RenderOutcome) : (s.setHass hass outcome).TimersOwned := by
  have h0 : Sidebar.TimersOwned { s with _hass := hass } := h.transfer rfl rfl rfl rfl
  unfold Sidebar.setHass
  simp only []
  split_ifs
  · refine Sidebar.TimersOwned.render h0 _ _ ?_
    intro t ht
    exact ht.afterRender.transfer rfl rfl rfl rfl
  · exact h0.updateValues

/-- The method `connectedCallback()` keeps the invariant on timers. -/
theorem Sidebar.TimersOwned.connectedCallback {s : Sidebar} (h : s.TimersOwned)
    (outcome : RenderOutcome) : (s.connectedCallback outcome).TimersOwned := by
  unfold Sidebar.connectedCallback
  split_ifs
  · exact Sidebar.TimersOwned.render h _ _ (fun t ht => ht.afterRender)
  · exact h

/-- After `disconnectedCallback()` the timer table is empty, provided the timers were the
ones the fields hold. -/
theorem Sidebar.TimersOwned.disconnected_intervals {s : Sidebar} (h : s.TimersOwned) :
    s.disconnectedCallback.intervals = [] := by
  rw [List.eq_nil_iff_forall_not_mem]
  intro t ht
  have ht2 : t ∈ ((s.clearIfSet s.timer).clearIfSet s.cameraTimer).intervals := by
    simpa [Sidebar.disconnectedCallback] using ht
  rw [Sidebar.mem_clearIfSet_intervals, Sidebar.mem_clearIfSet_intervals] at ht2
  rcases h t ht2.1.1 with ⟨_, h2⟩ | ⟨_, h2, _⟩
  · exact ht2.1.2 h2
  · exact ht2.2 h2

/-- Every state of the sidebar that can be reached keeps the invariant on timers. -/
theorem Sidebar.Reachable.timersOwned {s : Sidebar} (h : s.Reachable) : s.TimersOwned := by
  induction h with
  | init => intro t ht; simp at ht
  | step e _ _ ih =>
    cases e with
    | setConfig config outcome => exact ih.setConfig config outcome
    | setHass hass outcome => exact ih.setHass hass outcome
    | connected outcome => exact ih.connectedCallback outcome
    | disconnected =>
      intro t ht
      simp only [Sidebar.step] at ht
      rw [ih.disconnected_intervals] at ht
      simp at ht
    | clockTick => exact ih
    | forecastTimeout =>
      exact Sidebar.TimersOwned.transfer ih (by simp [Sidebar.step]) (by simp [Sidebar.step])
        (by simp [Sidebar.step]) (by simp [Sidebar.step])
    | _ =>
      exact Sidebar.TimersOwned.transfer ih (by simp [Sidebar.step]) (by simp [Sidebar.step])
        (by simp [Sidebar.step]) (by simp [Sidebar.step])

/-- The sample states can be reached. -/
theorem demo_reachable : demoSidebar.Reachable ∧ demoSubscribed.Reachable :=
  ⟨Sidebar.Reachable.step (Sidebar.Event.setHass (some demoHass) RenderOutcome.ok)
      (Sidebar.Reachable.step (Sidebar.Event.setConfig demoOptions RenderOutcome.ok)
        Sidebar.Reachable.init rfl) rfl,
    Sidebar.Reachable.step (Sidebar.Event.gridSubscribed 0)
      (Sidebar.Reachable.step Sidebar.Event.forecastTimeout
        (Sidebar.Reachable.step (Sidebar.Event.setConfig demoOptions RenderOutcome.ok)
          (Sidebar.Reachable.step (Sidebar.Event.setHass (some demoHass) RenderOutcome.ok)
            Sidebar.Reachable.init rfl) rfl) (by decide!)) (by decide!)⟩

/-! ## Properties of the sidebar: subscription handles -/

/-- The invariant on handles reads four fields only. -/
theorem Sidebar.HandlesFresh.carry {s t : Sidebar} (h : s.HandlesFresh)
    (h1 : t.gridCalls = s.gridCalls) (h2 : t.released = s.released)
    (h3 : t.forecastSubscriber = s.forecastSubscriber) (h4 : t.nextRequestId = s.nextRequestId) :
    t.HandlesFresh := by
  unfold Sidebar.HandlesFresh at *
  rw [h1, h2, h3, h4]
  exact h

/-- A call found by `gridCall` is in the list, has the request and is in the phase. -/
theorem Sidebar.gridCall_spec {s : Sidebar} {request : Nat} {phase : CallPhase} {call : GridCall}
    (h : s.gridCall request phase = some call) :
    call ∈ s.gridCalls ∧ call.request = request ∧ call.phase = phase := by
  unfold Sidebar.gridCall at h
  have h1 := List.mem_of_find?_eq_some h
  have h2 := List.find?_some h
  simp only [decide_eq_true_eq] at h2
  exact ⟨h1, h2.1, h2.2⟩

/-- The calls after one of them has been replaced. -/
theorem Sidebar.mem_setGridCall (s : Sidebar) (call c : GridCall) :
    c ∈ (s.setGridCall call).gridCalls ↔
      ∃ c0 ∈ s.gridCalls, c = if c0.request = call.request then call else c0 := by
  simp only [Sidebar.setGridCall, List.mem_map]
  constructor
  · rintro ⟨c0, h0, rfl⟩; exact ⟨c0, h0, rfl⟩
  · rintro ⟨c0, h0, rfl⟩; exact ⟨c0, h0, rfl⟩

/-- Replacing a call by one with the same request that is no earlier in its course keeps
the invariant on handles. -/
theorem Sidebar.HandlesFresh.setGridCall {s : Sidebar} (h : s.HandlesFresh)
    {call0 call : GridCall} (hm : call0 ∈ s.gridCalls) (hr : call.request = call0.request)
    (hp : call.phase = CallPhase.awaitingSubscribe → call0.phase = CallPhase.awaitingSubscribe) :
    (s.setGridCall call).HandlesFresh := by
  obtain ⟨a1, a2, a3, a4⟩ := h
  refine ⟨?_, ?_, ?_, ?_⟩
  · intro c hc
    obtain ⟨c0, h0, rfl⟩ := (Sidebar.mem_setGridCall s call c).mp hc
    simp only [Sidebar.setGridCall_nextRequestId]
    split_ifs
    · rw [hr]; exact a1 _ hm
    · exact a1 _ h0
  · simpa using a2
  · intro c hc hph
    obtain ⟨c0, h0, rfl⟩ := (Sidebar.mem_setGridCall s call c).mp hc
    simp only [Sidebar.setGridCall_released]
    split_ifs at hph ⊢
    · rw [hr]; exact a3 _ hm (hp hph)
    · exact a3 _ h0 hph
  · intro x hx
    simp only [Sidebar.setGridCall_forecastSubscriber] at hx
    obtain ⟨b1, b2, b3⟩ := a4 x hx
    refine ⟨by simpa using b1, by simpa using b2, ?_⟩
    intro c hc hcx
    obtain ⟨c0, h0, rfl⟩ := (Sidebar.mem_setGridCall s call c).mp hc
    split_ifs at hcx ⊢
    · intro hcall
      exact b3 _ hm (hr ▸ hcx) (hp hcall)
    · exact b3 _ h0 hcx

/-- What `updateForecastGrid()` does to the calls: nothing, or, with no handle stored, one
more call that awaits its subscription under a fresh request. -/
theorem Sidebar.updateForecastGrid_calls (s : Sidebar) :
    (s.updateForecastGrid.gridCalls = s.gridCalls ∧
      s.updateForecastGrid.nextRequestId = s.nextRequestId) ∨
    (s.forecastSubscriber = none ∧ ∃ call : GridCall,
      call.request = s.nextRequestId ∧ s.updateForecastGrid.gridCalls = call :: s.gridCalls ∧
      s.updateForecastGrid.nextRequestId = s.nextRequestId + 1) := by
  unfold Sidebar.updateForecastGrid
  cases h1 : s._hass with
  | none => exact Or.inl ⟨rfl, rfl⟩
  | some hass =>
    cases hs : s.forecastSubscriber with
    | some x => simp
    | none =>
      cases h2 : hass.lookup s.weatherEntity with
      | none => simp [h2]
      | some ws =>
        cases h3 : s.forecastGrid with
        | none => simp [h2, h3]
        | some content =>
          by_cases hl : s.isLegacyWeather = true
          · simp [h2, h3, hl]
          · right
            simp [h2, h3, hl]

/-- The method `updateForecastGrid()` keeps the invariant on handles. -/
theorem Sidebar.HandlesFresh.updateForecastGrid {s : Sidebar} (h : s.HandlesFresh) :
    s.updateForecastGrid.HandlesFresh := by
  rcases Sidebar.updateForecastGrid_calls s with ⟨hcalls, hreq⟩ | ⟨hnone, call, c1, c2, c3⟩
  · exact h.carry hcalls (by simp) (by simp) hreq
  · obtain ⟨a1, a2, a3, a4⟩ := h
    refine ⟨?_, ?_, ?_, ?_⟩
    · intro c hc
      rw [c2, List.mem_cons] at hc
      rw [c3]
      rcases hc with rfl | hc
      · rw [c1]; exact Nat.lt_succ_self _
      · exact Nat.lt_succ_of_lt (a1 c hc)
    · intro x hx
      rw [c3]
      exact Nat.lt_succ_of_lt (a2 x (by simpa using hx))
    · intro c hc hph
      rw [c2, List.mem_cons] at hc
      simp only [Sidebar.updateForecastGrid_released]
      rcases hc with rfl | hc
      · intro hx
        rw [c1] at hx
        exact Nat.lt_irrefl _ (a2 _ hx)
      · exact a3 c hc hph
    · intro x hx
      simp only [Sidebar.updateForecastGrid_forecastSubscriber, hnone] at hx
      exact absurd hx (by simp)

/-- The release of the stored handle keeps the invariant on handles. -/
theorem Sidebar.HandlesFresh.releaseForecast {s : Sidebar} (h : s.HandlesFresh) :
    s.releaseForecast.HandlesFresh := by
  unfold Sidebar.releaseForecast
  cases hf : s.forecastSubscriber with
  | none => simpa using h
  | some x =>
    obtain ⟨a1, a2, a3, a4⟩ := h
    obtain ⟨b1, b2, b3⟩ := a4 x hf
    refine ⟨a1, ?_, ?_, ?_⟩
    · intro y hy
      simp only [List.mem_cons] at hy
      rcases hy with rfl | hy
      · exact b2
      · exact a2 y hy
    · intro c hc hph hmem
      simp only [List.mem_cons] at hmem
      rcases hmem with hcx | hmem
      · exact b3 c hc hcx hph
      · exact a3 c hc hph hmem
    · intro y hy
      exact absurd hy (by simp)

/-- Every state of the sidebar that can be reached keeps the invariant on handles. -/
theorem Sidebar.Reachable.handlesFresh {s : Sidebar} (h : s.Reachable) : s.HandlesFresh := by
  induction h with
  | init =>
    refine ⟨?_, ?_, ?_, ?_⟩ <;> intro x hx <;> simp at hx
  | @step s e _ _ ih =>
    cases e with
    | disconnected =>
      have h0 : ((s.clearIfSet s.timer).clearIfSet s.cameraTimer).HandlesFresh :=
        ih.carry (by simp) (by simp) (by simp) (by simp)
      exact h0.releaseForecast
    | forecastTimeout =>
      have h0 : Sidebar.HandlesFresh { s with forecastTimeouts := s.forecastTimeouts - 1 } :=
        ih.carry rfl rfl rfl rfl
      exact h0.updateForecastGrid
    | gridSubscribed r =>
      simp only [Sidebar.step, Sidebar.gridSubscribed]
      cases hc : s.gridCall r CallPhase.awaitingSubscribe with
      | none => exact ih
      | some call =>
        obtain ⟨m1, m2, m3⟩ := Sidebar.gridCall_spec hc
        have h1 : (s.setGridCall { call with phase := CallPhase.awaitingGrace }).HandlesFresh :=
          ih.setGridCall m1 rfl (fun hp => by simp at hp)
        obtain ⟨a1, a2, a3, a4⟩ := h1
        refine ⟨a1, a2, a3, ?_⟩
        intro x hx
        simp only [Option.some.injEq] at hx
        subst hx
        refine ⟨?_, ?_, ?_⟩
        · have := ih.2.2.1 call m1 m3
          rw [m2] at this
          simpa using this
        · have := ih.1 call m1
          rw [m2] at this
          simpa using this
        · intro c hc2 hcr
          obtain ⟨c0, h0, rfl⟩ := (Sidebar.mem_setGridCall s _ c).mp hc2
          split_ifs at hcr ⊢ with hreq
          · simp
          · exact absurd (hcr.trans m2.symm) hreq
    | gridSubscribeFailed r =>
      simp only [Sidebar.step, Sidebar.gridSubscribeFailed]
      cases hc : s.gridCall r CallPhase.awaitingSubscribe with
      | none => exact ih
      | some call =>
        obtain ⟨m1, m2, m3⟩ := Sidebar.gridCall_spec hc
        have h1 := @Sidebar.HandlesFresh.setGridCall s ih call
          { call with
            phase := CallPhase.finished
            forecast := Sidebar.attributeForecast call.weatherState call.forecast }
          m1 rfl (fun hp => by simp at hp)
        exact h1.carry (by simp) (by simp) (by simp) (by simp)
    | gridGraceElapsed r =>
      simp only [Sidebar.step, Sidebar.gridGraceElapsed]
      cases hc : s.gridCall r CallPhase.awaitingGrace with
      | none => exact ih
      | some call =>
        obtain ⟨m1, m2, m3⟩ := Sidebar.gridCall_spec hc
        have h1 : (s.setGridCall { call with phase := CallPhase.finished }).HandlesFresh :=
          ih.setGridCall m1 rfl (fun hp => by simp at hp)
        exact h1.carry (by simp) (by simp) (by simp) (by simp)
    | forecastEvent r payload =>
      simp only [Sidebar.step, Sidebar.forecastEvent]
      cases hfind : s.gridCalls.find? (fun c => decide (c.request = r)) with
      | none => exact ih
      | some call =>
        cases payload with
        | none => exact ih
        | some forecast =>
          simp only []
          split_ifs
          · have m1 := List.mem_of_find?_eq_some hfind
            have h1 : (s.setGridCall { call with forecast := forecast }).HandlesFresh :=
              ih.setGridCall m1 rfl (fun hp => hp)
            exact h1.carry (by simp) (by simp) (by simp) (by simp)
          · exact ih
    | weatherClick =>
      obtain ⟨a1, a2, a3, a4⟩ := ih
      have hn : s.nextRequestId ≤ (s.step Sidebar.Event.weatherClick).nextRequestId := by
        simp only [Sidebar.step, Sidebar._handleWeatherClick]
        repeat' split
        all_goals simp
      refine ⟨?_, ?_, ?_, ?_⟩
      · intro c hc
        have hc2 : c ∈ s.gridCalls := by simpa [Sidebar.step] using hc
        exact Nat.lt_of_lt_of_le (a1 c hc2) hn
      · intro x hx
        have hx2 : x ∈ s.released := by simpa [Sidebar.step] using hx
        exact Nat.lt_of_lt_of_le (a2 x hx2) hn
      · intro c hc hph
        have hc2 : c ∈ s.gridCalls := by simpa [Sidebar.step] using hc
        have := a3 c hc2 hph
        simpa [Sidebar.step] using this
      · intro x hx
        have hx2 : s.forecastSubscriber = some x := by simpa [Sidebar.step] using hx
        obtain ⟨b1, b2, b3⟩ := a4 x hx2
        refine ⟨by simpa [Sidebar.step] using b1, Nat.lt_of_lt_of_le b2 hn, ?_⟩
        intro c hc
        have hc2 : c ∈ s.gridCalls := by simpa [Sidebar.step] using hc
        exact b3 c hc2
    | _ =>
      exact ih.carry (by simp [Sidebar.step]) (by simp [Sidebar.step]) (by simp [Sidebar.step])
        (by simp [Sidebar.step])

/-- What `releaseForecast` does to the handle and to the list of released handles. -/
theorem Sidebar.releaseForecast_spec (s : Sidebar) :
    s.releaseForecast.forecastSubscriber = none ∧
    (∀ handle, s.forecastSubscriber = some handle →
      s.releaseForecast.released = handle :: s.released) ∧
    (s.forecastSubscriber = none → s.releaseForecast.released = s.released) := by
  unfold Sidebar.releaseForecast
  cases h : s.forecastSubscriber <;> simp [h]

/-- What `disconnectedCallback()` does to the handle and to the list of released handles. -/
theorem Sidebar.disconnectedCallback_spec (s : Sidebar) :
    s.disconnectedCallback.forecastSubscriber = none ∧
    (∀ handle, s.forecastSubscriber = some handle →
      s.disconnectedCallback.released = handle :: s.released) ∧
    (s.forecastSubscriber = none → s.disconnectedCallback.released = s.released) := by
  have h := Sidebar.releaseForecast_spec ((s.clearIfSet s.timer).clearIfSet s.cameraTimer)
  simpa [Sidebar.disconnectedCallback] using h

/-- C10: in every state of the sidebar that can be reached (through `setConfig`, state
assignments, attach, detach, timer ticks and the other events), a camera rotation timer runs
only if at least two cameras are configured; with one camera or none
`startCameraRotation()` starts nothing and no camera timer runs; and after a `setConfig`
that leaves one camera or none, no camera timer is left from the configuration before. -/
theorem camera_timer_only_with_two_cameras (s : Sidebar) (h : s.Reachable) :
    (s.activeTimers TimerKind.camera ≠ [] → 2 ≤ s.cameraEntities.length) ∧
    (s.cameraEntities.length ≤ 1 →
      s.startCameraRotation = s ∧ s.activeTimers TimerKind.camera = []) ∧
    (∀ (config : SidebarOptions) (outcome : RenderOutcome),
      (s.setConfig config outcome).cameraEntities.length ≤ 1 →
      (s.setConfig config outcome).activeTimers TimerKind.camera = []) := by
  have key : ∀ t : Sidebar, t.Reachable → t.activeTimers TimerKind.camera ≠ [] →
      2 ≤ t.cameraEntities.length := by
    intro t ht hne
    obtain ⟨x, hx⟩ := List.exists_mem_of_ne_nil _ hne
    simp only [Sidebar.activeTimers, List.mem_filter, decide_eq_true_eq] at hx
    rcases ht.timersOwned x hx.1 with ⟨h1, _⟩ | ⟨_, _, h3⟩
    · rw [hx.2] at h1
      exact absurd h1 (by decide)
    · exact h3
  have none_of_le : ∀ t : Sidebar, t.Reachable → t.cameraEntities.length ≤ 1 →
      t.activeTimers TimerKind.camera = [] := by
    intro t ht hle
    by_contra hne
    have := key t ht hne
    omega
  refine ⟨key s h, ?_, ?_⟩
  · intro hle
    exact ⟨Sidebar.startCameraRotation_of_le_one s hle, none_of_le s h hle⟩
  · intro config outcome hle
    exact none_of_le _ (Sidebar.Reachable.step (Sidebar.Event.setConfig config outcome) h rfl) hle

/-- Witness of `camera_timer_only_with_two_cameras`: the sample sidebar can be reached, its
camera timer runs and it has three cameras. -/
theorem camera_timer_only_with_two_cameras_witness :
    demoSidebar.Reachable ∧ demoSidebar.activeTimers TimerKind.camera ≠ [] ∧
    2 ≤ demoSidebar.cameraEntities.length :=
  ⟨demo_reachable.1, by decide!,
    (camera_timer_only_with_two_cameras demoSidebar demo_reachable.1).1 (by decide!)⟩

/-- C11: after `disconnectedCallback()` in a state that can be reached, neither the clock
timer nor the camera rotation timer runs; the stored handle, if there was one, has been
released, exactly once in all (it had not been released before), and the field is cleared;
an immediately repeated `disconnectedCallback()` releases nothing more. -/
theorem disconnected_stops_timers_and_releases_once (s : Sidebar) (h : s.Reachable) :
    s.disconnectedCallback.activeTimers TimerKind.clock = [] ∧
    s.disconnectedCallback.activeTimers TimerKind.camera = [] ∧
    s.disconnectedCallback.forecastSubscriber = none ∧
    (∀ handle, s.forecastSubscriber = some handle →
      s.disconnectedCallback.released = handle :: s.released ∧
      s.disconnectedCallback.released.count handle = 1) ∧
    (s.forecastSubscriber = none → s.disconnectedCallback.released = s.released) ∧
    s.disconnectedCallback.disconnectedCallback.released = s.disconnectedCallback.released := by
  have hi := h.timersOwned.disconnected_intervals
  obtain ⟨d1, d2, d3⟩ := Sidebar.disconnectedCallback_spec s
  refine ⟨by simp [Sidebar.activeTimers, hi], by simp [Sidebar.activeTimers, hi], d1, ?_, d3, ?_⟩
  · intro handle hh
    have hfresh := (h.handlesFresh.2.2.2 handle hh).1
    refine ⟨d2 handle hh, ?_⟩
    rw [d2 handle hh, List.count_cons_self, List.count_eq_zero_of_not_mem hfresh]
  · exact (Sidebar.disconnectedCallback_spec s.disconnectedCallback).2.2 d1

/-- Witness of `disconnected_stops_timers_and_releases_once`: the sample sidebar with a
stored handle can be reached, and detaching it releases the handle `0`. -/
theorem disconnected_stops_timers_and_releases_once_witness :
    demoSubscribed.Reachable ∧ demoSubscribed.forecastSubscriber = some 0 ∧
    demoSubscribed.disconnectedCallback.released = [0] ∧
    demoSubscribed.disconnectedCallback.activeTimers TimerKind.clock = [] :=
  ⟨demo_reachable.2, by decide!,
    ((disconnected_stops_timers_and_releases_once demoSubscribed demo_reachable.2).2.2.2.1 0
      (by decide!)).1.trans (by decide!),
    (disconnected_stops_timers_and_releases_once demoSubscribed demo_reachable.2).1⟩

/-! ## Properties of the sidebar: popups, calendar, re-attachment, configuration -/

/-- A method that may render leaves the popups alone or removes them all. -/
theorem Sidebar.render_popups_le (s : Sidebar) (outcome : RenderOutcome)
    (next : Sidebar → Sidebar) (hn : ∀ t : Sidebar, (next t).popups = t.popups) :
    (s.render outcome next).popups ≤ s.popups := by
  unfold Sidebar.render
  cases outcome <;> simp [hn, Sidebar.writeMarkup]

/-- The number of popups never grows in `setConfig`, in the setter of `hass` and in
`connectedCallback`. -/
theorem Sidebar.lifecycle_popups_le (s : Sidebar) :
    (∀ config outcome, (s.setConfig config outcome).popups ≤ s.popups) ∧
    (∀ hass outcome, (s.setHass hass outcome).popups ≤ s.popups) ∧
    (∀ outcome, (s.connectedCallback outcome).popups ≤ s.popups) := by
  refine ⟨?_, ?_, ?_⟩
  · intro config outcome
    unfold Sidebar.setConfig
    simp only []
    split_ifs
    · refine (Sidebar.render_popups_le _ _ _ ?_).trans (by simp)
      intro t; split_ifs <;> simp
    · simp
    · simp
    · exact (Sidebar.render_popups_le _ _ _ (by simp)).trans (by simp)
    · simp
  · intro hass outcome
    unfold Sidebar.setHass
    simp only []
    split_ifs
    · exact Sidebar.render_popups_le _ _ _ (by simp)
    · simp
  · intro outcome
    unfold Sidebar.connectedCallback
    split_ifs
    · exact Sidebar.render_popups_le _ _ _ (by simp)
    · exact Nat.le_refl _

/-- The popups that `_showCalendarPopup` leaves: the one found is removed, and one is
appended unless building it raises. -/
theorem Sidebar.showCalendarPopup_popups (s : Sidebar) (events : Option (List AgendaItem)) :
    (s._showCalendarPopup events).raised = !Sidebar.popupBuilds events ∧
    (s._showCalendarPopup events).state.popups =
      (if Sidebar.popupBuilds events then s.popups - 1 + 1 else s.popups - 1) := by
  unfold Sidebar._showCalendarPopup
  cases Sidebar.popupBuilds events <;> simp

/-- The popups that a `try` block of `_handleCalendarClick` leaves. -/
theorem Sidebar.requestAndShow_popups (s : Sidebar)
    (answer : Option (Option (List AgendaItem))) :
    (s.requestAndShow answer).state.popups ≤ s.popups - 1 + 1 ∧
    ((s.requestAndShow answer).raised = true → (s.requestAndShow answer).state.popups ≤ s.popups) := by
  unfold Sidebar.requestAndShow
  split
  · obtain ⟨h1, h2⟩ := Sidebar.showCalendarPopup_popups s ‹_›
    rw [h1, h2]
    cases Sidebar.popupBuilds ‹_› <;> simp
  · simp only []
    exact ⟨by omega, fun _ => Nat.le_refl _⟩

/-- The method `_handleCalendarClick` leaves at most one popup where it found at most one. -/
theorem Sidebar.handleCalendarClick_popups_le (s : Sidebar) (now : Int)
    (primary : Option AgendaAnswer) (alternate : Option WsAnswer) (h : s.popups ≤ 1) :
    (s._handleCalendarClick now primary alternate).popups ≤ 1 := by
  unfold Sidebar._handleCalendarClick
  split
  · exact h
  · split
    · exact h
    · simp only []
      split_ifs
      · refine (Sidebar.requestAndShow_popups _ _).1.trans ?_
        simp only []
        omega
      · refine (Sidebar.requestAndShow_popups _ _).1.trans ?_
        have := (Sidebar.requestAndShow_popups
          { s with apiRequests := { entity := s.calendarEntity, start := now,
                                    stop := now + 14 * 24 * 60 * 60 * 1000 } :: s.apiRequests }
          (primary.map AgendaAnswer.orEmpty)).1
        simp only [] at this ⊢
        omega
      · simp only []
        refine (Sidebar.requestAndShow_popups _ _).1.trans ?_
        have := (Sidebar.requestAndShow_popups
          { s with apiRequests := { entity := s.calendarEntity, start := now,
                                    stop := now + 14 * 24 * 60 * 60 * 1000 } :: s.apiRequests }
          (primary.map AgendaAnswer.orEmpty)).1
        simp only [] at this ⊢
        omega

/-- C22: in every state of the sidebar that can be reached at most one popup is open, and
after `_showCalendarPopup` or `_showWeatherPopup` exactly one is: each removes the popup it
finds before it appends its own (a `_showCalendarPopup` that raises while it builds its popup
has removed the one it found and leaves none). -/
theorem at_most_one_popup (s : Sidebar) (h : s.Reachable) :
    s.popups ≤ 1 ∧
    (∀ events : Option (List AgendaItem),
      (s._showCalendarPopup events).state.popups =
        if (s._showCalendarPopup events).raised then 0 else 1) ∧
    s._showWeatherPopup.popups = 1 := by
  have inv : ∀ t : Sidebar, t.Reachable → t.popups ≤ 1 := by
    intro t ht
    induction ht with
    | init => decide
    | @step t e _ _ ih =>
      cases e with
      | setConfig config outcome =>
        exact ((Sidebar.lifecycle_popups_le t).1 config outcome).trans ih
      | setHass hass outcome => exact ((Sidebar.lifecycle_popups_le t).2.1 hass outcome).trans ih
      | connected outcome => exact ((Sidebar.lifecycle_popups_le t).2.2 outcome).trans ih
      | weatherPopup =>
        simp only [Sidebar.step, Sidebar._showWeatherPopup, Sidebar.showPopup]
        omega
      | closePopup =>
        simp only [Sidebar.step, Sidebar.closePopup]
        omega
      | calendarClick now primary alternate =>
        exact Sidebar.handleCalendarClick_popups_le t now primary alternate ih
      | clockTick => exact ih
      | _ => simpa [Sidebar.step] using ih
  have := inv s h
  refine ⟨this, ?_, ?_⟩
  · intro events
    obtain ⟨h1, h2⟩ := Sidebar.showCalendarPopup_popups s events
    rw [h1, h2]
    cases Sidebar.popupBuilds events <;> simp <;> omega
  · simp only [Sidebar._showWeatherPopup, Sidebar.showPopup]
    omega

/-- Witness of `at_most_one_popup`: the sample sidebar. -/
theorem at_most_one_popup_witness :
    demoSidebar.Reachable ∧
    (demoSidebar._showWeatherPopup._showCalendarPopup (some [])).state.popups = 1 :=
  ⟨demo_reachable.1,
    ((at_most_one_popup demoSidebar._showWeatherPopup
      (Sidebar.Reachable.step Sidebar.Event.weatherPopup demo_reachable.1 (by decide!))).2.1
      (some [])).trans (by decide!)⟩

/-- C27 (the code at the failing input): `disconnectedCallback()` stops the clock timer and
leaves `hasRendered` set, and `connectedCallback()` starts timers only when `hasRendered` is
unset; so after a detach followed by an attach the sidebar has rendered and no clock timer
runs (before the detach one did). -/
theorem no_clock_timer_after_reattach :
    (Sidebar.run {}
      [Sidebar.Event.setConfig demoOptions RenderOutcome.ok,
       Sidebar.Event.setHass (some demoHass) RenderOutcome.ok]).map
      (fun s => (s.hasRendered, (s.activeTimers TimerKind.clock).length)) = some (true, 1) ∧
    (Sidebar.run {}
      [Sidebar.Event.setConfig demoOptions RenderOutcome.ok,
       Sidebar.Event.setHass (some demoHass) RenderOutcome.ok,
       Sidebar.Event.disconnected, Sidebar.Event.connected RenderOutcome.ok]).map
      (fun s => (s.hasRendered, (s.activeTimers TimerKind.clock).length)) = some (true, 0) := by
  constructor <;> decide!

/-- C23 (counterexample): the primary request of `_handleCalendarClick` succeeds with an
array whose entry has no `start`; the popup is built inside the `try` block of the request,
so the `TypeError` of `event.start.dateTime` lands in its `catch` block and the alternate
request is made although the primary request succeeded.  (With the alternate request
failing, the notification follows.) -/
theorem calendar_answer_without_start_triggers_alternate_request :
    demoSidebar._hass = some demoHass ∧ demoSidebar.calendarEntity.truthy = true ∧
    demoSidebar.wsRequests = [] ∧
    (demoSidebar._handleCalendarClick 0 (some (AgendaAnswer.array [{}])) none).wsRequests =
      [{ entity := JSVal.str "calendar.example", start := 0, stop := 1209600000 }] ∧
    (demoSidebar._handleCalendarClick 0 (some AgendaAnswer.other) none).wsRequests =
      [{ entity := JSVal.str "calendar.example", start := 0, stop := 1209600000 }] ∧
    (demoSidebar._handleCalendarClick 0 (some (AgendaAnswer.array [{}])) none).popups = 0 ∧
    (demoSidebar._handleCalendarClick 0 (some (AgendaAnswer.array [{}])) none).notifications =
      [JSVal.str "calendar.example"] := by
  decide!

/-- C23 (amended): with a snapshot and a calendar entity, `_handleCalendarClick` sends the
primary request for the window from now to now plus 14 days.  When it is answered and the
popup can be built from the answer, no alternate request is sent and the popup is shown.
When it fails, or the popup cannot be built from its answer (the answer is no array, or one
of its first five entries lacks `start` or `end`), the alternate request is sent once, for
the same window; then the popup is shown if it can be built from the answer of that request,
and otherwise (the alternate request fails too, or the popup cannot be built) no popup is
opened and one notification for the calendar entity is raised.  The method being a total
function, nothing is raised. -/
theorem handleCalendarClick_retries_once (s : Sidebar) (hass : Hass) (now : Int)
    (h1 : s._hass = some hass) (h2 : s.calendarEntity.truthy = true) :
    (∀ primary alternate,
      (s._handleCalendarClick now primary alternate).apiRequests =
        { entity := s.calendarEntity, start := now, stop := now + 1209600000 } ::
          s.apiRequests) ∧
    (∀ answer alternate, Sidebar.popupBuilds answer.orEmpty = true →
      (s._handleCalendarClick now (some answer) alternate).wsRequests = s.wsRequests ∧
      (s._handleCalendarClick now (some answer) alternate).popups = s.popups - 1 + 1 ∧
      (s._handleCalendarClick now (some answer) alternate).notifications = s.notifications) ∧
    (∀ primary alternate,
      (∀ answer, primary = some answer → Sidebar.popupBuilds answer.orEmpty = false) →
      (s._handleCalendarClick now primary alternate).wsRequests =
          { entity := s.calendarEntity, start := now, stop := now + 1209600000 } ::
            s.wsRequests ∧
      (∀ answer, alternate = some answer → Sidebar.popupBuilds answer.shown = true →
        (s._handleCalendarClick now primary alternate).popups =
            (if primary.isSome then s.popups - 1 else s.popups) - 1 + 1 ∧
          (s._handleCalendarClick now primary alternate).notifications = s.notifications) ∧
      ((∀ answer, alternate = some answer → Sidebar.popupBuilds answer.shown = false) →
        (s._handleCalendarClick now primary alternate).popups ≤ s.popups ∧
          (s._handleCalendarClick now primary alternate).notifications =
            s.calendarEntity :: s.notifications)) ∧
    ((s._handleCalendarClick now none none).popups = s.popups ∧
      (s._handleCalendarClick now none none).wsRequests =
        [{ entity := s.calendarEntity, start := now, stop := now + 1209600000 }] ++
          s.wsRequests ∧
      (s._handleCalendarClick now none none).notifications =
        s.calendarEntity :: s.notifications) := by
  refine ⟨?_, ?_, ?_, ?_⟩
  · intro primary alternate
    simp only [Sidebar._handleCalendarClick, h1, h2]
    simp only [Bool.not_true, Bool.false_eq_true, if_false]
    split_ifs <;> simp
  · intro answer alternate hbuild
    simp [Sidebar._handleCalendarClick, h1, h2, Sidebar.requestAndShow,
      Sidebar._showCalendarPopup, hbuild]
  · intro primary alternate hprimary
    have hfirst : primary = none ∨
        ∃ answer, primary = some answer ∧ Sidebar.popupBuilds answer.orEmpty = false := by
      cases primary with
      | none => exact Or.inl rfl
      | some answer => exact Or.inr ⟨answer, rfl, hprimary answer rfl⟩
    refine ⟨?_, ?_, ?_⟩
    · rcases hfirst with hp | ⟨answer, hp, hbuild⟩ <;> subst hp <;> cases alternate <;>
        simp [Sidebar._handleCalendarClick, h1, h2, Sidebar.requestAndShow,
          Sidebar._showCalendarPopup, *] <;> split_ifs <;> simp
    · intro answer ha hshow
      subst ha
      rcases hfirst with hp | ⟨answer2, hp, hbuild⟩ <;> subst hp <;>
        simp [Sidebar._handleCalendarClick, h1, h2, Sidebar.requestAndShow,
          Sidebar._showCalendarPopup, *]
    · intro halt
      have hsecond : alternate = none ∨
          ∃ answer, alternate = some answer ∧ Sidebar.popupBuilds answer.shown = false := by
        cases alternate with
        | none => exact Or.inl rfl
        | some answer => exact Or.inr ⟨answer, rfl, halt answer rfl⟩
      rcases hfirst with hp | ⟨answer, hp, hbuild⟩ <;> subst hp <;>
        rcases hsecond with ha | ⟨answer3, ha, hshow⟩ <;> subst ha <;>
        simp [Sidebar._handleCalendarClick, h1, h2, Sidebar.requestAndShow,
          Sidebar._showCalendarPopup, *] <;> omega
  · simp [Sidebar._handleCalendarClick, h1, h2, Sidebar.requestAndShow]

/-- Witness of `handleCalendarClick_retries_once`: on the sample sidebar (calendar entity
`calendar.example` by default) both requests fail and one notification is raised. -/
theorem handleCalendarClick_retries_once_witness :
    demoSidebar._hass = some demoHass ∧ demoSidebar.calendarEntity.truthy = true ∧
    (demoSidebar._handleCalendarClick 0 none none).notifications =
      [JSVal.str "calendar.example"] :=
  ⟨by decide!, by decide!,
    ((handleCalendarClick_retries_once demoSidebar demoHass 0 (by decide!)
      (by decide!)).2.2.2.2.2).trans (by decide!)⟩

/-- A value with a default that is defined is defined. -/
theorem JSVal.or_ne_undefined (v d : JSVal) (hd : d ≠ JSVal.undefined) :
    v.or d ≠ JSVal.undefined := by
  unfold JSVal.or
  split_ifs with h
  · intro hv
    rw [hv] at h
    exact absurd h (by decide)
  · exact hd

/-- C20 (the code at the failing input): `setConfig` of the energy-details card leaves every
field of the configuration defined, whatever the options are; `setConfig` of the sidebar,
however, called on a fresh element with `custom_card: { type: 5 }`, reaches `render()`,
where `_createCustomCard()` calls `cardType.startsWith` on the number before its `try`
block: the call of `render()` cannot end normally, and `setConfig` is left with
`hasRendered` unset and no timer started. -/
theorem sidebar_setConfig_raises_on_numeric_custom_card_type :
    (∀ (card : EnergyCard) (o : EnergyOptions),
      (card.setConfig o)._config.bare ≠ JSVal.undefined ∧
      (card.setConfig o)._config.show_header ≠ JSVal.undefined ∧
      (card.setConfig o)._config.name ≠ JSVal.undefined ∧
      (card.setConfig o)._config.grid_sign ≠ JSVal.undefined ∧
      (card.setConfig o)._config.solar_power ≠ JSVal.undefined ∧
      (card.setConfig o)._config.grid_power ≠ JSVal.undefined ∧
      (card.setConfig o)._config.battery_soc ≠ JSVal.undefined ∧
      (card.setConfig o)._config.battery_power ≠ JSVal.undefined ∧
      (card.setConfig o)._config.home_consumption ≠ JSVal.undefined ∧
      (card.setConfig o)._config.max_solar_power ≠ JSVal.undefined ∧
      (card.setConfig o)._config.max_grid_power ≠ JSVal.undefined ∧
      (card.setConfig o)._config.max_consumption ≠ JSVal.undefined ∧
      (card.setConfig o)._config.battery_click_target ≠ JSVal.undefined) ∧
    Sidebar.customCardThrows
      (Sidebar.stopCameraRotation (Sidebar.assignConfig {}
        { custom_card := JSVal.object 0 "[object Object]",
          custom_card_type := JSVal.num (JSNum.fin 5) })) = true ∧
    (∀ outcome,
      Sidebar.admissible
        (Sidebar.stopCameraRotation (Sidebar.assignConfig {}
          { custom_card := JSVal.object 0 "[object Object]",
            custom_card_type := JSVal.num (JSNum.fin 5) })) outcome = true →
      outcome ≠ RenderOutcome.ok ∧
      (Sidebar.setConfig {}
        { custom_card := JSVal.object 0 "[object Object]",
          custom_card_type := JSVal.num (JSNum.fin 5) } outcome).renderCount = 1 ∧
      (Sidebar.setConfig {}
        { custom_card := JSVal.object 0 "[object Object]",
          custom_card_type := JSVal.num (JSNum.fin 5) } outcome).hasRendered = false ∧
      (Sidebar.setConfig {}
        { custom_card := JSVal.object 0 "[object Object]",
          custom_card_type := JSVal.num (JSNum.fin 5) } outcome).timer = none) := by
  refine ⟨?_, by decide!, ?_⟩
  · intro card o
    refine ⟨?_, ?_, ?_, ?_, ?_, ?_, ?_, ?_, ?_, ?_, ?_, ?_, ?_⟩ <;>
      simp only [EnergyCard.setConfig] <;>
      first
        | exact JSVal.or_ne_undefined _ _ (by decide)
        | (split_ifs <;> decide)
        | simp
  · intro outcome
    cases outcome
    · intro h
      exact absurd h (by decide!)
    · intro _
      exact ⟨by decide, by decide!, by decide!, by decide!⟩
    · intro _
      exact ⟨by decide, by decide!, by decide!, by decide!⟩

/-! ## Properties of the sidebar: camera rotation -/

/-- One tick of the camera timer on a cursor `a` below the number `n` of cameras: the
arithmetic of `(a + 1) % n` in doubles is exact. -/
theorem cursor_advance (a n : Nat) (h1 : 1 ≤ n) (h3 : n ≤ 3) (ha : a < n) :
    (JSNum.add (JSNum.fin a) (JSNum.fin 1)).rem (JSNum.fin n) =
      JSNum.fin (((a + 1) % n : Nat) : ℚ) := by
  interval_cases n <;> interval_cases a <;> decide!

/-- What `setConfig` leaves in the camera list and in the cursor. -/
theorem Sidebar.setConfig_cameras (s : Sidebar) (config : SidebarOptions)
    (outcome : RenderOutcome) :
    (s.setConfig config outcome).cameraEntities = (s.assignConfig config).cameraEntities ∧
    (s.setConfig config outcome).currentCameraIndex = JSNum.fin 0 := by
  unfold Sidebar.setConfig Sidebar.render
  cases outcome <;> simp only [] <;> split_ifs <;> simp [Sidebar.assignConfig]

/-- The camera list that `setConfig` builds: the truthy ones among the three camera options,
in their order, or the default alone; so one to three cameras. -/
theorem Sidebar.assignConfig_cameras (s : Sidebar) (config : SidebarOptions) :
    (s.assignConfig config).cameraEntities =
      (if ([config.camera_entity, config.camera_entity_2, config.camera_entity_3].filter
          JSVal.truthy).length = 0 then [JSVal.str "camera.example"]
        else [config.camera_entity, config.camera_entity_2, config.camera_entity_3].filter
          JSVal.truthy) ∧
    1 ≤ (s.assignConfig config).cameraEntities.length ∧
    (s.assignConfig config).cameraEntities.length ≤ 3 := by
  simp only [Sidebar.assignConfig]
  cases h1 : config.camera_entity.truthy <;> cases h2 : config.camera_entity_2.truthy <;>
    cases h3 : config.camera_entity_3.truthy <;> simp [h1, h2, h3, List.filter]

/-- Ticks of the camera timer from a cursor `j mod n`. -/
theorem Sidebar.run_cameraTicks (n : Nat) (h1 : 1 ≤ n) (h3 : n ≤ 3) (k : Nat) :
    ∀ (j : Nat) (s t : Sidebar), s.cameraEntities.length = n →
      s.currentCameraIndex = JSNum.fin ((j % n : Nat) : ℚ) →
      s.run (List.replicate k Sidebar.Event.cameraTick) = some t →
      t.currentCameraIndex = JSNum.fin (((j + k) % n : Nat) : ℚ) ∧
      t.cameraEntities.length = n := by
  induction k with
  | zero =>
    intro j s t hn hc hr
    simp only [List.replicate_zero, Sidebar.run, Option.some.injEq] at hr
    subst hr
    exact ⟨by simpa using hc, hn⟩
  | succ k ih =>
    intro j s t hn hc hr
    simp only [List.replicate_succ, Sidebar.run] at hr
    split_ifs at hr
    have hstep : (s.step Sidebar.Event.cameraTick).currentCameraIndex =
        JSNum.fin (((j + 1) % n : Nat) : ℚ) := by
      simp only [Sidebar.step, Sidebar.cameraTick, hc, hn]
      rw [cursor_advance (j % n) n h1 h3 (Nat.mod_lt _ (by omega))]
      congr 2
      rw [Nat.add_mod j 1 n, Nat.add_mod (j % n) 1 n, Nat.mod_mod]
    have hlen : (s.step Sidebar.Event.cameraTick).cameraEntities.length = n := by
      simpa [Sidebar.step] using hn
    have := ih (j + 1) _ t hlen hstep hr
    rw [show j + 1 + k = j + (k + 1) by omega] at this
    exact this

/-- C9: after a `setConfig`, which builds the list of `n` cameras (the truthy ones among
`camera_entity`, `camera_entity_2`, `camera_entity_3` in that order, or the default alone,
so `n` is 1, 2 or 3) and resets the cursor, `k` ticks of the camera rotation timer leave the
cursor at `k mod n`, a valid index into the list. -/
theorem rotation_cursor_is_ticks_mod_cameras (s t : Sidebar) (config : SidebarOptions)
    (outcome : RenderOutcome) (k : Nat)
    (h : (s.setConfig config outcome).run (List.replicate k Sidebar.Event.cameraTick) =
      some t) :
    t.currentCameraIndex =
      JSNum.fin ((k % (s.setConfig config outcome).cameraEntities.length : Nat) : ℚ) ∧
    k % (s.setConfig config outcome).cameraEntities.length < t.cameraEntities.length ∧
    t.cameraEntities = (s.setConfig config outcome).cameraEntities ∧
    (s.setConfig config outcome).currentCameraIndex = JSNum.fin 0 ∧
    (s.setConfig config outcome).cameraEntities =
      (if ([config.camera_entity, config.camera_entity_2, config.camera_entity_3].filter
          JSVal.truthy).length = 0 then [JSVal.str "camera.example"]
        else [config.camera_entity, config.camera_entity_2, config.camera_entity_3].filter
          JSVal.truthy) ∧
    1 ≤ (s.setConfig config outcome).cameraEntities.length ∧
    (s.setConfig config outcome).cameraEntities.length ≤ 3 := by
  obtain ⟨c1, c2⟩ := Sidebar.setConfig_cameras s config outcome
  obtain ⟨a1, a2, a3⟩ := Sidebar.assignConfig_cameras s config
  rw [← c1] at a1 a2 a3
  have hrun := Sidebar.run_cameraTicks _ a2 a3 k 0 _ t rfl (by simpa using c2) h
  have hsame : ∀ (k : Nat) (u v : Sidebar),
      u.run (List.replicate k Sidebar.Event.cameraTick) = some v →
      v.cameraEntities = u.cameraEntities := by
    intro k
    induction k with
    | zero =>
      intro u v hr
      simp only [List.replicate_zero, Sidebar.run, Option.some.injEq] at hr
      rw [hr]
    | succ k ih =>
      intro u v hr
      simp only [List.replicate_succ, Sidebar.run] at hr
      split_ifs at hr
      rw [ih _ _ hr]
      simp [Sidebar.step]
  refine ⟨by simpa using hrun.1, ?_, hsame k _ _ h, c2, a1, a2, a3⟩
  rw [hrun.2]
  exact Nat.mod_lt _ (by omega)

/-- Witness of `rotation_cursor_is_ticks_mod_cameras`: with the three cameras of the sample
configuration four ticks can happen, and they leave the cursor at 1. -/
theorem rotation_cursor_is_ticks_mod_cameras_witness :
    (Sidebar.setConfig {} demoOptions RenderOutcome.ok).run
        (List.replicate 4 Sidebar.Event.cameraTick) =
      some (Sidebar.setConfig {} demoOptions
        RenderOutcome.ok).cameraTick.cameraTick.cameraTick.cameraTick ∧
    (Sidebar.setConfig {} demoOptions
      RenderOutcome.ok).cameraTick.cameraTick.cameraTick.cameraTick.currentCameraIndex =
      JSNum.fin 1 :=
  ⟨by
      have e : (Sidebar.setConfig {} demoOptions RenderOutcome.ok).enabled
          Sidebar.Event.cameraTick = true := by decide!
      have e1 : ∀ u : Sidebar, u.cameraTick.enabled Sidebar.Event.cameraTick =
          u.enabled Sidebar.Event.cameraTick := fun u => by
        simp [Sidebar.enabled, Sidebar.activeTimers]
      simp [List.replicate, Sidebar.run, Sidebar.step, e, e1],
    ((rotation_cursor_is_ticks_mod_cameras {} _ demoOptions RenderOutcome.ok 4
      (by
        have e : (Sidebar.setConfig {} demoOptions RenderOutcome.ok).enabled
            Sidebar.Event.cameraTick = true := by decide!
        have e1 : ∀ u : Sidebar, u.cameraTick.enabled Sidebar.Event.cameraTick =
            u.enabled Sidebar.Event.cameraTick := fun u => by
          simp [Sidebar.enabled, Sidebar.activeTimers]
        simp [List.replicate, Sidebar.run, Sidebar.step, e, e1])).1).trans (by decide!)⟩

/-! ## Properties of the energy-details card: bars -/

/-- Rounding to a double never gives `NaN`. -/
theorem JSNum.roundToDouble_ne_nan (q : ℚ) : JSNum.roundToDouble q ≠ JSNum.nan := by
  unfold JSNum.roundToDouble
  simp only []
  split_ifs <;> simp

/-- The clamp of `_updateBar` on a Number that is not `NaN`. -/
theorem clamp_spec (p : JSNum) (hp : p.isNaN = false) :
    ∃ c : ℚ, 0 ≤ c ∧ c ≤ 100 ∧
      JSNum.max (JSNum.fin 0) (JSNum.min (JSNum.fin 100) p) = JSNum.fin c ∧
      (∀ q : ℚ, p = JSNum.fin q → c = min 100 (max 0 q)) := by
  cases p with
  | nan => simp [JSNum.isNaN] at hp
  | posInf => exact ⟨100, by norm_num, le_refl _, by decide!, by intro q h; cases h⟩
  | negInf => exact ⟨0, le_refl _, by norm_num, by decide!, by intro q h; cases h⟩
  | fin q =>
    refine ⟨min 100 (max 0 q), ?_, ?_, ?_, ?_⟩
    · simp
    · simp
    · by_cases h1 : q < 100
      · by_cases h0 : 0 < q
        · simp [JSNum.min, JSNum.max, JSNum.lt, h1, h0, max_eq_right h0.le,
            min_eq_right h1.le]
        · simp [JSNum.min, JSNum.max, JSNum.lt, h1, h0, max_eq_left (not_lt.mp h0)]
      · have h0 : (0 : ℚ) < q := by linarith [not_lt.mp h1]
        simp [JSNum.min, JSNum.max, JSNum.lt, h1, max_eq_right h0.le,
          min_eq_left (not_lt.mp h1)]
    · intro q2 h
      cases h
      rfl

/-- The maximum that `setConfig` stores for an option that is absent or a Number: a Number
that is neither zero nor `NaN`. -/
theorem max_option_default (v : JSVal) (h : v = JSVal.undefined ∨ ∃ n, v = JSVal.num n) :
    ∃ m, v.or (JSVal.num (JSNum.fin 10000)) = JSVal.num m ∧ m ≠ JSNum.fin 0 ∧
      m.isNaN = false := by
  rcases h with h | ⟨n, h⟩
  · subst h
    exact ⟨JSNum.fin 10000, rfl, by decide!, rfl⟩
  · subst h
    by_cases ht : (JSVal.num n).truthy = true
    · refine ⟨n, by simp [JSVal.or, ht], ?_, ?_⟩
      · intro h0
        subst h0
        simp [JSVal.truthy] at ht
      · cases n <;> simp [JSVal.truthy, JSNum.isNaN] at ht ⊢
    · exact ⟨JSNum.fin 10000, by simp [JSVal.or, ht], by decide!, rfl⟩

/-- A finite power divided by a maximum that is neither zero nor `NaN`, times 100, is not
`NaN`. -/
theorem percentage_ne_nan (w : ℚ) (m : JSNum) (h0 : m ≠ JSNum.fin 0) (hm : m.isNaN = false) :
    (((JSNum.fin w).div m).mul (JSNum.fin 100)).isNaN = false := by
  have key : ∀ r : JSNum, r ≠ JSNum.nan → (r.mul (JSNum.fin 100)).isNaN = false := by
    intro r hr
    cases r with
    | nan => exact absurd rfl hr
    | posInf => decide!
    | negInf => decide!
    | fin a =>
      have := JSNum.roundToDouble_ne_nan (a * 100)
      simp only [JSNum.mul]
      cases hrd : JSNum.roundToDouble (a * 100) <;> simp_all [JSNum.isNaN]
  apply key
  cases m with
  | nan => simp [JSNum.isNaN] at hm
  | posInf => simp [JSNum.div]
  | negInf => simp [JSNum.div]
  | fin b =>
    have hb : b ≠ 0 := fun h => h0 (by rw [h])
    simp only [JSNum.div, hb, if_false]
    exact JSNum.roundToDouble_ne_nan _

/-- C21 (counterexample): with `max_solar_power: "0"` (a string, so truthy and kept by
`setConfig`) and no solar entity in the snapshot, the incremental updater divides 0 by 0 and
`_updateBar` writes the width `NaN%`, which is not in [0,100]. -/
theorem updateBar_writes_nan_for_text_zero_maximum :
    (EnergyCard.setConfig {} { max_solar_power := JSVal.str "0" })._config.max_solar_power =
      JSVal.str "0" ∧
    (JSVal.str "0").toNumber = JSNum.fin 0 ∧
    (((EnergyCard.setConfig {} { max_solar_power := JSVal.str "0" }).setHass
        (some { states := [] })).setHass (some { states := [] })).dom.map
      EnergyDom.bar_solar_width = some "NaN%" := by
  decide!

/-- C21 (amended): for every percentage `p` that is not `NaN`, the width that `_updateBar`
writes is `min(100, max(0, p))` percent, so it lies in [0,100] and is `p` itself when `p` does;
for `NaN` it is `NaN%`.  When a `max_*` option is absent or a Number, `setConfig` stores a
Number that is neither zero nor `NaN` (10000 for absent, `0` and `NaN`), and the percentage of a
finite power is then not `NaN`. -/
theorem updateBar_width_clamped_unless_nan (card : EnergyCard) (config : EnergyOptions)
    (p : JSNum) :
    (p.isNaN = false →
      ∃ c : ℚ, 0 ≤ c ∧ c ≤ 100 ∧ EnergyCard.barWidth p = (JSNum.fin c).toStr ++ "%" ∧
        ∀ q : ℚ, p = JSNum.fin q → c = min 100 (max 0 q)) ∧
    (p.isNaN = true → EnergyCard.barWidth p = "NaN%") ∧
    ((config.max_solar_power = JSVal.undefined ∨ ∃ n, config.max_solar_power = JSVal.num n) →
      ∃ m, (card.setConfig config)._config.max_solar_power = JSVal.num m ∧ m ≠ JSNum.fin 0 ∧
        ∀ w : ℚ, (((JSNum.fin w).div m).mul (JSNum.fin 100)).isNaN = false) ∧
    ((config.max_grid_power = JSVal.undefined ∨ ∃ n, config.max_grid_power = JSVal.num n) →
      ∃ m, (card.setConfig config)._config.max_grid_power = JSVal.num m ∧ m ≠ JSNum.fin 0 ∧
        ∀ w : ℚ, (((JSNum.fin w).div m).mul (JSNum.fin 100)).isNaN = false) ∧
    ((config.max_consumption = JSVal.undefined ∨ ∃ n, config.max_consumption = JSVal.num n) →
      ∃ m, (card.setConfig config)._config.max_consumption = JSVal.num m ∧ m ≠ JSNum.fin 0 ∧
        ∀ w : ℚ, (((JSNum.fin w).div m).mul (JSNum.fin 100)).isNaN = false) := by
  refine ⟨?_, ?_, ?_, ?_, ?_⟩
  · intro hp
    obtain ⟨c, c0, c1, hc, hq⟩ := clamp_spec p hp
    exact ⟨c, c0, c1, by rw [EnergyCard.barWidth, hc], hq⟩
  · intro hp
    cases p <;> simp [JSNum.isNaN] at hp
    decide!
  · intro h
    obtain ⟨m, e, m0, mn⟩ := max_option_default _ h
    exact ⟨m, e, m0, fun w => percentage_ne_nan w m m0 mn⟩
  · intro h
    obtain ⟨m, e, m0, mn⟩ := max_option_default _ h
    exact ⟨m, e, m0, fun w => percentage_ne_nan w m m0 mn⟩
  · intro h
    obtain ⟨m, e, m0, mn⟩ := max_option_default _ h
    exact ⟨m, e, m0, fun w => percentage_ne_nan w m m0 mn⟩

/-- Witness of `updateBar_width_clamped_unless_nan`: the percentage 150 gives the width
`100%`, and an absent `max_solar_power` is stored as 10000. -/
theorem updateBar_width_clamped_unless_nan_witness :
    EnergyCard.barWidth (JSNum.fin 150) = "100%" ∧
    ∃ m, (EnergyCard.setConfig {} {})._config.max_solar_power = JSVal.num m ∧
      m ≠ JSNum.fin 0 := by
  obtain ⟨h1, _, h3, _, _⟩ := updateBar_width_clamped_unless_nan {} {} (JSNum.fin 150)
  obtain ⟨c, _, _, hc, hq⟩ := h1 rfl
  obtain ⟨m, hm, m0, _⟩ := h3 (Or.inl rfl)
  refine ⟨?_, m, hm, m0⟩
  rw [hc, hq 150 rfl, show min (100 : ℚ) (max 0 150) = 100 by norm_num]
  decide!

/-- C24: the full render and the incremental updater of the energy-details card write the
same texts and the same grid label for every configuration and snapshot, but not the same
bar widths: `render()` applies only `Math.min(100, ...)` to three bars and nothing to the
battery bar, while `_updateBar` clamps to [0,100].  With a solar power of -500 W and a battery
level of 150 the first assignment of `hass` (a full render) gives the widths `-5%` and `150%`,
and the second one (an incremental update) with the same snapshot gives `0%` and `100%`. -/
theorem energy_render_leaves_bar_widths_unclamped (card : EnergyCard) (hass : Hass) :
    (EnergyCard.render { card with _hass := some hass }).dom.map EnergyDom.texts =
      (EnergyCard.render { card with _hass := some hass })._updateValues.dom.map
        EnergyDom.texts ∧
    ((EnergyCard.setConfig {} demoEnergyOptions).setHass (some demoEnergyHass)).dom.map
      EnergyDom.widths = some ["-5%", "0%", "0%", "150%"] ∧
    (((EnergyCard.setConfig {} demoEnergyOptions).setHass (some demoEnergyHass)).setHass
      (some demoEnergyHass)).dom.map EnergyDom.widths = some ["0%", "0%", "0%", "100%"] ∧
    ((EnergyCard.setConfig {} demoEnergyOptions).setHass (some demoEnergyHass)).updateCount =
      0 ∧
    (((EnergyCard.setConfig {} demoEnergyOptions).setHass (some demoEnergyHass)).setHass
      (some demoEnergyHass)).renderCount = 1 := by
  refine ⟨?_, by decide!, by decide!, by decide!, by decide!⟩
  simp [EnergyCard.render, EnergyCard._updateValues, EnergyCard._setupEventListeners,
    EnergyDom.texts, EnergyCard._getState, EnergyCard._isGridExport]

/-! ## Properties of the sidebar: energy values -/

/-- C25: the full render of the sidebar shows the state of an energy entity as it is,
followed by the unit, while the incremental updater writes `_formatEnergyValue(state, unit)`.
For the state `"10.50"` the render gives `10.50 kW` and the updater `10.5 kW`; for
`"unavailable"` the render gives `unavailable kW` and the updater `-- kW`.  The rendered text
stays on display whenever no update follows the render: with a custom card whose type is a
Number, `render()` raises after the markup is written, in `setConfig` and in every
assignment of `hass`, so the updater never runs. -/
theorem sidebar_render_shows_unformatted_energy_state :
    (Sidebar.render { Sidebar.assignConfig {} demoOptions with _hass := some demoHass }
      RenderOutcome.ok id).val_grid = some "10.50 kW" ∧
    (Sidebar.render { Sidebar.assignConfig {} demoOptions with _hass := some demoHass }
      RenderOutcome.ok id).updateValues.val_grid = some "10.5 kW" ∧
    Sidebar._formatEnergyValue (JSVal.str "10.50") (JSVal.str "kW") = "10.5 kW" ∧
    (Sidebar.render
      { Sidebar.assignConfig {} demoOptions with _hass := some demoUnavailableHass }
      RenderOutcome.ok id).val_grid = some "unavailable kW" ∧
    (Sidebar.render
      { Sidebar.assignConfig {} demoOptions with _hass := some demoUnavailableHass }
      RenderOutcome.ok id).updateValues.val_grid = some "-- kW" ∧
    Sidebar.admissible (Sidebar.assignConfig {} demoBrokenOptions) RenderOutcome.ok = false ∧
    ((Sidebar.setConfig {} demoBrokenOptions RenderOutcome.throwsAfter).setHass (some demoHass)
      RenderOutcome.throwsAfter).val_grid = some "10.50 kW" ∧
    (((Sidebar.setConfig {} demoBrokenOptions RenderOutcome.throwsAfter).setHass
      (some demoHass) RenderOutcome.throwsAfter).setHass (some demoHass)
      RenderOutcome.throwsAfter).val_grid = some "10.50 kW" ∧
    (((Sidebar.setConfig {} demoBrokenOptions RenderOutcome.throwsAfter).setHass
      (some demoHass) RenderOutcome.throwsAfter).setHass (some demoHass)
      RenderOutcome.throwsAfter).updateCount = 0 := by
  decide!

/-- C6: after the usual start the grid value of the sample snapshot is on display; a later
snapshot without the grid entity leaves that value on display, because `updateValues()`
writes an energy element only when the snapshot has the entity, while a full render with
the same snapshot shows the placeholder `0 kW`. -/
theorem stale_energy_value_stays_on_display :
    demoSidebar.val_grid = some "10.5 kW" ∧
    Hass.lookup { states := [] } demoSidebar.gridEntity = none ∧
    (demoSidebar.setHass (some { states := [] }) RenderOutcome.ok).val_grid =
      some "10.5 kW" ∧
    (demoSidebar.setHass (some { states := [] }) RenderOutcome.ok).updateCount =
      demoSidebar.updateCount + 1 ∧
    (Sidebar.render { demoSidebar with _hass := some { states := [] } } RenderOutcome.ok
      id).val_grid = some "0 kW" := by
  decide!

/-- The two paths of the sidebar at an energy entity that the snapshot lacks: a full render
shows the placeholder `0 kW` for it (if the energy block is rendered at all, which it is when
the entity is configured), while `updateValues()`, run by an assignment of `hass` to a
rendered sidebar, leaves the text as it was; for the grid, the solar and the home entity. -/
theorem missing_energy_entity_render_and_update (s : Sidebar) (hass : Hass)
    (outcome : RenderOutcome) (pick : Sidebar → JSVal) (shown : Sidebar → Option String)
    (hpick : (pick = Sidebar.gridEntity ∧ shown = Sidebar.val_grid) ∨
      (pick = Sidebar.solarEntity ∧ shown = Sidebar.val_solar) ∨
      (pick = Sidebar.homeEntity ∧ shown = Sidebar.val_home))
    (habsent : hass.lookup (pick s) = none) :
    (shown (Sidebar.render { s with _hass := some hass } RenderOutcome.ok id) = none ∨
      shown (Sidebar.render { s with _hass := some hass } RenderOutcome.ok id) =
        some "0 kW") ∧
    (((pick s).truthy = true ∧ (pick s).strictEq (JSVal.str "sensor.example") = false) →
      shown (Sidebar.render { s with _hass := some hass } RenderOutcome.ok id) =
        some "0 kW") ∧
    (s.hasRendered = true → shown (s.setHass (some hass) outcome) = shown s) := by
  rcases hpick with ⟨h1, h2⟩ | ⟨h1, h2⟩ | ⟨h1, h2⟩ <;> subst h1 <;> subst h2
  all_goals
    refine ⟨?_, ?_, ?_⟩
    · simp only [Sidebar.render, Sidebar.writeMarkup, Sidebar.stateOf, Option.bind, habsent,
        Sidebar.renderedEnergyValue, id]
      split_ifs <;> simp
    · intro ⟨t1, t2⟩
      simp [Sidebar.render, Sidebar.writeMarkup, Sidebar.stateOf, habsent,
        Sidebar.renderedEnergyValue, t1, t2]
    · intro hr
      rw [Sidebar.setHass_of_rendered _ _ _ hr]
      simp [Sidebar.updateValues, Sidebar.stateOf, habsent]

/-- The two paths at the sample sidebar and a snapshot without entities. -/
theorem missing_energy_entity_render_and_update_sample :
    Sidebar.val_grid
        (Sidebar.render { demoSidebar with _hass := some { states := [] } } RenderOutcome.ok
          id) = some "0 kW" ∧
    (demoSidebar.setHass (some { states := [] }) RenderOutcome.ok).val_grid =
      demoSidebar.val_grid :=
  ⟨(missing_energy_entity_render_and_update demoSidebar { states := [] }
      RenderOutcome.ok Sidebar.gridEntity Sidebar.val_grid (Or.inl ⟨rfl, rfl⟩)
      (by decide!)).2.1 (by decide!),
    (missing_energy_entity_render_and_update demoSidebar { states := [] }
      RenderOutcome.ok Sidebar.gridEntity Sidebar.val_grid (Or.inl ⟨rfl, rfl⟩)
      (by decide!)).2.2 (by decide!)⟩

/-! ## Properties of the sidebar: forecast -/

/-- The number of days that `setConfig` stores. -/
theorem Sidebar.setConfig_forecastDays (s : Sidebar) (config : SidebarOptions)
    (outcome : RenderOutcome) :
    (s.setConfig config outcome).forecastDays =
      config.forecast_days.or (JSVal.num (JSNum.fin 3)) := by
  unfold Sidebar.setConfig Sidebar.render
  cases outcome <;> simp only [] <;> split_ifs <;> simp [Sidebar.assignConfig]

/-- The call `slice(0, n)` with a whole number `n`. -/
theorem Sidebar.sliceFromStart_nat {α : Type} (xs : List α) (n : Nat) :
    Sidebar.sliceFromStart xs (JSVal.num (JSNum.fin n)) = xs.take n := by
  have h0 : ¬ ((n : ℚ) < 0) := not_lt.mpr (Nat.cast_nonneg n)
  have h1 : (0 : ℚ) ≤ n := Nat.cast_nonneg n
  simp [Sidebar.sliceFromStart, JSVal.toNumber, JSNum.truncate, h1]

/-- C29: with `forecast_days` configured as the whole number `d` (3 being used when it is
absent or 0), `renderForecastGrid` renders the first `min(d, length)` entries of the forecast
in their order; each shows `temperature` as the high and `templow` as the low, the one that is
there standing in for the other when one is missing, and `0` when both are. -/
theorem renderForecastGrid_shows_first_days (s : Sidebar) (config : SidebarOptions)
    (outcome : RenderOutcome) (forecast : List ForecastEntry) (d : Nat)
    (h : (config.forecast_days = JSVal.undefined ∧ d = 0) ∨
      config.forecast_days = JSVal.num (JSNum.fin d)) :
    Sidebar.renderForecastGrid (s.setConfig config outcome) forecast =
      GridContent.items
        ((forecast.take (if d = 0 then 3 else d)).map (Sidebar.forecastItem Sidebar.gridIconMap)) ∧
    (forecast.take (if d = 0 then 3 else d)).length =
      min (if d = 0 then 3 else d) forecast.length ∧
    ∀ day : ForecastEntry,
      (Sidebar.forecastItem Sidebar.gridIconMap day).temp =
        (if day.temperature ≠ JSVal.undefined then day.temperature.toStr
          else if day.templow ≠ JSVal.undefined then day.templow.toStr else "0") ++ "°" ∧
      (Sidebar.forecastItem Sidebar.gridIconMap day).low =
        (if day.templow ≠ JSVal.undefined then day.templow.toStr
          else if day.temperature ≠ JSVal.undefined then day.temperature.toStr else "0") ++
          "°" := by
  refine ⟨?_, List.length_take _ _, ?_⟩
  · have key : (Sidebar.setConfig s config outcome).forecastDays.or (JSVal.num (JSNum.fin 3)) =
        JSVal.num (JSNum.fin ((if d = 0 then 3 else d : Nat) : ℚ)) := by
      rw [Sidebar.setConfig_forecastDays]
      rcases h with ⟨h, hd⟩ | h
      · subst hd
        rw [h]
        decide!
      · rw [h]
        by_cases hd : d = 0
        · subst hd
          decide!
        · have hq : (d : ℚ) ≠ 0 := Nat.cast_ne_zero.mpr hd
          simp [JSVal.or, JSVal.truthy, hd, hq]
    rw [Sidebar.renderForecastGrid, key, Sidebar.sliceFromStart_nat]
  · intro day
    simp only [Sidebar.forecastItem]
    constructor <;> split_ifs <;> rfl

/-- Witness of `renderForecastGrid_shows_first_days`: four forecast entries and
`forecast_days: 2`. -/
theorem renderForecastGrid_shows_first_days_witness :
    Sidebar.renderForecastGrid
        (Sidebar.setConfig {} { forecast_days := JSVal.num (JSNum.fin 2) } RenderOutcome.ok)
        [{ temperature := JSVal.num (JSNum.fin 21), templow := JSVal.num (JSNum.fin 12) },
          { temperature := JSVal.num (JSNum.fin 19) }, { templow := JSVal.num (JSNum.fin 7) },
          {}] =
      GridContent.items
        [{ icon := "mdi:weather-cloudy", temp := "21°", low := "12°" },
          { icon := "mdi:weather-cloudy", temp := "19°", low := "19°" }] :=
  ((renderForecastGrid_shows_first_days {} { forecast_days := JSVal.num (JSNum.fin 2) }
    RenderOutcome.ok
    [{ temperature := JSVal.num (JSNum.fin 21), templow := JSVal.num (JSNum.fin 12) },
      { temperature := JSVal.num (JSNum.fin 19) }, { templow := JSVal.num (JSNum.fin 7) },
      {}] 2 (Or.inr (by norm_num))).1).trans (by decide!)

/-! ## Properties of the sidebar: hourly to daily forecast -/

/-- The fold of `Math.max` stays above its start and above every element, and is one of
them. -/
theorem Sidebar.maxOf_spec (t : ℚ) (ts : List ℚ) :
    t ≤ Sidebar.maxOf t ts ∧ (∀ x ∈ ts, x ≤ Sidebar.maxOf t ts) ∧
      (Sidebar.maxOf t ts = t ∨ Sidebar.maxOf t ts ∈ ts) := by
  induction ts generalizing t with
  | nil => simp [Sidebar.maxOf]
  | cons y ys ih =>
    have e : Sidebar.maxOf t (y :: ys) = Sidebar.maxOf (if t < y then y else t) ys := rfl
    rw [e]
    obtain ⟨h1, h2, h3⟩ := ih (if t < y then y else t)
    refine ⟨?_, ?_, ?_⟩
    · refine le_trans ?_ h1
      split_ifs with h
      · exact h.le
      · exact le_refl _
    · intro x hx
      rcases List.mem_cons.mp hx with hx | hx
      · subst hx
        refine le_trans ?_ h1
        split_ifs with h
        · exact le_refl _
        · exact not_lt.mp h
      · exact h2 x hx
    · rcases h3 with h3 | h3
      · rw [h3]
        split_ifs with h
        · exact Or.inr (List.mem_cons_self _ _)
        · exact Or.inl rfl
      · exact Or.inr (List.mem_cons_of_mem _ h3)

/-- The fold of `Math.min` stays below its start and below every element, and is one of
them. -/
theorem Sidebar.minOf_spec (t : ℚ) (ts : List ℚ) :
    Sidebar.minOf t ts ≤ t ∧ (∀ x ∈ ts, Sidebar.minOf t ts ≤ x) ∧
      (Sidebar.minOf t ts = t ∨ Sidebar.minOf t ts ∈ ts) := by
  induction ts generalizing t with
  | nil => simp [Sidebar.minOf]
  | cons y ys ih =>
    have e : Sidebar.minOf t (y :: ys) = Sidebar.minOf (if y < t then y else t) ys := rfl
    rw [e]
    obtain ⟨h1, h2, h3⟩ := ih (if y < t then y else t)
    refine ⟨?_, ?_, ?_⟩
    · refine le_trans h1 ?_
      split_ifs with h
      · exact h.le
      · exact le_refl _
    · intro x hx
      rcases List.mem_cons.mp hx with hx | hx
      · subst hx
        refine le_trans h1 ?_
        split_ifs with h
        · exact le_refl _
        · exact not_lt.mp h
      · exact h2 x hx
    · rcases h3 with h3 | h3
      · rw [h3]
        split_ifs with h
        · exact Or.inr (List.mem_cons_self _ _)
        · exact Or.inl rfl
      · exact Or.inr (List.mem_cons_of_mem _ h3)

/-- The temperatures of the hours of a list that fall on the day `k`, in their order. -/
theorem Sidebar.dayTemps_append (dayKey : Int → Int) (k : Int) (hs : List Sidebar.HourlyEntry)
    (h : Sidebar.HourlyEntry) :
    ((hs ++ [h]).filter (fun x => decide (x.datetime.map dayKey = some k))).map
        Sidebar.HourlyEntry.temperature =
      (hs.filter (fun x => decide (x.datetime.map dayKey = some k))).map
        Sidebar.HourlyEntry.temperature ++
      (if h.datetime.map dayKey = some k then [h.temperature] else []) := by
  rw [List.filter_append, List.map_append]
  congr 1
  by_cases hk : h.datetime.map dayKey = some k <;> simp [List.filter, hk]

/-- A key has no value in the map exactly when it is none of its keys. -/
theorem lookup_isNone_iff {β : Type} (k : Int) (m : List (Int × β)) :
    (m.lookup k).isNone = true ↔ k ∉ m.map Prod.fst := by
  induction m with
  | nil => simp
  | cons kv m ih =>
    obtain ⟨a, b⟩ := kv
    by_cases h : k = a
    · subst h
      simp [List.lookup]
    · have hb : (k == a) = false := by simpa using h
      simp [List.lookup, hb, ih, h]

/-- The state of the map of `convertHourlyToDaily` after the hours `hs`: one value per day
met so far, filed under its day, with the temperatures of that day and their extremes. -/
theorem Sidebar.dailyMap_spec (dayKey : Int → Int) (hs : List Sidebar.HourlyEntry) :
    ((hs.foldl (Sidebar.addHour dayKey) []).map Prod.fst).Nodup ∧
    (∀ k : Int, k ∈ (hs.foldl (Sidebar.addHour dayKey) []).map Prod.fst ↔
      ∃ h ∈ hs, h.datetime.map dayKey = some k) ∧
    ∀ kv ∈ hs.foldl (Sidebar.addHour dayKey) [],
      dayKey kv.2.datetime = kv.1 ∧
      kv.2.temps = (hs.filter (fun x => decide (x.datetime.map dayKey = some kv.1))).map
        Sidebar.HourlyEntry.temperature ∧
      kv.2.temperature ∈ kv.2.temps ∧ kv.2.templow ∈ kv.2.temps ∧
      (∀ x ∈ kv.2.temps, x ≤ kv.2.temperature) ∧ (∀ x ∈ kv.2.temps, kv.2.templow ≤ x) := by
  induction hs using List.reverseRecOn with
  | nil => simp
  | append_singleton hs h ih =>
    obtain ⟨ih1, ih2, ih3⟩ := ih
    rw [List.foldl_append, List.foldl_cons, List.foldl_nil]
    generalize hm : hs.foldl (Sidebar.addHour dayKey) [] = m at ih1 ih2 ih3 ⊢
    cases ht : h.datetime with
    | none =>
      have e : Sidebar.addHour dayKey m h = m := by simp [Sidebar.addHour, ht]
      rw [e]
      refine ⟨ih1, ?_, ?_⟩
      · intro k
        rw [ih2 k]
        constructor
        · rintro ⟨x, hx, hk⟩
          exact ⟨x, List.mem_append_left _ hx, hk⟩
        · rintro ⟨x, hx, hk⟩
          rcases List.mem_append.mp hx with hx | hx
          · exact ⟨x, hx, hk⟩
          · rw [List.mem_singleton.mp hx, ht] at hk
            simp at hk
      · intro kv hkv
        obtain ⟨a, b, c⟩ := ih3 kv hkv
        refine ⟨a, ?_, c⟩
        rw [Sidebar.dayTemps_append, b, ht]
        simp
    | some time =>
      by_cases hnew : (m.lookup (dayKey time)).isNone = true
      · have e : Sidebar.addHour dayKey m h = m ++ [(dayKey time,
            { datetime := time, condition := h.condition, temperature := h.temperature,
              templow := h.temperature, temps := [h.temperature] })] := by
          simp [Sidebar.addHour, ht, hnew]
        have hnot : dayKey time ∉ m.map Prod.fst := by
          exact (lookup_isNone_iff _ m).mp hnew
        rw [e]
        have hday : h.datetime.map dayKey = some (dayKey time) := by rw [ht]; rfl
        refine ⟨?_, ?_, ?_⟩
        · rw [List.map_append, List.nodup_append]
          refine ⟨ih1, by simp, ?_⟩
          intro a ha hb
          rw [List.map_singleton, List.mem_singleton] at hb
          have hb2 : a = dayKey time := hb
          rw [hb2] at ha
          exact hnot ha
        · intro k
          rw [List.map_append, List.mem_append, ih2 k]
          constructor
          · rintro (⟨x, hx, hk⟩ | hk)
            · exact ⟨x, List.mem_append_left _ hx, hk⟩
            · rw [List.map_singleton, List.mem_singleton] at hk
              exact ⟨h, by simp, by rw [hday, hk]⟩
          · rintro ⟨x, hx, hk⟩
            rcases List.mem_append.mp hx with hx | hx
            · exact Or.inl ⟨x, hx, hk⟩
            · rw [List.mem_singleton.mp hx, hday] at hk
              right
              rw [List.map_singleton, List.mem_singleton]
              exact (Option.some.inj hk).symm
        · intro kv hkv
          rcases List.mem_append.mp hkv with hkv | hkv
          · obtain ⟨a, b, c⟩ := ih3 kv hkv
            have hne : ¬ (h.datetime.map dayKey = some kv.1) := by
              rw [hday]
              intro hk
              exact hnot ((Option.some.inj hk) ▸ List.mem_map_of_mem Prod.fst hkv)
            refine ⟨a, ?_, c⟩
            rw [Sidebar.dayTemps_append, b, if_neg hne, List.append_nil]
          · rw [List.mem_singleton.mp hkv]
            have hempty : (hs.filter
                (fun x => decide (x.datetime.map dayKey = some (dayKey time)))) = [] := by
              rw [List.filter_eq_nil_iff]
              intro x hx hk
              exact hnot ((ih2 _).mpr ⟨x, hx, by simpa using hk⟩)
            refine ⟨rfl, ?_, ?_⟩
            · rw [Sidebar.dayTemps_append, hempty, if_pos hday]
              rfl
            · simp
      · have hin : dayKey time ∈ m.map Prod.fst := by
          by_contra hc
          exact hnew ((lookup_isNone_iff _ m).mpr hc)
        have hday : h.datetime.map dayKey = some (dayKey time) := by rw [ht]; rfl
        have e : Sidebar.addHour dayKey m h = m.map fun kv =>
            if kv.1 = dayKey time then
              (kv.1,
                { kv.2 with
                  temps := kv.2.temps ++ [h.temperature]
                  temperature := Sidebar.maxOf h.temperature (kv.2.temps ++ [h.temperature])
                  templow := Sidebar.minOf h.temperature (kv.2.temps ++ [h.temperature])
                  condition :=
                    if h.condition.isSome ∧ h.condition ≠ some "" then h.condition
                    else kv.2.condition })
            else kv := by
          simp [Sidebar.addHour, ht, hnew]
        rw [e]
        have hkeys : ∀ (f : Int × Sidebar.DailyEntry → Int × Sidebar.DailyEntry),
            (∀ kv, (f kv).1 = kv.1) → (m.map f).map Prod.fst = m.map Prod.fst := by
          intro f hf
          rw [List.map_map]
          exact List.map_congr_left (fun kv _ => hf kv)
        rw [hkeys _ (fun kv => by simp only []; split_ifs <;> rfl)]
        refine ⟨ih1, ?_, ?_⟩
        · intro k
          rw [ih2 k]
          constructor
          · rintro ⟨x, hx, hk⟩
            exact ⟨x, List.mem_append_left _ hx, hk⟩
          · rintro ⟨x, hx, hk⟩
            rcases List.mem_append.mp hx with hx | hx
            · exact ⟨x, hx, hk⟩
            · rw [List.mem_singleton.mp hx, hday] at hk
              rw [← Option.some.inj hk]
              exact (ih2 _).mp hin
        · intro kv2 hkv2
          obtain ⟨kv, hkv, rfl⟩ := List.mem_map.mp hkv2
          obtain ⟨a, b, c1, c2, c3, c4⟩ := ih3 kv hkv
          by_cases hk : kv.1 = dayKey time
          · simp only [hk, if_true]
            have hmax := Sidebar.maxOf_spec h.temperature (kv.2.temps ++ [h.temperature])
            have hmin := Sidebar.minOf_spec h.temperature (kv.2.temps ++ [h.temperature])
            refine ⟨by rw [← hk]; exact a, ?_, ?_, ?_, hmax.2.1, hmin.2.1⟩
            · rw [Sidebar.dayTemps_append, if_pos hday, ← hk, b]
            · rcases hmax.2.2 with h3 | h3
              · rw [h3]; simp
              · exact h3
            · rcases hmin.2.2 with h3 | h3
              · rw [h3]; simp
              · exact h3
          · simp only [hk, if_false]
            have hne : ¬ (h.datetime.map dayKey = some kv.1) := by
              rw [hday]
              intro hk2
              exact hk (Option.some.inj hk2).symm
            refine ⟨a, ?_, c1, c2, c3, c4⟩
            rw [Sidebar.dayTemps_append, b, if_neg hne, List.append_nil]

/-- C30: `convertHourlyToDaily` returns one entry per calendar day among the hours that have
a time (hours without one are skipped, no hours give no entries), sorted by ascending time;
the temperature of an entry is the greatest and its `templow` the least of the temperatures
of the hours of its day, so `templow ≤ temperature`. -/
theorem convertHourlyToDaily_one_entry_per_day (dayKey : Int → Int)
    (hourlyForecast : List Sidebar.HourlyEntry) :
    ((Sidebar.convertHourlyToDaily dayKey hourlyForecast).map
      fun e => dayKey e.datetime).Nodup ∧
    (∀ k : Int,
      k ∈ (Sidebar.convertHourlyToDaily dayKey hourlyForecast).map
          (fun e => dayKey e.datetime) ↔
        ∃ h ∈ hourlyForecast, h.datetime.map dayKey = some k) ∧
    (Sidebar.convertHourlyToDaily dayKey hourlyForecast).length =
      ((hourlyForecast.filterMap fun h => h.datetime.map dayKey).dedup).length ∧
    (Sidebar.convertHourlyToDaily dayKey hourlyForecast).Sorted
      (fun a b => a.datetime ≤ b.datetime) ∧
    (∀ e ∈ Sidebar.convertHourlyToDaily dayKey hourlyForecast,
      e.temperature ∈ (hourlyForecast.filter
          (fun x => decide (x.datetime.map dayKey = some (dayKey e.datetime)))).map
          Sidebar.HourlyEntry.temperature ∧
      e.templow ∈ (hourlyForecast.filter
          (fun x => decide (x.datetime.map dayKey = some (dayKey e.datetime)))).map
          Sidebar.HourlyEntry.temperature ∧
      (∀ x ∈ (hourlyForecast.filter
          (fun x => decide (x.datetime.map dayKey = some (dayKey e.datetime)))).map
          Sidebar.HourlyEntry.temperature, x ≤ e.temperature ∧ e.templow ≤ x) ∧
      e.templow ≤ e.temperature) ∧
    Sidebar.convertHourlyToDaily dayKey [] = [] := by
  obtain ⟨h1, h2, h3⟩ := Sidebar.dailyMap_spec dayKey hourlyForecast
  have hperm := List.perm_insertionSort (fun a b : Sidebar.DailyEntry => a.datetime ≤ b.datetime)
    ((hourlyForecast.foldl (Sidebar.addHour dayKey) []).map Prod.snd)
  have hkeys : ((hourlyForecast.foldl (Sidebar.addHour dayKey) []).map Prod.snd).map
      (fun e => dayKey e.datetime) =
      (hourlyForecast.foldl (Sidebar.addHour dayKey) []).map Prod.fst := by
    rw [List.map_map]
    exact List.map_congr_left (fun kv hkv => (h3 kv hkv).1)
  have hpermKeys : List.Perm
      ((Sidebar.convertHourlyToDaily dayKey hourlyForecast).map (fun e => dayKey e.datetime))
      ((hourlyForecast.foldl (Sidebar.addHour dayKey) []).map Prod.fst) := by
    rw [← hkeys]
    exact hperm.map _
  have hnodup := hpermKeys.nodup_iff.mpr h1
  have hmem : ∀ k : Int,
      k ∈ (Sidebar.convertHourlyToDaily dayKey hourlyForecast).map
          (fun e => dayKey e.datetime) ↔
        ∃ h ∈ hourlyForecast, h.datetime.map dayKey = some k := by
    intro k
    rw [hpermKeys.mem_iff, h2 k]
  refine ⟨hnodup, hmem, ?_, ?_, ?_, rfl⟩
  · have hp : List.Perm
        ((Sidebar.convertHourlyToDaily dayKey hourlyForecast).map (fun e => dayKey e.datetime))
        ((hourlyForecast.filterMap fun h => h.datetime.map dayKey).dedup) := by
      rw [List.perm_ext_iff_of_nodup hnodup (List.nodup_dedup _)]
      intro k
      rw [hmem k, List.mem_dedup, List.mem_filterMap]
    rw [← hp.length_eq, List.length_map]
  · haveI : IsTotal Sidebar.DailyEntry (fun a b => a.datetime ≤ b.datetime) :=
      ⟨fun a b => le_total a.datetime b.datetime⟩
    haveI : IsTrans Sidebar.DailyEntry (fun a b => a.datetime ≤ b.datetime) :=
      ⟨fun a b c hab hbc => le_trans hab hbc⟩
    exact List.sorted_insertionSort _ _
  · intro e he
    have he2 := hperm.mem_iff.mp he
    obtain ⟨kv, hkv, rfl⟩ := List.mem_map.mp he2
    obtain ⟨a, b, c1, c2, c3, c4⟩ := h3 kv hkv
    rw [a, ← b]
    exact ⟨c1, c2, fun x hx => ⟨c3 x hx, c4 x hx⟩, c3 _ c2⟩

/-! ## Rounding to doubles -/

/-- The halving count is the integer part of the base-2 logarithm, given enough fuel. -/
theorem JSNum.log2With_spec (fuel n : Nat) (hf : n ≤ fuel) (hn : 0 < n) :
    2 ^ JSNum.log2With fuel n ≤ n ∧ n < 2 ^ (JSNum.log2With fuel n + 1) := by
  induction fuel generalizing n with
  | zero => omega
  | succ fuel ih =>
    unfold JSNum.log2With
    by_cases h2 : n < 2
    · simp only [h2, if_true]
      omega
    · simp only [h2, if_false]
      obtain ⟨a, b⟩ := ih (n / 2) (by omega) (by omega)
      constructor
      · rw [pow_succ]
        omega
      · rw [pow_succ]
        omega

/-- The lower bound of `floorLog2`, for a non-negative result `j`: `d · 2^j ≤ a`. -/
theorem JSNum.floorLog2_lower (a d : Nat) (ha : 0 < a) (hd : 0 < d) (j : Nat)
    (hj : JSNum.floorLog2 a d = (j : Int)) : d * 2 ^ j ≤ a := by
  obtain ⟨a1, a2⟩ := JSNum.log2With_spec a a (le_refl _) ha
  obtain ⟨d1, d2⟩ := JSNum.log2With_spec d d (le_refl _) hd
  unfold JSNum.floorLog2 at hj
  simp only [] at hj
  split_ifs at hj with hc
  · rw [hj] at hc
    simpa using hc
  · have hk : (JSNum.log2With a a : Int) - (JSNum.log2With d d : Int) = (j : Int) + 1 := by
      omega
    have hla : JSNum.log2With a a = JSNum.log2With d d + 1 + j := by omega
    rw [hla] at a1
    calc d * 2 ^ j ≤ 2 ^ (JSNum.log2With d d + 1) * 2 ^ j :=
          Nat.mul_le_mul_right _ d2.le
      _ = 2 ^ (JSNum.log2With d d + 1 + j) := (pow_add 2 _ _).symm
      _ ≤ a := a1

/-- An upper bound of `floorLog2`: it is at most the halving count of the numerator. -/
theorem JSNum.floorLog2_le (a d : Nat) :
    JSNum.floorLog2 a d ≤ (JSNum.log2With a a : Int) := by
  unfold JSNum.floorLog2
  simp only []
  split_ifs <;> omega

/-- Rounding to the nearest integer is at least the quotient rounded down. -/
theorem JSNum.div_le_roundHalfEven (a d : Nat) : a / d ≤ JSNum.roundHalfEven a d := by
  unfold JSNum.roundHalfEven
  simp only []
  split_ifs <;> omega

/-- Rounding to the nearest integer leaves an exact quotient alone. -/
theorem JSNum.roundHalfEven_mul (n d : Nat) (hd : 0 < d) :
    JSNum.roundHalfEven (n * d) d = n := by
  unfold JSNum.roundHalfEven
  simp [Nat.mul_mod_left, Nat.mul_div_cancel _ hd, hd]
/-- A positive rational as the quotient of its numerator and denominator in `ℕ`. -/
theorem rat_eq_natAbs_div (q : ℚ) (hq : 0 ≤ q) : q = (q.num.natAbs : ℚ) / (q.den : ℚ) := by
  have h1 : (0 : ℤ) ≤ q.num := Rat.num_nonneg.mpr hq
  have h3 : ((q.num.natAbs : ℕ) : ℚ) = (q.num : ℚ) := by
    rw [Nat.cast_natAbs, abs_of_nonneg h1]
  rw [h3]
  exact (Rat.num_div_den q).symm

/-- Rounding to a double does not go below a whole number up to `2^53` that the exact value
reaches. -/
theorem JSNum.roundToDouble_ge (c : Nat) (hc0 : 0 < c) (hc : c ≤ 2 ^ 53) (q : ℚ)
    (hq : (c : ℚ) ≤ q) :
    JSNum.roundToDouble q = JSNum.posInf ∨
      ∃ r : ℚ, JSNum.roundToDouble q = JSNum.fin r ∧ (c : ℚ) ≤ r := by
  have hcq : (0 : ℚ) < c := Nat.cast_pos.mpr hc0
  have hq0 : 0 < q := lt_of_lt_of_le hcq hq
  have hne : q ≠ 0 := ne_of_gt hq0
  have hnn : ¬ q < 0 := not_lt.mpr hq0.le
  have hd : 0 < q.den := q.den_pos
  have hdq : (0 : ℚ) < q.den := Nat.cast_pos.mpr hd
  have hqe := rat_eq_natAbs_div q hq0.le
  have ha : 0 < q.num.natAbs := Int.natAbs_pos.mpr (Rat.num_ne_zero.mpr hne)
  have hcd : c * q.den ≤ q.num.natAbs := by
    have : (c : ℚ) * q.den ≤ q.num.natAbs := by
      rw [hqe] at hq
      exact (le_div_iff₀ hdq).mp hq
    exact_mod_cast this
  unfold JSNum.roundToDouble
  simp only [hne, if_false, hnn]
  split_ifs with hov
  · exact Or.inl rfl
  · right
    refine ⟨_, rfl, ?_⟩
    rw [one_mul, Rat.mkRat_eq_div]
    generalize hp : Max.max (JSNum.floorLog2 q.num.natAbs q.den - 52) (-1074) = p
    by_cases hp0 : p ≤ 0
    · have hP : p.toNat = 0 := Int.toNat_eq_zero.mpr hp0
      rw [hP]
      simp only [pow_zero, mul_one]
      have hn := JSNum.div_le_roundHalfEven (q.num.natAbs * 2 ^ (-p).toNat) q.den
      have h1 : c * 2 ^ (-p).toNat ≤ q.num.natAbs * 2 ^ (-p).toNat / q.den := by
        rw [Nat.le_div_iff_mul_le hd]
        calc c * 2 ^ (-p).toNat * q.den = c * q.den * 2 ^ (-p).toNat := by ring
          _ ≤ q.num.natAbs * 2 ^ (-p).toNat := Nat.mul_le_mul_right _ hcd
      have h2 := le_trans h1 hn
      rw [le_div_iff₀ (by positivity)]
      exact_mod_cast h2
    · have hp1 : 0 < p := not_le.mp hp0
      have hM : (-p).toNat = 0 := Int.toNat_eq_zero.mpr (by omega)
      rw [hM]
      simp only [pow_zero, mul_one]
      have hfl : JSNum.floorLog2 q.num.natAbs q.den = ((p.toNat + 52 : ℕ) : ℤ) := by
        have : p = JSNum.floorLog2 q.num.natAbs q.den - 52 := by
          rw [← hp]
          apply max_eq_left
          rw [← hp] at hp1
          rcases le_max_iff.mp (le_refl (Max.max (JSNum.floorLog2 q.num.natAbs q.den - 52) (-1074)))
            with h | h
          · omega
          · omega
        have h3 : (p.toNat : ℤ) = p := Int.toNat_of_nonneg hp1.le
        push_cast
        omega
      have hlow := JSNum.floorLog2_lower _ _ ha hd _ hfl
      have hn := JSNum.div_le_roundHalfEven q.num.natAbs (q.den * 2 ^ p.toNat)
      have h1 : 2 ^ 52 ≤ q.num.natAbs / (q.den * 2 ^ p.toNat) := by
        rw [Nat.le_div_iff_mul_le (by positivity)]
        calc 2 ^ 52 * (q.den * 2 ^ p.toNat) = q.den * 2 ^ (p.toNat + 52) := by
              rw [pow_add]; ring
          _ ≤ q.num.natAbs := hlow
      have h2 := le_trans h1 hn
      have hP1 : 1 ≤ p.toNat := by
        have h3 : (p.toNat : ℤ) = p := Int.toNat_of_nonneg hp1.le
        omega
      have h4 : 2 ^ 53 ≤
          JSNum.roundHalfEven q.num.natAbs (q.den * 2 ^ p.toNat) * 2 ^ p.toNat := by
        calc 2 ^ 53 = 2 ^ 52 * 2 ^ 1 := by norm_num
          _ ≤ JSNum.roundHalfEven q.num.natAbs (q.den * 2 ^ p.toNat) * 2 ^ p.toNat :=
            Nat.mul_le_mul h2 (Nat.pow_le_pow_right (by norm_num) hP1)
      have h5 := le_trans hc h4
      simp only [Nat.cast_one, Int.cast_one, div_one]
      exact_mod_cast h5

/-- A whole number below `2^53` is a double: rounding leaves it alone. -/
theorem JSNum.roundToDouble_natCast (n : Nat) (hn : n < 2 ^ 53) :
    JSNum.roundToDouble (n : ℚ) = JSNum.fin (n : ℚ) := by
  by_cases h0 : n = 0
  · subst h0
    simp [JSNum.roundToDouble]
  · have hpos : 0 < n := Nat.pos_of_ne_zero h0
    have hq : ((n : ℚ)) ≠ 0 := Nat.cast_ne_zero.mpr h0
    have hnn : ¬ ((n : ℚ) < 0) := not_lt.mpr (Nat.cast_nonneg n)
    obtain ⟨l1, l2⟩ := JSNum.log2With_spec n n (le_refl _) hpos
    have hl : JSNum.log2With n n ≤ 52 := by
      by_contra hc
      have : 2 ^ 53 ≤ 2 ^ JSNum.log2With n n := Nat.pow_le_pow_right (by norm_num) (by omega)
      omega
    have hup := JSNum.floorLog2_le n 1
    have hlow : -1 ≤ JSNum.floorLog2 n 1 := by
      have h1 : JSNum.log2With 1 1 = 0 := by decide
      unfold JSNum.floorLog2
      simp only [h1]
      split_ifs <;> omega
    unfold JSNum.roundToDouble
    simp only [hq, if_false, hnn, Rat.num_natCast, Rat.den_natCast, Int.natAbs_ofNat]
    generalize hp : Max.max (JSNum.floorLog2 n 1 - 52) (-1074) = p
    have hp0 : p ≤ 0 := by
      rw [← hp]
      exact max_le (by omega) (by norm_num)
    have hp1 : -53 ≤ p := by
      rw [← hp]
      exact le_trans (by omega) (le_max_left _ _)
    have hP : p.toNat = 0 := Int.toNat_eq_zero.mpr hp0
    have hM : (-p).toNat ≤ 53 := by omega
    rw [hP]
    simp only [pow_zero, mul_one]
    have hr : JSNum.roundHalfEven (n * 2 ^ (-p).toNat) 1 = n * 2 ^ (-p).toNat := by
      have := JSNum.roundHalfEven_mul (n * 2 ^ (-p).toNat) 1 Nat.one_pos
      rwa [mul_one] at this
    rw [hr]
    have hsmall : ¬ (2 ^ 1024 ≤ n * 2 ^ (-p).toNat) := by
      have h1 : n * 2 ^ (-p).toNat < 2 ^ 53 * 2 ^ 53 :=
        Nat.mul_lt_mul_of_lt_of_le hn (Nat.pow_le_pow_right (by norm_num) hM) (by positivity)
      have h2 : 2 ^ 53 * 2 ^ 53 ≤ 2 ^ 1024 := by norm_num
      omega
    rw [if_neg hsmall, one_mul, Rat.mkRat_eq_div]
    congr 1
    push_cast
    field_simp

/-! ## Properties of the sidebar: rotation interval -/

/-- The rotation interval that `setConfig` stores. -/
theorem Sidebar.setConfig_rotationInterval (s : Sidebar) (config : SidebarOptions)
    (outcome : RenderOutcome) :
    (s.setConfig config outcome).rotationInterval =
      (if config.rotation_interval.truthy ∧
          config.rotation_interval.toNumber.ge (JSNum.fin 3) then
        JSVal.num (config.rotation_interval.toNumber.mul (JSNum.fin 1000))
      else JSVal.num (JSNum.fin 10000)) := by
  unfold Sidebar.setConfig Sidebar.render
  cases outcome <;> simp only [] <;> split_ifs <;> simp_all [Sidebar.assignConfig]

/-- C7: for every configuration object the rotation interval that `setConfig` stores is a
Number of at least 3000 (a finite one, or `Infinity` when the product overflows), so it is
never 0 or negative; `rotation_interval: 1`, `0`, `-5` and an absent value all give 10000. -/
theorem stored_rotation_interval_at_least_3000 (s : Sidebar) (config : SidebarOptions)
    (outcome : RenderOutcome) :
    (∃ x : JSNum, (s.setConfig config outcome).rotationInterval = JSVal.num x ∧
      x.ge (JSNum.fin 3000) = true ∧
      (x = JSNum.posInf ∨ ∃ q : ℚ, x = JSNum.fin q ∧ 3000 ≤ q)) ∧
    (Sidebar.setConfig s { rotation_interval := JSVal.num (JSNum.fin 1) }
      outcome).rotationInterval = JSVal.num (JSNum.fin 10000) ∧
    (Sidebar.setConfig s { rotation_interval := JSVal.num (JSNum.fin 0) }
      outcome).rotationInterval = JSVal.num (JSNum.fin 10000) ∧
    (Sidebar.setConfig s { rotation_interval := JSVal.num (JSNum.fin (-5)) }
      outcome).rotationInterval = JSVal.num (JSNum.fin 10000) ∧
    (Sidebar.setConfig s {} outcome).rotationInterval = JSVal.num (JSNum.fin 10000) := by
  refine ⟨?_, ?_, ?_, ?_, ?_⟩
  · have hfin : ∀ x : JSNum, (x = JSNum.posInf ∨ ∃ q : ℚ, x = JSNum.fin q ∧ 3000 ≤ q) →
        ∃ y : JSNum, JSVal.num x = JSVal.num y ∧ y.ge (JSNum.fin 3000) = true ∧
          (y = JSNum.posInf ∨ ∃ q : ℚ, y = JSNum.fin q ∧ 3000 ≤ q) := by
      intro x hx
      refine ⟨x, rfl, ?_, hx⟩
      rcases hx with hx | ⟨q, hx, hq⟩
      · subst hx
        decide!
      · subst hx
        simp [JSNum.ge, JSNum.lt, hq]
    rw [Sidebar.setConfig_rotationInterval]
    split_ifs with h
    · apply hfin
      obtain ⟨_, hge⟩ := h
      cases hr : config.rotation_interval.toNumber with
      | nan => rw [hr] at hge; simp [JSNum.ge] at hge
      | negInf => rw [hr] at hge; simp [JSNum.ge, JSNum.lt] at hge
      | posInf => exact Or.inl (by decide!)
      | fin a =>
        rw [hr] at hge
        have ha : (3 : ℚ) ≤ a := by simpa [JSNum.ge, JSNum.lt] using hge
        have h3000 : ((3000 : ℕ) : ℚ) ≤ a * 1000 := by
          push_cast
          linarith
        rcases JSNum.roundToDouble_ge 3000 (by norm_num) (by norm_num) _ h3000 with h1 | h1
        · exact Or.inl h1
        · obtain ⟨r, h1, h2⟩ := h1
          exact Or.inr ⟨r, h1, by exact_mod_cast h2⟩
    · exact hfin _ (Or.inr ⟨10000, rfl, by norm_num⟩)
  · rw [Sidebar.setConfig_rotationInterval]
    decide!
  · rw [Sidebar.setConfig_rotationInterval]
    decide!
  · rw [Sidebar.setConfig_rotationInterval]
    decide!
  · rw [Sidebar.setConfig_rotationInterval]
    decide!

/-- C8 (counterexample): a `rotation_interval` of 1 or 2.5 seconds is not stored as 3000 but
as the default 10000. -/
theorem rotation_interval_below_three_stored_as_default :
    (Sidebar.setConfig {} { rotation_interval := JSVal.num (JSNum.fin 1) }
      RenderOutcome.ok).rotationInterval = JSVal.num (JSNum.fin 10000) ∧
    (Sidebar.setConfig {} { rotation_interval := JSVal.num (JSNum.fin (5 / 2)) }
      RenderOutcome.ok).rotationInterval = JSVal.num (JSNum.fin 10000) ∧
    JSVal.num (JSNum.fin 10000) ≠ JSVal.num (JSNum.fin 3000) := by
  decide!

/-- C8 (amended): `setConfig` stores the rotation interval in milliseconds: a
`rotation_interval` of at least 3 is stored as its product with 1000 (as doubles; exactly
`1000·n` for a whole number `n` of seconds up to 9007199254740); a `rotation_interval` below 3
is stored as the default 10000, and so is an absent one. -/
theorem rotation_interval_stored_in_ms_or_default (s : Sidebar) (config : SidebarOptions)
    (outcome : RenderOutcome) :
    (∀ x : JSNum, config.rotation_interval = JSVal.num x → x.ge (JSNum.fin 3) = true →
      (s.setConfig config outcome).rotationInterval =
        JSVal.num (x.mul (JSNum.fin 1000))) ∧
    (∀ n : Nat, config.rotation_interval = JSVal.num (JSNum.fin n) → 3 ≤ n →
      n ≤ 9007199254740 →
      (s.setConfig config outcome).rotationInterval = JSVal.num (JSNum.fin (1000 * n))) ∧
    (∀ q : ℚ, config.rotation_interval = JSVal.num (JSNum.fin q) → q < 3 →
      (s.setConfig config outcome).rotationInterval = JSVal.num (JSNum.fin 10000)) ∧
    (config.rotation_interval = JSVal.undefined →
      (s.setConfig config outcome).rotationInterval = JSVal.num (JSNum.fin 10000)) := by
  have hge : ∀ x : JSNum, x.ge (JSNum.fin 3) = true → (JSVal.num x).truthy = true := by
    intro x hx
    cases x with
    | nan => simp [JSNum.ge] at hx
    | posInf => decide
    | negInf => decide
    | fin a =>
      have ha : (3 : ℚ) ≤ a := by simpa [JSNum.ge, JSNum.lt] using hx
      have : a ≠ 0 := by linarith
      simp [JSVal.truthy, this]
  refine ⟨?_, ?_, ?_, ?_⟩
  · intro x hx hx3
    rw [Sidebar.setConfig_rotationInterval, hx, if_pos ⟨hge x hx3, hx3⟩]
    rfl
  · intro n hn h3 hmax
    have hx3 : (JSNum.fin (n : ℚ)).ge (JSNum.fin 3) = true := by
      simp [JSNum.ge, JSNum.lt, h3]
    rw [Sidebar.setConfig_rotationInterval, hn, if_pos ⟨hge _ hx3, hx3⟩]
    have hprod : ((n : ℚ)) * 1000 = ((n * 1000 : ℕ) : ℚ) := by push_cast; ring
    have hlt : n * 1000 < 2 ^ 53 := by norm_num; omega
    simp only [JSVal.toNumber, JSNum.mul]
    rw [hprod, JSNum.roundToDouble_natCast _ hlt]
    congr 2
    push_cast
    ring
  · intro q hq h3
    rw [Sidebar.setConfig_rotationInterval, hq]
    have : ¬ ((JSVal.num (JSNum.fin q)).toNumber.ge (JSNum.fin 3) = true) := by
      simp [JSVal.toNumber, JSNum.ge, JSNum.lt, h3]
    rw [if_neg (fun h => this h.2)]
  · intro hu
    rw [Sidebar.setConfig_rotationInterval, hu]
    decide!

/-- Witness of `rotation_interval_stored_in_ms_or_default`: 5 seconds are stored as 5000 ms,
2 seconds as 10000 ms. -/
theorem rotation_interval_stored_in_ms_or_default_witness :
    (Sidebar.setConfig {} { rotation_interval := JSVal.num (JSNum.fin (5 : ℕ)) }
      RenderOutcome.ok).rotationInterval = JSVal.num (JSNum.fin (1000 * (5 : ℕ))) ∧
    (Sidebar.setConfig {} { rotation_interval := JSVal.num (JSNum.fin 2) }
      RenderOutcome.ok).rotationInterval = JSVal.num (JSNum.fin 10000) :=
  ⟨(rotation_interval_stored_in_ms_or_default {}
      { rotation_interval := JSVal.num (JSNum.fin (5 : ℕ)) } RenderOutcome.ok).2.1 5 rfl
      (by norm_num) (by norm_num),
    (rotation_interval_stored_in_ms_or_default {}
      { rotation_interval := JSVal.num (JSNum.fin 2) } RenderOutcome.ok).2.2.1 2 rfl
      (by norm_num)⟩

/-! ## Decimal digits -/

/-- The digits produced so far are only appended to. -/
theorem toDigitsCore_append (b : Nat) (fuel n : Nat) (ds : List Char) :
    Nat.toDigitsCore b fuel n ds = Nat.toDigitsCore b fuel n [] ++ ds := by
  induction fuel generalizing n ds with
  | zero => simp [Nat.toDigitsCore]
  | succ fuel ih =>
    simp only [Nat.toDigitsCore]
    split_ifs
    · simp
    · rw [ih, ih (n / b) [Nat.digitChar (n % b)]]
      simp

/-- The fuel does not matter once it exceeds the number. -/
theorem toDigitsCore_fuel (b : Nat) (hb : 2 ≤ b) (f1 f2 n : Nat) (ds : List Char)
    (h1 : n < f1) (h2 : n < f2) :
    Nat.toDigitsCore b f1 n ds = Nat.toDigitsCore b f2 n ds := by
  induction f1 generalizing f2 n ds with
  | zero => omega
  | succ f1 ih =>
    cases f2 with
    | zero => omega
    | succ f2 =>
      simp only [Nat.toDigitsCore]
      split_ifs with h0
      · rfl
      · have hn : 0 < n := by
          by_contra hc
          have : n = 0 := by omega
          subst this
          simp at h0
        have hlt : n / b < n := Nat.div_lt_self hn (by omega)
        exact ih f2 (n / b) _ (by omega) (by omega)

/-- The digits of a number of at least two digits: those of its tenth, then the last one. -/
theorem digitsOf_step (n : Nat) (h : 10 ≤ n) :
    JSNum.digitsOf n = JSNum.digitsOf (n / 10) ++ [Nat.digitChar (n % 10)] := by
  have h0 : n / 10 ≠ 0 := by omega
  unfold JSNum.digitsOf Nat.toDigits
  rw [Nat.toDigitsCore]
  simp only [h0, if_false]
  rw [toDigitsCore_append, toDigitsCore_fuel 10 (by norm_num) n (n / 10 + 1) (n / 10) []
    (by omega) (by omega)]

/-- The digits of a number below ten. -/
theorem digitsOf_small (n : Nat) (h : n < 10) : JSNum.digitsOf n = [Nat.digitChar n] := by
  interval_cases n <;> rfl

/-- A digit character is `0` only for the digit zero, and is never a point. -/
theorem digitChar_spec (d : Nat) (h : d < 10) :
    (Nat.digitChar d = '0' ↔ d = 0) ∧ Nat.digitChar d ≠ '.' := by
  interval_cases d <;> decide

/-- The digits of a number are at least one. -/
theorem digitsOf_length_pos (n : Nat) : 0 < (JSNum.digitsOf n).length := by
  by_cases h : n < 10
  · rw [digitsOf_small n h]
    simp
  · rw [digitsOf_step n (by omega)]
    simp

/-- The layout of `toFixed(1)`: the digits of the tenth, a point, the last digit. -/
theorem toFixed_layout_one (n : Nat) :
    (List.replicate (1 + 1 - (JSNum.digitsOf n).length) '0' ++ JSNum.digitsOf n).take
        ((List.replicate (1 + 1 - (JSNum.digitsOf n).length) '0' ++
          JSNum.digitsOf n).length - 1) ++
      '.' :: (List.replicate (1 + 1 - (JSNum.digitsOf n).length) '0' ++ JSNum.digitsOf n).drop
        ((List.replicate (1 + 1 - (JSNum.digitsOf n).length) '0' ++
          JSNum.digitsOf n).length - 1) =
      JSNum.digitsOf (n / 10) ++ ['.', Nat.digitChar (n % 10)] := by
  by_cases h : n < 10
  · rw [digitsOf_small n h, show n / 10 = 0 by omega, show n % 10 = n by omega]
    rfl
  · have hl := digitsOf_length_pos (n / 10)
    rw [digitsOf_step n (by omega)]
    have e : 1 + 1 - (JSNum.digitsOf (n / 10) ++ [Nat.digitChar (n % 10)]).length = 0 := by
      simp only [List.length_append, List.length_singleton]
      omega
    rw [e]
    simp

/-- The layout of `toFixed(2)`: the digits of the hundredth, a point, the last two digits. -/
theorem toFixed_layout_two (n : Nat) :
    (List.replicate (2 + 1 - (JSNum.digitsOf n).length) '0' ++ JSNum.digitsOf n).take
        ((List.replicate (2 + 1 - (JSNum.digitsOf n).length) '0' ++
          JSNum.digitsOf n).length - 2) ++
      '.' :: (List.replicate (2 + 1 - (JSNum.digitsOf n).length) '0' ++ JSNum.digitsOf n).drop
        ((List.replicate (2 + 1 - (JSNum.digitsOf n).length) '0' ++
          JSNum.digitsOf n).length - 2) =
      JSNum.digitsOf (n / 100) ++
        ['.', Nat.digitChar (n / 10 % 10), Nat.digitChar (n % 10)] := by
  by_cases h : n < 10
  · rw [digitsOf_small n h, show n / 100 = 0 by omega, show n / 10 % 10 = 0 by omega,
      show n % 10 = n by omega]
    rfl
  · rw [digitsOf_step n (by omega)]
    by_cases h2 : n < 100
    · rw [digitsOf_small (n / 10) (by omega), show n / 100 = 0 by omega,
        show n / 10 % 10 = n / 10 by omega]
      rfl
    · have hl := digitsOf_length_pos (n / 10 / 10)
      rw [digitsOf_step (n / 10) (by omega), show n / 10 / 10 = n / 100 by omega] at *
      have e : 2 + 1 - (JSNum.digitsOf (n / 100) ++ [Nat.digitChar (n / 10 % 10)] ++
          [Nat.digitChar (n % 10)]).length = 0 := by
        simp only [List.length_append, List.length_singleton]
        omega
      rw [e]
      simp

/-- The text of `Number::toString` for the whole numbers from 0 to 99. -/
theorem toStr_whole_hundred_zero :
    ∀ i ∈ List.range 100, JSNum.toStr (JSNum.fin ((100 * 0 + i : ℕ) : ℚ)) =
      String.mk (JSNum.digitsOf (100 * 0 + i)) := by
  decide!

/-- The text of `Number::toString` for the whole numbers from 100 to 199. -/
theorem toStr_whole_hundred_one :
    ∀ i ∈ List.range 100, JSNum.toStr (JSNum.fin ((100 * 1 + i : ℕ) : ℚ)) =
      String.mk (JSNum.digitsOf (100 * 1 + i)) := by
  decide!

/-- The text of `Number::toString` for the whole numbers from 200 to 299. -/
theorem toStr_whole_hundred_two :
    ∀ i ∈ List.range 100, JSNum.toStr (JSNum.fin ((100 * 2 + i : ℕ) : ℚ)) =
      String.mk (JSNum.digitsOf (100 * 2 + i)) := by
  decide!

/-- The text of `Number::toString` for the whole numbers from 300 to 399. -/
theorem toStr_whole_hundred_three :
    ∀ i ∈ List.range 100, JSNum.toStr (JSNum.fin ((100 * 3 + i : ℕ) : ℚ)) =
      String.mk (JSNum.digitsOf (100 * 3 + i)) := by
  decide!

/-- The text of `Number::toString` for the whole numbers from 400 to 499. -/
theorem toStr_whole_hundred_four :
    ∀ i ∈ List.range 100, JSNum.toStr (JSNum.fin ((100 * 4 + i : ℕ) : ℚ)) =
      String.mk (JSNum.digitsOf (100 * 4 + i)) := by
  decide!

/-- The text of `Number::toString` for the whole numbers from 500 to 599. -/
theorem toStr_whole_hundred_five :
    ∀ i ∈ List.range 100, JSNum.toStr (JSNum.fin ((100 * 5 + i : ℕ) : ℚ)) =
      String.mk (JSNum.digitsOf (100 * 5 + i)) := by
  decide!

/-- The text of `Number::toString` for the whole numbers from 600 to 699. -/
theorem toStr_whole_hundred_six :
    ∀ i ∈ List.range 100, JSNum.toStr (JSNum.fin ((100 * 6 + i : ℕ) : ℚ)) =
      String.mk (JSNum.digitsOf (100 * 6 + i)) := by
  decide!

/-- The text of `Number::toString` for the whole numbers from 700 to 799. -/
theorem toStr_whole_hundred_seven :
    ∀ i ∈ List.range 100, JSNum.toStr (JSNum.fin ((100 * 7 + i : ℕ) : ℚ)) =
      String.mk (JSNum.digitsOf (100 * 7 + i)) := by
  decide!

/-- The text of `Number::toString` for the whole numbers from 800 to 899. -/
theorem toStr_whole_hundred_eight :
    ∀ i ∈ List.range 100, JSNum.toStr (JSNum.fin ((100 * 8 + i : ℕ) : ℚ)) =
      String.mk (JSNum.digitsOf (100 * 8 + i)) := by
  decide!

/-- The text of `Number::toString` for the whole numbers from 900 to 999. -/
theorem toStr_whole_hundred_nine :
    ∀ i ∈ List.range 100, JSNum.toStr (JSNum.fin ((100 * 9 + i : ℕ) : ℚ)) =
      String.mk (JSNum.digitsOf (100 * 9 + i)) := by
  decide!

/-- The text of `Number::toString` for the whole numbers from 1000 to 1000. -/
theorem toStr_whole_hundred_ten :
    ∀ i ∈ List.range 1, JSNum.toStr (JSNum.fin ((100 * 10 + i : ℕ) : ℚ)) =
      String.mk (JSNum.digitsOf (100 * 10 + i)) := by
  decide!

/-- The text of `Number::toString` for the whole numbers up to 1000: their digits. -/
theorem toStr_whole_upto_1000 :
    ∀ n ∈ List.range 1001, JSNum.toStr (JSNum.fin (n : ℚ)) = String.mk (JSNum.digitsOf n) := by
  intro n hn
  have hlt : n < 1001 := List.mem_range.mp hn
  have hi : n % 100 < 100 := Nat.mod_lt _ (by norm_num)
  have hk : n / 100 ≤ 10 := by omega
  have hlast : n / 100 = 10 → n % 100 < 1 := by omega
  rw [← Nat.div_add_mod n 100]
  generalize n % 100 = i at hi hlast
  generalize n / 100 = k at hk hlast
  interval_cases k
  · exact toStr_whole_hundred_zero _ (List.mem_range.mpr (by omega))
  · exact toStr_whole_hundred_one _ (List.mem_range.mpr (by omega))
  · exact toStr_whole_hundred_two _ (List.mem_range.mpr (by omega))
  · exact toStr_whole_hundred_three _ (List.mem_range.mpr (by omega))
  · exact toStr_whole_hundred_four _ (List.mem_range.mpr (by omega))
  · exact toStr_whole_hundred_five _ (List.mem_range.mpr (by omega))
  · exact toStr_whole_hundred_six _ (List.mem_range.mpr (by omega))
  · exact toStr_whole_hundred_seven _ (List.mem_range.mpr (by omega))
  · exact toStr_whole_hundred_eight _ (List.mem_range.mpr (by omega))
  · exact toStr_whole_hundred_nine _ (List.mem_range.mpr (by omega))
  · exact toStr_whole_hundred_ten _ (List.mem_range.mpr (by omega))

/-! ## Properties of the energy-details card: power texts -/

/-- The text of `toFixed(1)` for a finite Number below `10^21` in magnitude. -/
theorem toFixed_one (q : ℚ) (h : |q| < 10 ^ 21) :
    JSNum.toFixed (JSNum.fin q) 1 =
      (if q < 0 then "-" else "") ++
        String.mk (JSNum.digitsOf (⌊|q| * 10 ^ 1 + 1 / 2⌋.toNat / 10) ++
          ['.', Nat.digitChar (⌊|q| * 10 ^ 1 + 1 / 2⌋.toNat % 10)]) := by
  simp only [JSNum.toFixed, not_le.mpr h, if_false, ne_eq, one_ne_zero, not_false_eq_true,
    if_true]
  rw [toFixed_layout_one]

/-- The text of `toFixed(2)` for a finite Number below `10^21` in magnitude. -/
theorem toFixed_two (q : ℚ) (h : |q| < 10 ^ 21) :
    JSNum.toFixed (JSNum.fin q) 2 =
      (if q < 0 then "-" else "") ++
        String.mk (JSNum.digitsOf (⌊|q| * 10 ^ 2 + 1 / 2⌋.toNat / 100) ++
          ['.', Nat.digitChar (⌊|q| * 10 ^ 2 + 1 / 2⌋.toNat / 10 % 10),
            Nat.digitChar (⌊|q| * 10 ^ 2 + 1 / 2⌋.toNat % 10)]) := by
  simp only [JSNum.toFixed, not_le.mpr h, if_false, ne_eq, OfNat.ofNat_ne_zero,
    not_false_eq_true, if_true]
  rw [toFixed_layout_two]

/-- The branch of `_formatPower` below 1000 W: the magnitude rounded to the nearest whole
number (a tie going upward), which is at most 1000. -/
theorem formatPower_watts (q : ℚ) (h : |q| < 1000) :
    EnergyCard._formatPower (JSNum.fin q) =
      String.mk (JSNum.digitsOf ⌊|q| + 1 / 2⌋.toNat) ++ " W" ∧
    ⌊|q| + 1 / 2⌋.toNat ≤ 1000 ∧
    (⌊|q| + 1 / 2⌋.toNat = 1000 ↔ 1999 / 2 ≤ |q|) := by
  have h0 : (0 : ℤ) ≤ ⌊|q| + 1 / 2⌋ := Int.floor_nonneg.mpr (by positivity)
  have h1 : ⌊|q| + 1 / 2⌋ ≤ 1000 := by
    have : ⌊|q| + 1 / 2⌋ < 1001 := by
      rw [Int.floor_lt]
      push_cast
      linarith
    omega
  have hn : ⌊|q| + 1 / 2⌋.toNat ≤ 1000 := by omega
  have hcast : ((⌊|q| + 1 / 2⌋ : ℤ) : ℚ) = ((⌊|q| + 1 / 2⌋.toNat : ℕ) : ℚ) := by
    have : ((⌊|q| + 1 / 2⌋.toNat : ℕ) : ℤ) = ⌊|q| + 1 / 2⌋ := Int.toNat_of_nonneg h0
    calc ((⌊|q| + 1 / 2⌋ : ℤ) : ℚ) = (((⌊|q| + 1 / 2⌋.toNat : ℕ) : ℤ) : ℚ) := by rw [this]
      _ = ((⌊|q| + 1 / 2⌋.toNat : ℕ) : ℚ) := Int.cast_natCast _
  refine ⟨?_, hn, ?_⟩
  · have hge : (JSNum.fin |q|).ge (JSNum.fin 1000) = false := by
      simp [JSNum.ge, JSNum.lt, h]
    simp only [EnergyCard._formatPower, JSNum.abs, hge, JSNum.round]
    rw [hcast, toStr_whole_upto_1000 _ (List.mem_range.mpr (by omega))]
    rfl
  · constructor
    · intro he
      have h2 : (1000 : ℤ) ≤ ⌊|q| + 1 / 2⌋ := by omega
      have := Int.le_floor.mp h2
      push_cast at this
      linarith
    · intro he
      have h2 : (1000 : ℤ) ≤ ⌊|q| + 1 / 2⌋ := by
        rw [Int.le_floor]
        push_cast
        linarith
      omega

/-- The branch of `_formatPower` from 1000 W on: the magnitude divided by 1000, a Number of
at least 1, printed by `toFixed(1)`. -/
theorem formatPower_kilowatts (q : ℚ) (h : 1000 ≤ |q|) :
    EnergyCard._formatPower (JSNum.fin q) =
      (JSNum.roundToDouble (|q| / 1000)).toFixed 1 ++ " kW" ∧
    (JSNum.roundToDouble (|q| / 1000) = JSNum.posInf ∨
      ∃ d : ℚ, JSNum.roundToDouble (|q| / 1000) = JSNum.fin d ∧ 1 ≤ d) := by
  constructor
  · have hge : (JSNum.fin |q|).ge (JSNum.fin 1000) = true := by
      simp [JSNum.ge, JSNum.lt, h]
    simp [EnergyCard._formatPower, JSNum.abs, hge, JSNum.div]
  · have h1 : ((1 : ℕ) : ℚ) ≤ |q| / 1000 := by
      rw [le_div_iff₀ (by norm_num)]
      push_cast
      linarith
    rcases JSNum.roundToDouble_ge 1 (by norm_num) (by norm_num) _ h1 with h2 | ⟨d, h2, h3⟩
    · exact Or.inl h2
    · exact Or.inr ⟨d, h2, by exact_mod_cast h3⟩

/-- The digits that `_formatPower` prints in its kW branch, when the quotient is below
`10^21`: those of the quotient rounded to one decimal, which is at least 1.0. -/
theorem formatPower_kilowatts_digits (q d : ℚ) (h : 1000 ≤ |q|)
    (hd : JSNum.roundToDouble (|q| / 1000) = JSNum.fin d) (hsmall : d < 10 ^ 21) :
    EnergyCard._formatPower (JSNum.fin q) =
      String.mk (JSNum.digitsOf (⌊d * 10 + 1 / 2⌋.toNat / 10) ++
        ['.', Nat.digitChar (⌊d * 10 + 1 / 2⌋.toNat % 10)]) ++ " kW" ∧
    10 ≤ ⌊d * 10 + 1 / 2⌋.toNat := by
  obtain ⟨h1, h2⟩ := formatPower_kilowatts q h
  have hd1 : 1 ≤ d := by
    rcases h2 with h2 | ⟨d2, h2, h3⟩
    · rw [hd] at h2
      cases h2
    · rw [hd] at h2
      cases h2
      exact h3
  have habs : |d| = d := abs_of_nonneg (by linarith)
  have hneg : ¬ d < 0 := by linarith
  constructor
  · rw [h1, hd, toFixed_one d (by rw [habs]; exact hsmall), habs]
    simp [hneg]
  · have : (10 : ℤ) ≤ ⌊d * 10 + 1 / 2⌋ := by
      rw [Int.le_floor]
      push_cast
      linarith
    omega

/-- C2 (counterexample): below 1000 W `_formatPower` does not print the value but the value
rounded to a whole number: 500.5 gives `501 W`, and 0.4 gives `0 W`. -/
theorem formatPower_rounds_watts :
    EnergyCard._formatPower (JSNum.fin (1001 / 2)) = "501 W" ∧
    (JSNum.fin (1001 / 2)).toStr = "500.5" ∧
    EnergyCard._formatPower (JSNum.roundToDouble (2 / 5)) = "0 W" := by
  decide!

/-- C2 (amended): for a finite power `w`, `_formatPower(w)` is the magnitude of `w` rounded to
the nearest whole number (a tie going upward) followed by ` W` when the magnitude is below
1000, and otherwise the magnitude divided by 1000, rounded to one decimal, followed by ` kW`
(as long as that quotient is below `10^21`); the sign plays no part.  500 gives `500 W`, 1500
gives `1.5 kW`, -2000 gives `2.0 kW`. -/
theorem formatPower_magnitude_rounded (q : ℚ) :
    (|q| < 1000 →
      EnergyCard._formatPower (JSNum.fin q) =
        String.mk (JSNum.digitsOf ⌊|q| + 1 / 2⌋.toNat) ++ " W") ∧
    (1000 ≤ |q| → ∀ d : ℚ, JSNum.roundToDouble (|q| / 1000) = JSNum.fin d → d < 10 ^ 21 →
      EnergyCard._formatPower (JSNum.fin q) =
        String.mk (JSNum.digitsOf (⌊d * 10 + 1 / 2⌋.toNat / 10) ++
          ['.', Nat.digitChar (⌊d * 10 + 1 / 2⌋.toNat % 10)]) ++ " kW") ∧
    EnergyCard._formatPower (JSNum.fin (-q)) = EnergyCard._formatPower (JSNum.fin q) ∧
    EnergyCard._formatPower JSNum.negInf = EnergyCard._formatPower JSNum.posInf ∧
    EnergyCard._formatPower (JSNum.fin 500) = "500 W" ∧
    EnergyCard._formatPower (JSNum.fin 1500) = "1.5 kW" ∧
    EnergyCard._formatPower (JSNum.fin (-2000)) = "2.0 kW" := by
  refine ⟨fun h => (formatPower_watts q h).1,
    fun h d hd hs => (formatPower_kilowatts_digits q d h hd hs).1, ?_, rfl, by decide!,
    by decide!, by decide!⟩
  simp [EnergyCard._formatPower, JSNum.abs]

/-- Witness of `formatPower_magnitude_rounded`: 999.5 W is printed as `1000 W`, and 1250 W as
`1.3 kW`. -/
theorem formatPower_magnitude_rounded_witness :
    EnergyCard._formatPower (JSNum.fin (1999 / 2)) =
      String.mk (JSNum.digitsOf ⌊|(1999 / 2 : ℚ)| + 1 / 2⌋.toNat) ++ " W" ∧
    EnergyCard._formatPower (JSNum.fin 1250) =
      String.mk (JSNum.digitsOf (⌊(5 / 4 : ℚ) * 10 + 1 / 2⌋.toNat / 10) ++
        ['.', Nat.digitChar (⌊(5 / 4 : ℚ) * 10 + 1 / 2⌋.toNat % 10)]) ++ " kW" :=
  ⟨(formatPower_magnitude_rounded (1999 / 2)).1 (by rw [abs_of_nonneg] <;> norm_num),
    (formatPower_magnitude_rounded 1250).2.1 (by rw [abs_of_nonneg] <;> norm_num) (5 / 4)
      (by decide!) (by norm_num)⟩

/-- C28 (counterexample): 999.5 W is below 1000, so it is printed with the unit W, and the
number printed is 1000. -/
theorem formatPower_prints_1000_watts :
    (JSNum.fin (1999 / 2)).abs.ge (JSNum.fin 1000) = false ∧
    EnergyCard._formatPower (JSNum.fin (1999 / 2)) = "1000 W" ∧
    EnergyCard._formatPower (JSNum.fin (-(1999 / 2))) = "1000 W" := by
  decide!

/-- C28 (amended): for a finite power, the number that `_formatPower` prints with the unit W
is a whole number from 0 to 1000, and it is 1000 exactly for a magnitude from 999.5 up to
(not including) 1000; the number it prints with the unit kW is at least 1.0: the quotient is a
Number of at least 1 and, when below `10^21`, is printed as a whole number of tenths that is
at least 10. -/
theorem formatPower_printed_ranges (q : ℚ) :
    (|q| < 1000 → ∃ n : Nat, n ≤ 1000 ∧ (n = 1000 ↔ 1999 / 2 ≤ |q|) ∧
      EnergyCard._formatPower (JSNum.fin q) = String.mk (JSNum.digitsOf n) ++ " W") ∧
    (1000 ≤ |q| →
      EnergyCard._formatPower (JSNum.fin q) =
        (JSNum.roundToDouble (|q| / 1000)).toFixed 1 ++ " kW" ∧
      (JSNum.roundToDouble (|q| / 1000) = JSNum.posInf ∨
        ∃ d : ℚ, JSNum.roundToDouble (|q| / 1000) = JSNum.fin d ∧ 1 ≤ d ∧
          (d < 10 ^ 21 → ∃ n : Nat, 10 ≤ n ∧
            EnergyCard._formatPower (JSNum.fin q) =
              String.mk (JSNum.digitsOf (n / 10) ++ ['.', Nat.digitChar (n % 10)]) ++
                " kW"))) := by
  constructor
  · intro h
    obtain ⟨h1, h2, h3⟩ := formatPower_watts q h
    exact ⟨_, h2, h3, h1⟩
  · intro h
    obtain ⟨h1, h2⟩ := formatPower_kilowatts q h
    refine ⟨h1, ?_⟩
    rcases h2 with h2 | ⟨d, h2, h3⟩
    · exact Or.inl h2
    · refine Or.inr ⟨d, h2, h3, fun hs => ?_⟩
      obtain ⟨h4, h5⟩ := formatPower_kilowatts_digits q d h h2 hs
      exact ⟨_, h5, h4⟩

/-- Witness of `formatPower_printed_ranges`: 999 W is printed with
the unit W, 1000 W with the unit kW. -/
theorem formatPower_printed_ranges_witness :
    (∃ n : Nat, n ≤ 1000 ∧ (n = 1000 ↔ (1999 / 2 : ℚ) ≤ |(999 : ℚ)|) ∧
      EnergyCard._formatPower (JSNum.fin 999) = String.mk (JSNum.digitsOf n) ++ " W") ∧
    EnergyCard._formatPower (JSNum.fin 1000) =
      (JSNum.roundToDouble (|(1000 : ℚ)| / 1000)).toFixed 1 ++ " kW" :=
  ⟨(formatPower_printed_ranges 999).1 (by rw [abs_of_nonneg] <;> norm_num),
    ((formatPower_printed_ranges 1000).2 (by rw [abs_of_nonneg] <;> norm_num)).1⟩

/-! ## Properties of the sidebar: energy texts -/

/-- Nothing is removed before the last point of a text: a match of `\.?0+$` cannot start
before it. -/
theorem Sidebar.replaceTrailingZeros_integer_part (P T : List Char) :
    Sidebar.replaceTrailingZeros (P ++ '.' :: T) =
      P ++ Sidebar.replaceTrailingZeros ('.' :: T) := by
  induction P with
  | nil => rfl
  | cons c P ih =>
    have hno : ∀ zs : List Char, '.' ∈ zs → ¬ (zs.all (fun z => decide (z = '0')) = true) := by
      intro zs hz hall
      have := List.all_eq_true.mp hall '.' hz
      simp at this
    have hmem : '.' ∈ P ++ '.' :: T := by simp
    rw [List.cons_append, Sidebar.replaceTrailingZeros]
    rw [if_neg, ih]
    · rfl
    · rintro ⟨_, hall⟩
      split_ifs at hall
      · exact hno _ hmem hall
      · exact hno _ (List.mem_cons_of_mem _ hmem) hall

/-- What `\.?0+$` removes from a point followed by two digits. -/
theorem Sidebar.replaceTrailingZeros_fraction (c1 c2 : Char) (h1 : c1 ≠ '.') (h2 : c2 ≠ '.') :
    Sidebar.replaceTrailingZeros ['.', c1, c2] =
      (if c1 = '0' ∧ c2 = '0' then [] else if c2 = '0' then ['.', c1] else ['.', c1, c2]) := by
  by_cases e1 : c1 = '0' <;> by_cases e2 : c2 = '0' <;>
    simp [Sidebar.replaceTrailingZeros, e1, e2, h1, h2]

/-- C3: for a value that parses to a finite number `q` of magnitude below `10^21`,
`_formatEnergyValue(value, unit)` is the sign, the digits of the integer part of `q` rounded
to two decimals (`N = round(|q| · 100)` hundredths), then nothing when the fraction is zero,
a point and one digit when its second digit is zero, a point and two digits otherwise, then a
space and the unit (`kW` when there is none). -/
theorem formatEnergyValue_two_decimals_stripped (value unit : JSVal) (q : ℚ)
    (hv : value.parseFloat = JSNum.fin q) (hq : |q| < 10 ^ 21) :
    Sidebar._formatEnergyValue value unit =
      (if q < 0 then "-" else "") ++
        String.mk (JSNum.digitsOf (⌊|q| * 10 ^ 2 + 1 / 2⌋.toNat / 100) ++
          (if ⌊|q| * 10 ^ 2 + 1 / 2⌋.toNat % 100 = 0 then []
            else if ⌊|q| * 10 ^ 2 + 1 / 2⌋.toNat % 10 = 0 then
              ['.', Nat.digitChar (⌊|q| * 10 ^ 2 + 1 / 2⌋.toNat / 10 % 10)]
            else
              ['.', Nat.digitChar (⌊|q| * 10 ^ 2 + 1 / 2⌋.toNat / 10 % 10),
                Nat.digitChar (⌊|q| * 10 ^ 2 + 1 / 2⌋.toNat % 10)])) ++
        " " ++ (unit.or (JSVal.str "kW")).toStr := by
  have hsent : ¬ (value = JSVal.undefined ∨ value = JSVal.null ∨
      value = JSVal.str "unavailable" ∨ value = JSVal.str "unknown") := by
    rintro (h | h | h | h) <;> subst h
    · rw [show JSVal.parseFloat JSVal.undefined = JSNum.nan by decide!] at hv
      cases hv
    · rw [show JSVal.parseFloat JSVal.null = JSNum.nan by decide!] at hv
      cases hv
    · rw [show JSVal.parseFloat (JSVal.str "unavailable") = JSNum.nan by decide!] at hv
      cases hv
    · rw [show JSVal.parseFloat (JSVal.str "unknown") = JSNum.nan by decide!] at hv
      cases hv
  generalize hN : ⌊|q| * 10 ^ 2 + 1 / 2⌋.toNat = N at *
  obtain ⟨d1, p1⟩ := digitChar_spec (N / 10 % 10) (Nat.mod_lt _ (by norm_num))
  obtain ⟨d2, p2⟩ := digitChar_spec (N % 10) (Nat.mod_lt _ (by norm_num))
  have hfix := toFixed_two q hq
  rw [hN] at hfix
  have hlist : (JSNum.toFixed (JSNum.fin q) 2).toList =
      ((if q < 0 then "-" else "").toList ++ JSNum.digitsOf (N / 100)) ++
        '.' :: [Nat.digitChar (N / 10 % 10), Nat.digitChar (N % 10)] := by
    rw [hfix]
    simp [String.toList]
  have hcut : Sidebar.replaceTrailingZeros (JSNum.toFixed (JSNum.fin q) 2).toList =
      ((if q < 0 then "-" else "").toList ++ JSNum.digitsOf (N / 100)) ++
        (if N % 100 = 0 then []
          else if N % 10 = 0 then ['.', Nat.digitChar (N / 10 % 10)]
          else ['.', Nat.digitChar (N / 10 % 10), Nat.digitChar (N % 10)]) := by
    rw [hlist, Sidebar.replaceTrailingZeros_integer_part,
      Sidebar.replaceTrailingZeros_fraction _ _ p1 p2]
    congr 1
    by_cases e2 : N % 10 = 0
    · by_cases e1 : N / 10 % 10 = 0
      · have : N % 100 = 0 := by omega
        rw [if_pos ⟨d1.mpr e1, d2.mpr e2⟩, if_pos this]
      · have : N % 100 ≠ 0 := by omega
        rw [if_neg (fun h => e1 (d1.mp h.1)), if_pos (d2.mpr e2), if_neg this, if_pos e2]
    · have : N % 100 ≠ 0 := by omega
      rw [if_neg (fun h => e2 (d2.mp h.2)), if_neg (fun h => e2 (d2.mp h)), if_neg this,
        if_neg e2]
  simp only [Sidebar._formatEnergyValue, if_neg hsent, hv, JSNum.isNaN]
  rw [hcut]
  apply String.ext
  simp [String.toList]

/-- Witness of `formatEnergyValue_two_decimals_stripped`: the states `"100"`, `"10.50"`
and `0`. -/
theorem formatEnergyValue_two_decimals_stripped_witness :
    Sidebar._formatEnergyValue (JSVal.str "100") JSVal.undefined = "100 kW" ∧
    Sidebar._formatEnergyValue (JSVal.str "10.50") (JSVal.str "kW") = "10.5 kW" ∧
    Sidebar._formatEnergyValue (JSVal.num (JSNum.fin 0)) (JSVal.str "W") = "0 W" :=
  ⟨(formatEnergyValue_two_decimals_stripped (JSVal.str "100") JSVal.undefined 100
      (by decide!) (by rw [abs_of_nonneg] <;> norm_num)).trans (by decide!),
    (formatEnergyValue_two_decimals_stripped (JSVal.str "10.50") (JSVal.str "kW") (21 / 2)
      (by decide!) (by rw [abs_of_nonneg] <;> norm_num)).trans (by decide!),
    (formatEnergyValue_two_decimals_stripped (JSVal.num (JSNum.fin 0)) (JSVal.str "W") 0
      (by decide!) (by norm_num)).trans (by decide!)⟩

end Prism
